import Mathlib

/-!
# The x86 page-fault handler of `arch/x86/mm/fault.c` (linux-4.11_analysis)

A shallow embedding of the 64-bit build (`CONFIG_X86_64`) of the fault handler:
`__do_page_fault` and the functions it calls.  Machine words are natural numbers,
wrap-around is written out with `% 2 ^ 64` where the source can overflow.  Everything the
file calls but does not define (page-table accessors of `asm/pgtable.h`, the memory map,
the populator `handle_mm_fault`, probes, the signal code, ...) is a field of `Env`.
What the handler does to the outside world is recorded, in order, in `St.trace`.
-/

namespace Fault

/-! ## Constants -/

/-- Page fault error code bits (`enum x86_pf_error_code`). -/
def PF_PROT : Nat := 1 <<< 0
def PF_WRITE : Nat := 1 <<< 1
def PF_USER : Nat := 1 <<< 2
def PF_RSVD : Nat := 1 <<< 3
def PF_INSTR : Nat := 1 <<< 4
def PF_PK : Nat := 1 <<< 5

/-- Values of `FAULT_FLAG_*` in `include/linux/mm.h` (header not among the sources). -/
def FAULT_FLAG_WRITE : Nat := 0x01
def FAULT_FLAG_ALLOW_RETRY : Nat := 0x04
def FAULT_FLAG_KILLABLE : Nat := 0x10
def FAULT_FLAG_TRIED : Nat := 0x20
def FAULT_FLAG_USER : Nat := 0x40
def FAULT_FLAG_INSTRUCTION : Nat := 0x100

/-- Values of `VM_FAULT_*` in `include/linux/mm.h` (header not among the sources). -/
def VM_FAULT_OOM : Nat := 0x0001
def VM_FAULT_SIGBUS : Nat := 0x0002
def VM_FAULT_MAJOR : Nat := 0x0004
def VM_FAULT_HWPOISON : Nat := 0x0010
def VM_FAULT_HWPOISON_LARGE : Nat := 0x0020
def VM_FAULT_SIGSEGV : Nat := 0x0040
def VM_FAULT_RETRY : Nat := 0x0400
def VM_FAULT_FALLBACK : Nat := 0x0800
def VM_FAULT_ERROR : Nat :=
  VM_FAULT_OOM ||| VM_FAULT_SIGBUS ||| VM_FAULT_SIGSEGV ||| VM_FAULT_HWPOISON |||
    VM_FAULT_HWPOISON_LARGE ||| VM_FAULT_FALLBACK
def VM_FAULT_GET_HINDEX (x : Nat) : Nat := (x >>> 12) &&& 0xf

/-- Values of the region flags `VM_*` in `include/linux/mm.h`. -/
def VM_READ : Nat := 0x1
def VM_WRITE : Nat := 0x2
def VM_EXEC : Nat := 0x4
def VM_GROWSDOWN : Nat := 0x100

/-- Signal numbers and `si_code` values of the x86 user ABI. -/
def SIGBUS : Nat := 7
def SIGKILL : Nat := 9
def SIGSEGV : Nat := 11
def SEGV_MAPERR : Nat := 1
def SEGV_ACCERR : Nat := 2
def SEGV_PKUERR : Nat := 4
def BUS_ADRERR : Nat := 2
def BUS_MCEERR_AR : Nat := 4
def X86_TRAP_PF : Nat := 14
def X86_EFLAGS_IF : Nat := 1 <<< 9
def X86_EFLAGS_AC : Nat := 1 <<< 18

/-- Size in bytes of `unsigned long` and of one page-table entry on the 64-bit build. -/
def sizeof_long : Nat := 8

/-- The complement `~x` of an `unsigned int`. -/
def not32 (x : Nat) : Nat := (2 ^ 32 - 1) ^^^ (x % 2 ^ 32)

/-- Subtraction of `unsigned long` values, wrapping modulo `2 ^ 64`. -/
def sub64 (a b : Nat) : Nat := (a % 2 ^ 64 + 2 ^ 64 - b % 2 ^ 64) % 2 ^ 64

/-! ## Data model -/

/-- The fields of `struct pt_regs` the handler looks at. -/
structure PtRegs where
  ip : Nat
  sp : Nat
  cs : Nat
  flags : Nat
deriving DecidableEq, Repr

/-- The fields of `struct vm_area_struct` the handler looks at. -/
structure Vma where
  vm_start : Nat
  vm_end : Nat
  vm_flags : Nat
deriving DecidableEq, Repr

/-- The fields of `tsk->thread` the handler reads or writes (the task fault-state). -/
structure Thread where
  cr2 : Nat
  error_code : Nat
  trap_nr : Nat
  sig_on_uaccess_err : Bool
deriving DecidableEq, Repr

/-- The texts handed to `printk`. -/
inductive Msg where
  | errata93_warning
  | nx_warning
  | smep_warning
  | bug_unable_to_handle_kernel
  | null_pointer_dereference
  | paging_request
  | at_address (address : Nat)
  | ip (ip : Nat)
  | corrupted_page_table (address : Nat)
  | thread_overran_stack
  | cr2 (address : Nat)
  | segfault_at (address ip sp error_code : Nat)
  | vma_addr (ip : Nat)
  | newline
  | mce_killing (address : Nat)
  | pgd (v : Nat)
  | pud (v : Nat)
  | pmd (v : Nat)
  | pte (v : Nat)
  | bad
deriving DecidableEq, Repr

/-- The text of the fixed part of each message. -/
def Msg.text : Msg → String
  | .errata93_warning => "******* Your BIOS seems to not contain a fix for K8 errata #93"
  | .nx_warning => "kernel tried to execute NX-protected page - exploit attempt? (uid: %d)"
  | .smep_warning => "unable to execute userspace code (SMEP?) (uid: %d)"
  | .bug_unable_to_handle_kernel => "BUG: unable to handle kernel "
  | .null_pointer_dereference => "NULL pointer dereference"
  | .paging_request => "paging request"
  | .at_address _ => " at %p"
  | .ip _ => "IP: %pS"
  | .corrupted_page_table _ => "%s: Corrupted page table at address %lx"
  | .thread_overran_stack => "Thread overran stack, or stack corrupted"
  | .cr2 _ => "CR2: %016lx"
  | .segfault_at _ _ _ _ => "%s%s[%d]: segfault at %lx ip %p sp %p error %lx"
  | .vma_addr _ => " in "
  | .newline => ""
  | .mce_killing _ => "MCE: Killing %s:%d due to hardware memory corruption fault at %lx"
  | .pgd _ => "PGD %lx "
  | .pud _ => "PUD %lx "
  | .pmd _ => "PMD %lx "
  | .pte _ => "PTE %lx"
  | .bad => "BAD"

/-- The warnings (`WARN_ON_ONCE`, `WARN_ONCE`) of the file. -/
inductive Warning where
  | in_nmi
  | pku_fault_with_no_vma
  | pmd_has_incorrect_permission_bits
deriving DecidableEq, Repr

/-- The software perf events the handler counts. -/
inductive PerfEvent where
  | PAGE_FAULTS
  | PAGE_FAULTS_MAJ
  | PAGE_FAULTS_MIN
deriving DecidableEq, Repr

/-- What the handler does to the world outside this file, one constructor per call. -/
inductive Event where
  | kmemcheck_hide
  | WARN (w : Warning)
  | set_pgd (pgd val : Nat)
  | arch_flush_lazy_mmu_mode
  | BUG
  | local_irq_enable
  | perf_sw_event (e : PerfEvent)
  | down_read_trylock (ok : Bool)
  | down_read
  | up_read
  | might_sleep
  | find_vma (address : Nat)
  | expand_stack (vma : Vma) (address : Nat)
  | handle_mm_fault (vma : Vma) (address flags ret : Nat)
  | force_sig_info (si_signo si_errno si_code si_addr si_addr_lsb : Nat) (si_pkey : Option Nat)
  | printk (m : Msg)
  | oops_begin
  | die (bad_pagetable : Bool)
  | oops_end (sig : Nat)
  | handle_stack_overflow
  | fixup_exception
  | do_invalid_op
  | emulate_vsyscall
  | pagefault_out_of_memory
deriving DecidableEq, Repr

/-- Everything the handler consults but this file does not define: build configuration,
address-space layout, the page-table accessors of `asm/pgtable.h`, and the answers of the
functions it calls.  Answers that can change while the handler runs are indexed: `pass` is
the number of populator invocations already made for this fault. -/
structure Env where
  -- build configuration and CPU features
  CONFIG_CPU_SUP_AMD : Bool
  CONFIG_VMAP_STACK : Bool
  CONFIG_MEMORY_FAILURE : Bool
  CONFIG_X86_SMAP : Bool
  CONFIG_X86_F00F_BUG : Bool
  cpu_has_OSPKE : Bool
  cpu_has_SMAP : Bool
  cpu_has_bug_F00F : Bool
  x86_vendor_is_AMD : Bool
  x86_family : Nat
  -- address-space layout
  TASK_SIZE_MAX : Nat
  VMALLOC_START : Nat
  VMALLOC_END : Nat
  PAGE_SIZE : Nat
  PAGE_SHIFT : Nat
  THREAD_SIZE : Nat
  VSYSCALL_ADDR : Nat
  MODULES_VADDR : Nat
  MODULES_END : Nat
  _stext : Nat
  _etext : Nat
  __USER32_CS : Nat
  PHYSICAL_PAGE_MASK : Nat
  idt_descr_address : Nat
  -- page tables
  read_cr3 : Nat
  __va : Nat → Nat
  init_mm_pgd : Nat
  pgd_index : Nat → Nat
  pud_index : Nat → Nat
  pmd_index : Nat → Nat
  pte_index : Nat → Nat
  pgd_none : Nat → Bool
  pgd_present : Nat → Bool
  pgd_page_vaddr : Nat → Nat
  pgd_flags_user : Nat → Bool
  pud_none : Nat → Bool
  pud_present : Nat → Bool
  pud_large : Nat → Bool
  pud_huge : Nat → Bool
  pud_pfn : Nat → Nat
  pud_page_vaddr : Nat → Nat
  pmd_none : Nat → Bool
  pmd_present : Nat → Bool
  pmd_large : Nat → Bool
  pmd_huge : Nat → Bool
  pmd_pfn : Nat → Nat
  pmd_page_vaddr : Nat → Nat
  pte_present : Nat → Bool
  pte_write : Nat → Bool
  pte_exec : Nat → Bool
  pte_pfn : Nat → Nat
  lookup_address_in_pgd : Nat → Nat → Option Nat
  cr4_SMEP : Bool
  -- trap frame and instruction bytes
  user_mode : PtRegs → Bool
  user_64bit_mode : PtRegs → Bool
  convert_ip_to_linear : PtRegs → Nat
  probe_kernel_address : Nat → Option Nat
  -- probes and context
  kmemcheck_active : Bool
  kmemcheck_fault : Bool
  is_kmmio_active : Bool
  kmmio_handler : Int
  kprobes_built_in : Bool
  kprobe_running : Bool
  kprobe_fault_handler : Bool
  in_nmi : Bool
  in_interrupt : Bool
  faulthandler_disabled : Bool
  mm_is_null : Bool
  -- address-space map and populator
  down_read_trylock : Bool
  search_exception_tables : Nat → Bool
  find_vma : (pass : Nat) → (address : Nat) → Option Vma
  expand_stack : (pass : Nat) → Vma → (address : Nat) → Int
  arch_vma_access_permitted : Vma → (write execute foreign : Bool) → Bool
  vma_pkey : Vma → Nat
  handle_mm_fault : (pass : Nat) → Vma → (address flags : Nat) → Nat
  fatal_signal_pending : (pass : Nat) → Bool
  hstate_index_to_shift : Nat → Nat
  -- failure reporting
  fixup_exception : Bool
  emulate_vsyscall : Bool
  show_unhandled_signals : Bool
  unhandled_signal : Bool
  printk_ratelimit : Bool
  oops_may_print : Bool
  is_vmalloc_addr : Nat → Bool
  tsk_stack : Nat
  task_stack_end_corrupted : Bool
  __die : Bool

/-- The functions of the failure reporter whose entry is recorded in `St.entries`, with
the arguments that select the signal. -/
inductive Call where
  | __bad_area_nosemaphore (si_code : Nat)
  | no_context (signal si_code : Nat)
  | mm_fault_error (fault : Nat)
  | force_sig_info_fault (si_signo si_code : Nat)
deriving DecidableEq, Repr

/-- The state the handler changes: page-table memory (entry pointer to entry value), the
trap frame, the task fault-state and fault counters, the number of read holds the handler
has on `mm->mmap_sem`, the trace of calls, and whether the handler was cut short
(`BUG()`, task exit in `oops_end`, stack-overflow trampoline) instead of returning.
`entries` is a ghost record: each entry into a function of `Call`, with the number of read
holds on `mmap_sem` at that moment; nothing in the handler reads it. -/
structure St where
  mem : Nat → Nat
  regs : PtRegs
  thread : Thread
  maj_flt : Nat
  min_flt : Nat
  mmap_sem : Int
  trace : List Event
  halted : Bool
  entries : List (Call × Int)

/-- Append a call to the trace. -/
def St.emit (st : St) (e : Event) : St :=
  { st with trace := st.trace ++ [e] }

/-- A call made by a once-only site (`WARN_ON_ONCE`, `WARN_ONCE`, `printk_once`).  Each such
site of the file has an event of its own and the trace is the record of everything done so
far, so the static flag of the site is set exactly when its event is in the trace: the call
is recorded the first time only. -/
def St.emit_once (st : St) (e : Event) : St :=
  if e ∈ st.trace then st else st.emit e

/-- Record the entry into a function of `Call` (ghost). -/
def St.enter (st : St) (c : Call) : St :=
  { st with entries := st.entries ++ [(c, st.mmap_sem)] }

/-- Every `BUG()` of the file: the handler does not continue. -/
def St.bug (st : St) : St :=
  { st.emit .BUG with halted := true }

/-- The store `*ptr = val` into page-table memory. -/
def St.store (st : St) (ptr val : Nat) : St :=
  { st with mem := fun a => if a = ptr then val else st.mem a }

/-- Pointer to the top-level slot of `address` in the current task's table,
`(pgd_t *)__va(read_cr3()) + pgd_index(address)`. -/
def task_pgd (env : Env) (address : Nat) : Nat :=
  env.__va env.read_cr3 + sizeof_long * env.pgd_index address

/-- The master's slot, `pgd_offset_k(address)`, that is `init_mm.pgd + pgd_index(address)`. -/
def pgd_offset_k (env : Env) (address : Nat) : Nat :=
  env.init_mm_pgd + sizeof_long * env.pgd_index address

/-- The accessor `pud_offset(pgd, address)`: `(pud_t *)pgd_page_vaddr(*pgd) + pud_index(address)`. -/
def pud_offset (env : Env) (mem : Nat → Nat) (pgd address : Nat) : Nat :=
  env.pgd_page_vaddr (mem pgd) + sizeof_long * env.pud_index address

/-- The accessor `pmd_offset(pud, address)`. -/
def pmd_offset (env : Env) (mem : Nat → Nat) (pud address : Nat) : Nat :=
  env.pud_page_vaddr (mem pud) + sizeof_long * env.pmd_index address

/-- The accessor `pte_offset_kernel(pmd, address)`. -/
def pte_offset_kernel (env : Env) (mem : Nat → Nat) (pmd address : Nat) : Nat :=
  env.pmd_page_vaddr (mem pmd) + sizeof_long * env.pte_index address

/-! ## Quirk filters -/

/-- The opcode checker `check_prefetch_opcode`: the pair of its return value and the new
value of `*prefetch`.  `instr` already points past `opcode`. -/
def check_prefetch_opcode (env : Env) (regs : PtRegs) (instr opcode prefetch : Nat) :
    Nat × Nat :=
  let instr_hi := opcode &&& 0xf0
  let instr_lo := opcode &&& 0x0f
  if instr_hi = 0x20 ∨ instr_hi = 0x30 then
    (if instr_lo &&& 7 = 0x6 then 1 else 0, prefetch)
  else if instr_hi = 0x40 then
    (if !env.user_mode regs || env.user_64bit_mode regs then 1 else 0, prefetch)
  else if instr_hi = 0x60 then
    (if instr_lo &&& 0xC = 0x4 then 1 else 0, prefetch)
  else if instr_hi = 0xF0 then
    (if instr_lo = 0 ∨ instr_lo >>> 1 = 1 then 1 else 0, prefetch)
  else if instr_hi = 0x00 then
    match env.probe_kernel_address instr with
    | none => (0, prefetch)
    | some opcode2 =>
      (0, if instr_lo = 0xF ∧ (opcode2 % 256 = 0x0D ∨ opcode2 % 256 = 0x18) then 1 else 0)
  else (0, prefetch)

/-- The scan loop of `is_prefetch`, `while (instr < max_instr)`; `n` bounds the iterations
that remain and is started at `max_instr - instr`. -/
def is_prefetch_loop (env : Env) (regs : PtRegs) (max_instr : Nat) : Nat → Nat → Nat → Nat
  | 0, _, prefetch => prefetch
  | n + 1, instr, prefetch =>
    if instr < max_instr then
      match env.probe_kernel_address instr with
      | none => prefetch
      | some opcode =>
        let instr := instr + 1
        let r := check_prefetch_opcode env regs instr (opcode % 256) prefetch
        if r.1 = 0 then r.2 else is_prefetch_loop env regs max_instr n instr r.2
    else prefetch

def is_prefetch (env : Env) (regs : PtRegs) (error_code : Nat) (_addr : Nat) : Nat :=
  if error_code &&& PF_INSTR ≠ 0 then 0
  else
    let instr := env.convert_ip_to_linear regs % 2 ^ 64
    let max_instr := (instr + 15) % 2 ^ 64
    if env.user_mode regs ∧ instr ≥ env.TASK_SIZE_MAX then 0
    else is_prefetch_loop env regs max_instr (max_instr - instr) instr 0

/-- Workaround for K8 erratum #93: the result and the state with the rewritten trap frame. -/
def is_errata93 (env : Env) (address : Nat) (st : St) : Nat × St :=
  if !env.CONFIG_CPU_SUP_AMD then (0, st)
  else if !env.x86_vendor_is_AMD ∨ env.x86_family ≠ 0xf then (0, st)
  else if address ≠ st.regs.ip then (0, st)
  else if address >>> 32 ≠ 0 then (0, st)
  else
    let address := address ||| (0xffffffff <<< 32)
    if (address ≥ env._stext ∧ address ≤ env._etext) ∨
        (address ≥ env.MODULES_VADDR ∧ address ≤ env.MODULES_END) then
      (1, { st.emit_once (.printk .errata93_warning) with
        regs := { st.regs with ip := address } })
    else (0, st)

def is_errata100 (env : Env) (regs : PtRegs) (address : Nat) : Nat :=
  if (regs.cs = env.__USER32_CS ∨ regs.cs &&& (1 <<< 2) ≠ 0) ∧ address >>> 32 ≠ 0 then 1
  else 0

def is_f00f_bug (env : Env) (address : Nat) (st : St) : Nat × St :=
  if env.CONFIG_X86_F00F_BUG ∧ env.cpu_has_bug_F00F ∧
      sub64 address env.idt_descr_address >>> 3 = 6 then
    (1, st.emit .do_invalid_op)
  else (0, st)

/-! ## Signal delivery -/

/-- The value `fill_sig_info_pkey` leaves in `info->si_pkey` (`none`: field not written). -/
def fill_sig_info_pkey (env : Env) (si_code : Nat) (vma : Option Vma) (st : St) :
    Option Nat × St :=
  if !env.cpu_has_OSPKE then (none, st)
  else if si_code ≠ SEGV_PKUERR then (none, st)
  else
    match vma with
    | none => (some 0, st.emit_once (.WARN .pku_fault_with_no_vma))
    | some v => (some (env.vma_pkey v), st)

def force_sig_info_fault (env : Env) (si_signo si_code address : Nat) (vma : Option Vma)
    (fault : Nat) (st : St) : St :=
  let st := st.enter (.force_sig_info_fault si_signo si_code)
  let lsb := 0
  let lsb := if fault &&& VM_FAULT_HWPOISON_LARGE ≠ 0 then
      env.hstate_index_to_shift (VM_FAULT_GET_HINDEX fault) else lsb
  let lsb := if fault &&& VM_FAULT_HWPOISON ≠ 0 then env.PAGE_SHIFT else lsb
  let r := fill_sig_info_pkey env si_code vma st
  r.2.emit (.force_sig_info si_signo 0 si_code address lsb r.1)

/-! ## The kernel-mapping synchronizer -/

/-- Lines 479 to 515 of `vmalloc_fault`: the walk below the top level.  `none` is `BUG()`. -/
def vmalloc_fault_lower (env : Env) (address pgd pgd_ref : Nat) (st : St) : Option Int × St :=
  let pud := pud_offset env st.mem pgd address
  let pud_ref := pud_offset env st.mem pgd_ref address
  if env.pud_none (st.mem pud_ref) then (some (-1), st)
  else if env.pud_none (st.mem pud) ∨ env.pud_pfn (st.mem pud) ≠ env.pud_pfn (st.mem pud_ref) then
    (none, st.bug)
  else if env.pud_huge (st.mem pud) then (some 0, st)
  else
    let pmd := pmd_offset env st.mem pud address
    let pmd_ref := pmd_offset env st.mem pud_ref address
    if env.pmd_none (st.mem pmd_ref) then (some (-1), st)
    else if env.pmd_none (st.mem pmd) ∨
        env.pmd_pfn (st.mem pmd) ≠ env.pmd_pfn (st.mem pmd_ref) then
      (none, st.bug)
    else if env.pmd_huge (st.mem pmd) then (some 0, st)
    else
      let pte_ref := pte_offset_kernel env st.mem pmd_ref address
      if !env.pte_present (st.mem pte_ref) then (some (-1), st)
      else
        let pte := pte_offset_kernel env st.mem pmd address
        if !env.pte_present (st.mem pte) ∨
            env.pte_pfn (st.mem pte) ≠ env.pte_pfn (st.mem pte_ref) then
          (none, st.bug)
        else (some 0, st)

/-- The 64-bit `vmalloc_fault`: the return value (`none` when it ends in `BUG()`) and the
state it leaves. -/
def vmalloc_fault (env : Env) (address : Nat) (st : St) : Option Int × St :=
  if ¬(address ≥ env.VMALLOC_START ∧ address < env.VMALLOC_END) then (some (-1), st)
  else
    let st := if env.in_nmi then st.emit_once (.WARN .in_nmi) else st
    let pgd := task_pgd env address
    let pgd_ref := pgd_offset_k env address
    if env.pgd_none (st.mem pgd_ref) then (some (-1), st)
    else if env.pgd_none (st.mem pgd) then
      let st := (st.store pgd (st.mem pgd_ref)).emit (.set_pgd pgd (st.mem pgd_ref))
      let st := st.emit .arch_flush_lazy_mmu_mode
      vmalloc_fault_lower env address pgd pgd_ref st
    else if env.pgd_page_vaddr (st.mem pgd) ≠ env.pgd_page_vaddr (st.mem pgd_ref) then
      (none, st.bug)
    else vmalloc_fault_lower env address pgd pgd_ref st

/-! ## Failure reporter -/

/-- The helper `bad_address`: the pointer cannot be read. -/
def bad_address (env : Env) (p : Nat) : Bool :=
  (env.probe_kernel_address p).isNone

/-- The 64-bit `dump_pagetable`. -/
def dump_pagetable (env : Env) (address : Nat) (st : St) : St :=
  let base := env.__va (env.read_cr3 &&& env.PHYSICAL_PAGE_MASK)
  let pgd := base + sizeof_long * env.pgd_index address
  if bad_address env pgd then st.emit (.printk .bad)
  else
    let st := st.emit (.printk (.pgd (st.mem pgd)))
    if !env.pgd_present (st.mem pgd) then st.emit (.printk .newline)
    else
      let pud := pud_offset env st.mem pgd address
      if bad_address env pud then st.emit (.printk .bad)
      else
        let st := st.emit (.printk (.pud (st.mem pud)))
        if !env.pud_present (st.mem pud) ∨ env.pud_large (st.mem pud) then
          st.emit (.printk .newline)
        else
          let pmd := pmd_offset env st.mem pud address
          if bad_address env pmd then st.emit (.printk .bad)
          else
            let st := st.emit (.printk (.pmd (st.mem pmd)))
            if !env.pmd_present (st.mem pmd) ∨ env.pmd_large (st.mem pmd) then
              st.emit (.printk .newline)
            else
              let pte := pte_offset_kernel env st.mem pmd address
              if bad_address env pte then st.emit (.printk .bad)
              else (st.emit (.printk (.pte (st.mem pte)))).emit (.printk .newline)

def show_fault_oops (env : Env) (error_code address : Nat) (st : St) : St :=
  if !env.oops_may_print then st
  else
    let st :=
      if error_code &&& PF_INSTR ≠ 0 then
        let pgd := env.__va (env.read_cr3 &&& env.PHYSICAL_PAGE_MASK) +
          sizeof_long * env.pgd_index address
        match env.lookup_address_in_pgd pgd address with
        | none => st
        | some pte =>
          let st := if env.pte_present (st.mem pte) ∧ !env.pte_exec (st.mem pte) then
              st.emit (.printk .nx_warning) else st
          if env.pte_present (st.mem pte) ∧ env.pte_exec (st.mem pte) ∧
              env.pgd_flags_user (st.mem pgd) ∧ env.cr4_SMEP then
            st.emit (.printk .smep_warning) else st
      else st
    let st := st.emit (.printk .bug_unable_to_handle_kernel)
    let st := if address < env.PAGE_SIZE then st.emit (.printk .null_pointer_dereference)
      else st.emit (.printk .paging_request)
    let st := st.emit (.printk (.at_address address))
    let st := st.emit (.printk (.ip st.regs.ip))
    dump_pagetable env address st

/-- The call `oops_end(flags, regs, sig)` of `kernel/dumpstack.c`, which is not among the
sources: it returns when `sig` is 0 and otherwise ends the task without returning. -/
def oops_end (sig : Nat) (st : St) : St :=
  let st := st.emit (.oops_end sig)
  if sig = 0 then st else { st with halted := true }

/-- The assignments to `tsk->thread.cr2`, `.trap_nr` and `.error_code`. -/
def St.set_thread (st : St) (address error_code : Nat) : St :=
  { st with thread := { st.thread with cr2 := address, trap_nr := X86_TRAP_PF,
                                       error_code := error_code } }

def pgtable_bad (env : Env) (error_code address : Nat) (st : St) : St :=
  let st := st.emit .oops_begin
  let st := st.emit (.printk (.corrupted_page_table address))
  let st := dump_pagetable env address st
  let st := st.set_thread address error_code
  let st := st.emit (.die true)
  let sig := if env.__die then 0 else SIGKILL
  oops_end sig st

def no_context (env : Env) (error_code address signal si_code : Nat) (st : St) : St :=
  let st := st.enter (.no_context signal si_code)
  if env.fixup_exception then
    let st := st.emit .fixup_exception
    if env.in_interrupt then st
    else if st.thread.sig_on_uaccess_err ∧ signal ≠ 0 then
      let st := st.set_thread address (error_code ||| PF_USER)
      force_sig_info_fault env signal si_code address none 0 st
    else st
  else if env.CONFIG_VMAP_STACK ∧ env.is_vmalloc_addr address ∧
      (sub64 (sub64 env.tsk_stack 1) address < env.PAGE_SIZE ∨
        sub64 address (env.tsk_stack + env.THREAD_SIZE) < env.PAGE_SIZE) then
    { st.emit .handle_stack_overflow with halted := true }
  else if is_prefetch env st.regs error_code address ≠ 0 then st
  else
    let r := is_errata93 env address st
    if r.1 ≠ 0 then r.2
    else
      let st := r.2.emit .oops_begin
      let st := show_fault_oops env error_code address st
      let st := if env.task_stack_end_corrupted then
          st.emit (.printk .thread_overran_stack) else st
      let st := st.set_thread address error_code
      let st := st.emit (.die false)
      let sig := if env.__die then 0 else SIGKILL
      let st := st.emit (.printk (.cr2 address))
      oops_end sig st

def show_signal_msg (env : Env) (error_code address : Nat) (st : St) : St :=
  if !env.unhandled_signal then st
  else if !env.printk_ratelimit then st
  else
    let st := st.emit (.printk (.segfault_at address st.regs.ip st.regs.sp error_code))
    let st := st.emit (.printk (.vma_addr st.regs.ip))
    st.emit (.printk .newline)

def __bad_area_nosemaphore (env : Env) (error_code address : Nat) (vma : Option Vma)
    (si_code : Nat) (st : St) : St :=
  let st := st.enter (.__bad_area_nosemaphore si_code)
  if error_code &&& PF_USER ≠ 0 then
    let st := st.emit .local_irq_enable
    if is_prefetch env st.regs error_code address ≠ 0 then st
    else if is_errata100 env st.regs address ≠ 0 then st
    else
      let vsyscall := error_code &&& PF_INSTR ≠ 0 ∧
        address &&& 0xfffffffffffff000 = env.VSYSCALL_ADDR
      let st := if vsyscall then st.emit .emulate_vsyscall else st
      if vsyscall ∧ env.emulate_vsyscall then st
      else
        let error_code := if address ≥ env.TASK_SIZE_MAX then error_code ||| PF_PROT
          else error_code
        let st := if env.show_unhandled_signals then show_signal_msg env error_code address st
          else st
        let st := st.set_thread address error_code
        force_sig_info_fault env SIGSEGV si_code address vma 0 st
  else
    let r := is_f00f_bug env address st
    if r.1 ≠ 0 then r.2
    else no_context env error_code address SIGSEGV si_code r.2

def bad_area_nosemaphore (env : Env) (error_code address : Nat) (vma : Option Vma)
    (st : St) : St :=
  __bad_area_nosemaphore env error_code address vma SEGV_MAPERR st

/-- The release `up_read(&mm->mmap_sem)`. -/
def St.up_read (st : St) : St :=
  { st.emit .up_read with mmap_sem := st.mmap_sem - 1 }

/-- The blocking acquisition `down_read(&mm->mmap_sem)`. -/
def St.down_read (st : St) : St :=
  { st.emit .down_read with mmap_sem := st.mmap_sem + 1 }

def __bad_area (env : Env) (error_code address : Nat) (vma : Option Vma) (si_code : Nat)
    (st : St) : St :=
  __bad_area_nosemaphore env error_code address vma si_code st.up_read

def bad_area (env : Env) (error_code address : Nat) (st : St) : St :=
  __bad_area env error_code address none SEGV_MAPERR st

def bad_area_access_from_pkeys (env : Env) (error_code : Nat) (vma : Vma) : Bool :=
  if !env.cpu_has_OSPKE then false
  else if error_code &&& PF_PK ≠ 0 then true
  else if !env.arch_vma_access_permitted vma (error_code &&& PF_WRITE != 0)
      (error_code &&& PF_INSTR != 0) false then true
  else false

def bad_area_access_error (env : Env) (error_code address : Nat) (vma : Vma) (st : St) : St :=
  if bad_area_access_from_pkeys env error_code vma then
    __bad_area env error_code address (some vma) SEGV_PKUERR st
  else
    __bad_area env error_code address (some vma) SEGV_ACCERR st

def do_sigbus (env : Env) (error_code address : Nat) (vma : Option Vma) (fault : Nat)
    (st : St) : St :=
  if error_code &&& PF_USER = 0 then
    no_context env error_code address SIGBUS BUS_ADRERR st
  else if is_prefetch env st.regs error_code address ≠ 0 then st
  else
    let st := st.set_thread address error_code
    if env.CONFIG_MEMORY_FAILURE ∧
        fault &&& (VM_FAULT_HWPOISON ||| VM_FAULT_HWPOISON_LARGE) ≠ 0 then
      let st := st.emit (.printk (.mce_killing address))
      force_sig_info_fault env SIGBUS BUS_MCEERR_AR address vma fault st
    else
      force_sig_info_fault env SIGBUS BUS_ADRERR address vma fault st

def mm_fault_error (env : Env) (pass error_code address : Nat) (vma : Option Vma)
    (fault : Nat) (st : St) : St :=
  let st := st.enter (.mm_fault_error fault)
  if env.fatal_signal_pending pass ∧ error_code &&& PF_USER = 0 then
    no_context env error_code address 0 0 st
  else if fault &&& VM_FAULT_OOM ≠ 0 then
    if error_code &&& PF_USER = 0 then
      no_context env error_code address SIGSEGV SEGV_MAPERR st
    else st.emit .pagefault_out_of_memory
  else if fault &&& (VM_FAULT_SIGBUS ||| VM_FAULT_HWPOISON ||| VM_FAULT_HWPOISON_LARGE) ≠ 0 then
    do_sigbus env error_code address vma fault st
  else if fault &&& VM_FAULT_SIGSEGV ≠ 0 then
    bad_area_nosemaphore env error_code address vma st
  else st.bug

/-! ## Spurious faults and the access check -/

/-- The check `spurious_fault_check(error_code, pte)` on the entry value `*pte`. -/
def spurious_fault_check (env : Env) (error_code pte : Nat) : Nat :=
  if error_code &&& PF_WRITE ≠ 0 ∧ !env.pte_write pte then 0
  else if error_code &&& PF_INSTR ≠ 0 ∧ !env.pte_exec pte then 0
  else if error_code &&& PF_PK ≠ 0 then 1
  else 1

def spurious_fault (env : Env) (error_code address : Nat) (st : St) : Nat × St :=
  if error_code ≠ (PF_WRITE ||| PF_PROT) ∧ error_code ≠ (PF_INSTR ||| PF_PROT) then (0, st)
  else
    let pgd := env.init_mm_pgd + sizeof_long * env.pgd_index address
    if !env.pgd_present (st.mem pgd) then (0, st)
    else
      let pud := pud_offset env st.mem pgd address
      if !env.pud_present (st.mem pud) then (0, st)
      else if env.pud_large (st.mem pud) then
        (spurious_fault_check env error_code (st.mem pud), st)
      else
        let pmd := pmd_offset env st.mem pud address
        if !env.pmd_present (st.mem pmd) then (0, st)
        else if env.pmd_large (st.mem pmd) then
          (spurious_fault_check env error_code (st.mem pmd), st)
        else
          let pte := pte_offset_kernel env st.mem pmd address
          if !env.pte_present (st.mem pte) then (0, st)
          else
            let ret := spurious_fault_check env error_code (st.mem pte)
            if ret = 0 then (0, st)
            else
              let ret := spurious_fault_check env error_code (st.mem pmd)
              let st := if ret = 0 then
                  st.emit_once (.WARN .pmd_has_incorrect_permission_bits) else st
              (ret, st)

def access_error (env : Env) (error_code : Nat) (vma : Vma) : Nat :=
  if error_code &&& PF_PK ≠ 0 then 1
  else if !env.arch_vma_access_permitted vma (error_code &&& PF_WRITE != 0)
      (error_code &&& PF_INSTR != 0) false then 1
  else if error_code &&& PF_WRITE ≠ 0 then
    if vma.vm_flags &&& VM_WRITE = 0 then 1 else 0
  else if error_code &&& PF_PROT ≠ 0 then 1
  else if vma.vm_flags &&& (VM_READ ||| VM_EXEC ||| VM_WRITE) = 0 then 1
  else 0

def fault_in_kernel_space (env : Env) (address : Nat) : Nat :=
  if address ≥ env.TASK_SIZE_MAX then 1 else 0

/-- The check `smap_violation(int error_code, regs)`; the argument is converted to `int`. -/
def smap_violation (env : Env) (error_code : Nat) (regs : PtRegs) : Bool :=
  if !env.CONFIG_X86_SMAP then false
  else if !env.cpu_has_SMAP then false
  else if (error_code % 2 ^ 32) &&& PF_USER ≠ 0 then false
  else if !env.user_mode regs ∧ regs.flags &&& X86_EFLAGS_AC ≠ 0 then false
  else true

def kmmio_fault (env : Env) : Int :=
  if env.is_kmmio_active ∧ env.kmmio_handler = 1 then -1 else 0

def kprobes_fault (env : Env) (regs : PtRegs) : Nat :=
  if env.kprobes_built_in ∧ !env.user_mode regs then
    if env.kprobe_running ∧ env.kprobe_fault_handler then 1 else 0
  else 0

/-! ## The dispatcher -/

/-- Outcome of one pass from the label `retry` to the end of `__do_page_fault`: the handler
is finished, or it jumps back to `retry` with new `flags` and `major`. -/
inductive Pass where
  | done (st : St)
  | again (flags major : Nat) (st : St)

/-- Outcome of the part of `__do_page_fault` before the region lookup: the handler is
finished, or it arrives at `find_vma` holding `mmap_sem`, with the adjusted `error_code` and
the populator `flags`. -/
inductive Entry where
  | finished (st : St)
  | lookup (error_code flags : Nat) (st : St)

/-- Lines 1536 to 1543: a `VM_FAULT_RETRY` answer that is not retried. -/
def retry_exit (env : Env) (error_code address flags : Nat) (st : St) : St :=
  if flags &&& FAULT_FLAG_USER ≠ 0 then st
  else no_context env error_code address SIGBUS BUS_ADRERR st

/-- The label `good_area` (lines 1498 to 1566).  The populator has dropped `mmap_sem` when it
answers `VM_FAULT_RETRY` (`FAULT_FLAG_RETRY_NOWAIT` is never set). -/
def good_area (env : Env) (pass error_code address flags major : Nat) (vma : Vma) (st : St) :
    Pass :=
  if access_error env error_code vma ≠ 0 then
    .done (bad_area_access_error env error_code address vma st)
  else
    let fault := env.handle_mm_fault pass vma address flags
    let st := st.emit (.handle_mm_fault vma address flags fault)
    let st := if fault &&& VM_FAULT_RETRY ≠ 0 then { st with mmap_sem := st.mmap_sem - 1 } else st
    let major := major ||| (fault &&& VM_FAULT_MAJOR)
    if fault &&& VM_FAULT_RETRY ≠ 0 then
      if flags &&& FAULT_FLAG_ALLOW_RETRY ≠ 0 then
        let flags := flags &&& not32 FAULT_FLAG_ALLOW_RETRY
        let flags := flags ||| FAULT_FLAG_TRIED
        if !env.fatal_signal_pending pass then .again flags major st
        else .done (retry_exit env error_code address flags st)
      else .done (retry_exit env error_code address flags st)
    else
      let st := st.up_read
      if fault &&& VM_FAULT_ERROR ≠ 0 then
        .done (mm_fault_error env pass error_code address (some vma) fault st)
      else if major ≠ 0 then
        .done ({ st with maj_flt := (st.maj_flt + 1) % 2 ^ 64 }.emit
          (.perf_sw_event .PAGE_FAULTS_MAJ))
      else
        .done ({ st with min_flt := (st.min_flt + 1) % 2 ^ 64 }.emit
          (.perf_sw_event .PAGE_FAULTS_MIN))

/-- One pass from `find_vma` (line 1431) on. -/
def fault_pass (env : Env) (pass error_code address flags major : Nat) (st : St) : Pass :=
  let st := st.emit (.find_vma address)
  match env.find_vma pass address with
  | none => .done (bad_area env error_code address st)
  | some vma =>
    if vma.vm_start ≤ address then good_area env pass error_code address flags major vma st
    else if vma.vm_flags &&& VM_GROWSDOWN = 0 then .done (bad_area env error_code address st)
    else if error_code &&& PF_USER ≠ 0 ∧
        (address + 65536 + 32 * sizeof_long) % 2 ^ 64 < st.regs.sp then
      .done (bad_area env error_code address st)
    else
      let st := st.emit (.expand_stack vma address)
      if env.expand_stack pass vma address ≠ 0 then .done (bad_area env error_code address st)
      else good_area env pass error_code address flags major vma st

/-- The loop formed by `goto retry`: `fuel` passes are allowed, `none` means they were used
up.  A jump back takes `down_read` before the next lookup. -/
def retry_loop (env : Env) (error_code address : Nat) : Nat → Nat → Nat → Nat → St → Option St
  | 0, _, _, _, _ => none
  | fuel + 1, pass, flags, major, st =>
    match fault_pass env pass error_code address flags major st with
    | .done st => some st
    | .again flags major st => retry_loop env error_code address fuel (pass + 1) flags major
        st.down_read

/-- The kernel-half tail (lines 1317 to 1347): spurious fault, kprobes, `bad_area_nosemaphore`. -/
def kernel_fault_tail (env : Env) (error_code address : Nat) (st : St) : St :=
  let r := spurious_fault env error_code address st
  if r.1 ≠ 0 then r.2
  else if kprobes_fault env r.2.regs ≠ 0 then r.2
  else bad_area_nosemaphore env error_code address none r.2

/-- The kernel-half branch (lines 1292 to 1348). -/
def kernel_fault (env : Env) (error_code address : Nat) (st : St) : St :=
  if error_code &&& (PF_RSVD ||| PF_USER ||| PF_PROT) = 0 then
    let r := vmalloc_fault env address st
    match r.1 with
    | none => r.2
    | some v =>
      if v ≥ 0 then r.2
      else if env.kmemcheck_fault then r.2
      else kernel_fault_tail env error_code address r.2
  else kernel_fault_tail env error_code address st

/-- Lines 1381 to 1388: a trap frame in user mode counts as a user access.  The result is the
state, the adjusted `error_code` and the adjusted `flags`. -/
def mode_adjust (env : Env) (error_code flags : Nat) (st : St) : St × Nat × Nat :=
  if env.user_mode st.regs then
    (st.emit .local_irq_enable, error_code ||| PF_USER, flags ||| FAULT_FLAG_USER)
  else if st.regs.flags &&& X86_EFLAGS_IF ≠ 0 then (st.emit .local_irq_enable, error_code, flags)
  else (st, error_code, flags)

/-- Lines 1392 to 1395: the populator flags taken from the cause. -/
def access_flags (error_code flags : Nat) : Nat :=
  let flags := if error_code &&& PF_WRITE ≠ 0 then flags ||| FAULT_FLAG_WRITE else flags
  if error_code &&& PF_INSTR ≠ 0 then flags ||| FAULT_FLAG_INSTRUCTION else flags

/-- Lines 1413 to 1428: the acquisition of `mmap_sem`. -/
def lock_mm (env : Env) (error_code address flags : Nat) (st : St) : Entry :=
  if !env.down_read_trylock then
    let st := st.emit (.down_read_trylock false)
    if error_code &&& PF_USER = 0 ∧ !env.search_exception_tables st.regs.ip then
      .finished (bad_area_nosemaphore env error_code address none st)
    else .lookup error_code flags st.down_read
  else
    let st := { st.emit (.down_read_trylock true) with mmap_sem := st.mmap_sem + 1 }
    .lookup error_code flags (st.emit .might_sleep)

/-- The user-half branch up to the lock acquisition (lines 1350 to 1428). -/
def user_fault_entry (env : Env) (error_code address : Nat) (st : St) : Entry :=
  if kprobes_fault env st.regs ≠ 0 then .finished st
  else
    let st := if error_code &&& PF_RSVD ≠ 0 then pgtable_bad env error_code address st else st
    if st.halted then .finished st
    else if smap_violation env error_code st.regs then
      .finished (bad_area_nosemaphore env error_code address none st)
    else if env.faulthandler_disabled ∨ env.mm_is_null then
      .finished (bad_area_nosemaphore env error_code address none st)
    else
      let r := mode_adjust env error_code (FAULT_FLAG_ALLOW_RETRY ||| FAULT_FLAG_KILLABLE) st
      let st := r.1.emit (.perf_sw_event .PAGE_FAULTS)
      lock_mm env r.2.1 address (access_flags r.2.1 r.2.2) st

/-- The function `__do_page_fault(regs, error_code, address)`, with `regs` in the state.  The
result is `none` only if `fuel` passes of the retry loop were not enough. -/
def __do_page_fault (env : Env) (fuel error_code address : Nat) (st : St) : Option St :=
  let st := if env.kmemcheck_active then st.emit .kmemcheck_hide else st
  if kmmio_fault env ≠ 0 then some st
  else if fault_in_kernel_space env address ≠ 0 then some (kernel_fault env error_code address st)
  else
    match user_fault_entry env error_code address st with
    | .finished st => some st
    | .lookup error_code flags st => retry_loop env error_code address fuel 0 flags 0 st

/-! ## A concrete machine

An instance of `Env` and of `St` on which the model is evaluated: the 4-level x86-64
layout (9 index bits per level, present bit 0, write bit 1, user bit 2, large-page bit 7,
no-execute bit 63, frame number in bits 12 to 51), a direct map at `0xffff880000000000`,
and quiet answers from every probe. -/

/-- Page-table memory given by a list of (entry pointer, entry value); other slots are 0. -/
def mem_of (l : List (Nat × Nat)) : Nat → Nat :=
  fun a => ((l.find? (fun p => p.1 == a)).map (fun p => p.2)).getD 0

def env0 : Env where
  CONFIG_CPU_SUP_AMD := true
  CONFIG_VMAP_STACK := true
  CONFIG_MEMORY_FAILURE := true
  CONFIG_X86_SMAP := true
  CONFIG_X86_F00F_BUG := false
  cpu_has_OSPKE := true
  cpu_has_SMAP := true
  cpu_has_bug_F00F := false
  x86_vendor_is_AMD := false
  x86_family := 6
  TASK_SIZE_MAX := 0x7ffffffff000
  VMALLOC_START := 0xffffc90000000000
  VMALLOC_END := 0xffffe8ffffffffff
  PAGE_SIZE := 4096
  PAGE_SHIFT := 12
  THREAD_SIZE := 16384
  VSYSCALL_ADDR := 0xffffffffff600000
  MODULES_VADDR := 0xffffffffa0000000
  MODULES_END := 0xffffffffff000000
  _stext := 0xffffffff81000000
  _etext := 0xffffffff81a00000
  __USER32_CS := 0x23
  PHYSICAL_PAGE_MASK := 0x3ffffffff000
  idt_descr_address := 0xfffffe0000000000
  read_cr3 := 0x1000
  __va := fun x => x + 0xffff880000000000
  init_mm_pgd := 0xffff880000002000
  pgd_index := fun a => (a >>> 39) &&& 511
  pud_index := fun a => (a >>> 30) &&& 511
  pmd_index := fun a => (a >>> 21) &&& 511
  pte_index := fun a => (a >>> 12) &&& 511
  pgd_none := fun v => v == 0
  pgd_present := fun v => v &&& 1 != 0
  pgd_page_vaddr := fun v => (v &&& 0xffffffffff000) + 0xffff880000000000
  pgd_flags_user := fun v => v &&& 4 != 0
  pud_none := fun v => v == 0
  pud_present := fun v => v &&& 1 != 0
  pud_large := fun v => v &&& 0x81 == 0x81
  pud_huge := fun v => v &&& 0x80 != 0
  pud_pfn := fun v => (v &&& 0xffffffffff000) >>> 12
  pud_page_vaddr := fun v => (v &&& 0xffffffffff000) + 0xffff880000000000
  pmd_none := fun v => v == 0
  pmd_present := fun v => v &&& 0x181 != 0
  pmd_large := fun v => v &&& 0x80 != 0
  pmd_huge := fun v => v != 0 && v &&& 0x81 != 1
  pmd_pfn := fun v => (v &&& 0xffffffffff000) >>> 12
  pmd_page_vaddr := fun v => (v &&& 0xffffffffff000) + 0xffff880000000000
  pte_present := fun v => v &&& 0x101 != 0
  pte_write := fun v => v &&& 2 != 0
  pte_exec := fun v => v &&& (1 <<< 63) == 0
  pte_pfn := fun v => (v &&& 0xffffffffff000) >>> 12
  lookup_address_in_pgd := fun _ _ => none
  cr4_SMEP := true
  user_mode := fun regs => regs.cs &&& 3 != 0
  user_64bit_mode := fun regs => regs.cs == 0x33
  convert_ip_to_linear := fun regs => regs.ip
  probe_kernel_address := fun _ => some 0x90
  kmemcheck_active := false
  kmemcheck_fault := false
  is_kmmio_active := false
  kmmio_handler := 0
  kprobes_built_in := true
  kprobe_running := false
  kprobe_fault_handler := false
  in_nmi := false
  in_interrupt := false
  faulthandler_disabled := false
  mm_is_null := false
  down_read_trylock := true
  search_exception_tables := fun _ => false
  find_vma := fun _ _ => none
  expand_stack := fun _ _ _ => 0
  arch_vma_access_permitted := fun _ _ _ _ => true
  vma_pkey := fun _ => 0
  handle_mm_fault := fun _ _ _ _ => 0
  fatal_signal_pending := fun _ => false
  hstate_index_to_shift := fun _ => 21
  fixup_exception := false
  emulate_vsyscall := false
  show_unhandled_signals := true
  unhandled_signal := false
  printk_ratelimit := true
  oops_may_print := true
  is_vmalloc_addr := fun a => decide (0xffffc90000000000 ≤ a ∧ a < 0xffffe8ffffffffff)
  tsk_stack := 0xffffc90000a00000
  task_stack_end_corrupted := false
  __die := false

/-- A kernel-mode trap frame (`cs` is `__KERNEL_CS`). -/
def kernel_regs : PtRegs := { ip := 0xffffffff81000100, sp := 0xffffc90000a03f00, cs := 0x10, flags := 0x246 }

/-- A 64-bit user-mode trap frame (`cs` is `__USER_CS`). -/
def user_regs : PtRegs := { ip := 0x400100, sp := 0x7fffffffe100, cs := 0x33, flags := 0x246 }

/-- A state with the given page-table memory and trap frame, before the handler has run. -/
def St.init (mem : Nat → Nat) (regs : PtRegs) : St where
  mem := mem
  regs := regs
  thread := { cr2 := 0, error_code := 0, trap_nr := 0, sig_on_uaccess_err := false }
  maj_flt := 0
  min_flt := 0
  mmap_sem := 0
  trace := []
  halted := false
  entries := []

/-- The address of end-to-end scenario 1. -/
def vaddr1 : Nat := 0xffffc90012345000

/-- Master tables mapping `vaddr1` by a 4 KiB page (tables at physical 0x3000, 0x4000,
0x5000, frame 0x6000) while the task's top-level slot for `vaddr1` is empty. -/
def mem1 : Nat → Nat :=
  mem_of [(0xffff880000002000 + 8 * 402, 0x3067), (0xffff880000003000 + 8 * 0, 0x4067),
    (0xffff880000004000 + 8 * 145, 0x5067), (0xffff880000005000 + 8 * 0x145, 0x6063)]

/-! ## Properties stated in the words of the specification -/

/-- The task's path for `address` agrees with the master's in page-table memory `mem`, with
"not empty" for "present" above the leaf: at every level from the top down to the first huge
entry or the leaf, the task's entry is not absent (`pgd_none`, `pud_none`, `pmd_none`, and
`pte_present` at the leaf, the tests of `vmalloc_fault`) and names the same physical table or
frame as the master's entry.  `path_present_synced` is the property with "present" at every
level. -/
def path_synced (env : Env) (mem : Nat → Nat) (address : Nat) : Prop :=
  let pgd := task_pgd env address
  let pgd_ref := pgd_offset_k env address
  let pud := pud_offset env mem pgd address
  let pud_ref := pud_offset env mem pgd_ref address
  let pmd := pmd_offset env mem pud address
  let pmd_ref := pmd_offset env mem pud_ref address
  let pte := pte_offset_kernel env mem pmd address
  let pte_ref := pte_offset_kernel env mem pmd_ref address
  (env.pgd_none (mem pgd) = false ∧
    env.pgd_page_vaddr (mem pgd) = env.pgd_page_vaddr (mem pgd_ref)) ∧
  (env.pud_none (mem pud) = false ∧ env.pud_pfn (mem pud) = env.pud_pfn (mem pud_ref)) ∧
  (env.pud_huge (mem pud) = true ∨
    ((env.pmd_none (mem pmd) = false ∧ env.pmd_pfn (mem pmd) = env.pmd_pfn (mem pmd_ref)) ∧
      (env.pmd_huge (mem pmd) = true ∨
        (env.pte_present (mem pte) = true ∧
          env.pte_pfn (mem pte) = env.pte_pfn (mem pte_ref)))))

instance (env : Env) (mem : Nat → Nat) (address : Nat) :
    Decidable (path_synced env mem address) := by
  unfold path_synced; infer_instance

/-- The master's upper-level slot for `address`. -/
def master_pud (env : Env) (mem : Nat → Nat) (address : Nat) : Nat :=
  pud_offset env mem (pgd_offset_k env address) address

/-- The master's middle-level slot for `address`. -/
def master_pmd (env : Env) (mem : Nat → Nat) (address : Nat) : Nat :=
  pmd_offset env mem (master_pud env mem address) address

/-- The master's leaf slot for `address`. -/
def master_pte (env : Env) (mem : Nat → Nat) (address : Nat) : Nat :=
  pte_offset_kernel env mem (master_pmd env mem address) address

/-- The master-table path of `address` is present at every level. -/
def master_path_present (env : Env) (mem : Nat → Nat) (address : Nat) : Prop :=
  env.pgd_present (mem (pgd_offset_k env address)) = true ∧
  env.pud_present (mem (master_pud env mem address)) = true ∧
  env.pmd_present (mem (master_pmd env mem address)) = true ∧
  env.pte_present (mem (master_pte env mem address)) = true

instance (env : Env) (mem : Nat → Nat) (address : Nat) :
    Decidable (master_path_present env mem address) := by
  unfold master_path_present; infer_instance

/-- The check `permits(cause, entry)` in the words of the specification: the entry is
writable when WRITE is in the cause and executable when INSTR is in the cause. -/
def permits (env : Env) (error_code entry : Nat) : Prop :=
  (error_code &&& PF_WRITE ≠ 0 → env.pte_write entry = true) ∧
  (error_code &&& PF_INSTR ≠ 0 → env.pte_exec entry = true)

instance (env : Env) (error_code entry : Nat) : Decidable (permits env error_code entry) := by
  unfold permits; infer_instance

/-- The entry at every level of the master path (top, upper, middle and leaf) permits the
access. -/
def every_level_permits (env : Env) (error_code : Nat) (mem : Nat → Nat) (address : Nat) :
    Prop :=
  permits env error_code (mem (pgd_offset_k env address)) ∧
  permits env error_code (mem (master_pud env mem address)) ∧
  permits env error_code (mem (master_pmd env mem address)) ∧
  permits env error_code (mem (master_pte env mem address))

instance (env : Env) (error_code : Nat) (mem : Nat → Nat) (address : Nat) :
    Decidable (every_level_permits env error_code mem address) := by
  unfold every_level_permits; infer_instance

/-- The address of end-to-end scenario 2, in kernel text. -/
def vaddr2 : Nat := 0xffffffff81000000

/-- Master tables mapping `vaddr2` by a 4 KiB page whose leaf, middle and upper entries are
writable while the top-level entry has its write bit clear. -/
def mem2 : Nat → Nat :=
  mem_of [(0xffff880000002000 + 8 * 511, 0x3061), (0xffff880000003000 + 8 * 510, 0x4063),
    (0xffff880000004000 + 8 * 8, 0x5063), (0xffff880000005000 + 8 * 0, 0x6063)]

/-- Master tables mapping `vaddr2` by a 4 KiB page, writable at every level. -/
def mem3 : Nat → Nat :=
  mem_of [(0xffff880000002000 + 8 * 511, 0x3063), (0xffff880000003000 + 8 * 510, 0x4063),
    (0xffff880000004000 + 8 * 8, 0x5063), (0xffff880000005000 + 8 * 0, 0x6063)]

/-- A read-write data region. -/
def vma_data : Vma := { vm_start := 0x600000, vm_end := 0x700000, vm_flags := VM_READ ||| VM_WRITE }

/-- The region of end-to-end scenario 4: readable and executable, not writable. -/
def vma_text : Vma := { vm_start := 0x400000, vm_end := 0x602000, vm_flags := VM_READ ||| VM_EXEC }

/-! ## Observing the trace -/

/-- The calls made by the failure reporter other than the release of `mmap_sem`. -/
def Event.is_report : Event → Bool
  | .WARN _ => true
  | .BUG => true
  | .local_irq_enable => true
  | .force_sig_info _ _ _ _ _ _ => true
  | .printk _ => true
  | .oops_begin => true
  | .die _ => true
  | .oops_end _ => true
  | .handle_stack_overflow => true
  | .fixup_exception => true
  | .do_invalid_op => true
  | .emulate_vsyscall => true
  | .pagefault_out_of_memory => true
  | _ => false

/-- An invocation of the populator `handle_mm_fault`. -/
def Event.is_populator : Event → Bool
  | .handle_mm_fault _ _ _ _ => true
  | _ => false

/-- An invocation of `expand_stack`. -/
def Event.is_expand_stack : Event → Bool
  | .expand_stack _ _ => true
  | _ => false

/-- A signal delivered with `force_sig_info`. -/
def Event.is_signal : Event → Bool
  | .force_sig_info _ _ _ _ _ _ => true
  | _ => false

/-- A lazy-MMU flush request. -/
def Event.is_flush : Event → Bool
  | .arch_flush_lazy_mmu_mode => true
  | _ => false

/-- A step of an oops: `oops_begin`, `__die`, `oops_end`, the stack-overflow trampoline or
`BUG()`. -/
def Event.is_oops : Event → Bool
  | .oops_begin => true
  | .die _ => true
  | .oops_end _ => true
  | .handle_stack_overflow => true
  | .BUG => true
  | _ => false

/-- The calls that work on the address-space map: region lookup, stack expansion and the
populator. -/
def Event.is_region_op : Event → Bool
  | .find_vma _ => true
  | .expand_stack _ _ => true
  | .handle_mm_fault _ _ _ _ => true
  | _ => false

/-- The populator invocations recorded in a trace, in order. -/
def populator_calls (tr : List Event) : List Event :=
  tr.filter Event.is_populator

/-- The signals recorded in a trace, in order. -/
def signals (tr : List Event) : List Event :=
  tr.filter Event.is_signal

/-- The state carried by the outcome of a pass. -/
def Pass.st : Pass → St
  | .done st => st
  | .again _ _ st => st

/-- The state carried by the outcome of the entry part. -/
def Entry.st : Entry → St
  | .finished st => st
  | .lookup _ _ st => st

/-- A quirk filter of `__bad_area_nosemaphore` absorbs a user-mode fault: the prefetch
check, errata #100, or vsyscall emulation. -/
def quirk_absorbs (env : Env) (regs : PtRegs) (error_code address : Nat) : Prop :=
  is_prefetch env regs error_code address ≠ 0 ∨ is_errata100 env regs address ≠ 0 ∨
    ((error_code &&& PF_INSTR ≠ 0 ∧ address &&& 0xfffffffffffff000 = env.VSYSCALL_ADDR) ∧
      env.emulate_vsyscall = true)

instance (env : Env) (regs : PtRegs) (error_code address : Nat) :
    Decidable (quirk_absorbs env regs error_code address) := by
  unfold quirk_absorbs; infer_instance

/-- The region of end-to-end scenario 3: it starts at 0x400000 and does not grow down. -/
def vma_code : Vma := { vm_start := 0x400000, vm_end := 0x401000, vm_flags := VM_READ ||| VM_EXEC }

/-- The concrete machine with `vma_code` as the region found by every lookup. -/
def env_code : Env := { env0 with find_vma := fun _ _ => some vma_code }

/-- The concrete machine with `vma_text` as the region found by every lookup. -/
def env_text : Env := { env0 with find_vma := fun _ _ => some vma_text }

/-- The master table maps `address`: its path is not absent at any level down to the first
huge entry or the leaf (the tests of `vmalloc_fault` on the master's entries). -/
def master_maps (env : Env) (mem : Nat → Nat) (address : Nat) : Prop :=
  env.pgd_none (mem (pgd_offset_k env address)) = false ∧
  env.pud_none (mem (master_pud env mem address)) = false ∧
  (env.pud_huge (mem (master_pud env mem address)) = true ∨
    (env.pmd_none (mem (master_pmd env mem address)) = false ∧
      (env.pmd_huge (mem (master_pmd env mem address)) = true ∨
        env.pte_present (mem (master_pte env mem address)) = true)))

instance (env : Env) (mem : Nat → Nat) (address : Nat) :
    Decidable (master_maps env mem address) := by
  unfold master_maps; infer_instance

/-- The concrete machine with mmiotrace active and claiming the fault. -/
def env_kmmio : Env := { env0 with is_kmmio_active := true, kmmio_handler := 1 }

/-- The concrete machine in NMI context. -/
def env_nmi : Env := { env0 with in_nmi := true }

/-- The calls on the address-space map and its lock: the acquisitions and the release of
`mmap_sem`, region lookup, stack expansion and the populator. -/
def Event.is_mm_op : Event → Bool
  | .down_read_trylock _ => true
  | .down_read => true
  | .up_read => true
  | .find_vma _ => true
  | .expand_stack _ _ => true
  | .handle_mm_fault _ _ _ _ => true
  | _ => false

/-- What a call does to the number of read holds on `mmap_sem`: an acquisition adds one, a
release takes one, and so does a populator call that answers `VM_FAULT_RETRY`. -/
def Event.lock_delta : Event → Int
  | .down_read_trylock true => 1
  | .down_read => 1
  | .up_read => -1
  | .handle_mm_fault _ _ _ ret => if ret &&& VM_FAULT_RETRY ≠ 0 then -1 else 0
  | _ => 0

/-- Acquisitions minus releases of `mmap_sem` over a trace. -/
def lock_balance (tr : List Event) : Int :=
  (tr.map Event.lock_delta).sum

/-- The acquisitions of `mmap_sem` recorded in a trace. -/
def Event.is_acquire : Event → Bool
  | .down_read_trylock true => true
  | .down_read => true
  | _ => false

/-- The releases of `mmap_sem` recorded in a trace: `up_read`, and a populator call that
answers `VM_FAULT_RETRY`. -/
def Event.is_release : Event → Bool
  | .up_read => true
  | .handle_mm_fault _ _ _ ret => ret &&& VM_FAULT_RETRY != 0
  | _ => false

/-- The concrete machine with `vma_code` as the region found and a populator that always
answers `VM_FAULT_RETRY`. -/
def env_retry : Env := { env_code with handle_mm_fault := fun _ _ _ _ => VM_FAULT_RETRY }

/-- As `env_retry`, with a fatal signal pending and an exception-table entry for the
faulting instruction. -/
def env_fatal : Env :=
  { env_retry with fatal_signal_pending := fun _ => true, fixup_exception := true,
                   search_exception_tables := fun _ => true }

/-- A kernel-mode trap frame inside a user-access section (`EFLAGS.AC` set by `stac`). -/
def uaccess_regs : PtRegs := { kernel_regs with flags := 0x246 ||| X86_EFLAGS_AC }

/-- A task that asked for a signal on a failed user access (`sig_on_uaccess_err`). -/
def St.init_uaccess (mem : Nat → Nat) (regs : PtRegs) : St :=
  { St.init mem regs with
    thread := { cr2 := 0, error_code := 0, trap_nr := 0, sig_on_uaccess_err := true } }

/-- A stack region that grows down, one page below `TASK_SIZE_MAX`; the stack pointer of
`user_regs` lies inside it. -/
def vma_stack : Vma :=
  { vm_start := 0x7fffffffe000, vm_end := 0x7ffffffff000,
    vm_flags := VM_GROWSDOWN ||| VM_READ ||| VM_WRITE }

/-- The concrete machine with `vma_stack` as the region found. -/
def env_stack : Env := { env0 with find_vma := fun _ _ => some vma_stack }

/-- The state in which the entry part arrives at the lookup for a user-mode write at
0x7ffffffee000 on the machine `env_stack`. -/
def st_stack : St :=
  (user_fault_entry env_stack (PF_USER ||| PF_WRITE) 0x7ffffffee000 (St.init mem1 user_regs)).st

/-- The concrete machine with `vma_code` as the region found, on a CPU without SMAP. -/
def env_nosmap : Env := { env_code with cpu_has_SMAP := false }

/-- The populator flags of the first pass, in the words of the code: `ALLOW_RETRY` and
`KILLABLE`, `USER` for a user-mode trap frame, `WRITE` and `INSTRUCTION` by the cause. -/
def first_pass_flags (env : Env) (regs : PtRegs) (error_code : Nat) : Nat :=
  FAULT_FLAG_ALLOW_RETRY ||| FAULT_FLAG_KILLABLE |||
    (if env.user_mode regs then FAULT_FLAG_USER else 0) |||
    (if error_code &&& PF_WRITE ≠ 0 then FAULT_FLAG_WRITE else 0) |||
    (if error_code &&& PF_INSTR ≠ 0 then FAULT_FLAG_INSTRUCTION else 0)

/-- A use of the exception-fixup table by `no_context`. -/
def Event.is_fixup : Event → Bool
  | .fixup_exception => true
  | _ => false

/-- The concrete machine with an exception fixup for the faulting instruction. -/
def env_fixup : Env := { env0 with fixup_exception := true }

/-- The concrete machine with `vma_code` as the region found and a die notifier that reports
every oops as handled (`__die` returns nonzero). -/
def env_die : Env := { env_code with __die := true }

/-- The sign extension to 64 bits of the low 32 bits of `x`. -/
def sign_extend32 (x : Nat) : Nat :=
  if (x % 2 ^ 32).testBit 31 then x % 2 ^ 32 + 0xffffffff00000000 else x % 2 ^ 32

/-- The address lies in kernel text `[_stext, _etext]` or in the module range
`[MODULES_VADDR, MODULES_END]`. -/
def in_kernel_text_or_modules (env : Env) (a : Nat) : Prop :=
  (env._stext ≤ a ∧ a ≤ env._etext) ∨ (env.MODULES_VADDR ≤ a ∧ a ≤ env.MODULES_END)

instance (env : Env) (a : Nat) : Decidable (in_kernel_text_or_modules env a) := by
  unfold in_kernel_text_or_modules; infer_instance

/-- The concrete machine on an AMD K8 (family 0xF). -/
def env_k8 : Env := { env0 with x86_vendor_is_AMD := true, x86_family := 0xf }

/-- A kernel-mode trap frame whose instruction pointer lost its upper 32 bits. -/
def k8_regs : PtRegs := { kernel_regs with ip := 0x81000100 }

/-- The value of `si_addr_lsb` for a populator result: `PAGE_SHIFT` for `VM_FAULT_HWPOISON`,
else the huge-page shift of the encoded index for `VM_FAULT_HWPOISON_LARGE`, else 0. -/
def addr_lsb (env : Env) (fault : Nat) : Nat :=
  if fault &&& VM_FAULT_HWPOISON ≠ 0 then env.PAGE_SHIFT
  else if fault &&& VM_FAULT_HWPOISON_LARGE ≠ 0 then
    env.hstate_index_to_shift (VM_FAULT_GET_HINDEX fault)
  else 0

/-- The concrete machine built without `CONFIG_MEMORY_FAILURE`. -/
def env_nomf : Env := { env0 with CONFIG_MEMORY_FAILURE := false }

/-- A legal instruction prefix byte, for the mode the trap frame is in: a segment override
(0x26, 0x2E, 0x36, 0x3E, 0x64, 0x65), an operand-size or address-size override (0x66, 0x67),
LOCK or REP (0xF0, 0xF2, 0xF3), and a REX prefix (0x40 to 0x4F) for kernel mode or 64-bit
user mode. -/
def legal_prefix_byte (env : Env) (regs : PtRegs) (b : Nat) : Prop :=
  (b = 0x26 ∨ b = 0x2E ∨ b = 0x36 ∨ b = 0x3E) ∨
    ((0x40 ≤ b ∧ b ≤ 0x4F) ∧ (env.user_mode regs = false ∨ env.user_64bit_mode regs = true)) ∨
    (0x64 ≤ b ∧ b ≤ 0x67) ∨ (b = 0xF0 ∨ b = 0xF2 ∨ b = 0xF3)

instance (env : Env) (regs : PtRegs) (b : Nat) : Decidable (legal_prefix_byte env regs b) := by
  unfold legal_prefix_byte; infer_instance

/-- The byte at address `a` as `probe_kernel_address` reads it (`none`: not readable). -/
def byte_at (env : Env) (a : Nat) : Option Nat :=
  (env.probe_kernel_address a).map (fun v => v % 256)

/-- The byte at `a` is readable and is a legal prefix. -/
def prefix_at (env : Env) (regs : PtRegs) (a : Nat) : Prop :=
  match byte_at env a with
  | some b => legal_prefix_byte env regs b
  | none => False

instance (env : Env) (regs : PtRegs) (a : Nat) : Decidable (prefix_at env regs a) := by
  unfold prefix_at
  cases byte_at env a <;> infer_instance

/-- The readable bytes at `a` are `n` legal prefixes followed by 0x0F and then 0x0D or 0x18
(the two-byte prefetch opcodes). -/
def prefetch_at (env : Env) (regs : PtRegs) (a n : Nat) : Prop :=
  (∀ i, i < n → prefix_at env regs (a + i)) ∧ byte_at env (a + n) = some 0x0F ∧
    (byte_at env (a + n + 1) = some 0x0D ∨ byte_at env (a + n + 1) = some 0x18)

instance (env : Env) (regs : PtRegs) (a n : Nat) : Decidable (prefetch_at env regs a n) := by
  unfold prefetch_at; infer_instance

/-- The concrete machine with the given instruction bytes at the instruction pointer of
`kernel_regs`; every other byte reads as 0x90. -/
def env_insn (bytes : List Nat) : Env :=
  { env0 with probe_kernel_address := fun a =>
      if kernel_regs.ip ≤ a then some (bytes.getD (a - kernel_regs.ip) 0x90) else some 0x90 }

/-- As `env_insn`, with an exception fixup for the faulting instruction. -/
def env_insn_fixup (bytes : List Nat) : Env :=
  { env_insn bytes with fixup_exception := true }

/-- The conditions under which a pass arrives at `good_area` with region `vma`: `find_vma`
returns it and the address is inside it, or it grows down, the stack guard does not reject
and `expand_stack` answers 0. -/
def reaches_good_area (env : Env) (pass error_code address sp : Nat) (vma : Vma) : Prop :=
  env.find_vma pass address = some vma ∧
    (vma.vm_start ≤ address ∨
      (vma.vm_flags &&& VM_GROWSDOWN ≠ 0 ∧
        ¬ (error_code &&& PF_USER ≠ 0 ∧ (address + 65536 + 32 * sizeof_long) % 2 ^ 64 < sp) ∧
        env.expand_stack pass vma address = 0))

instance (env : Env) (pass error_code address sp : Nat) (vma : Vma) :
    Decidable (reaches_good_area env pass error_code address sp vma) := by
  unfold reaches_good_area; infer_instance

/-- The concrete machine with `vma_code` as the region found and a populator that answers
`VM_FAULT_RETRY` on the first call and 0 (a minor fault) afterwards. -/
def env_retry_once : Env :=
  { env_code with handle_mm_fault := fun pass _ _ _ => if pass = 0 then VM_FAULT_RETRY else 0 }

/-- The state in which the entry part arrives at the lookup for a user-mode read of 0x400800
on the machine `env_retry_once`. -/
def st_retry : St :=
  (user_fault_entry env_retry_once PF_USER 0x400800 (St.init mem1 user_regs)).st

/-- Master tables mapping the first address of the vmalloc range of `env0` by a 4 KiB page,
while the task's top-level slot for it is empty. -/
def mem_vstart : Nat → Nat :=
  mem_of [(0xffff880000002000 + 8 * 402, 0x3067), (0xffff880000003000 + 8 * 0, 0x4067),
    (0xffff880000004000 + 8 * 0, 0x5067), (0xffff880000005000 + 8 * 0, 0x6063)]

/-- Page-table memory in which the master has a top-level entry for `vaddr1` and nothing
below it, and the task's top-level slot for `vaddr1` is empty. -/
def mem_top_only : Nat → Nat :=
  mem_of [(0xffff880000002000 + 8 * 402, 0x3067)]

/-- The result of `spurious_fault` in the words of the specification, for a cause that is
exactly {WRITE, PRESENT} or {INSTR, PRESENT}: 0 if the top, upper, middle or leaf entry of
the master path that is reached is not present; whether the upper-level entry permits the
access (`permits`: writable when WRITE is in the cause, executable when INSTR is) if it is a
large page; whether the middle-level entry permits it if that is a large page; otherwise
whether both the leaf and the middle-level entry permit it.  1 stands for yes, 0 for no. -/
def spurious_result (env : Env) (error_code : Nat) (mem : Nat → Nat) (address : Nat) : Nat :=
  if env.pgd_present (mem (pgd_offset_k env address)) = false then 0
  else if env.pud_present (mem (master_pud env mem address)) = false then 0
  else if env.pud_large (mem (master_pud env mem address)) = true then
    if permits env error_code (mem (master_pud env mem address)) then 1 else 0
  else if env.pmd_present (mem (master_pmd env mem address)) = false then 0
  else if env.pmd_large (mem (master_pmd env mem address)) = true then
    if permits env error_code (mem (master_pmd env mem address)) then 1 else 0
  else if env.pte_present (mem (master_pte env mem address)) = false then 0
  else if permits env error_code (mem (master_pte env mem address)) ∧
      permits env error_code (mem (master_pmd env mem address)) then 1
  else 0

/-- The concrete machine when the non-blocking attempt on `mmap_sem` fails. -/
def env_trylock_fails : Env := { env0 with down_read_trylock := false }

/-- The state in which a kernel-mode read fault taken inside a user-access section arrives
at the lock acquisition: interrupts enabled again and the fault counted. -/
def st_trylock : St :=
  ((St.init mem1 uaccess_regs).emit .local_irq_enable).emit (.perf_sw_event .PAGE_FAULTS)

/-- The effects of `vmalloc_fault` on the tables that the trace records: the store into the
task's top-level slot and the flush request. -/
def Event.is_pgd_sync : Event → Bool
  | .set_pgd _ _ => true
  | .arch_flush_lazy_mmu_mode => true
  | _ => false

/-- The message of a `printk` call. -/
def Event.msg : Event → Option Msg
  | .printk m => some m
  | _ => none

/-- The messages printed, in order: the diagnostic output recorded in a trace. -/
def printed (tr : List Event) : List Msg :=
  tr.filterMap Event.msg

/-- The concrete machine with `vma_code` as the region found, for a task that does not
handle SIGSEGV, so that `show_signal_msg` prints. -/
def env_msg : Env := { env_code with unhandled_signal := true }

/-- The property in the words of the specification with every entry "present": at every
level of the path of `address`, from the top down to the first huge entry or the leaf, the
task's entry is present (`pgd_present`, `pud_present`, `pmd_present`, `pte_present`) and
names the same physical table or frame as the master's entry. -/
def path_present_synced (env : Env) (mem : Nat → Nat) (address : Nat) : Prop :=
  let pgd := task_pgd env address
  let pgd_ref := pgd_offset_k env address
  let pud := pud_offset env mem pgd address
  let pud_ref := pud_offset env mem pgd_ref address
  let pmd := pmd_offset env mem pud address
  let pmd_ref := pmd_offset env mem pud_ref address
  let pte := pte_offset_kernel env mem pmd address
  let pte_ref := pte_offset_kernel env mem pmd_ref address
  (env.pgd_present (mem pgd) = true ∧
    env.pgd_page_vaddr (mem pgd) = env.pgd_page_vaddr (mem pgd_ref)) ∧
  (env.pud_present (mem pud) = true ∧ env.pud_pfn (mem pud) = env.pud_pfn (mem pud_ref)) ∧
  (env.pud_huge (mem pud) = true ∨
    ((env.pmd_present (mem pmd) = true ∧ env.pmd_pfn (mem pmd) = env.pmd_pfn (mem pmd_ref)) ∧
      (env.pmd_huge (mem pmd) = true ∨
        (env.pte_present (mem pte) = true ∧
          env.pte_pfn (mem pte) = env.pte_pfn (mem pte_ref)))))

instance (env : Env) (mem : Nat → Nat) (address : Nat) :
    Decidable (path_present_synced env mem address) := by
  unfold path_present_synced; infer_instance

/-- As `mem1`, but the master's top-level entry for `vaddr1` is not empty and has its
present bit clear (0x3066). -/
def mem_top_not_present : Nat → Nat :=
  mem_of [(0xffff880000002000 + 8 * 402, 0x3066), (0xffff880000003000 + 8 * 0, 0x4067),
    (0xffff880000004000 + 8 * 145, 0x5067), (0xffff880000005000 + 8 * 0x145, 0x6063)]

/-- Master tables mapping `vaddr2` by a 4 KiB page whose leaf entry is read-only. -/
def mem_leaf_readonly : Nat → Nat :=
  mem_of [(0xffff880000002000 + 8 * 511, 0x3063), (0xffff880000003000 + 8 * 510, 0x4063),
    (0xffff880000004000 + 8 * 8, 0x5063), (0xffff880000005000 + 8 * 0, 0x6061)]

/-! ## Theorems -/

theorem St.emit_once_cases (st : St) (e : Event) :
    st.emit_once e = st ∨ st.emit_once e = st.emit e := by
  unfold St.emit_once
  split
  · exact Or.inl rfl
  · exact Or.inr rfl

/-- A once-only call changes nothing but the trace. -/
theorem St.emit_once_frame (st : St) (e : Event) :
    (st.emit_once e).mem = st.mem ∧ (st.emit_once e).regs = st.regs ∧
    (st.emit_once e).thread = st.thread ∧ (st.emit_once e).maj_flt = st.maj_flt ∧
    (st.emit_once e).min_flt = st.min_flt ∧ (st.emit_once e).mmap_sem = st.mmap_sem ∧
    (st.emit_once e).halted = st.halted ∧ (st.emit_once e).entries = st.entries := by
  rcases St.emit_once_cases st e with h | h <;> rw [h] <;> simp [St.emit]

theorem St.emit_once_trace (st : St) (e : Event) :
    (st.emit_once e).trace = st.trace ++ (if e ∈ st.trace then [] else [e]) := by
  unfold St.emit_once
  split <;> simp [St.emit]

theorem St.emit_once_filter (p : Event → Bool) (st : St) (e : Event) (h : p e = false) :
    (st.emit_once e).trace.filter p = st.trace.filter p := by
  rcases St.emit_once_cases st e with h1 | h1 <;> rw [h1]
  simp [St.emit, List.filter_append, h]

/-- A once-only call whose event is in the trace already does nothing. -/
theorem St.emit_once_of_mem (st : St) (e : Event) (h : e ∈ st.trace) : st.emit_once e = st := by
  unfold St.emit_once
  rw [if_pos h]

/-- After a once-only call its event is in the trace. -/
theorem St.emit_once_mem_trace (st : St) (e : Event) : e ∈ (st.emit_once e).trace := by
  unfold St.emit_once
  split
  · assumption
  · simp [St.emit]

theorem vmalloc_fault_lower_mem (env : Env) (address pgd pgd_ref : Nat) (st : St) :
    (vmalloc_fault_lower env address pgd pgd_ref st).2.mem = st.mem := by
  unfold vmalloc_fault_lower
  simp only [apply_ite Prod.snd, apply_ite St.mem, St.bug, St.emit, St.enter, ite_self]

theorem vmalloc_fault_lower_synced (env : Env) (address pgd pgd_ref : Nat) (st : St)
    (h : (vmalloc_fault_lower env address pgd pgd_ref st).1 = some 0) :
    let mem := st.mem
    let pud := pud_offset env mem pgd address
    let pud_ref := pud_offset env mem pgd_ref address
    let pmd := pmd_offset env mem pud address
    let pmd_ref := pmd_offset env mem pud_ref address
    let pte := pte_offset_kernel env mem pmd address
    let pte_ref := pte_offset_kernel env mem pmd_ref address
    (env.pud_none (mem pud) = false ∧ env.pud_pfn (mem pud) = env.pud_pfn (mem pud_ref)) ∧
    (env.pud_huge (mem pud) = true ∨
      ((env.pmd_none (mem pmd) = false ∧ env.pmd_pfn (mem pmd) = env.pmd_pfn (mem pmd_ref)) ∧
        (env.pmd_huge (mem pmd) = true ∨
          (env.pte_present (mem pte) = true ∧
            env.pte_pfn (mem pte) = env.pte_pfn (mem pte_ref))))) := by
  unfold vmalloc_fault_lower at h
  simp only [] at h
  split_ifs at h <;> simp_all

/-- C2 amended: whenever the 64-bit `vmalloc_fault` returns 0 (Handled) for an address, the
address lies in `[VMALLOC_START, VMALLOC_END)` and in the memory it leaves the task's entry
at every level of the address's path, from the top level down to the first huge entry or the
leaf, is not empty (`pgd_none`, `pud_none`, `pmd_none` are false; at the leaf the entry is
present) and names the same physical table or frame as the master's entry at that level. -/
theorem vmalloc_fault_handled_path_synced (env : Env) (address : Nat) (st : St)
    (h : (vmalloc_fault env address st).1 = some 0) :
    (env.VMALLOC_START ≤ address ∧ address < env.VMALLOC_END) ∧
      path_synced env (vmalloc_fault env address st).2.mem address := by
  unfold vmalloc_fault at h ⊢
  simp only [] at h ⊢
  by_cases hr : address ≥ env.VMALLOC_START ∧ address < env.VMALLOC_END
  · rw [if_neg (not_not.mpr hr)] at h ⊢
    refine ⟨hr, ?_⟩
    generalize (if env.in_nmi = true then st.emit_once (.WARN .in_nmi) else st) = st0 at h ⊢
    by_cases h1 : env.pgd_none (st0.mem (pgd_offset_k env address)) = true
    · rw [if_pos h1] at h; simp at h
    · rw [if_neg h1] at h ⊢
      by_cases h2 : env.pgd_none (st0.mem (task_pgd env address)) = true
      · rw [if_pos h2] at h ⊢
        have hl := vmalloc_fault_lower_synced env address _ _ _ h
        rw [vmalloc_fault_lower_mem]
        refine ⟨?_, hl⟩
        have hp : pgd_offset_k env address ≠ task_pgd env address := by
          intro hp; rw [hp] at h1; exact h1 h2
        simp [St.emit, St.enter, St.store, hp]
        simpa using h1
      · rw [if_neg h2] at h ⊢
        by_cases h3 : env.pgd_page_vaddr (st0.mem (task_pgd env address)) ≠
            env.pgd_page_vaddr (st0.mem (pgd_offset_k env address))
        · rw [if_pos h3] at h; simp at h
        · rw [if_neg h3] at h ⊢
          have hl := vmalloc_fault_lower_synced env address _ _ _ h
          rw [vmalloc_fault_lower_mem]
          exact ⟨⟨by simpa using h2, not_not.mp h3⟩, hl⟩
  · rw [if_pos hr] at h; simp at h

/-- Witness for C2 amended: scenario 1, the master maps `vaddr1` and the task's slot is
empty. -/
theorem vmalloc_fault_handled_path_synced_witness :
    (vmalloc_fault env0 vaddr1 (St.init mem1 kernel_regs)).1 = some 0 ∧
      ((env0.VMALLOC_START ≤ vaddr1 ∧ vaddr1 < env0.VMALLOC_END) ∧
        path_synced env0 (vmalloc_fault env0 vaddr1 (St.init mem1 kernel_regs)).2.mem vaddr1) :=
  ⟨by decide, vmalloc_fault_handled_path_synced env0 vaddr1 _ (by decide)⟩

theorem vmalloc_fault_lower_fst_congr (env : Env) (address pgd pgd_ref : Nat) (st st' : St)
    (hm : st.mem = st'.mem) :
    (vmalloc_fault_lower env address pgd pgd_ref st).1 =
      (vmalloc_fault_lower env address pgd pgd_ref st').1 := by
  unfold vmalloc_fault_lower
  simp only [hm, apply_ite Prod.fst]

theorem vmalloc_fault_lower_snd_of_some (env : Env) (address pgd pgd_ref : Nat) (st : St)
    (v : Int) (h : (vmalloc_fault_lower env address pgd pgd_ref st).1 = some v) :
    (vmalloc_fault_lower env address pgd pgd_ref st).2 = st := by
  unfold vmalloc_fault_lower at h ⊢
  simp only [apply_ite Prod.fst, apply_ite Prod.snd] at h ⊢
  split_ifs at h ⊢ <;> rfl

/-- A run of `vmalloc_fault` that finds the task's top-level slot filled and matching: it
returns what the lower walk returns and changes nothing but the trace, by at most the
once-only `in_nmi` warning. -/
theorem vmalloc_fault_no_copy (env : Env) (address : Nat) (st : St)
    (hr : address ≥ env.VMALLOC_START ∧ address < env.VMALLOC_END)
    (h1 : env.pgd_none (st.mem (pgd_offset_k env address)) = false)
    (h2 : env.pgd_none (st.mem (task_pgd env address)) = false)
    (h3 : env.pgd_page_vaddr (st.mem (task_pgd env address)) =
      env.pgd_page_vaddr (st.mem (pgd_offset_k env address)))
    (h4 : (vmalloc_fault_lower env address (task_pgd env address) (pgd_offset_k env address)
      st).1 = some 0) :
    vmalloc_fault env address st =
      (some 0, if env.in_nmi then st.emit_once (.WARN .in_nmi) else st) := by
  unfold vmalloc_fault
  simp only []
  rw [if_neg (not_not.mpr hr)]
  have key : ∀ st0 : St, st0.mem = st.mem →
      (if env.pgd_none (st0.mem (pgd_offset_k env address)) = true then (some (-1), st0)
        else if env.pgd_none (st0.mem (task_pgd env address)) = true then
          vmalloc_fault_lower env address (task_pgd env address) (pgd_offset_k env address)
            (((st0.store (task_pgd env address) (st0.mem (pgd_offset_k env address))).emit
              (.set_pgd (task_pgd env address) (st0.mem (pgd_offset_k env address)))).emit
              .arch_flush_lazy_mmu_mode)
        else if env.pgd_page_vaddr (st0.mem (task_pgd env address)) ≠
            env.pgd_page_vaddr (st0.mem (pgd_offset_k env address)) then (none, st0.bug)
        else vmalloc_fault_lower env address (task_pgd env address) (pgd_offset_k env address)
          st0) = (some 0, st0) := by
    intro st0 hm
    have h4' := h4
    rw [vmalloc_fault_lower_fst_congr env address _ _ st st0 hm.symm] at h4'
    rw [hm, if_neg (by simp [h1]), if_neg (by simp [h2]), if_neg (by simp [h3])]
    exact Prod.ext h4' (vmalloc_fault_lower_snd_of_some env address _ _ st0 0 h4')
  by_cases hn : env.in_nmi = true
  · simp only [hn, if_true]
    exact key (st.emit_once (.WARN .in_nmi)) (St.emit_once_frame _ _).1
  · simp only [hn, if_false]
    simpa using key st rfl

theorem vmalloc_fault_lower_trace_mem (env : Env) (address pgd pgd_ref : Nat) (st : St)
    (e : Event) (h : e ∈ st.trace) :
    e ∈ (vmalloc_fault_lower env address pgd pgd_ref st).2.trace := by
  unfold vmalloc_fault_lower
  simp only [apply_ite Prod.snd, apply_ite St.trace]
  split_ifs <;> simp [St.bug, St.emit, h]

/-- In NMI context a run of `vmalloc_fault` for an address in range leaves the `in_nmi`
warning in the trace: it was there or the run has recorded it. -/
theorem vmalloc_fault_warned (env : Env) (address : Nat) (st : St)
    (hr : address ≥ env.VMALLOC_START ∧ address < env.VMALLOC_END) (hn : env.in_nmi = true) :
    Event.WARN .in_nmi ∈ (vmalloc_fault env address st).2.trace := by
  unfold vmalloc_fault
  simp only []
  rw [if_neg (not_not.mpr hr), if_pos hn]
  have h0 := St.emit_once_mem_trace st (.WARN .in_nmi)
  generalize st.emit_once (.WARN .in_nmi) = st0 at h0 ⊢
  split_ifs
  · exact h0
  · apply vmalloc_fault_lower_trace_mem
    simp [St.emit, St.store, h0]
  · simp [St.bug, St.emit, h0]
  · exact vmalloc_fault_lower_trace_mem env address _ _ st0 _ h0

/-- After a run of `vmalloc_fault` that returned 0, the state it leaves meets the conditions
of `vmalloc_fault_no_copy`. -/
theorem vmalloc_fault_handled_state (env : Env) (address : Nat) (st : St)
    (h : (vmalloc_fault env address st).1 = some 0) :
    (address ≥ env.VMALLOC_START ∧ address < env.VMALLOC_END) ∧
    env.pgd_none ((vmalloc_fault env address st).2.mem (pgd_offset_k env address)) = false ∧
    env.pgd_none ((vmalloc_fault env address st).2.mem (task_pgd env address)) = false ∧
    env.pgd_page_vaddr ((vmalloc_fault env address st).2.mem (task_pgd env address)) =
      env.pgd_page_vaddr ((vmalloc_fault env address st).2.mem (pgd_offset_k env address)) ∧
    (vmalloc_fault_lower env address (task_pgd env address) (pgd_offset_k env address)
      (vmalloc_fault env address st).2).1 = some 0 := by
  unfold vmalloc_fault at h ⊢
  simp only [] at h ⊢
  by_cases hr : address ≥ env.VMALLOC_START ∧ address < env.VMALLOC_END
  · rw [if_neg (not_not.mpr hr)] at h ⊢
    refine ⟨hr, ?_⟩
    generalize (if env.in_nmi = true then st.emit_once (.WARN .in_nmi) else st) = st0 at h ⊢
    by_cases h1 : env.pgd_none (st0.mem (pgd_offset_k env address)) = true
    · rw [if_pos h1] at h; simp at h
    · rw [if_neg h1] at h ⊢
      by_cases h2 : env.pgd_none (st0.mem (task_pgd env address)) = true
      · rw [if_pos h2] at h ⊢
        rw [vmalloc_fault_lower_snd_of_some env address _ _ _ 0 h]
        have hp : pgd_offset_k env address ≠ task_pgd env address := by
          intro hp; rw [hp] at h1; exact h1 h2
        refine ⟨?_, ?_, ?_, h⟩
        · simpa [St.emit, St.enter, St.store, hp] using h1
        · simpa [St.emit, St.enter, St.store, hp] using h1
        · simp [St.emit, St.enter, St.store, hp]
      · rw [if_neg h2] at h ⊢
        by_cases h3 : env.pgd_page_vaddr (st0.mem (task_pgd env address)) ≠
            env.pgd_page_vaddr (st0.mem (pgd_offset_k env address))
        · rw [if_pos h3] at h; simp at h
        · rw [if_neg h3] at h ⊢
          rw [vmalloc_fault_lower_snd_of_some env address _ _ _ 0 h]
          exact ⟨by simpa using h1, by simpa using h2, not_not.mp h3, h⟩
  · rw [if_pos hr] at h; simp at h

/-- C3: if `vmalloc_fault` returned 0 (Handled) for an address, running it again on the
state it left returns 0 again and leaves that state exactly as it is: page-table memory (task
and master tables) is unchanged and nothing is added to the trace, neither `set_pgd` nor a
lazy-MMU flush, nor the once-only `in_nmi` warning a second time. -/
theorem vmalloc_fault_twice (env : Env) (address : Nat) (st : St)
    (h : (vmalloc_fault env address st).1 = some 0) :
    vmalloc_fault env address (vmalloc_fault env address st).2 =
      (some 0, (vmalloc_fault env address st).2) ∧
    (vmalloc_fault env address (vmalloc_fault env address st).2).2.mem =
      (vmalloc_fault env address st).2.mem ∧
    (vmalloc_fault env address (vmalloc_fault env address st).2).2.trace =
      (vmalloc_fault env address st).2.trace ∧
    (vmalloc_fault env address (vmalloc_fault env address st).2).2.trace.filter
        Event.is_flush = (vmalloc_fault env address st).2.trace.filter Event.is_flush := by
  obtain ⟨hr, h1, h2, h3, h4⟩ := vmalloc_fault_handled_state env address st h
  have hw : env.in_nmi = true → Event.WARN .in_nmi ∈ (vmalloc_fault env address st).2.trace :=
    vmalloc_fault_warned env address st hr
  have key : vmalloc_fault env address (vmalloc_fault env address st).2 =
      (some 0, (vmalloc_fault env address st).2) := by
    rw [vmalloc_fault_no_copy env address _ hr h1 h2 h3 h4]
    by_cases hn : env.in_nmi = true
    · rw [if_pos hn, St.emit_once_of_mem _ _ (hw hn)]
    · rw [if_neg hn]
  rw [key]
  exact ⟨rfl, rfl, rfl, rfl⟩

/-- Witness for C3: scenario 1 run twice, in NMI context: the first run warns, copies the
entry and requests the flush; the second run adds nothing. -/
theorem vmalloc_fault_twice_witness :
    (vmalloc_fault env_nmi vaddr1 (St.init mem1 kernel_regs)).1 = some 0 ∧
    (vmalloc_fault env_nmi vaddr1 (St.init mem1 kernel_regs)).2.trace =
      [.WARN .in_nmi, .set_pgd (task_pgd env_nmi vaddr1) 0x3067, .arch_flush_lazy_mmu_mode] ∧
    (vmalloc_fault env_nmi vaddr1
        (vmalloc_fault env_nmi vaddr1 (St.init mem1 kernel_regs)).2 =
      (some 0, (vmalloc_fault env_nmi vaddr1 (St.init mem1 kernel_regs)).2) ∧
      (vmalloc_fault env_nmi vaddr1
          (vmalloc_fault env_nmi vaddr1 (St.init mem1 kernel_regs)).2).2.mem =
        (vmalloc_fault env_nmi vaddr1 (St.init mem1 kernel_regs)).2.mem ∧
      (vmalloc_fault env_nmi vaddr1
          (vmalloc_fault env_nmi vaddr1 (St.init mem1 kernel_regs)).2).2.trace =
        (vmalloc_fault env_nmi vaddr1 (St.init mem1 kernel_regs)).2.trace ∧
      (vmalloc_fault env_nmi vaddr1
          (vmalloc_fault env_nmi vaddr1 (St.init mem1 kernel_regs)).2).2.trace.filter
          Event.is_flush =
        (vmalloc_fault env_nmi vaddr1 (St.init mem1 kernel_regs)).2.trace.filter
          Event.is_flush) :=
  ⟨by decide, by decide, vmalloc_fault_twice env_nmi vaddr1 _ (by decide)⟩

/-- C5: for every address and every state of the page tables, when the cause is neither
exactly {WRITE, PRESENT} nor exactly {INSTR, PRESENT} (in particular when it contains USER,
RESERVED or PKEY, or lacks PRESENT), `spurious_fault` returns 0 and leaves the state as it
was; the result is the same whatever the page-table memory holds, so no table is walked. -/
theorem spurious_fault_other_cause (env : Env) (error_code address : Nat) (st : St)
    (h : (error_code ≠ (PF_WRITE ||| PF_PROT) ∧ error_code ≠ (PF_INSTR ||| PF_PROT)) ∨
      error_code &&& PF_USER ≠ 0 ∨ error_code &&& PF_RSVD ≠ 0 ∨ error_code &&& PF_PK ≠ 0 ∨
      error_code &&& PF_PROT = 0) :
    spurious_fault env error_code address st = (0, st) ∧
      ∀ mem : Nat → Nat, spurious_fault env error_code address { st with mem := mem } =
        (0, { st with mem := mem }) := by
  have hne : error_code ≠ (PF_WRITE ||| PF_PROT) ∧ error_code ≠ (PF_INSTR ||| PF_PROT) := by
    rcases h with h | h | h | h | h
    · exact h
    all_goals
      constructor <;> intro he <;> rw [he] at h <;> revert h <;> decide
  have key : ∀ s : St, spurious_fault env error_code address s = (0, s) := by
    intro s
    unfold spurious_fault
    rw [if_pos hne]
  exact ⟨key st, fun mem => key _⟩

/-- Witness for C5: a kernel-mode write to a page that is not present (cause {WRITE}). -/
theorem spurious_fault_other_cause_witness :
    ((PF_WRITE ≠ (PF_WRITE ||| PF_PROT) ∧ PF_WRITE ≠ (PF_INSTR ||| PF_PROT)) ∨
      PF_WRITE &&& PF_USER ≠ 0 ∨ PF_WRITE &&& PF_RSVD ≠ 0 ∨ PF_WRITE &&& PF_PK ≠ 0 ∨
      PF_WRITE &&& PF_PROT = 0) ∧
    (spurious_fault env0 PF_WRITE vaddr2 (St.init mem3 kernel_regs) =
        (0, St.init mem3 kernel_regs) ∧
      ∀ mem : Nat → Nat,
        spurious_fault env0 PF_WRITE vaddr2 { St.init mem3 kernel_regs with mem := mem } =
          (0, { St.init mem3 kernel_regs with mem := mem })) :=
  ⟨by decide, spurious_fault_other_cause env0 PF_WRITE vaddr2 _ (by decide)⟩

theorem spurious_fault_check_ne_zero_iff (env : Env) (error_code entry : Nat) :
    spurious_fault_check env error_code entry ≠ 0 ↔ permits env error_code entry := by
  unfold spurious_fault_check permits
  split_ifs <;> simp_all

/-- C6 as stated fails: for cause {WRITE, PRESENT} at `vaddr2` with the master path present
at every level, `spurious_fault` reports spurious (returns 1) although the top-level entry
does not permit the write. -/
theorem spurious_fault_ignores_top_level :
    master_path_present env0 mem2 vaddr2 ∧
    (spurious_fault env0 (PF_WRITE ||| PF_PROT) vaddr2 (St.init mem2 kernel_regs)).1 = 1 ∧
    ¬ every_level_permits env0 (PF_WRITE ||| PF_PROT) mem2 vaddr2 := by
  decide

/-- C6 amended: for a cause that is exactly {WRITE, PRESENT} or exactly {INSTR, PRESENT}
and an address whose master-table path is present at every level, `spurious_fault` reports
spurious if and only if the upper-level entry permits the access when it is a large page,
else the middle-level entry permits it when that is a large page, else both the middle-level
and the leaf entry permit it; the top-level entry is not consulted, nor the upper-level
entry unless it is a large page. -/
theorem spurious_fault_iff (env : Env) (error_code address : Nat) (st : St)
    (hc : error_code = (PF_WRITE ||| PF_PROT) ∨ error_code = (PF_INSTR ||| PF_PROT))
    (hp : master_path_present env st.mem address) :
    (spurious_fault env error_code address st).1 ≠ 0 ↔
      if env.pud_large (st.mem (master_pud env st.mem address)) then
        permits env error_code (st.mem (master_pud env st.mem address))
      else if env.pmd_large (st.mem (master_pmd env st.mem address)) then
        permits env error_code (st.mem (master_pmd env st.mem address))
      else
        permits env error_code (st.mem (master_pmd env st.mem address)) ∧
          permits env error_code (st.mem (master_pte env st.mem address)) := by
  obtain ⟨h1, h2, h3, h4⟩ := hp
  have hne : ¬(error_code ≠ (PF_WRITE ||| PF_PROT) ∧ error_code ≠ (PF_INSTR ||| PF_PROT)) := by
    rcases hc with hc | hc <;> simp [hc]
  unfold spurious_fault
  rw [if_neg hne]
  simp only [master_pud, master_pmd, master_pte, pgd_offset_k] at h1 h2 h3 h4 ⊢
  simp only [h1, h2, h3, h4, Bool.not_true, Bool.false_eq_true, if_false]
  by_cases hl : env.pud_large (st.mem (pud_offset env st.mem
      (env.init_mm_pgd + sizeof_long * env.pgd_index address) address)) = true
  · simp only [hl, if_true]
    exact spurious_fault_check_ne_zero_iff env _ _
  · simp only [hl, if_false]
    by_cases hm : env.pmd_large (st.mem (pmd_offset env st.mem (pud_offset env st.mem
        (env.init_mm_pgd + sizeof_long * env.pgd_index address) address) address)) = true
    · simp only [hm, if_true]
      exact spurious_fault_check_ne_zero_iff env _ _
    · simp only [hm, if_false]
      have e1 := spurious_fault_check_ne_zero_iff env error_code (st.mem (pmd_offset env st.mem
        (pud_offset env st.mem (env.init_mm_pgd + sizeof_long * env.pgd_index address) address)
        address))
      have e2 := spurious_fault_check_ne_zero_iff env error_code (st.mem (pte_offset_kernel env
        st.mem (pmd_offset env st.mem (pud_offset env st.mem
          (env.init_mm_pgd + sizeof_long * env.pgd_index address) address) address) address))
      rw [← e1, ← e2]
      split_ifs with h5 h6 <;> simp_all

/-- Witness for C6 amended: scenario 2, a write to `vaddr2` after the leaf became writable. -/
theorem spurious_fault_iff_witness :
    ((PF_WRITE ||| PF_PROT) = (PF_WRITE ||| PF_PROT) ∨
      (PF_WRITE ||| PF_PROT) = (PF_INSTR ||| PF_PROT)) ∧
    master_path_present env0 (St.init mem3 kernel_regs).mem vaddr2 ∧
    (spurious_fault env0 (PF_WRITE ||| PF_PROT) vaddr2 (St.init mem3 kernel_regs)).1 = 1 ∧
    ((spurious_fault env0 (PF_WRITE ||| PF_PROT) vaddr2 (St.init mem3 kernel_regs)).1 ≠ 0 ↔
      if env0.pud_large ((St.init mem3 kernel_regs).mem
          (master_pud env0 (St.init mem3 kernel_regs).mem vaddr2)) then
        permits env0 (PF_WRITE ||| PF_PROT) ((St.init mem3 kernel_regs).mem
          (master_pud env0 (St.init mem3 kernel_regs).mem vaddr2))
      else if env0.pmd_large ((St.init mem3 kernel_regs).mem
          (master_pmd env0 (St.init mem3 kernel_regs).mem vaddr2)) then
        permits env0 (PF_WRITE ||| PF_PROT) ((St.init mem3 kernel_regs).mem
          (master_pmd env0 (St.init mem3 kernel_regs).mem vaddr2))
      else
        permits env0 (PF_WRITE ||| PF_PROT) ((St.init mem3 kernel_regs).mem
            (master_pmd env0 (St.init mem3 kernel_regs).mem vaddr2)) ∧
          permits env0 (PF_WRITE ||| PF_PROT) ((St.init mem3 kernel_regs).mem
            (master_pte env0 (St.init mem3 kernel_regs).mem vaddr2))) :=
  ⟨by decide, by decide, by decide,
    spurious_fault_iff env0 (PF_WRITE ||| PF_PROT) vaddr2 _ (by decide) (by decide)⟩

/-- C7: for every cause without PKEY and every region that passes the architectural key
check, `access_error` denies the access (returns 1, else 0) if and only if WRITE is in the
cause and the region lacks WRITE, or WRITE is not in the cause and PRESENT is in the cause
or the region has none of READ, EXEC, WRITE.  In particular a write to a writable region is
permitted whatever the PRESENT bit, and two causes that agree on WRITE and PRESENT (they may
differ in INSTR) get the same decision. -/
theorem access_error_iff (env : Env) (error_code : Nat) (vma : Vma)
    (hpk : error_code &&& PF_PK = 0)
    (hkey : env.arch_vma_access_permitted vma (error_code &&& PF_WRITE != 0)
      (error_code &&& PF_INSTR != 0) false = true) :
    (access_error env error_code vma = 1 ∨ access_error env error_code vma = 0) ∧
    (access_error env error_code vma ≠ 0 ↔
      (error_code &&& PF_WRITE ≠ 0 ∧ vma.vm_flags &&& VM_WRITE = 0) ∨
      (error_code &&& PF_WRITE = 0 ∧
        (error_code &&& PF_PROT ≠ 0 ∨ vma.vm_flags &&& (VM_READ ||| VM_EXEC ||| VM_WRITE) = 0))) ∧
    (error_code &&& PF_WRITE ≠ 0 → vma.vm_flags &&& VM_WRITE ≠ 0 →
      access_error env error_code vma = 0) ∧
    (∀ error_code' : Nat, error_code' &&& PF_PK = 0 →
      env.arch_vma_access_permitted vma (error_code' &&& PF_WRITE != 0)
        (error_code' &&& PF_INSTR != 0) false = true →
      (error_code' &&& PF_WRITE ≠ 0 ↔ error_code &&& PF_WRITE ≠ 0) →
      (error_code' &&& PF_PROT ≠ 0 ↔ error_code &&& PF_PROT ≠ 0) →
      access_error env error_code' vma = access_error env error_code vma) := by
  refine ⟨?_, ?_, ?_, ?_⟩
  · unfold access_error
    split_ifs <;> simp
  · unfold access_error
    simp only [hpk, hkey]
    split_ifs <;> simp_all
  · intro hw hv
    unfold access_error
    simp only [hpk, hkey]
    split_ifs <;> simp_all
  · intro ec' hpk' hkey' hw hp
    unfold access_error
    simp only [hpk, hkey, hpk', hkey']
    split_ifs <;> simp_all

/-- Witness for C7: a user write, page not present, to a read-write region. -/
theorem access_error_iff_witness :
    (PF_USER ||| PF_WRITE) &&& PF_PK = 0 ∧
    access_error env0 (PF_USER ||| PF_WRITE)
      vma_data = 0 ∧
    ((access_error env0 (PF_USER ||| PF_WRITE)
          vma_data = 1 ∨
        access_error env0 (PF_USER ||| PF_WRITE)
          vma_data = 0) ∧
      (access_error env0 (PF_USER ||| PF_WRITE)
          vma_data ≠ 0 ↔
        ((PF_USER ||| PF_WRITE) &&& PF_WRITE ≠ 0 ∧ vma_data.vm_flags &&& VM_WRITE = 0) ∨
        ((PF_USER ||| PF_WRITE) &&& PF_WRITE = 0 ∧
          ((PF_USER ||| PF_WRITE) &&& PF_PROT ≠ 0 ∨
            vma_data.vm_flags &&& (VM_READ ||| VM_EXEC ||| VM_WRITE) = 0))) ∧
      ((PF_USER ||| PF_WRITE) &&& PF_WRITE ≠ 0 → vma_data.vm_flags &&& VM_WRITE ≠ 0 →
        access_error env0 (PF_USER ||| PF_WRITE)
          vma_data = 0) ∧
      (∀ error_code' : Nat, error_code' &&& PF_PK = 0 →
        env0.arch_vma_access_permitted
          vma_data
          (error_code' &&& PF_WRITE != 0) (error_code' &&& PF_INSTR != 0) false = true →
        (error_code' &&& PF_WRITE ≠ 0 ↔ (PF_USER ||| PF_WRITE) &&& PF_WRITE ≠ 0) →
        (error_code' &&& PF_PROT ≠ 0 ↔ (PF_USER ||| PF_WRITE) &&& PF_PROT ≠ 0) →
        access_error env0 error_code'
            vma_data =
          access_error env0 (PF_USER ||| PF_WRITE)
            vma_data)) :=
  ⟨by decide, by decide,
    access_error_iff env0 (PF_USER ||| PF_WRITE)
      vma_data
      (by decide) (by decide)⟩

/-! ### What the failure reporter adds to the trace -/

theorem force_sig_info_fault_filter (p : Event → Bool)
    (hp : ∀ e, e.is_report = true → p e = false) (env : Env)
    (si_signo si_code address : Nat) (vma : Option Vma) (fault : Nat) (st : St) :
    (force_sig_info_fault env si_signo si_code address vma fault st).trace.filter p =
      st.trace.filter p := by
  unfold force_sig_info_fault fill_sig_info_pkey St.emit_once
  cases vma <;> simp only [] <;> split_ifs <;>
    simp [St.emit, St.enter, List.filter_append, hp, Event.is_report]

theorem dump_pagetable_filter (p : Event → Bool)
    (hp : ∀ e, e.is_report = true → p e = false) (env : Env) (address : Nat) (st : St) :
    (dump_pagetable env address st).trace.filter p = st.trace.filter p := by
  have he : ∀ (s : St) (m : Msg), (s.emit (.printk m)).trace.filter p = s.trace.filter p := by
    intro s m
    simp [St.emit, St.enter, List.filter_append, hp, Event.is_report]
  unfold dump_pagetable
  simp only [apply_ite St.trace, apply_ite (List.filter p), he, ite_self]

theorem force_sig_info_fault_frame (env : Env) (si_signo si_code address : Nat)
    (vma : Option Vma) (fault : Nat) (st : St) :
    (force_sig_info_fault env si_signo si_code address vma fault st).mmap_sem = st.mmap_sem ∧
    (force_sig_info_fault env si_signo si_code address vma fault st).mem = st.mem := by
  unfold force_sig_info_fault fill_sig_info_pkey St.emit_once
  cases vma <;> simp only [] <;> split_ifs <;> simp [St.emit, St.enter]

theorem dump_pagetable_frame (env : Env) (address : Nat) (st : St) :
    (dump_pagetable env address st).mmap_sem = st.mmap_sem ∧
    (dump_pagetable env address st).mem = st.mem := by
  unfold dump_pagetable
  simp only [apply_ite St.mmap_sem, apply_ite St.mem, St.emit, St.enter, ite_self, and_self]

theorem show_fault_oops_filter (p : Event → Bool)
    (hp : ∀ e, e.is_report = true → p e = false) (env : Env) (error_code address : Nat)
    (st : St) :
    (show_fault_oops env error_code address st).trace.filter p = st.trace.filter p := by
  unfold show_fault_oops
  simp only []
  repeat' split
  all_goals simp [dump_pagetable_filter p hp, St.emit, St.enter, List.filter_append, hp, Event.is_report]

theorem show_fault_oops_frame (env : Env) (error_code address : Nat) (st : St) :
    (show_fault_oops env error_code address st).mmap_sem = st.mmap_sem ∧
    (show_fault_oops env error_code address st).mem = st.mem := by
  unfold show_fault_oops
  simp only []
  repeat' split
  all_goals simp [dump_pagetable_frame, St.emit, St.enter]

theorem oops_end_filter (p : Event → Bool) (hp : ∀ e, e.is_report = true → p e = false)
    (sig : Nat) (st : St) : (oops_end sig st).trace.filter p = st.trace.filter p := by
  unfold oops_end
  simp only []
  repeat' split
  all_goals simp [St.emit, St.enter, List.filter_append, hp, Event.is_report]

theorem oops_end_frame (sig : Nat) (st : St) :
    (oops_end sig st).mmap_sem = st.mmap_sem ∧ (oops_end sig st).mem = st.mem := by
  unfold oops_end
  simp only []
  repeat' split
  all_goals simp [St.emit, St.enter]

theorem pgtable_bad_filter (p : Event → Bool) (hp : ∀ e, e.is_report = true → p e = false)
    (env : Env) (error_code address : Nat) (st : St) :
    (pgtable_bad env error_code address st).trace.filter p = st.trace.filter p := by
  unfold pgtable_bad
  simp [oops_end_filter p hp, dump_pagetable_filter p hp, St.emit, St.enter, St.set_thread,
    List.filter_append, hp, Event.is_report]

theorem pgtable_bad_frame (env : Env) (error_code address : Nat) (st : St) :
    (pgtable_bad env error_code address st).mmap_sem = st.mmap_sem ∧
    (pgtable_bad env error_code address st).mem = st.mem := by
  unfold pgtable_bad
  simp [oops_end_frame, dump_pagetable_frame, St.emit, St.enter, St.set_thread]

theorem is_errata93_filter (p : Event → Bool) (hp : ∀ e, e.is_report = true → p e = false)
    (env : Env) (address : Nat) (st : St) :
    (is_errata93 env address st).2.trace.filter p = st.trace.filter p := by
  unfold is_errata93 St.emit_once
  simp only []
  repeat' split
  all_goals simp [St.emit, St.enter, List.filter_append, hp, Event.is_report]

theorem is_errata93_frame (env : Env) (address : Nat) (st : St) :
    (is_errata93 env address st).2.mmap_sem = st.mmap_sem ∧
    (is_errata93 env address st).2.mem = st.mem := by
  unfold is_errata93 St.emit_once
  simp only []
  repeat' split
  all_goals simp [St.emit, St.enter]

theorem no_context_filter (p : Event → Bool) (hp : ∀ e, e.is_report = true → p e = false)
    (env : Env) (error_code address signal si_code : Nat) (st : St) :
    (no_context env error_code address signal si_code st).trace.filter p =
      st.trace.filter p := by
  unfold no_context
  simp only []
  repeat' split
  all_goals simp [oops_end_filter p hp, show_fault_oops_filter p hp, is_errata93_filter p hp,
    force_sig_info_fault_filter p hp, St.emit, St.enter, St.set_thread, List.filter_append, hp,
    Event.is_report]

theorem no_context_frame (env : Env) (error_code address signal si_code : Nat) (st : St) :
    (no_context env error_code address signal si_code st).mmap_sem = st.mmap_sem ∧
    (no_context env error_code address signal si_code st).mem = st.mem := by
  unfold no_context
  simp only []
  repeat' split
  all_goals simp [oops_end_frame, show_fault_oops_frame, is_errata93_frame,
    force_sig_info_fault_frame, St.emit, St.enter, St.set_thread]

theorem show_signal_msg_filter (p : Event → Bool) (hp : ∀ e, e.is_report = true → p e = false)
    (env : Env) (error_code address : Nat) (st : St) :
    (show_signal_msg env error_code address st).trace.filter p = st.trace.filter p := by
  unfold show_signal_msg
  simp only []
  repeat' split
  all_goals simp [St.emit, St.enter, List.filter_append, hp, Event.is_report]

theorem show_signal_msg_frame (env : Env) (error_code address : Nat) (st : St) :
    (show_signal_msg env error_code address st).mmap_sem = st.mmap_sem ∧
    (show_signal_msg env error_code address st).mem = st.mem := by
  unfold show_signal_msg
  simp only []
  repeat' split
  all_goals simp [St.emit, St.enter]

theorem is_f00f_bug_filter (p : Event → Bool) (hp : ∀ e, e.is_report = true → p e = false)
    (env : Env) (address : Nat) (st : St) :
    (is_f00f_bug env address st).2.trace.filter p = st.trace.filter p := by
  unfold is_f00f_bug
  split <;> simp [St.emit, St.enter, List.filter_append, hp, Event.is_report]

theorem is_f00f_bug_frame (env : Env) (address : Nat) (st : St) :
    (is_f00f_bug env address st).2.mmap_sem = st.mmap_sem ∧
    (is_f00f_bug env address st).2.mem = st.mem := by
  unfold is_f00f_bug
  split <;> simp [St.emit, St.enter]

theorem __bad_area_nosemaphore_filter (p : Event → Bool)
    (hp : ∀ e, e.is_report = true → p e = false) (env : Env) (error_code address : Nat)
    (vma : Option Vma) (si_code : Nat) (st : St) :
    (__bad_area_nosemaphore env error_code address vma si_code st).trace.filter p =
      st.trace.filter p := by
  unfold __bad_area_nosemaphore
  simp only []
  repeat' split
  all_goals simp [no_context_filter p hp, is_f00f_bug_filter p hp,
    force_sig_info_fault_filter p hp, show_signal_msg_filter p hp, St.emit, St.enter, St.set_thread,
    List.filter_append, hp, Event.is_report]

theorem __bad_area_nosemaphore_frame (env : Env) (error_code address : Nat)
    (vma : Option Vma) (si_code : Nat) (st : St) :
    (__bad_area_nosemaphore env error_code address vma si_code st).mmap_sem = st.mmap_sem ∧
    (__bad_area_nosemaphore env error_code address vma si_code st).mem = st.mem := by
  unfold __bad_area_nosemaphore
  simp only []
  repeat' split
  all_goals simp [no_context_frame, is_f00f_bug_frame, force_sig_info_fault_frame,
    show_signal_msg_frame, St.emit, St.enter, St.set_thread]

theorem do_sigbus_filter (p : Event → Bool) (hp : ∀ e, e.is_report = true → p e = false)
    (env : Env) (error_code address : Nat) (vma : Option Vma) (fault : Nat) (st : St) :
    (do_sigbus env error_code address vma fault st).trace.filter p = st.trace.filter p := by
  unfold do_sigbus
  simp only []
  repeat' split
  all_goals simp [no_context_filter p hp, force_sig_info_fault_filter p hp, St.emit, St.enter,
    St.set_thread, List.filter_append, hp, Event.is_report]

theorem do_sigbus_frame (env : Env) (error_code address : Nat) (vma : Option Vma)
    (fault : Nat) (st : St) :
    (do_sigbus env error_code address vma fault st).mmap_sem = st.mmap_sem ∧
    (do_sigbus env error_code address vma fault st).mem = st.mem := by
  unfold do_sigbus
  simp only []
  repeat' split
  all_goals simp [no_context_frame, force_sig_info_fault_frame, St.emit, St.enter, St.set_thread]

theorem mm_fault_error_filter (p : Event → Bool) (hp : ∀ e, e.is_report = true → p e = false)
    (env : Env) (pass error_code address : Nat) (vma : Option Vma) (fault : Nat) (st : St) :
    (mm_fault_error env pass error_code address vma fault st).trace.filter p =
      st.trace.filter p := by
  unfold mm_fault_error bad_area_nosemaphore
  repeat' split
  all_goals simp [no_context_filter p hp, do_sigbus_filter p hp,
    __bad_area_nosemaphore_filter p hp, St.emit, St.enter, St.bug, List.filter_append, hp,
    Event.is_report]

theorem mm_fault_error_frame (env : Env) (pass error_code address : Nat) (vma : Option Vma)
    (fault : Nat) (st : St) :
    (mm_fault_error env pass error_code address vma fault st).mmap_sem = st.mmap_sem ∧
    (mm_fault_error env pass error_code address vma fault st).mem = st.mem := by
  unfold mm_fault_error bad_area_nosemaphore
  repeat' split
  all_goals simp [no_context_frame, do_sigbus_frame, __bad_area_nosemaphore_frame, St.emit, St.enter,
    St.bug]

theorem retry_exit_filter (p : Event → Bool) (hp : ∀ e, e.is_report = true → p e = false)
    (env : Env) (error_code address flags : Nat) (st : St) :
    (retry_exit env error_code address flags st).trace.filter p = st.trace.filter p := by
  unfold retry_exit
  split <;> simp [no_context_filter p hp]

theorem retry_exit_frame (env : Env) (error_code address flags : Nat) (st : St) :
    (retry_exit env error_code address flags st).mmap_sem = st.mmap_sem ∧
    (retry_exit env error_code address flags st).mem = st.mem := by
  unfold retry_exit
  split <;> simp [no_context_frame]

theorem __bad_area_filter (p : Event → Bool) (hp : ∀ e, e.is_report = true → p e = false)
    (hup : p .up_read = false) (env : Env) (error_code address : Nat) (vma : Option Vma)
    (si_code : Nat) (st : St) :
    (__bad_area env error_code address vma si_code st).trace.filter p = st.trace.filter p := by
  unfold __bad_area
  simp [__bad_area_nosemaphore_filter p hp, St.up_read, St.emit, St.enter, List.filter_append, hup]

theorem __bad_area_frame (env : Env) (error_code address : Nat) (vma : Option Vma)
    (si_code : Nat) (st : St) :
    (__bad_area env error_code address vma si_code st).mmap_sem = st.mmap_sem - 1 ∧
    (__bad_area env error_code address vma si_code st).mem = st.mem := by
  unfold __bad_area
  simp [__bad_area_nosemaphore_frame, St.up_read, St.emit, St.enter]

theorem bad_area_access_error_filter (p : Event → Bool)
    (hp : ∀ e, e.is_report = true → p e = false) (hup : p .up_read = false) (env : Env)
    (error_code address : Nat) (vma : Vma) (st : St) :
    (bad_area_access_error env error_code address vma st).trace.filter p =
      st.trace.filter p := by
  unfold bad_area_access_error
  split <;> simp [__bad_area_filter p hp hup]

theorem bad_area_access_error_frame (env : Env) (error_code address : Nat) (vma : Vma)
    (st : St) :
    (bad_area_access_error env error_code address vma st).mmap_sem = st.mmap_sem - 1 ∧
    (bad_area_access_error env error_code address vma st).mem = st.mem := by
  unfold bad_area_access_error
  split <;> simp [__bad_area_frame]

/-! ### The retry loop -/

theorem retry_flags_clear (flags : Nat) :
    ((flags &&& not32 FAULT_FLAG_ALLOW_RETRY) ||| FAULT_FLAG_TRIED) &&&
      FAULT_FLAG_ALLOW_RETRY = 0 := by
  have h1 : (not32 FAULT_FLAG_ALLOW_RETRY).testBit 2 = false := by decide
  have h2 : FAULT_FLAG_TRIED.testBit 2 = false := by decide
  have h4 : FAULT_FLAG_ALLOW_RETRY = 2 ^ 2 := by decide
  have h3 : ((flags &&& not32 FAULT_FLAG_ALLOW_RETRY) ||| FAULT_FLAG_TRIED).testBit 2 =
      false := by
    rw [Nat.testBit_lor, Nat.testBit_land, h1, h2]; simp
  generalize (flags &&& not32 FAULT_FLAG_ALLOW_RETRY) ||| FAULT_FLAG_TRIED = x at h3 ⊢
  rw [h4, Nat.and_two_pow, h3]; rfl

theorem region_op_of_report (p : Event → Bool) (hq : ∀ e, e.is_region_op = false → p e = false) :
    ∀ e, e.is_report = true → p e = false := by
  intro e he
  apply hq
  cases e <;> first | rfl | simp [Event.is_report] at he

/-- What `good_area` adds to the trace, seen through a filter `p` that keeps only calls on
the address-space map. -/
theorem good_area_region_ops (p : Event → Bool)
    (hq : ∀ e, e.is_region_op = false → p e = false) (env : Env)
    (pass error_code address flags major : Nat) (vma : Vma) (st : St) :
    ∃ l2 : List Event,
      (l2 = [] ∨ l2 = [.handle_mm_fault vma address flags
        (env.handle_mm_fault pass vma address flags)]) ∧
      (good_area env pass error_code address flags major vma st).st.trace.filter p =
        st.trace.filter p ++ l2.filter p ∧
      ∀ flags' major' st', good_area env pass error_code address flags major vma st =
          .again flags' major' st' →
        l2 = [.handle_mm_fault vma address flags (env.handle_mm_fault pass vma address flags)] ∧
        env.handle_mm_fault pass vma address flags &&& VM_FAULT_RETRY ≠ 0 ∧
        flags &&& FAULT_FLAG_ALLOW_RETRY ≠ 0 ∧ env.fatal_signal_pending pass = false ∧
        flags' = (flags &&& not32 FAULT_FLAG_ALLOW_RETRY) ||| FAULT_FLAG_TRIED := by
  have hp := region_op_of_report p hq
  have hup : p .up_read = false := hq _ rfl
  have hperf : ∀ e, p (.perf_sw_event e) = false := fun e => hq _ rfl
  unfold good_area
  by_cases ha : access_error env error_code vma ≠ 0
  · rw [if_pos ha]
    refine ⟨[], Or.inl rfl, ?_, ?_⟩
    · simp [Pass.st, bad_area_access_error_filter p hp hup]
    · intro _ _ _ h; simp at h
  · rw [if_neg ha]
    refine ⟨[.handle_mm_fault vma address flags (env.handle_mm_fault pass vma address flags)],
      Or.inr rfl, ?_, ?_⟩
    · simp only []
      repeat' split
      all_goals simp [Pass.st, retry_exit_filter p hp, mm_fault_error_filter p hp, St.up_read,
        St.emit, St.enter, List.filter_append, List.filter_cons, hup, hperf]
    · intro flags' major' st'
      simp only []
      repeat' split
      all_goals simp_all

/-- What one pass adds to the trace, seen through a filter `p` that keeps only calls on
the address-space map: at most the lookup, one stack expansion and one populator call, and a
jump back to `retry` happens only after a populator call that answered `VM_FAULT_RETRY`
while `FAULT_FLAG_ALLOW_RETRY` was set and no fatal signal was pending. -/
theorem fault_pass_region_ops (p : Event → Bool)
    (hq : ∀ e, e.is_region_op = false → p e = false) (env : Env)
    (pass error_code address flags major : Nat) (st : St) :
    (∃ vma : Vma, ∃ l1 l2 : List Event,
      (l1 = [] ∨ l1 = [.expand_stack vma address]) ∧
      (l2 = [] ∨ l2 = [.handle_mm_fault vma address flags
        (env.handle_mm_fault pass vma address flags)]) ∧
      (fault_pass env pass error_code address flags major st).st.trace.filter p =
        st.trace.filter p ++ ([Event.find_vma address] ++ l1 ++ l2).filter p ∧
      ∀ flags' major' st', fault_pass env pass error_code address flags major st =
          .again flags' major' st' →
        l2 = [.handle_mm_fault vma address flags (env.handle_mm_fault pass vma address flags)] ∧
        env.handle_mm_fault pass vma address flags &&& VM_FAULT_RETRY ≠ 0 ∧
        flags &&& FAULT_FLAG_ALLOW_RETRY ≠ 0 ∧ env.fatal_signal_pending pass = false ∧
        flags' = (flags &&& not32 FAULT_FLAG_ALLOW_RETRY) ||| FAULT_FLAG_TRIED) := by
  have hp := region_op_of_report p hq
  have hup : p .up_read = false := hq _ rfl
  unfold fault_pass
  simp only []
  cases hv : env.find_vma pass address with
  | none =>
    refine ⟨⟨0, 0, 0⟩, [], [], Or.inl rfl, Or.inl rfl, ?_, ?_⟩
    · simp [Pass.st, bad_area, __bad_area_filter p hp hup, St.emit, St.enter, List.filter_append]
    · intro _ _ _ h; simp at h
  | some vma =>
    simp only []
    by_cases h1 : vma.vm_start ≤ address
    · rw [if_pos h1]
      obtain ⟨l2, hl2, ht, hag⟩ := good_area_region_ops p hq env pass error_code address flags
        major vma (st.emit (.find_vma address))
      refine ⟨vma, [], l2, Or.inl rfl, hl2, ?_, hag⟩
      rw [ht]
      simp only [St.emit, St.enter, List.filter_append, List.append_assoc, List.nil_append]
    · rw [if_neg h1]
      by_cases h2 : vma.vm_flags &&& VM_GROWSDOWN = 0
      · rw [if_pos h2]
        refine ⟨vma, [], [], Or.inl rfl, Or.inl rfl, ?_, ?_⟩
        · simp [Pass.st, bad_area, __bad_area_filter p hp hup, St.emit, St.enter, List.filter_append]
        · intro _ _ _ h; simp at h
      · rw [if_neg h2]
        by_cases h3 : error_code &&& PF_USER ≠ 0 ∧
            (address + 65536 + 32 * sizeof_long) % 2 ^ 64 < (st.emit (.find_vma address)).regs.sp
        · rw [if_pos h3]
          refine ⟨vma, [], [], Or.inl rfl, Or.inl rfl, ?_, ?_⟩
          · simp [Pass.st, bad_area, __bad_area_filter p hp hup, St.emit, St.enter, List.filter_append]
          · intro _ _ _ h; simp at h
        · rw [if_neg h3]
          by_cases h4 : env.expand_stack pass vma address ≠ 0
          · rw [if_pos h4]
            refine ⟨vma, [.expand_stack vma address], [], Or.inr rfl, Or.inl rfl, ?_, ?_⟩
            · simp [Pass.st, bad_area, __bad_area_filter p hp hup, St.emit, St.enter, List.filter_append]
            · intro _ _ _ h; simp at h
          · rw [if_neg h4]
            obtain ⟨l2, hl2, ht, hag⟩ := good_area_region_ops p hq env pass error_code address
              flags major vma ((st.emit (.find_vma address)).emit (.expand_stack vma address))
            refine ⟨vma, [.expand_stack vma address], l2, Or.inr rfl, hl2, ?_, hag⟩
            rw [ht]
            simp only [St.emit, St.enter, List.filter_append, List.append_assoc, List.nil_append]

theorem vmalloc_fault_lower_filter (p : Event → Bool)
    (hq : ∀ e, e.is_region_op = false → p e = false) (env : Env) (address pgd pgd_ref : Nat)
    (st : St) :
    (vmalloc_fault_lower env address pgd pgd_ref st).2.trace.filter p = st.trace.filter p := by
  have hbug : p .BUG = false := hq _ rfl
  have hb : (st.bug).trace.filter p = st.trace.filter p := by
    simp [St.bug, St.emit, St.enter, List.filter_append, hbug]
  unfold vmalloc_fault_lower
  simp only [apply_ite Prod.snd, apply_ite St.trace, apply_ite (List.filter p), hb, ite_self]

theorem vmalloc_fault_filter (p : Event → Bool)
    (hq : ∀ e, e.is_region_op = false → p e = false) (env : Env) (address : Nat) (st : St) :
    (vmalloc_fault env address st).2.trace.filter p = st.trace.filter p := by
  have hbug : p .BUG = false := hq _ rfl
  have hwarn : ∀ w, p (.WARN w) = false := fun w => hq _ rfl
  have hset : ∀ a v, p (.set_pgd a v) = false := fun a v => hq _ rfl
  have hfl : p .arch_flush_lazy_mmu_mode = false := hq _ rfl
  unfold vmalloc_fault St.emit_once
  simp only []
  repeat' split
  all_goals simp [vmalloc_fault_lower_filter p hq, St.bug, St.emit, St.enter, St.store,
    List.filter_append, hbug, hwarn, hset, hfl]

theorem spurious_fault_filter (p : Event → Bool)
    (hq : ∀ e, e.is_region_op = false → p e = false) (env : Env) (error_code address : Nat)
    (st : St) :
    (spurious_fault env error_code address st).2.trace.filter p = st.trace.filter p := by
  have hw : ∀ (s : St) (w : Warning),
      (s.emit_once (.WARN w)).trace.filter p = s.trace.filter p :=
    fun s w => St.emit_once_filter p s _ (hq _ rfl)
  unfold spurious_fault
  simp only [apply_ite Prod.snd, apply_ite St.trace, apply_ite (List.filter p), hw, ite_self]

theorem kernel_fault_tail_filter (p : Event → Bool)
    (hq : ∀ e, e.is_region_op = false → p e = false) (env : Env) (error_code address : Nat)
    (st : St) :
    (kernel_fault_tail env error_code address st).trace.filter p = st.trace.filter p := by
  have hp := region_op_of_report p hq
  unfold kernel_fault_tail bad_area_nosemaphore
  simp only []
  repeat' split
  all_goals simp [spurious_fault_filter p hq, __bad_area_nosemaphore_filter p hp]

theorem kernel_fault_filter (p : Event → Bool)
    (hq : ∀ e, e.is_region_op = false → p e = false) (env : Env) (error_code address : Nat)
    (st : St) :
    (kernel_fault env error_code address st).trace.filter p = st.trace.filter p := by
  unfold kernel_fault
  simp only []
  repeat' split
  all_goals simp [kernel_fault_tail_filter p hq, vmalloc_fault_filter p hq]

theorem mode_adjust_filter (p : Event → Bool)
    (hq : ∀ e, e.is_region_op = false → p e = false) (env : Env) (error_code flags : Nat)
    (st : St) :
    (mode_adjust env error_code flags st).1.trace.filter p = st.trace.filter p := by
  have h1 : p .local_irq_enable = false := hq _ rfl
  unfold mode_adjust
  repeat' split
  all_goals simp [St.emit, St.enter, List.filter_append, h1]

theorem lock_mm_filter (p : Event → Bool)
    (hq : ∀ e, e.is_region_op = false → p e = false) (env : Env)
    (error_code address flags : Nat) (st : St) :
    (lock_mm env error_code address flags st).st.trace.filter p = st.trace.filter p := by
  have hp := region_op_of_report p hq
  have h3 : ∀ b, p (.down_read_trylock b) = false := fun b => hq _ rfl
  have h4 : p .down_read = false := hq _ rfl
  have h5 : p .might_sleep = false := hq _ rfl
  unfold lock_mm bad_area_nosemaphore
  simp only []
  repeat' split
  all_goals simp [Entry.st, __bad_area_nosemaphore_filter p hp, St.emit, St.enter, St.down_read,
    List.filter_append, h3, h4, h5]

theorem user_fault_entry_filter (p : Event → Bool)
    (hq : ∀ e, e.is_region_op = false → p e = false) (env : Env) (error_code address : Nat)
    (st : St) :
    (user_fault_entry env error_code address st).st.trace.filter p = st.trace.filter p := by
  have hp := region_op_of_report p hq
  have h2 : ∀ e, p (.perf_sw_event e) = false := fun e => hq _ rfl
  unfold user_fault_entry bad_area_nosemaphore
  simp only []
  repeat' split
  all_goals first
    | (rw [lock_mm_filter p hq]
       simp [mode_adjust_filter p hq, pgtable_bad_filter p hp, St.emit, St.enter, List.filter_append, h2])
    | simp [Entry.st, pgtable_bad_filter p hp, __bad_area_nosemaphore_filter p hp]

theorem populator_filter_region_op : ∀ e : Event, e.is_region_op = false →
    Event.is_populator e = false := by
  intro e he
  cases e <;> simp_all [Event.is_region_op, Event.is_populator]

/-- The populator calls one pass adds: none or one, and one whenever the pass jumps back. -/
theorem fault_pass_populator (env : Env) (pass error_code address flags major : Nat) (st : St) :
    ∃ calls : List Event,
      populator_calls (fault_pass env pass error_code address flags major st).st.trace =
        populator_calls st.trace ++ calls ∧ calls.length ≤ 1 ∧
      ∀ flags' major' st', fault_pass env pass error_code address flags major st =
          .again flags' major' st' →
        (∃ vma : Vma, calls = [.handle_mm_fault vma address flags
            (env.handle_mm_fault pass vma address flags)] ∧
          env.handle_mm_fault pass vma address flags &&& VM_FAULT_RETRY ≠ 0) ∧
        flags &&& FAULT_FLAG_ALLOW_RETRY ≠ 0 ∧ env.fatal_signal_pending pass = false ∧
        flags' &&& FAULT_FLAG_ALLOW_RETRY = 0 := by
  obtain ⟨vma, l1, l2, hl1, hl2, ht, hag⟩ := fault_pass_region_ops Event.is_populator
    populator_filter_region_op env pass error_code address flags major st
  refine ⟨l2, ?_, ?_, ?_⟩
  · unfold populator_calls
    rw [ht]
    rcases hl1 with rfl | rfl <;> rcases hl2 with rfl | rfl <;>
      simp [List.filter_cons, Event.is_populator]
  · rcases hl2 with rfl | rfl <;> simp
  · intro flags' major' st' h
    obtain ⟨h1, h2, h3, h4, h5⟩ := hag flags' major' st' h
    exact ⟨⟨vma, h1, h2⟩, h3, h4, by rw [h5]; exact retry_flags_clear flags⟩

/-- The retry loop makes at most two populator calls and two passes are always enough. -/
theorem retry_loop_populator (env : Env) (error_code address k pass flags major : Nat)
    (st : St) :
    ∃ st', retry_loop env error_code address (k + 2) pass flags major st = some st' ∧
      ∃ calls : List Event,
        populator_calls st'.trace = populator_calls st.trace ++ calls ∧ calls.length ≤ 2 ∧
        (calls.length = 2 → ∃ vma flags1 e2,
          calls = [.handle_mm_fault vma address flags1
            (env.handle_mm_fault pass vma address flags1), e2] ∧
          env.handle_mm_fault pass vma address flags1 &&& VM_FAULT_RETRY ≠ 0 ∧
          flags1 &&& FAULT_FLAG_ALLOW_RETRY ≠ 0 ∧ env.fatal_signal_pending pass = false) := by
  obtain ⟨c1, ht1, hlen1, hag1⟩ := fault_pass_populator env pass error_code address flags major st
  unfold retry_loop
  cases h1 : fault_pass env pass error_code address flags major st with
  | done st1 =>
    rw [h1] at ht1
    refine ⟨st1, rfl, c1, ht1, by omega, ?_⟩
    intro h; omega
  | again flags1 major1 st1 =>
    rw [h1] at ht1
    obtain ⟨⟨vma, hc1, hr⟩, hallow, hfatal, hclear⟩ := hag1 flags1 major1 st1 h1
    simp only []
    obtain ⟨c2, ht2, hlen2, hag2⟩ := fault_pass_populator env (pass + 1) error_code address
      flags1 major1 st1.down_read
    have hdr : populator_calls st1.down_read.trace = populator_calls st1.trace := by
      simp [populator_calls, St.down_read, St.emit, St.enter, List.filter_append, Event.is_populator]
    unfold retry_loop
    cases h2 : fault_pass env (pass + 1) error_code address flags1 major1 st1.down_read with
    | done st2 =>
      rw [h2] at ht2
      refine ⟨st2, rfl, c1 ++ c2, ?_, ?_, ?_⟩
      · simp only [Pass.st] at ht1 ht2
        rw [ht2, hdr, ht1, List.append_assoc]
      · subst hc1; simp; omega
      · intro _
        subst hc1
        match c2, hlen2 with
        | [], _ => exact absurd ‹([_] ++ ([] : List Event)).length = 2› (by simp)
        | [e2], _ => exact ⟨vma, flags, e2, rfl, hr, hallow, hfatal⟩
    | again flags2 major2 st2 =>
      exact absurd hclear (hag2 flags2 major2 st2 h2).2.1

/-- C1: for every fault, every environment (so every sequence of populator results) and
every fuel of at least two passes, `__do_page_fault` finishes, the populator is invoked at
most twice, and when it is invoked twice the first invocation was made with
`FAULT_FLAG_ALLOW_RETRY` set, answered `VM_FAULT_RETRY`, and no fatal signal was pending. -/
theorem populator_at_most_twice (env : Env) (k error_code address : Nat) (st : St) :
    ∃ st', __do_page_fault env (k + 2) error_code address st = some st' ∧
      ∃ calls : List Event,
        populator_calls st'.trace = populator_calls st.trace ++ calls ∧ calls.length ≤ 2 ∧
        (calls.length = 2 → ∃ vma flags1 e2,
          calls = [.handle_mm_fault vma address flags1
            (env.handle_mm_fault 0 vma address flags1), e2] ∧
          env.handle_mm_fault 0 vma address flags1 &&& VM_FAULT_RETRY ≠ 0 ∧
          flags1 &&& FAULT_FLAG_ALLOW_RETRY ≠ 0 ∧ env.fatal_signal_pending 0 = false) := by
  unfold __do_page_fault
  simp only []
  have h0 : populator_calls (if env.kmemcheck_active = true then st.emit .kmemcheck_hide
      else st).trace = populator_calls st.trace := by
    split <;> simp [populator_calls, St.emit, St.enter, List.filter_append, Event.is_populator]
  generalize (if env.kmemcheck_active = true then st.emit .kmemcheck_hide else st) = st0
    at h0 ⊢
  rw [← h0]
  by_cases hk : kmmio_fault env ≠ 0
  · rw [if_pos hk]
    exact ⟨st0, rfl, [], by simp, by simp, by simp⟩
  · rw [if_neg hk]
    by_cases hs : fault_in_kernel_space env address ≠ 0
    · rw [if_pos hs]
      refine ⟨_, rfl, [], ?_, by simp, by simp⟩
      simp [populator_calls, kernel_fault_filter Event.is_populator populator_filter_region_op]
    · rw [if_neg hs]
      have he := user_fault_entry_filter Event.is_populator populator_filter_region_op env
        error_code address st0
      cases hu : user_fault_entry env error_code address st0 with
      | finished st1 =>
        rw [hu] at he
        exact ⟨st1, rfl, [], by simpa [populator_calls, Entry.st] using he, by simp, by simp⟩
      | lookup error_code1 flags st1 =>
        rw [hu] at he
        simp only []
        obtain ⟨st', h1, calls, h2, h3, h4⟩ := retry_loop_populator env error_code1 address k 0
          flags 0 st1
        refine ⟨st', h1, calls, ?_, h3, h4⟩
        rw [h2]
        simp only [populator_calls, Entry.st] at he ⊢
        rw [he]

/-- With PKEY in the cause the access check denies the access, and the signal code that
`bad_area_access_error` selects follows its OSPKE test. -/
theorem pkey_fault_signal_code (env : Env) (error_code address : Nat) (vma : Vma) (st : St)
    (hpk : error_code &&& PF_PK ≠ 0) :
    access_error env error_code vma = 1 ∧
    bad_area_access_error env error_code address vma st =
      __bad_area env error_code address (some vma)
        (if env.cpu_has_OSPKE then SEGV_PKUERR else SEGV_ACCERR) st := by
  constructor
  · unfold access_error
    rw [if_pos hpk]
  · unfold bad_area_access_error bad_area_access_from_pkeys
    cases env.cpu_has_OSPKE <;> simp [hpk]

theorem show_signal_msg_signals (env : Env) (error_code address : Nat) (st : St) :
    signals (show_signal_msg env error_code address st).trace = signals st.trace := by
  unfold show_signal_msg signals
  simp only []
  repeat' split
  all_goals simp [St.emit, St.enter, List.filter_append, List.filter_cons, Event.is_signal]

theorem fill_sig_info_pkey_fst (env : Env) (si_code : Nat) (vma : Option Vma) (st st' : St) :
    (fill_sig_info_pkey env si_code vma st).1 = (fill_sig_info_pkey env si_code vma st').1 := by
  unfold fill_sig_info_pkey
  cases vma <;> simp only [] <;> repeat' split
  all_goals rfl

theorem force_sig_info_fault_signals (env : Env) (si_signo si_code address : Nat)
    (vma : Option Vma) (st : St) :
    signals (force_sig_info_fault env si_signo si_code address vma 0 st).trace =
      signals st.trace ++ [.force_sig_info si_signo 0 si_code address 0
        (fill_sig_info_pkey env si_code vma st).1] := by
  have h1 : (0 : Nat) &&& VM_FAULT_HWPOISON_LARGE = 0 := Nat.zero_and _
  have h2 : (0 : Nat) &&& VM_FAULT_HWPOISON = 0 := Nat.zero_and _
  unfold force_sig_info_fault
  simp only [h1, h2, ne_eq, not_true_eq_false, if_false]
  unfold fill_sig_info_pkey signals St.emit_once
  cases vma <;> simp only [] <;> repeat' split
  all_goals simp [St.emit, St.enter, List.filter_append, List.filter_cons, Event.is_signal]

/-- A user-mode fault that no quirk filter absorbs: `__bad_area_nosemaphore` delivers
exactly one SIGSEGV, with the chosen code and the fault address. -/
theorem __bad_area_nosemaphore_user (env : Env) (error_code address : Nat) (vma : Option Vma)
    (si_code : Nat) (st : St) (hu : error_code &&& PF_USER ≠ 0)
    (hq : ¬ quirk_absorbs env st.regs error_code address) :
    signals (__bad_area_nosemaphore env error_code address vma si_code st).trace =
      signals st.trace ++ [.force_sig_info SIGSEGV 0 si_code address 0
        (fill_sig_info_pkey env si_code vma st).1] := by
  unfold quirk_absorbs at hq
  simp only [not_or] at hq
  obtain ⟨h1, h2, h3⟩ := hq
  unfold __bad_area_nosemaphore
  rw [if_pos hu]
  simp only []
  rw [if_neg (by simpa [St.emit, St.enter] using h1), if_neg (by simpa [St.emit, St.enter] using h2), if_neg h3,
    force_sig_info_fault_signals, fill_sig_info_pkey_fst env si_code vma _ st]
  congr 1
  have e1 : ∀ s : St, ∀ a c, signals (s.set_thread a c).trace = signals s.trace := by
    intro s a c; rfl
  rw [e1]
  split
  · rw [show_signal_msg_signals]
    split <;> simp [signals, St.emit, St.enter, List.filter_append, List.filter_cons, Event.is_signal]
  · split <;> simp [signals, St.emit, St.enter, List.filter_append, List.filter_cons, Event.is_signal]

theorem region_op_filter_self : ∀ e : Event, e.is_region_op = false →
    Event.is_region_op e = false := fun _ h => h

theorem mode_adjust_frame (env : Env) (error_code flags : Nat) (st : St) :
    (mode_adjust env error_code flags st).1.mmap_sem = st.mmap_sem ∧
    (mode_adjust env error_code flags st).1.regs = st.regs ∧
    (mode_adjust env error_code flags st).1.mem = st.mem := by
  unfold mode_adjust
  repeat' split
  all_goals simp [St.emit, St.enter]

theorem lock_mm_lookup (env : Env) (error_code address flags : Nat) (st : St)
    (error_code1 flags1 : Nat) (st1 : St)
    (h : lock_mm env error_code address flags st = .lookup error_code1 flags1 st1) :
    error_code1 = error_code ∧ flags1 = flags ∧ st1.mmap_sem = st.mmap_sem + 1 ∧
    st1.regs = st.regs ∧ st1.mem = st.mem := by
  unfold lock_mm at h
  simp only [] at h
  repeat' split at h
  all_goals simp at h
  all_goals
    obtain ⟨rfl, rfl, rfl⟩ := h
    simp [St.down_read, St.emit, St.enter]

/-- When the entry part arrives at the lookup, it has taken exactly one read hold on
`mmap_sem`. -/
theorem user_fault_entry_lookup_sem (env : Env) (error_code address : Nat) (st : St)
    (error_code1 flags : Nat) (st1 : St)
    (h : user_fault_entry env error_code address st = .lookup error_code1 flags st1) :
    st1.mmap_sem = st.mmap_sem + 1 := by
  unfold user_fault_entry at h
  simp only [] at h
  repeat' split at h
  all_goals first
    | (have h1 := (lock_mm_lookup env _ address _ _ _ _ _ h).2.2.1
       simp [St.emit, St.enter, (mode_adjust_frame env _ _ _).1, (pgtable_bad_frame env _ _ _).1] at h1
       exact h1)
    | simp at h

theorem dump_pagetable_signals (env : Env) (address : Nat) (st : St) :
    signals (dump_pagetable env address st).trace = signals st.trace := by
  have he : ∀ (s : St) (m : Msg), signals (s.emit (.printk m)).trace = signals s.trace := by
    intro s m
    simp [signals, St.emit, St.enter, List.filter_append, List.filter_cons, Event.is_signal]
  unfold dump_pagetable
  simp only [apply_ite St.trace, apply_ite signals, he, ite_self]

theorem pgtable_bad_signals (env : Env) (error_code address : Nat) (st : St) :
    signals (pgtable_bad env error_code address st).trace = signals st.trace := by
  have h := dump_pagetable_signals env address
  unfold signals at h
  unfold pgtable_bad oops_end signals
  simp only []
  repeat' split
  all_goals simp [h, St.emit, St.enter, St.set_thread, List.filter_append, List.filter_cons,
    Event.is_signal]

theorem mode_adjust_signals (env : Env) (error_code flags : Nat) (st : St) :
    signals (mode_adjust env error_code flags st).1.trace = signals st.trace := by
  unfold mode_adjust signals
  repeat' split
  all_goals simp [St.emit, St.enter, List.filter_append, List.filter_cons, Event.is_signal]

theorem lock_mm_lookup_signals (env : Env) (error_code address flags : Nat) (st : St)
    (error_code1 flags1 : Nat) (st1 : St)
    (h : lock_mm env error_code address flags st = .lookup error_code1 flags1 st1) :
    signals st1.trace = signals st.trace := by
  unfold lock_mm at h
  simp only [] at h
  repeat' split at h
  all_goals simp at h
  all_goals
    obtain ⟨rfl, rfl, rfl⟩ := h
    simp [signals, St.down_read, St.emit, St.enter, List.filter_append, List.filter_cons,
      Event.is_signal]

/-- When the entry part arrives at the lookup, it has delivered no signal. -/
theorem user_fault_entry_lookup_signals (env : Env) (error_code address : Nat) (st : St)
    (error_code1 flags : Nat) (st1 : St)
    (h : user_fault_entry env error_code address st = .lookup error_code1 flags st1) :
    signals st1.trace = signals st.trace := by
  unfold user_fault_entry at h
  simp only [] at h
  repeat' split at h
  all_goals first
    | (rw [lock_mm_lookup_signals env _ address _ _ _ _ _ h]
       have e : ∀ (s : St) (e : PerfEvent), signals (s.emit (.perf_sw_event e)).trace =
           signals s.trace := by
         intro s e
         simp [signals, St.emit, St.enter, List.filter_append, List.filter_cons, Event.is_signal]
       simp only [e, mode_adjust_signals, pgtable_bad_signals])
    | simp at h

/-- C9: for a fault that has arrived at the region lookup (at the first pass or after a
retry) in state `st` with mode-adjusted cause `error_code`: if `find_vma` returns no region,
or a region that starts above the address and lacks GROWS_DOWN, the handler finishes in this
pass; after the lookup neither `expand_stack` nor the populator is invoked; the read hold on
`mmap_sem` is released; for a user-mode fault that no quirk filter absorbs exactly one
signal is delivered, SIGSEGV with code `SEGV_MAPERR` and `si_addr` the fault address.  When
`st` is the state in which the entry part arrived at the lookup, the whole handler makes no
populator or `expand_stack` call, ends with the lock count it started with, and has delivered
no signal before the lookup. -/
theorem lookup_miss_map_err (env : Env) (pass error_code address flags major : Nat) (st : St)
    (hv : env.find_vma pass address = none ∨
      ∃ vma, env.find_vma pass address = some vma ∧ address < vma.vm_start ∧
        vma.vm_flags &&& VM_GROWSDOWN = 0) :
    ∃ st', fault_pass env pass error_code address flags major st = .done st' ∧
      st'.trace.filter Event.is_region_op =
        st.trace.filter Event.is_region_op ++ [.find_vma address] ∧
      st'.mmap_sem = st.mmap_sem - 1 ∧
      (error_code &&& PF_USER ≠ 0 → ¬ quirk_absorbs env st.regs error_code address →
        signals st'.trace =
          signals st.trace ++ [.force_sig_info SIGSEGV 0 SEGV_MAPERR address 0 none]) ∧
      (∀ error_code0 st0,
        user_fault_entry env error_code0 address st0 = .lookup error_code flags st →
        st'.trace.filter Event.is_region_op =
          st0.trace.filter Event.is_region_op ++ [.find_vma address] ∧
        st'.mmap_sem = st0.mmap_sem ∧ signals st.trace = signals st0.trace) := by
  have hp := region_op_of_report Event.is_region_op region_op_filter_self
  have hpass : fault_pass env pass error_code address flags major st =
      .done (bad_area env error_code address (st.emit (.find_vma address))) := by
    unfold fault_pass
    rcases hv with hv | ⟨vma, hv, h1, h2⟩
    · simp only [hv]
    · simp only [hv]
      rw [if_neg (by omega), if_pos h2]
  have ht : (bad_area env error_code address (st.emit (.find_vma address))).trace.filter
      Event.is_region_op = st.trace.filter Event.is_region_op ++ [.find_vma address] := by
    unfold bad_area
    rw [__bad_area_filter Event.is_region_op hp rfl]
    simp [St.emit, St.enter, List.filter_append, List.filter_cons, Event.is_region_op]
  have hs : (bad_area env error_code address (st.emit (.find_vma address))).mmap_sem =
      st.mmap_sem - 1 := by
    unfold bad_area
    rw [(__bad_area_frame env error_code address none SEGV_MAPERR _).1]
    rfl
  refine ⟨_, hpass, ht, hs, ?_, ?_⟩
  · intro hu hq
    unfold bad_area __bad_area
    rw [__bad_area_nosemaphore_user env error_code address none SEGV_MAPERR _ hu
      (by simpa [St.up_read, St.emit, St.enter] using hq)]
    have hk : (fill_sig_info_pkey env SEGV_MAPERR none (st.emit (.find_vma address)).up_read).1
        = none := by
      unfold fill_sig_info_pkey
      split
      · rfl
      · rw [if_pos (by decide)]
    rw [hk]
    simp [signals, St.up_read, St.emit, St.enter, List.filter_append, List.filter_cons, Event.is_signal]
  · intro error_code0 st0 he
    have h1 := user_fault_entry_filter Event.is_region_op region_op_filter_self env error_code0
      address st0
    rw [he] at h1
    simp only [Entry.st] at h1
    rw [ht, hs, h1, user_fault_entry_lookup_sem env error_code0 address st0 _ _ _ he]
    exact ⟨rfl, by omega, user_fault_entry_lookup_signals env error_code0 address st0 _ _ _ he⟩

/-- Witness for C9: scenario 3, a user-mode read of address 0 while the nearest region
starts at 0x400000 and does not grow down. -/
theorem lookup_miss_map_err_witness :
    (env_code.find_vma 0 0 = none ∨
      ∃ vma, env_code.find_vma 0 0 = some vma ∧ 0 < vma.vm_start ∧
        vma.vm_flags &&& VM_GROWSDOWN = 0) ∧
    (__do_page_fault env_code 2 PF_USER 0 (St.init mem1 user_regs)).map
        (fun s => (s.trace, s.mmap_sem)) =
      some ([.local_irq_enable, .perf_sw_event .PAGE_FAULTS, .down_read_trylock true,
        .might_sleep, .find_vma 0, .up_read, .local_irq_enable,
        .force_sig_info SIGSEGV 0 SEGV_MAPERR 0 0 none], 0) ∧
    ∃ st', fault_pass env_code 0 PF_USER 0 0x54 0 (St.init mem1 user_regs) = .done st' ∧
      st'.trace.filter Event.is_region_op =
        (St.init mem1 user_regs).trace.filter Event.is_region_op ++ [.find_vma 0] ∧
      st'.mmap_sem = (St.init mem1 user_regs).mmap_sem - 1 ∧
      (PF_USER &&& PF_USER ≠ 0 →
        ¬ quirk_absorbs env_code (St.init mem1 user_regs).regs PF_USER 0 →
        signals st'.trace = signals (St.init mem1 user_regs).trace ++
          [.force_sig_info SIGSEGV 0 SEGV_MAPERR 0 0 none]) ∧
      (∀ error_code0 st0,
        user_fault_entry env_code error_code0 0 st0 =
          .lookup PF_USER 0x54 (St.init mem1 user_regs) →
        st'.trace.filter Event.is_region_op =
          st0.trace.filter Event.is_region_op ++ [.find_vma 0] ∧
        st'.mmap_sem = st0.mmap_sem ∧
        signals (St.init mem1 user_regs).trace = signals st0.trace) :=
  ⟨Or.inr ⟨vma_code, by decide, by decide, by decide⟩, by decide,
    lookup_miss_map_err env_code 0 PF_USER 0 0x54 0 (St.init mem1 user_regs)
      (Or.inr ⟨vma_code, by decide, by decide, by decide⟩)⟩

/-- C10 as stated fails: a user-mode write at 0x601000 with cause
{USER, WRITE, PRESENT, RESERVED}, inside `vma_text`, which lacks WRITE and passes the key
check, with no quirk filter absorbing the fault.  The handler goes to `pgtable_bad` before
any region lookup: the task is ended by the oops and no SIGSEGV is delivered. -/
theorem reserved_bit_write_no_sigsegv :
    env_text.user_mode user_regs = true ∧
    (PF_USER ||| PF_WRITE ||| PF_PROT ||| PF_RSVD) &&& PF_USER ≠ 0 ∧
    (PF_USER ||| PF_WRITE ||| PF_PROT ||| PF_RSVD) &&& PF_WRITE ≠ 0 ∧
    (PF_USER ||| PF_WRITE ||| PF_PROT ||| PF_RSVD) &&& PF_PK = 0 ∧
    env_text.find_vma 0 0x601000 = some vma_text ∧
    (vma_text.vm_start ≤ 0x601000 ∧ 0x601000 < vma_text.vm_end) ∧
    vma_text.vm_flags &&& VM_WRITE = 0 ∧
    env_text.arch_vma_access_permitted vma_text true false false = true ∧
    ¬ quirk_absorbs env_text user_regs (PF_USER ||| PF_WRITE ||| PF_PROT ||| PF_RSVD)
      0x601000 ∧
    (__do_page_fault env_text 2 (PF_USER ||| PF_WRITE ||| PF_PROT ||| PF_RSVD) 0x601000
        (St.init mem1 user_regs)).map (fun s => (signals s.trace, s.halted,
          s.trace.filter Event.is_region_op, s.trace.getLast?)) =
      some ([], true, [], some (.oops_end SIGKILL)) := by
  decide

/-- C10 amended: for a fault that has arrived at the region lookup (at the first pass or
after a retry) in state `st` with WRITE in the mode-adjusted cause and no PKEY, at an
address inside the region found, when that region lacks WRITE and passes the architectural
key check (whatever the PRESENT bit and the other region flags): the handler finishes in
this pass; after the lookup neither `expand_stack` nor the populator is invoked; the read
hold on `mmap_sem` is released; for a user-mode fault that no quirk filter absorbs exactly
one signal is delivered, SIGSEGV with code `SEGV_ACCERR` and `si_addr` the fault address.
When `st` is the state in which the entry part arrived at the lookup, the whole handler
makes no populator or `expand_stack` call, ends with the lock count it started with, and
has delivered no signal before the lookup. -/
theorem write_to_readonly_acc_err (env : Env) (pass error_code address flags major : Nat)
    (st : St) (vma : Vma)
    (hw : error_code &&& PF_WRITE ≠ 0) (hpk : error_code &&& PF_PK = 0)
    (hv : env.find_vma pass address = some vma) (hin : vma.vm_start ≤ address)
    (hro : vma.vm_flags &&& VM_WRITE = 0)
    (hkey : env.arch_vma_access_permitted vma (error_code &&& PF_WRITE != 0)
      (error_code &&& PF_INSTR != 0) false = true) :
    ∃ st', fault_pass env pass error_code address flags major st = .done st' ∧
      st'.trace.filter Event.is_region_op =
        st.trace.filter Event.is_region_op ++ [.find_vma address] ∧
      st'.mmap_sem = st.mmap_sem - 1 ∧
      (error_code &&& PF_USER ≠ 0 → ¬ quirk_absorbs env st.regs error_code address →
        signals st'.trace =
          signals st.trace ++ [.force_sig_info SIGSEGV 0 SEGV_ACCERR address 0 none]) ∧
      (∀ error_code0 st0,
        user_fault_entry env error_code0 address st0 = .lookup error_code flags st →
        st'.trace.filter Event.is_region_op =
          st0.trace.filter Event.is_region_op ++ [.find_vma address] ∧
        st'.mmap_sem = st0.mmap_sem ∧ signals st.trace = signals st0.trace) := by
  have hp := region_op_of_report Event.is_region_op region_op_filter_self
  have hacc : access_error env error_code vma ≠ 0 := by
    unfold access_error
    simp [hpk, hkey, hw, hro]
  have hcode : bad_area_access_from_pkeys env error_code vma = false := by
    unfold bad_area_access_from_pkeys
    simp [hpk, hkey]
  have hpass : fault_pass env pass error_code address flags major st =
      .done (__bad_area env error_code address (some vma) SEGV_ACCERR
        (st.emit (.find_vma address))) := by
    unfold fault_pass
    simp only [hv]
    rw [if_pos hin]
    unfold good_area
    rw [if_pos hacc]
    unfold bad_area_access_error
    simp [hcode]
  have ht : (__bad_area env error_code address (some vma) SEGV_ACCERR
      (st.emit (.find_vma address))).trace.filter Event.is_region_op =
        st.trace.filter Event.is_region_op ++ [.find_vma address] := by
    rw [__bad_area_filter Event.is_region_op hp rfl]
    simp [St.emit, St.enter, List.filter_append, List.filter_cons, Event.is_region_op]
  have hs : (__bad_area env error_code address (some vma) SEGV_ACCERR
      (st.emit (.find_vma address))).mmap_sem = st.mmap_sem - 1 := by
    rw [(__bad_area_frame env error_code address (some vma) SEGV_ACCERR _).1]
    rfl
  refine ⟨_, hpass, ht, hs, ?_, ?_⟩
  · intro hu hq
    unfold __bad_area
    rw [__bad_area_nosemaphore_user env error_code address (some vma) SEGV_ACCERR _ hu
      (by simpa [St.up_read, St.emit, St.enter] using hq)]
    have hk : (fill_sig_info_pkey env SEGV_ACCERR (some vma)
        (st.emit (.find_vma address)).up_read).1 = none := by
      unfold fill_sig_info_pkey
      split
      · rfl
      · rw [if_pos (by decide)]
    rw [hk]
    simp [signals, St.up_read, St.emit, St.enter, List.filter_append, List.filter_cons, Event.is_signal]
  · intro error_code0 st0 he
    have h1 := user_fault_entry_filter Event.is_region_op region_op_filter_self env error_code0
      address st0
    rw [he] at h1
    simp only [Entry.st] at h1
    rw [ht, hs, h1, user_fault_entry_lookup_sem env error_code0 address st0 _ _ _ he]
    exact ⟨rfl, by omega, user_fault_entry_lookup_signals env error_code0 address st0 _ _ _ he⟩

/-- Witness for C10 amended: scenario 4, a user-mode write at 0x601000 with cause
{USER, WRITE, PRESENT} into `vma_text`. -/
theorem write_to_readonly_acc_err_witness :
    ((PF_USER ||| PF_WRITE ||| PF_PROT) &&& PF_WRITE ≠ 0 ∧
      (PF_USER ||| PF_WRITE ||| PF_PROT) &&& PF_PK = 0 ∧
      env_text.find_vma 0 0x601000 = some vma_text ∧ vma_text.vm_start ≤ 0x601000 ∧
      vma_text.vm_flags &&& VM_WRITE = 0 ∧
      env_text.arch_vma_access_permitted vma_text
        ((PF_USER ||| PF_WRITE ||| PF_PROT) &&& PF_WRITE != 0)
        ((PF_USER ||| PF_WRITE ||| PF_PROT) &&& PF_INSTR != 0) false = true) ∧
    (__do_page_fault env_text 2 (PF_USER ||| PF_WRITE ||| PF_PROT) 0x601000
        (St.init mem1 user_regs)).map (fun s => (s.trace, s.mmap_sem)) =
      some ([.local_irq_enable, .perf_sw_event .PAGE_FAULTS, .down_read_trylock true,
        .might_sleep, .find_vma 0x601000, .up_read, .local_irq_enable,
        .force_sig_info SIGSEGV 0 SEGV_ACCERR 0x601000 0 none], 0) ∧
    ∃ st', fault_pass env_text 0 (PF_USER ||| PF_WRITE ||| PF_PROT) 0x601000 0x55 0
        (St.init mem1 user_regs) = .done st' ∧
      st'.trace.filter Event.is_region_op =
        (St.init mem1 user_regs).trace.filter Event.is_region_op ++ [.find_vma 0x601000] ∧
      st'.mmap_sem = (St.init mem1 user_regs).mmap_sem - 1 ∧
      ((PF_USER ||| PF_WRITE ||| PF_PROT) &&& PF_USER ≠ 0 →
        ¬ quirk_absorbs env_text (St.init mem1 user_regs).regs
          (PF_USER ||| PF_WRITE ||| PF_PROT) 0x601000 →
        signals st'.trace = signals (St.init mem1 user_regs).trace ++
          [.force_sig_info SIGSEGV 0 SEGV_ACCERR 0x601000 0 none]) ∧
      (∀ error_code0 st0,
        user_fault_entry env_text error_code0 0x601000 st0 =
          .lookup (PF_USER ||| PF_WRITE ||| PF_PROT) 0x55 (St.init mem1 user_regs) →
        st'.trace.filter Event.is_region_op =
          st0.trace.filter Event.is_region_op ++ [.find_vma 0x601000] ∧
        st'.mmap_sem = st0.mmap_sem ∧
        signals (St.init mem1 user_regs).trace = signals st0.trace) :=
  ⟨by decide, by decide,
    write_to_readonly_acc_err env_text 0 (PF_USER ||| PF_WRITE ||| PF_PROT) 0x601000 0x55 0
      (St.init mem1 user_regs) vma_text (by decide) (by decide) (by decide) (by decide)
      (by decide) (by decide)⟩

/-- A run of `vmalloc_fault` that finds the master mapping the address and the task's
top-level slot empty: it copies the master's top-level entry, requests one flush and
returns 0. -/
theorem vmalloc_fault_copy (env : Env) (address : Nat) (st : St)
    (hr : env.VMALLOC_START ≤ address ∧ address < env.VMALLOC_END)
    (hm : master_maps env st.mem address)
    (he : env.pgd_none (st.mem (task_pgd env address)) = true)
    (hd : task_pgd env address ≠ master_pud env st.mem address ∧
      task_pgd env address ≠ master_pmd env st.mem address ∧
      task_pgd env address ≠ master_pte env st.mem address) :
    vmalloc_fault env address st =
      (some 0, { st with
        mem := fun a => if a = task_pgd env address then st.mem (pgd_offset_k env address)
          else st.mem a
        trace := st.trace ++
          (if env.in_nmi = true ∧ Event.WARN .in_nmi ∉ st.trace then [.WARN .in_nmi] else []) ++
          [.set_pgd (task_pgd env address) (st.mem (pgd_offset_k env address)),
            .arch_flush_lazy_mmu_mode] }) := by
  obtain ⟨m1, m2, m3⟩ := hm
  obtain ⟨d1, d2, d3⟩ := hd
  have hne : pgd_offset_k env address ≠ task_pgd env address := by
    intro h; rw [h] at m1; rw [m1] at he; exact absurd he (by simp)
  -- the walk below the top level, in the memory after the copy
  have key : ∀ st0 : St, st0.mem = st.mem →
      vmalloc_fault_lower env address (task_pgd env address) (pgd_offset_k env address)
        (((st0.store (task_pgd env address) (st0.mem (pgd_offset_k env address))).emit
          (.set_pgd (task_pgd env address) (st0.mem (pgd_offset_k env address)))).emit
          .arch_flush_lazy_mmu_mode) =
      (some 0, ((st0.store (task_pgd env address) (st0.mem (pgd_offset_k env address))).emit
          (.set_pgd (task_pgd env address) (st0.mem (pgd_offset_k env address)))).emit
          .arch_flush_lazy_mmu_mode) := by
    intro st0 hm0
    generalize hst' : ((st0.store (task_pgd env address) (st0.mem (pgd_offset_k env address))).emit
          (.set_pgd (task_pgd env address) (st0.mem (pgd_offset_k env address)))).emit
          .arch_flush_lazy_mmu_mode = st'
    have hmem : st'.mem = fun a => if a = task_pgd env address then
        st.mem (pgd_offset_k env address) else st.mem a := by
      rw [← hst']; simp [St.emit, St.enter, St.store, hm0]
    have r0 : st'.mem (task_pgd env address) = st.mem (pgd_offset_k env address) := by
      rw [hmem]; simp
    have r1 : st'.mem (pgd_offset_k env address) = st.mem (pgd_offset_k env address) := by
      rw [hmem]; simp [hne]
    have p1 : pud_offset env st'.mem (task_pgd env address) address =
        master_pud env st.mem address := by
      unfold pud_offset master_pud pud_offset; rw [r0]
    have p1' : pud_offset env st'.mem (pgd_offset_k env address) address =
        master_pud env st.mem address := by
      unfold pud_offset master_pud pud_offset; rw [r1]
    have r2 : st'.mem (master_pud env st.mem address) =
        st.mem (master_pud env st.mem address) := by
      rw [hmem]; simp [Ne.symm d1]
    have p2 : pmd_offset env st'.mem (master_pud env st.mem address) address =
        master_pmd env st.mem address := by
      unfold pmd_offset master_pmd pmd_offset; rw [r2]
    have r3 : st'.mem (master_pmd env st.mem address) =
        st.mem (master_pmd env st.mem address) := by
      rw [hmem]; simp [Ne.symm d2]
    have p3 : pte_offset_kernel env st'.mem (master_pmd env st.mem address) address =
        master_pte env st.mem address := by
      unfold pte_offset_kernel master_pte pte_offset_kernel; rw [r3]
    have r4 : st'.mem (master_pte env st.mem address) =
        st.mem (master_pte env st.mem address) := by
      rw [hmem]; simp [Ne.symm d3]
    unfold vmalloc_fault_lower
    simp only [p1, p1', r2, p2, r3, p3, r4, m2]
    rcases m3 with m3 | ⟨m3, m4⟩
    · simp [m3]
    · by_cases hh : env.pud_huge (st.mem (master_pud env st.mem address)) = true
      · simp [hh]
      · rcases m4 with m4 | m4
        · simp [hh, m3, m4]
        · by_cases hh2 : env.pmd_huge (st.mem (master_pmd env st.mem address)) = true
          · simp [hh, m3, hh2]
          · simp [hh, m3, hh2, m4]
  unfold vmalloc_fault
  rw [if_neg (not_not.mpr hr)]
  simp only []
  cases hn : env.in_nmi
  · simp only [Bool.false_eq_true, if_false, false_and]
    rw [if_neg (by simp [m1]), if_pos he, key st rfl]
    simp [St.emit, St.enter, St.store]
  · simp only [if_true, true_and]
    by_cases hw : Event.WARN .in_nmi ∈ st.trace
    · rw [St.emit_once_of_mem st _ hw, if_neg (by simp [m1]), if_pos he, key st rfl]
      simp [St.emit, St.enter, St.store, hw]
    · have e1 : st.emit_once (.WARN .in_nmi) = st.emit (.WARN .in_nmi) := by
        unfold St.emit_once
        rw [if_neg hw]
      rw [e1, if_neg (by simp [St.emit, St.enter, m1]),
        if_pos (by simpa [St.emit, St.enter] using he), key (st.emit (.WARN .in_nmi)) rfl]
      simp [St.emit, St.enter, St.store, hw]

/-- C4 as stated fails: a kernel-mode read (cause 0) of `vaddr1`, in the vmalloc range,
mapped by the master while the task's top-level slot is empty, with mmiotrace claiming the
fault.  The handler returns before `vmalloc_fault`: the task's slot stays empty, differs
from the master's entry, and no flush is requested. -/
theorem lazy_copy_skipped_under_mmiotrace :
    env_kmmio.TASK_SIZE_MAX ≤ vaddr1 ∧
    (0 &&& PF_USER = 0 ∧ 0 &&& PF_PROT = 0 ∧ 0 &&& PF_RSVD = 0) ∧
    (env_kmmio.VMALLOC_START ≤ vaddr1 ∧ vaddr1 < env_kmmio.VMALLOC_END) ∧
    master_maps env_kmmio mem1 vaddr1 ∧
    env_kmmio.pgd_none (mem1 (task_pgd env_kmmio vaddr1)) = true ∧
    mem1 (pgd_offset_k env_kmmio vaddr1) = 0x3067 ∧
    (__do_page_fault env_kmmio 2 0 vaddr1 (St.init mem1 kernel_regs)).map
        (fun s => (s.mem (task_pgd env_kmmio vaddr1), s.trace)) = some (0, []) := by
  decide

/-- C4 amended: for every kernel-half fault that mmiotrace does not claim, whose cause has
none of USER, PRESENT, RESERVED, at an address in the vmalloc range that the master table
maps (not absent down to a huge entry or the leaf) while the current task's top-level slot
for the address is empty and is not itself one of the master's lower-level slots for the
address: `__do_page_fault` returns; the task's top-level slot then holds the master's
entry; the handler has done exactly `set_pgd` and one lazy-MMU flush (after the
`kmemcheck_hide` and the once-only `in_nmi` warning, when those apply), so no signal and no
oops; and the
task fault-state and the trap frame are unchanged. -/
theorem lazy_kernel_mapping (env : Env) (fuel error_code address : Nat) (st : St)
    (hkmmio : kmmio_fault env = 0)
    (hk : env.TASK_SIZE_MAX ≤ address)
    (hc : error_code &&& PF_USER = 0 ∧ error_code &&& PF_PROT = 0 ∧ error_code &&& PF_RSVD = 0)
    (hr : env.VMALLOC_START ≤ address ∧ address < env.VMALLOC_END)
    (hm : master_maps env st.mem address)
    (he : env.pgd_none (st.mem (task_pgd env address)) = true)
    (hd : task_pgd env address ≠ master_pud env st.mem address ∧
      task_pgd env address ≠ master_pmd env st.mem address ∧
      task_pgd env address ≠ master_pte env st.mem address) :
    ∃ st', __do_page_fault env fuel error_code address st = some st' ∧
      st'.mem (task_pgd env address) = st.mem (pgd_offset_k env address) ∧
      st'.mem (pgd_offset_k env address) = st.mem (pgd_offset_k env address) ∧
      st'.trace = st.trace ++ (if env.kmemcheck_active then [.kmemcheck_hide] else []) ++
        (if env.in_nmi = true ∧ Event.WARN .in_nmi ∉ st.trace then [.WARN .in_nmi] else []) ++
        [.set_pgd (task_pgd env address) (st.mem (pgd_offset_k env address)),
          .arch_flush_lazy_mmu_mode] ∧
      st'.trace.filter Event.is_flush =
        st.trace.filter Event.is_flush ++ [.arch_flush_lazy_mmu_mode] ∧
      signals st'.trace = signals st.trace ∧
      st'.trace.filter Event.is_oops = st.trace.filter Event.is_oops ∧
      st'.halted = st.halted ∧ st'.thread = st.thread ∧ st'.regs = st.regs := by
  have hne : pgd_offset_k env address ≠ task_pgd env address := by
    intro h; have := hm.1; rw [h, he] at this; exact absurd this (by simp)
  have hcode : error_code &&& (PF_RSVD ||| PF_USER ||| PF_PROT) = 0 := by
    rw [Nat.and_or_distrib_left, Nat.and_or_distrib_left, hc.1, hc.2.1, hc.2.2]; rfl
  have hs : fault_in_kernel_space env address ≠ 0 := by
    unfold fault_in_kernel_space; rw [if_pos hk]; decide
  have hv := fun s hm' he' hd' => vmalloc_fault_copy env address s hr hm' he' hd'
  unfold __do_page_fault
  simp only []
  rw [if_neg (by simp [hkmmio]), if_pos hs]
  unfold kernel_fault
  rw [if_pos hcode]
  cases hkm : env.kmemcheck_active
  · simp only [Bool.false_eq_true, if_false]
    rw [hv st hm he hd]
    refine ⟨_, rfl, ?_⟩
    by_cases hw : Event.WARN .in_nmi ∈ st.trace <;> cases env.in_nmi <;>
      simp [hne, hw, signals, List.filter_append, List.filter_cons, Event.is_flush,
        Event.is_signal, Event.is_oops]
  · simp only [if_true]
    rw [hv (st.emit .kmemcheck_hide) hm he hd]
    refine ⟨_, rfl, ?_⟩
    by_cases hw : Event.WARN .in_nmi ∈ st.trace <;> cases env.in_nmi <;>
      simp [hne, hw, signals, St.emit, St.enter, List.filter_append, List.filter_cons,
        Event.is_flush, Event.is_signal, Event.is_oops]

/-- Witness for C4 amended: scenario 1, a kernel-mode read of `vaddr1` with cause 0. -/
theorem lazy_kernel_mapping_witness :
    (kmmio_fault env0 = 0 ∧ env0.TASK_SIZE_MAX ≤ vaddr1 ∧
      (0 &&& PF_USER = 0 ∧ 0 &&& PF_PROT = 0 ∧ 0 &&& PF_RSVD = 0) ∧
      (env0.VMALLOC_START ≤ vaddr1 ∧ vaddr1 < env0.VMALLOC_END) ∧
      master_maps env0 (St.init mem1 kernel_regs).mem vaddr1 ∧
      env0.pgd_none ((St.init mem1 kernel_regs).mem (task_pgd env0 vaddr1)) = true ∧
      (task_pgd env0 vaddr1 ≠ master_pud env0 (St.init mem1 kernel_regs).mem vaddr1 ∧
        task_pgd env0 vaddr1 ≠ master_pmd env0 (St.init mem1 kernel_regs).mem vaddr1 ∧
        task_pgd env0 vaddr1 ≠ master_pte env0 (St.init mem1 kernel_regs).mem vaddr1)) ∧
    (__do_page_fault env0 2 0 vaddr1 (St.init mem1 kernel_regs)).map
        (fun s => (s.mem (task_pgd env0 vaddr1), s.trace, s.halted)) =
      some (0x3067, [.set_pgd (task_pgd env0 vaddr1) 0x3067, .arch_flush_lazy_mmu_mode],
        false) ∧
    ∃ st', __do_page_fault env0 2 0 vaddr1 (St.init mem1 kernel_regs) = some st' ∧
      st'.mem (task_pgd env0 vaddr1) = (St.init mem1 kernel_regs).mem (pgd_offset_k env0 vaddr1) ∧
      st'.mem (pgd_offset_k env0 vaddr1) =
        (St.init mem1 kernel_regs).mem (pgd_offset_k env0 vaddr1) ∧
      st'.trace = (St.init mem1 kernel_regs).trace ++
        (if env0.kmemcheck_active then [.kmemcheck_hide] else []) ++
        (if env0.in_nmi = true ∧ Event.WARN .in_nmi ∉ (St.init mem1 kernel_regs).trace then
          [.WARN .in_nmi] else []) ++
        [.set_pgd (task_pgd env0 vaddr1)
            ((St.init mem1 kernel_regs).mem (pgd_offset_k env0 vaddr1)),
          .arch_flush_lazy_mmu_mode] ∧
      st'.trace.filter Event.is_flush =
        (St.init mem1 kernel_regs).trace.filter Event.is_flush ++ [.arch_flush_lazy_mmu_mode] ∧
      signals st'.trace = signals (St.init mem1 kernel_regs).trace ∧
      st'.trace.filter Event.is_oops = (St.init mem1 kernel_regs).trace.filter Event.is_oops ∧
      st'.halted = (St.init mem1 kernel_regs).halted ∧
      st'.thread = (St.init mem1 kernel_regs).thread ∧
      st'.regs = (St.init mem1 kernel_regs).regs :=
  ⟨by decide, by decide,
    lazy_kernel_mapping env0 2 0 vaddr1 (St.init mem1 kernel_regs) (by decide) (by decide)
      (by decide) (by decide) (by decide) (by decide) (by decide)⟩

/-! ### The lock discipline -/

theorem dump_pagetable_entries (env : Env) (address : Nat) (st : St) :
    (dump_pagetable env address st).entries = st.entries := by
  unfold dump_pagetable
  simp only [apply_ite St.entries, St.emit, ite_self]

theorem show_fault_oops_entries (env : Env) (error_code address : Nat) (st : St) :
    (show_fault_oops env error_code address st).entries = st.entries := by
  unfold show_fault_oops
  simp only []
  repeat' split
  all_goals simp [dump_pagetable_entries, St.emit]

theorem oops_end_entries (sig : Nat) (st : St) : (oops_end sig st).entries = st.entries := by
  unfold oops_end
  simp only []
  split <;> simp [St.emit]

theorem pgtable_bad_entries (env : Env) (error_code address : Nat) (st : St) :
    (pgtable_bad env error_code address st).entries = st.entries := by
  unfold pgtable_bad
  simp [oops_end_entries, dump_pagetable_entries, St.emit, St.set_thread]

theorem is_errata93_entries (env : Env) (address : Nat) (st : St) :
    (is_errata93 env address st).2.entries = st.entries := by
  unfold is_errata93 St.emit_once
  simp only []
  repeat' split
  all_goals simp [St.emit]

theorem show_signal_msg_entries (env : Env) (error_code address : Nat) (st : St) :
    (show_signal_msg env error_code address st).entries = st.entries := by
  unfold show_signal_msg
  simp only []
  repeat' split
  all_goals simp [St.emit]

theorem is_f00f_bug_entries (env : Env) (address : Nat) (st : St) :
    (is_f00f_bug env address st).2.entries = st.entries := by
  unfold is_f00f_bug
  split <;> simp [St.emit]

theorem force_sig_info_fault_locked_entries (base : Int) (env : Env)
    (si_signo si_code address : Nat) (vma : Option Vma) (fault : Nat) (st : St)
    (h : st.mmap_sem = base) :
    (force_sig_info_fault env si_signo si_code address vma fault st).entries.filter
        (fun x => x.2 != base) = st.entries.filter (fun x => x.2 != base) := by
  unfold force_sig_info_fault fill_sig_info_pkey St.emit_once
  cases vma <;> simp only [] <;> repeat' split
  all_goals simp [St.emit, St.enter, List.filter_append, List.filter_cons, h]

theorem no_context_locked_entries (base : Int) (env : Env)
    (error_code address signal si_code : Nat) (st : St) (h : st.mmap_sem = base) :
    (no_context env error_code address signal si_code st).entries.filter
        (fun x => x.2 != base) = st.entries.filter (fun x => x.2 != base) := by
  unfold no_context
  simp only []
  repeat' split
  all_goals simp [force_sig_info_fault_locked_entries base,
    oops_end_entries, show_fault_oops_entries, is_errata93_entries, St.emit, St.enter,
    St.set_thread, List.filter_append, List.filter_cons, h]

theorem __bad_area_nosemaphore_locked_entries (base : Int) (env : Env)
    (error_code address : Nat) (vma : Option Vma) (si_code : Nat) (st : St)
    (h : st.mmap_sem = base) :
    (__bad_area_nosemaphore env error_code address vma si_code st).entries.filter
        (fun x => x.2 != base) = st.entries.filter (fun x => x.2 != base) := by
  unfold __bad_area_nosemaphore
  simp only []
  repeat' split
  all_goals simp [force_sig_info_fault_locked_entries base, no_context_locked_entries base,
    (show_signal_msg_frame env _ _ _).1, (is_f00f_bug_frame env _ _).1,
    show_signal_msg_entries, is_f00f_bug_entries, St.emit, St.enter,
    St.set_thread, List.filter_append, List.filter_cons, h]

theorem do_sigbus_locked_entries (base : Int) (env : Env) (error_code address : Nat)
    (vma : Option Vma) (fault : Nat) (st : St) (h : st.mmap_sem = base) :
    (do_sigbus env error_code address vma fault st).entries.filter
        (fun x => x.2 != base) = st.entries.filter (fun x => x.2 != base) := by
  unfold do_sigbus
  simp only []
  repeat' split
  all_goals simp [force_sig_info_fault_locked_entries base, no_context_locked_entries base,
    St.emit, St.enter, St.set_thread, List.filter_append, List.filter_cons, h]

theorem mm_fault_error_locked_entries (base : Int) (env : Env)
    (pass error_code address : Nat) (vma : Option Vma) (fault : Nat) (st : St)
    (h : st.mmap_sem = base) :
    (mm_fault_error env pass error_code address vma fault st).entries.filter
        (fun x => x.2 != base) = st.entries.filter (fun x => x.2 != base) := by
  unfold mm_fault_error bad_area_nosemaphore
  simp only []
  repeat' split
  all_goals simp [do_sigbus_locked_entries base, no_context_locked_entries base,
    __bad_area_nosemaphore_locked_entries base, St.emit, St.enter, St.bug,
    List.filter_append, List.filter_cons, h]

theorem retry_exit_locked_entries (base : Int) (env : Env)
    (error_code address flags : Nat) (st : St) (h : st.mmap_sem = base) :
    (retry_exit env error_code address flags st).entries.filter
        (fun x => x.2 != base) = st.entries.filter (fun x => x.2 != base) := by
  unfold retry_exit
  split <;> simp [no_context_locked_entries base, h]

theorem __bad_area_locked_entries (base : Int) (env : Env) (error_code address : Nat)
    (vma : Option Vma) (si_code : Nat) (st : St) (h : st.mmap_sem = base + 1) :
    (__bad_area env error_code address vma si_code st).entries.filter
        (fun x => x.2 != base) = st.entries.filter (fun x => x.2 != base) := by
  unfold __bad_area
  rw [__bad_area_nosemaphore_locked_entries base env error_code address vma si_code _
    (by simp [St.up_read, St.emit, h])]
  rfl

theorem bad_area_access_error_locked_entries (base : Int) (env : Env)
    (error_code address : Nat) (vma : Vma) (st : St) (h : st.mmap_sem = base + 1) :
    (bad_area_access_error env error_code address vma st).entries.filter
        (fun x => x.2 != base) = st.entries.filter (fun x => x.2 != base) := by
  unfold bad_area_access_error
  split <;> exact __bad_area_locked_entries base env error_code address _ _ st h

theorem good_area_discipline (base : Int) (env : Env)
    (pass error_code address flags major : Nat) (vma : Vma) (st : St)
    (h : st.mmap_sem = base + 1) :
    (good_area env pass error_code address flags major vma st).st.mmap_sem = base ∧
    (good_area env pass error_code address flags major vma st).st.entries.filter
        (fun x => x.2 != base) = st.entries.filter (fun x => x.2 != base) := by
  unfold good_area
  simp only []
  repeat' split
  all_goals simp [Pass.st, (bad_area_access_error_frame env _ _ _ _).1,
    bad_area_access_error_locked_entries base, (retry_exit_frame env _ _ _ _).1,
    retry_exit_locked_entries base, (mm_fault_error_frame env _ _ _ _ _ _).1,
    mm_fault_error_locked_entries base, St.up_read, St.emit, h]

theorem fault_pass_discipline (base : Int) (env : Env)
    (pass error_code address flags major : Nat) (st : St) (h : st.mmap_sem = base + 1) :
    (fault_pass env pass error_code address flags major st).st.mmap_sem = base ∧
    (fault_pass env pass error_code address flags major st).st.entries.filter
        (fun x => x.2 != base) = st.entries.filter (fun x => x.2 != base) := by
  have hg := fun vma s hs => good_area_discipline base env pass error_code address flags major
    vma s hs
  unfold fault_pass bad_area
  simp only []
  repeat' split
  all_goals first
    | exact hg _ _ (by simp [St.emit, h])
    | simp [Pass.st, (__bad_area_frame env _ _ _ _ _).1, __bad_area_locked_entries base,
        St.emit, h]

theorem retry_loop_discipline (base : Int) (env : Env) (error_code address : Nat) :
    ∀ (fuel pass flags major : Nat) (st st' : St), st.mmap_sem = base + 1 →
      retry_loop env error_code address fuel pass flags major st = some st' →
      st'.mmap_sem = base ∧
      st'.entries.filter (fun x => x.2 != base) = st.entries.filter (fun x => x.2 != base) := by
  intro fuel
  induction fuel with
  | zero => intro pass flags major st st' _ h; simp [retry_loop] at h
  | succ n ih =>
    intro pass flags major st st' hs h
    have hd := fault_pass_discipline base env pass error_code address flags major st hs
    unfold retry_loop at h
    cases hp : fault_pass env pass error_code address flags major st with
    | done st1 =>
      rw [hp] at h hd
      simp only [Option.some.injEq] at h
      subst h
      exact hd
    | again flags1 major1 st1 =>
      rw [hp] at h hd
      simp only [Pass.st] at hd h
      obtain ⟨h1, h2⟩ := ih (pass + 1) flags1 major1 st1.down_read st'
        (by simp [St.down_read, St.emit, hd.1]) h
      exact ⟨h1, by rw [h2, ← hd.2]; rfl⟩

theorem lock_mm_discipline (base : Int) (env : Env) (error_code address flags : Nat) (st : St)
    (h : st.mmap_sem = base) :
    (lock_mm env error_code address flags st).st.entries.filter (fun x => x.2 != base) =
      st.entries.filter (fun x => x.2 != base) ∧
    (∀ st', lock_mm env error_code address flags st = .finished st' → st'.mmap_sem = base) ∧
    (∀ ec fl st', lock_mm env error_code address flags st = .lookup ec fl st' →
      st'.mmap_sem = base + 1) := by
  unfold lock_mm bad_area_nosemaphore
  simp only []
  repeat' split
  all_goals simp [Entry.st, (__bad_area_nosemaphore_frame env _ _ _ _ _).1,
    __bad_area_nosemaphore_locked_entries base, St.down_read, St.emit, h]

theorem mode_adjust_entries (env : Env) (error_code flags : Nat) (st : St) :
    (mode_adjust env error_code flags st).1.entries = st.entries := by
  unfold mode_adjust
  repeat' split
  all_goals simp [St.emit]

theorem user_fault_entry_discipline (base : Int) (env : Env) (error_code address : Nat)
    (st : St) (h : st.mmap_sem = base) :
    (user_fault_entry env error_code address st).st.entries.filter (fun x => x.2 != base) =
      st.entries.filter (fun x => x.2 != base) ∧
    (∀ st', user_fault_entry env error_code address st = .finished st' →
      st'.mmap_sem = base) ∧
    (∀ ec fl st', user_fault_entry env error_code address st = .lookup ec fl st' →
      st'.mmap_sem = base + 1) := by
  unfold user_fault_entry bad_area_nosemaphore
  simp only []
  have h1 : (if error_code &&& PF_RSVD ≠ 0 then pgtable_bad env error_code address st
      else st).mmap_sem = base ∧ (if error_code &&& PF_RSVD ≠ 0 then
        pgtable_bad env error_code address st else st).entries = st.entries := by
    split <;> simp [(pgtable_bad_frame env _ _ _).1, pgtable_bad_entries, h]
  generalize (if error_code &&& PF_RSVD ≠ 0 then pgtable_bad env error_code address st
      else st) = st1 at h1 ⊢
  rw [← h1.2]
  have hl := lock_mm_discipline base env
    (mode_adjust env error_code (FAULT_FLAG_ALLOW_RETRY ||| FAULT_FLAG_KILLABLE) st1).2.1 address
    (access_flags
      (mode_adjust env error_code (FAULT_FLAG_ALLOW_RETRY ||| FAULT_FLAG_KILLABLE) st1).2.1
      (mode_adjust env error_code (FAULT_FLAG_ALLOW_RETRY ||| FAULT_FLAG_KILLABLE) st1).2.2)
    ((mode_adjust env error_code (FAULT_FLAG_ALLOW_RETRY ||| FAULT_FLAG_KILLABLE) st1).1.emit
      (.perf_sw_event .PAGE_FAULTS))
    (by simp [St.emit, (mode_adjust_frame env _ _ _).1, h1.1])
  repeat' split
  all_goals first
    | (refine ⟨?_, hl.2.1, hl.2.2⟩
       rw [hl.1]
       simp [St.emit, mode_adjust_entries])
    | simp [Entry.st, (__bad_area_nosemaphore_frame env _ _ _ _ _).1,
        __bad_area_nosemaphore_locked_entries base, h1.1, h1.2, h]

theorem vmalloc_fault_lower_entries (env : Env) (address pgd pgd_ref : Nat) (st : St) :
    (vmalloc_fault_lower env address pgd pgd_ref st).2.entries = st.entries ∧
    (vmalloc_fault_lower env address pgd pgd_ref st).2.mmap_sem = st.mmap_sem := by
  unfold vmalloc_fault_lower
  simp only [apply_ite Prod.snd, apply_ite St.entries, apply_ite St.mmap_sem, St.bug, St.emit,
    ite_self, and_self]

theorem vmalloc_fault_entries (env : Env) (address : Nat) (st : St) :
    (vmalloc_fault env address st).2.entries = st.entries ∧
    (vmalloc_fault env address st).2.mmap_sem = st.mmap_sem := by
  unfold vmalloc_fault St.emit_once
  simp only []
  repeat' split
  all_goals simp [vmalloc_fault_lower_entries, St.bug, St.emit, St.store]

theorem spurious_fault_entries (env : Env) (error_code address : Nat) (st : St) :
    (spurious_fault env error_code address st).2.entries = st.entries ∧
    (spurious_fault env error_code address st).2.mmap_sem = st.mmap_sem := by
  unfold spurious_fault
  simp only [apply_ite Prod.snd, apply_ite St.entries, apply_ite St.mmap_sem,
    (St.emit_once_frame _ _).2.2.2.2.2.2.2, (St.emit_once_frame _ _).2.2.2.2.2.1, ite_self,
    and_self]

theorem kernel_fault_tail_discipline (base : Int) (env : Env) (error_code address : Nat)
    (st : St) (h : st.mmap_sem = base) :
    (kernel_fault_tail env error_code address st).mmap_sem = base ∧
    (kernel_fault_tail env error_code address st).entries.filter (fun x => x.2 != base) =
      st.entries.filter (fun x => x.2 != base) := by
  unfold kernel_fault_tail bad_area_nosemaphore
  simp only []
  repeat' split
  all_goals simp [(spurious_fault_entries env _ _ _).1, (spurious_fault_entries env _ _ _).2,
    (__bad_area_nosemaphore_frame env _ _ _ _ _).1,
    __bad_area_nosemaphore_locked_entries base, h]

theorem kernel_fault_discipline (base : Int) (env : Env) (error_code address : Nat)
    (st : St) (h : st.mmap_sem = base) :
    (kernel_fault env error_code address st).mmap_sem = base ∧
    (kernel_fault env error_code address st).entries.filter (fun x => x.2 != base) =
      st.entries.filter (fun x => x.2 != base) := by
  have hv := vmalloc_fault_entries env address st
  have ht := fun s hs => kernel_fault_tail_discipline base env error_code address s hs
  unfold kernel_fault
  simp only []
  repeat' split
  all_goals first
    | exact ht st h
    | (have ht' := ht (vmalloc_fault env address st).2 (by rw [hv.2, h])
       rw [ht'.1, ht'.2, hv.1]; exact ⟨rfl, rfl⟩)
    | simp [hv.1, hv.2, h]

/-- The lock discipline of the whole handler: it returns with the number of read holds on
`mmap_sem` it started with, and every entry into the failure reporter it records was made
with that number of holds. -/
theorem handler_discipline (env : Env) (fuel error_code address : Nat) (st st' : St)
    (h : __do_page_fault env fuel error_code address st = some st') :
    st'.mmap_sem = st.mmap_sem ∧
    st'.entries.filter (fun x => x.2 != st.mmap_sem) =
      st.entries.filter (fun x => x.2 != st.mmap_sem) := by
  unfold __do_page_fault at h
  simp only [] at h
  have h0 : (if env.kmemcheck_active = true then st.emit .kmemcheck_hide else st).mmap_sem =
      st.mmap_sem ∧ (if env.kmemcheck_active = true then st.emit .kmemcheck_hide
        else st).entries = st.entries := by
    split <;> simp [St.emit]
  generalize (if env.kmemcheck_active = true then st.emit .kmemcheck_hide else st) = st0
    at h h0
  rw [← h0.1, ← h0.2]
  by_cases hk : kmmio_fault env ≠ 0
  · rw [if_pos hk] at h
    simp only [Option.some.injEq] at h
    subst h
    exact ⟨rfl, rfl⟩
  · rw [if_neg hk] at h
    by_cases hs : fault_in_kernel_space env address ≠ 0
    · rw [if_pos hs] at h
      simp only [Option.some.injEq] at h
      subst h
      exact kernel_fault_discipline st0.mmap_sem env error_code address st0 rfl
    · rw [if_neg hs] at h
      have he := user_fault_entry_discipline st0.mmap_sem env error_code address st0 rfl
      cases hu : user_fault_entry env error_code address st0 with
      | finished st1 =>
        rw [hu] at h he
        simp only [Option.some.injEq] at h
        subst h
        exact ⟨he.2.1 _ rfl, he.1⟩
      | lookup error_code1 flags st1 =>
        rw [hu] at h he
        simp only [] at h
        obtain ⟨h1, h2⟩ := retry_loop_discipline st0.mmap_sem env error_code1 address fuel 0
          flags 0 st1 st' (he.2.2 _ _ _ rfl) h
        exact ⟨h1, by rw [h2]; exact he.1⟩

/-- Two passes of the retry loop are always enough: the handler returns. -/
theorem handler_returns (env : Env) (k error_code address : Nat) (st : St) :
    ∃ st', __do_page_fault env (k + 2) error_code address st = some st' := by
  unfold __do_page_fault
  simp only []
  repeat' split
  all_goals first
    | exact ⟨_, rfl⟩
    | (obtain ⟨s, h, _⟩ := retry_loop_populator env _ address k 0 _ 0 _
       exact ⟨s, h⟩)

/-- Entries of a record that agrees with an older one on the entries made with a lock count
other than `base`: each is an old entry or was made with lock count `base`. -/
theorem entries_mem_of_filter (base : Int) (l l' : List (Call × Int))
    (h : l'.filter (fun x => x.2 != base) = l.filter (fun x => x.2 != base)) :
    ∀ c n, (c, n) ∈ l' → (c, n) ∈ l ∨ n = base := by
  intro c n hm
  by_cases hn : n = base
  · exact Or.inr hn
  · left
    have h1 : (c, n) ∈ l'.filter (fun x => x.2 != base) := by
      rw [List.mem_filter]
      exact ⟨hm, by simpa using hn⟩
    rw [h] at h1
    exact (List.mem_filter.mp h1).1

/-- C13: on every execution of `__do_page_fault` (two passes of the retry loop are enough for
it to return; the populator drops `mmap_sem` exactly when it answers `VM_FAULT_RETRY`), every
entry into `__bad_area_nosemaphore`, which is the body of `bad_area_nosemaphore`, that the
execution makes is made with the number of read holds on `mmap_sem` the handler was entered
with: the handler holds no read lock of its own at that point. -/
theorem bad_area_nosemaphore_never_locked (env : Env) (k error_code address : Nat) (st : St) :
    ∃ st', __do_page_fault env (k + 2) error_code address st = some st' ∧
      ∀ si_code n, (Call.__bad_area_nosemaphore si_code, n) ∈ st'.entries →
        (Call.__bad_area_nosemaphore si_code, n) ∈ st.entries ∨ n = st.mmap_sem := by
  obtain ⟨st', h⟩ := handler_returns env k error_code address st
  refine ⟨st', h, ?_⟩
  intro si_code n hm
  exact entries_mem_of_filter st.mmap_sem st.entries st'.entries
    (handler_discipline env (k + 2) error_code address st st' h).2 _ n hm

/-- C14: on every execution of `__do_page_fault` with `PF_USER` in the cause, every entry
into `no_context` the execution makes is made with the number of read holds on `mmap_sem`
the handler was entered with: the handler does not hold the read lock there. -/
theorem no_context_never_locked (env : Env) (k error_code address : Nat) (st : St)
    (_hu : error_code &&& PF_USER ≠ 0) :
    ∃ st', __do_page_fault env (k + 2) error_code address st = some st' ∧
      ∀ signal si_code n, (Call.no_context signal si_code, n) ∈ st'.entries →
        (Call.no_context signal si_code, n) ∈ st.entries ∨ n = st.mmap_sem := by
  obtain ⟨st', h⟩ := handler_returns env k error_code address st
  refine ⟨st', h, ?_⟩
  intro signal si_code n hm
  exact entries_mem_of_filter st.mmap_sem st.entries st'.entries
    (handler_discipline env (k + 2) error_code address st st' h).2 _ n hm

/-! ### The kernel half and the address-space map -/

theorem mm_op_of_report (p : Event → Bool) (hm : ∀ e, e.is_mm_op = false → p e = false) :
    ∀ e, e.is_report = true → p e = false := by
  intro e he
  apply hm
  cases e <;> first | rfl | simp [Event.is_report] at he

theorem vmalloc_fault_lower_mm_filter (p : Event → Bool)
    (hm : ∀ e, e.is_mm_op = false → p e = false) (env : Env) (address pgd pgd_ref : Nat)
    (st : St) :
    (vmalloc_fault_lower env address pgd pgd_ref st).2.trace.filter p = st.trace.filter p := by
  have hbug : p .BUG = false := hm _ rfl
  have hb : (st.bug).trace.filter p = st.trace.filter p := by
    simp [St.bug, St.emit, List.filter_append, hbug]
  unfold vmalloc_fault_lower
  simp only [apply_ite Prod.snd, apply_ite St.trace, apply_ite (List.filter p), hb, ite_self]

theorem vmalloc_fault_mm_filter (p : Event → Bool)
    (hm : ∀ e, e.is_mm_op = false → p e = false) (env : Env) (address : Nat) (st : St) :
    (vmalloc_fault env address st).2.trace.filter p = st.trace.filter p := by
  have hbug : p .BUG = false := hm _ rfl
  have hwarn : ∀ w, p (.WARN w) = false := fun w => hm _ rfl
  have hset : ∀ a v, p (.set_pgd a v) = false := fun a v => hm _ rfl
  have hfl : p .arch_flush_lazy_mmu_mode = false := hm _ rfl
  unfold vmalloc_fault St.emit_once
  simp only []
  repeat' split
  all_goals simp [vmalloc_fault_lower_mm_filter p hm, St.bug, St.emit, St.store,
    List.filter_append, hbug, hwarn, hset, hfl]

theorem spurious_fault_mm_filter (p : Event → Bool)
    (hm : ∀ e, e.is_mm_op = false → p e = false) (env : Env) (error_code address : Nat)
    (st : St) :
    (spurious_fault env error_code address st).2.trace.filter p = st.trace.filter p := by
  have hw : ∀ (s : St) (w : Warning),
      (s.emit_once (.WARN w)).trace.filter p = s.trace.filter p :=
    fun s w => St.emit_once_filter p s _ (hm _ rfl)
  unfold spurious_fault
  simp only [apply_ite Prod.snd, apply_ite St.trace, apply_ite (List.filter p), hw, ite_self]

theorem kernel_fault_tail_mm_filter (p : Event → Bool)
    (hm : ∀ e, e.is_mm_op = false → p e = false) (env : Env) (error_code address : Nat)
    (st : St) :
    (kernel_fault_tail env error_code address st).trace.filter p = st.trace.filter p := by
  have hp := mm_op_of_report p hm
  unfold kernel_fault_tail bad_area_nosemaphore
  simp only []
  repeat' split
  all_goals simp [spurious_fault_mm_filter p hm, __bad_area_nosemaphore_filter p hp]

/-- The kernel-half branch makes no call on the address-space map or its lock. -/
theorem kernel_fault_mm_filter (p : Event → Bool)
    (hm : ∀ e, e.is_mm_op = false → p e = false) (env : Env) (error_code address : Nat)
    (st : St) :
    (kernel_fault env error_code address st).trace.filter p = st.trace.filter p := by
  unfold kernel_fault
  simp only []
  repeat' split
  all_goals simp [kernel_fault_tail_mm_filter p hm, vmalloc_fault_mm_filter p hm]

theorem mm_op_filter_self : ∀ e : Event, e.is_mm_op = false → Event.is_mm_op e = false :=
  fun _ h => h

/-- C19: for every fault at an address in the kernel half (`address >= TASK_SIZE_MAX`),
whatever the cause, the trap frame, the page tables and the answers of every function the
handler calls: `__do_page_fault` returns (with any fuel, the retry loop is not entered),
its trace gains no `down_read_trylock`, `down_read`, `up_read`, `find_vma`, `expand_stack`
or `handle_mm_fault` call, and the number of read holds on `mmap_sem` is unchanged. -/
theorem kernel_half_never_touches_mm (env : Env) (fuel error_code address : Nat) (st : St)
    (hk : address ≥ env.TASK_SIZE_MAX) :
    ∃ st', __do_page_fault env fuel error_code address st = some st' ∧
      st'.trace.filter Event.is_mm_op = st.trace.filter Event.is_mm_op ∧
      st'.mmap_sem = st.mmap_sem := by
  have hs : fault_in_kernel_space env address ≠ 0 := by
    unfold fault_in_kernel_space
    rw [if_pos hk]
    decide
  have h0 : (if env.kmemcheck_active = true then st.emit .kmemcheck_hide else st).trace.filter
      Event.is_mm_op = st.trace.filter Event.is_mm_op ∧
      (if env.kmemcheck_active = true then st.emit .kmemcheck_hide else st).mmap_sem =
        st.mmap_sem := by
    split <;> simp [St.emit, List.filter_append, Event.is_mm_op]
  unfold __do_page_fault
  simp only []
  generalize (if env.kmemcheck_active = true then st.emit .kmemcheck_hide else st) = st0
    at h0 ⊢
  rw [← h0.1, ← h0.2]
  by_cases hkm : kmmio_fault env ≠ 0
  · rw [if_pos hkm]
    exact ⟨st0, rfl, rfl, rfl⟩
  · rw [if_neg hkm, if_pos hs]
    exact ⟨_, rfl, kernel_fault_mm_filter Event.is_mm_op mm_op_filter_self env error_code
      address st0, (kernel_fault_discipline st0.mmap_sem env error_code address st0 rfl).1⟩

/-- Witness for C19: scenario 1, a kernel-mode read of `vaddr1` in the vmalloc range. -/
theorem kernel_half_never_touches_mm_witness :
    vaddr1 ≥ env0.TASK_SIZE_MAX ∧
    ∃ st', __do_page_fault env0 0 0 vaddr1 (St.init mem1 kernel_regs) = some st' ∧
      st'.trace.filter Event.is_mm_op =
        (St.init mem1 kernel_regs).trace.filter Event.is_mm_op ∧
      st'.mmap_sem = (St.init mem1 kernel_regs).mmap_sem :=
  ⟨by decide, kernel_half_never_touches_mm env0 0 0 vaddr1 (St.init mem1 kernel_regs)
    (by decide)⟩

/-! ### Acquisitions and releases of `mmap_sem` in the trace -/

theorem lock_balance_append (a b : List Event) :
    lock_balance (a ++ b) = lock_balance a + lock_balance b := by
  simp [lock_balance]

theorem lock_balance_cons (e : Event) (tr : List Event) :
    lock_balance (e :: tr) = e.lock_delta + lock_balance tr := by
  simp [lock_balance]

theorem lock_balance_nil : lock_balance [] = 0 := rfl

theorem lock_balance_filter (tr : List Event) :
    lock_balance (tr.filter (fun e => e.lock_delta != 0)) = lock_balance tr := by
  induction tr with
  | nil => rfl
  | cons e tr ih =>
    by_cases h : e.lock_delta = 0
    · rw [List.filter_cons_of_neg (by simpa using h), ih]
      simp [lock_balance, h]
    · rw [List.filter_cons_of_pos (by simpa using h)]
      simp only [lock_balance, List.map_cons, List.sum_cons] at ih ⊢
      rw [ih]

theorem lock_balance_of_filter (tr tr' : List Event)
    (h : tr'.filter (fun e => e.lock_delta != 0) = tr.filter (fun e => e.lock_delta != 0)) :
    lock_balance tr' = lock_balance tr := by
  rw [← lock_balance_filter tr', h, lock_balance_filter]

theorem lock_delta_of_report : ∀ e : Event, e.is_report = true →
    (fun e : Event => e.lock_delta != 0) e = false := by
  intro e he
  cases e <;> first | rfl | simp [Event.is_report] at he

theorem lock_delta_of_mm_op : ∀ e : Event, e.is_mm_op = false →
    (fun e : Event => e.lock_delta != 0) e = false := by
  intro e he
  cases e <;> first | rfl | simp [Event.is_mm_op] at he

theorem __bad_area_nosemaphore_balance (env : Env) (error_code address : Nat)
    (vma : Option Vma) (si_code : Nat) (st : St) :
    lock_balance (__bad_area_nosemaphore env error_code address vma si_code st).trace =
      lock_balance st.trace :=
  lock_balance_of_filter _ _ (__bad_area_nosemaphore_filter _ lock_delta_of_report env
    error_code address vma si_code st)

theorem no_context_balance (env : Env) (error_code address signal si_code : Nat) (st : St) :
    lock_balance (no_context env error_code address signal si_code st).trace =
      lock_balance st.trace :=
  lock_balance_of_filter _ _ (no_context_filter _ lock_delta_of_report env error_code address
    signal si_code st)

theorem mm_fault_error_balance (env : Env) (pass error_code address : Nat) (vma : Option Vma)
    (fault : Nat) (st : St) :
    lock_balance (mm_fault_error env pass error_code address vma fault st).trace =
      lock_balance st.trace :=
  lock_balance_of_filter _ _ (mm_fault_error_filter _ lock_delta_of_report env pass error_code
    address vma fault st)

theorem retry_exit_balance (env : Env) (error_code address flags : Nat) (st : St) :
    lock_balance (retry_exit env error_code address flags st).trace = lock_balance st.trace :=
  lock_balance_of_filter _ _ (retry_exit_filter _ lock_delta_of_report env error_code address
    flags st)

theorem pgtable_bad_balance (env : Env) (error_code address : Nat) (st : St) :
    lock_balance (pgtable_bad env error_code address st).trace = lock_balance st.trace :=
  lock_balance_of_filter _ _ (pgtable_bad_filter _ lock_delta_of_report env error_code address
    st)

theorem mode_adjust_balance (env : Env) (error_code flags : Nat) (st : St) :
    lock_balance (mode_adjust env error_code flags st).1.trace = lock_balance st.trace := by
  unfold mode_adjust
  repeat' split
  all_goals simp [St.emit, lock_balance_append, lock_balance_cons, lock_balance_nil, Event.lock_delta]

theorem kernel_fault_balance (env : Env) (error_code address : Nat) (st : St) :
    lock_balance (kernel_fault env error_code address st).trace = lock_balance st.trace :=
  lock_balance_of_filter _ _ (kernel_fault_mm_filter _ lock_delta_of_mm_op env error_code
    address st)

theorem __bad_area_balance (env : Env) (error_code address : Nat) (vma : Option Vma)
    (si_code : Nat) (st : St) :
    lock_balance (__bad_area env error_code address vma si_code st).trace =
      lock_balance st.trace - 1 := by
  unfold __bad_area
  rw [__bad_area_nosemaphore_balance]
  simp [St.up_read, St.emit, lock_balance_append, lock_balance_cons, lock_balance_nil, Event.lock_delta]
  rfl

theorem bad_area_access_error_balance (env : Env) (error_code address : Nat) (vma : Vma)
    (st : St) :
    lock_balance (bad_area_access_error env error_code address vma st).trace =
      lock_balance st.trace - 1 := by
  unfold bad_area_access_error
  split <;> exact __bad_area_balance _ _ _ _ _ _

/-- The counter `mmap_sem` of the state moves with the acquisitions and releases recorded in
the trace, through `good_area`. -/
theorem good_area_balance (env : Env) (pass error_code address flags major : Nat) (vma : Vma)
    (st : St) :
    (good_area env pass error_code address flags major vma st).st.mmap_sem -
        lock_balance (good_area env pass error_code address flags major vma st).st.trace =
      st.mmap_sem - lock_balance st.trace := by
  unfold good_area
  simp only []
  repeat' split
  all_goals simp [Pass.st, bad_area_access_error_balance,
    (bad_area_access_error_frame env _ _ _ _).1, retry_exit_balance,
    (retry_exit_frame env _ _ _ _).1, mm_fault_error_balance,
    (mm_fault_error_frame env _ _ _ _ _ _).1, St.up_read, St.emit, lock_balance_append,
    lock_balance_cons, lock_balance_nil, Event.lock_delta, *]
  all_goals omega

theorem fault_pass_balance (env : Env) (pass error_code address flags major : Nat) (st : St) :
    (fault_pass env pass error_code address flags major st).st.mmap_sem -
        lock_balance (fault_pass env pass error_code address flags major st).st.trace =
      st.mmap_sem - lock_balance st.trace := by
  have he : ∀ (s : St) (e : Event), e.lock_delta = 0 →
      (s.emit e).mmap_sem - lock_balance (s.emit e).trace = s.mmap_sem - lock_balance s.trace := by
    intro s e h
    simp [St.emit, lock_balance_append, lock_balance_cons, lock_balance_nil, h]
  have hb : ∀ s : St, (bad_area env error_code address s).mmap_sem -
      lock_balance (bad_area env error_code address s).trace =
        s.mmap_sem - lock_balance s.trace := by
    intro s
    unfold bad_area
    rw [__bad_area_balance, (__bad_area_frame env _ _ _ _ _).1]
    omega
  unfold fault_pass
  simp only []
  repeat' split
  all_goals first
    | (rw [good_area_balance]
       simp only [he _ (.find_vma address) rfl, he _ (.expand_stack _ address) rfl])
    | simp only [Pass.st, hb, he _ (.find_vma address) rfl, he _ (.expand_stack _ address) rfl]

theorem retry_loop_balance (env : Env) (error_code address : Nat) :
    ∀ (fuel pass flags major : Nat) (st st' : St),
      retry_loop env error_code address fuel pass flags major st = some st' →
      st'.mmap_sem - lock_balance st'.trace = st.mmap_sem - lock_balance st.trace := by
  intro fuel
  induction fuel with
  | zero => intro pass flags major st st' h; simp [retry_loop] at h
  | succ n ih =>
    intro pass flags major st st' h
    have hb := fault_pass_balance env pass error_code address flags major st
    unfold retry_loop at h
    cases hp : fault_pass env pass error_code address flags major st with
    | done s =>
      rw [hp] at h hb
      simp only [Option.some.injEq] at h
      subst h
      exact hb
    | again flags1 major1 s =>
      rw [hp] at h hb
      simp only [] at h
      rw [ih _ _ _ _ _ h, ← hb]
      simp [Pass.st, St.down_read, St.emit, lock_balance_append, lock_balance_cons,
        lock_balance_nil, Event.lock_delta]

theorem lock_mm_balance (env : Env) (error_code address flags : Nat) (st : St) :
    (lock_mm env error_code address flags st).st.mmap_sem -
        lock_balance (lock_mm env error_code address flags st).st.trace =
      st.mmap_sem - lock_balance st.trace := by
  unfold lock_mm bad_area_nosemaphore
  simp only []
  repeat' split
  all_goals simp [Entry.st, __bad_area_nosemaphore_balance,
    (__bad_area_nosemaphore_frame env _ _ _ _ _).1, St.down_read, St.emit,
    lock_balance_append, lock_balance_cons, lock_balance_nil, Event.lock_delta]

theorem user_fault_entry_balance (env : Env) (error_code address : Nat) (st : St) :
    (user_fault_entry env error_code address st).st.mmap_sem -
        lock_balance (user_fault_entry env error_code address st).st.trace =
      st.mmap_sem - lock_balance st.trace := by
  unfold user_fault_entry bad_area_nosemaphore
  simp only []
  repeat' split
  all_goals first
    | (rw [lock_mm_balance]
       simp [St.emit, lock_balance_append, mode_adjust_balance, pgtable_bad_balance,
         (mode_adjust_frame env _ _ _).1, (pgtable_bad_frame env _ _ _).1, lock_balance_cons,
         lock_balance_nil, Event.lock_delta])
    | simp [Entry.st, __bad_area_nosemaphore_balance,
        (__bad_area_nosemaphore_frame env _ _ _ _ _).1, pgtable_bad_balance,
        (pgtable_bad_frame env _ _ _).1]

/-- Over the whole handler the counter `mmap_sem` moves with the trace: the acquisitions
minus the releases the handler adds to the trace is the change of the counter. -/
theorem handler_balance (env : Env) (fuel error_code address : Nat) (st st' : St)
    (h : __do_page_fault env fuel error_code address st = some st') :
    st'.mmap_sem - lock_balance st'.trace = st.mmap_sem - lock_balance st.trace := by
  unfold __do_page_fault at h
  simp only [] at h
  have h0 : (if env.kmemcheck_active = true then st.emit .kmemcheck_hide else st).mmap_sem -
      lock_balance (if env.kmemcheck_active = true then st.emit .kmemcheck_hide
        else st).trace = st.mmap_sem - lock_balance st.trace := by
    split <;> simp [St.emit, lock_balance_append, lock_balance_cons, lock_balance_nil, Event.lock_delta]
  generalize (if env.kmemcheck_active = true then st.emit .kmemcheck_hide else st) = st0
    at h h0
  rw [← h0]
  by_cases hk : kmmio_fault env ≠ 0
  · rw [if_pos hk] at h
    simp only [Option.some.injEq] at h
    subst h
    rfl
  · rw [if_neg hk] at h
    by_cases hs : fault_in_kernel_space env address ≠ 0
    · rw [if_pos hs] at h
      simp only [Option.some.injEq] at h
      subst h
      rw [kernel_fault_balance,
        (kernel_fault_discipline st0.mmap_sem env error_code address st0 rfl).1]
    · rw [if_neg hs] at h
      have he := user_fault_entry_balance env error_code address st0
      cases hu : user_fault_entry env error_code address st0 with
      | finished st1 =>
        rw [hu] at h he
        simp only [Option.some.injEq] at h
        subst h
        exact he
      | lookup error_code1 flags st1 =>
        rw [hu] at h he
        simp only [] at h
        rw [retry_loop_balance env error_code1 address fuel 0 flags 0 st1 st' h]
        exact he

/-- Witness for C14: a fault with `PF_USER` in the cause taken on a kernel-mode trap frame,
inside `vma_code`, while the populator answers `VM_FAULT_RETRY` on both passes: the handler
reaches `no_context` from the retry exit (line 1542), after the populator dropped the lock. -/
theorem no_context_never_locked_witness :
    PF_USER &&& PF_USER ≠ 0 ∧
    (__do_page_fault env_retry 2 PF_USER 0x400800 (St.init mem1 kernel_regs)).map
        (fun s => s.entries) = some [(.no_context SIGBUS BUS_ADRERR, 0)] ∧
    ∃ st', __do_page_fault env_retry (0 + 2) PF_USER 0x400800 (St.init mem1 kernel_regs) =
        some st' ∧
      ∀ signal si_code n, (Call.no_context signal si_code, n) ∈ st'.entries →
        (Call.no_context signal si_code, n) ∈ (St.init mem1 kernel_regs).entries ∨
          n = (St.init mem1 kernel_regs).mmap_sem :=
  ⟨by decide, by decide,
    no_context_never_locked env_retry 0 PF_USER 0x400800 (St.init mem1 kernel_regs)
      (by decide)⟩

theorem lock_balance_counts (tr : List Event) :
    lock_balance tr = (tr.countP Event.is_acquire : Int) - tr.countP Event.is_release := by
  induction tr with
  | nil => rfl
  | cons e tr ih =>
    rw [lock_balance_cons, ih]
    cases e <;> simp [Event.lock_delta, Event.is_acquire, Event.is_release, List.countP_cons]
    · rename_i ok
      cases ok
      · simp [Event.lock_delta, Event.is_acquire]
      · simp [Event.lock_delta, Event.is_acquire]
        omega
    · omega
    · omega
    · split <;> omega

/-- C15: on every execution of `__do_page_fault` (two passes of the retry loop are enough
for it to return; the populator drops `mmap_sem` exactly when it answers `VM_FAULT_RETRY`):
the handler returns with the number of read holds on `mmap_sem` it was entered with; the
acquisitions it adds to the trace (`down_read_trylock` that succeeds, `down_read`) are as
many as the releases it adds (`up_read`, populator answers with `VM_FAULT_RETRY`); and every
entry it makes into `mm_fault_error`, `no_context`, `force_sig_info_fault` or
`__bad_area_nosemaphore` is made with the number of holds the handler was entered with. -/
theorem mmap_sem_balanced (env : Env) (k error_code address : Nat) (st : St) :
    ∃ st', __do_page_fault env (k + 2) error_code address st = some st' ∧
      st'.mmap_sem = st.mmap_sem ∧
      (st'.trace.countP Event.is_acquire : Int) - st.trace.countP Event.is_acquire =
        st'.trace.countP Event.is_release - st.trace.countP Event.is_release ∧
      ∀ c n, (c, n) ∈ st'.entries → (c, n) ∈ st.entries ∨ n = st.mmap_sem := by
  obtain ⟨st', h⟩ := handler_returns env k error_code address st
  have hd := handler_discipline env (k + 2) error_code address st st' h
  have hb := handler_balance env (k + 2) error_code address st st' h
  rw [hd.1, lock_balance_counts, lock_balance_counts] at hb
  exact ⟨st', h, hd.1, by omega, entries_mem_of_filter st.mmap_sem st.entries st'.entries hd.2⟩

/-- A run that takes the lock twice: a user-mode read inside `vma_code` while the populator
answers `VM_FAULT_RETRY` on both passes.  Each acquisition is followed by the release the
populator makes, and the handler returns with no hold. -/
theorem retry_run_lock_example :
    (__do_page_fault env_retry 2 PF_USER 0x400800 (St.init mem1 user_regs)).map
        (fun s => (s.trace.filter Event.is_mm_op, s.mmap_sem, s.entries)) =
      some ([.down_read_trylock true, .find_vma 0x400800,
        .handle_mm_fault vma_code 0x400800 0x54 VM_FAULT_RETRY, .down_read,
        .find_vma 0x400800, .handle_mm_fault vma_code 0x400800 0x70 VM_FAULT_RETRY], 0, []) := by
  decide

/-! ### Stack growth -/

/-- What `bad_area` does: it releases `mmap_sem`, makes no call on the address-space map, and
for a user-mode fault that no quirk filter absorbs delivers one SIGSEGV with `SEGV_MAPERR`. -/
theorem bad_area_map_err (env : Env) (error_code address : Nat) (st : St) :
    (bad_area env error_code address st).trace.filter Event.is_region_op =
      st.trace.filter Event.is_region_op ∧
    (bad_area env error_code address st).mmap_sem = st.mmap_sem - 1 ∧
    (error_code &&& PF_USER ≠ 0 → ¬ quirk_absorbs env st.regs error_code address →
      signals (bad_area env error_code address st).trace =
        signals st.trace ++ [.force_sig_info SIGSEGV 0 SEGV_MAPERR address 0 none]) := by
  have hp := region_op_of_report Event.is_region_op region_op_filter_self
  refine ⟨?_, ?_, ?_⟩
  · unfold bad_area
    rw [__bad_area_filter Event.is_region_op hp rfl]
  · unfold bad_area
    rw [(__bad_area_frame env error_code address none SEGV_MAPERR _).1]
  · intro hu hq
    unfold bad_area __bad_area
    rw [__bad_area_nosemaphore_user env error_code address none SEGV_MAPERR _ hu
      (by simpa [St.up_read, St.emit] using hq)]
    have hk : (fill_sig_info_pkey env SEGV_MAPERR none st.up_read).1 = none := by
      unfold fill_sig_info_pkey
      split
      · rfl
      · rw [if_pos (by decide)]
    rw [hk]
    simp [signals, St.up_read, St.emit, List.filter_append, List.filter_cons, Event.is_signal]

theorem expand_stack_filter_region_op : ∀ e : Event, e.is_region_op = false →
    Event.is_expand_stack e = false := by
  intro e he
  cases e <;> simp_all [Event.is_region_op, Event.is_expand_stack]

/-- C11: for a fault that has arrived at the region lookup with `PF_USER` in the
(mode-adjusted) cause, when `find_vma` returns a region with `VM_GROWSDOWN` that starts
above the address.  If `address + 65536 + 32 * sizeof(unsigned long)`, computed in 64-bit
machine arithmetic, is below `regs->sp`, the pass ends in `bad_area`: no `expand_stack` or
populator call follows the lookup, the lock is released, and unless a quirk filter absorbs
the fault one SIGSEGV with `SEGV_MAPERR` is delivered.  If the sum is at least `regs->sp`
(equality included) the guard does not reject: `expand_stack` is invoked, once, and the pass
goes on to `bad_area` or `good_area` by its answer.  For an address below `TASK_SIZE_MAX`
(with `TASK_SIZE_MAX` at least 65536 + 256 below 2^64) the sum does not wrap. -/
theorem stack_guard (env : Env) (pass error_code address flags major : Nat) (vma : Vma)
    (st : St) (hu : error_code &&& PF_USER ≠ 0)
    (hv : env.find_vma pass address = some vma) (hlt : address < vma.vm_start)
    (hg : vma.vm_flags &&& VM_GROWSDOWN ≠ 0) :
    ((address + 65536 + 32 * sizeof_long) % 2 ^ 64 < st.regs.sp →
      ∃ st', fault_pass env pass error_code address flags major st = .done st' ∧
        st' = bad_area env error_code address (st.emit (.find_vma address)) ∧
        st'.trace.filter Event.is_region_op =
          st.trace.filter Event.is_region_op ++ [.find_vma address] ∧
        st'.mmap_sem = st.mmap_sem - 1 ∧
        (¬ quirk_absorbs env st.regs error_code address →
          signals st'.trace =
            signals st.trace ++ [.force_sig_info SIGSEGV 0 SEGV_MAPERR address 0 none])) ∧
    (st.regs.sp ≤ (address + 65536 + 32 * sizeof_long) % 2 ^ 64 →
      fault_pass env pass error_code address flags major st =
        (if env.expand_stack pass vma address ≠ 0 then
          .done (bad_area env error_code address
            ((st.emit (.find_vma address)).emit (.expand_stack vma address)))
        else good_area env pass error_code address flags major vma
          ((st.emit (.find_vma address)).emit (.expand_stack vma address))) ∧
      (fault_pass env pass error_code address flags major st).st.trace.filter
          Event.is_expand_stack =
        st.trace.filter Event.is_expand_stack ++ [.expand_stack vma address]) ∧
    (address < env.TASK_SIZE_MAX → env.TASK_SIZE_MAX + 65536 + 32 * sizeof_long ≤ 2 ^ 64 →
      (address + 65536 + 32 * sizeof_long) % 2 ^ 64 = address + 65536 + 32 * sizeof_long) := by
  refine ⟨?_, ?_, ?_⟩
  · intro hsp
    have hb := bad_area_map_err env error_code address (st.emit (.find_vma address))
    refine ⟨_, ?_, rfl, ?_, hb.2.1, ?_⟩
    · unfold fault_pass
      simp only [hv]
      rw [if_neg (by omega), if_neg hg, if_pos ⟨hu, hsp⟩]
    · rw [hb.1]
      simp [St.emit, List.filter_append, List.filter_cons, Event.is_region_op]
    · intro hq
      rw [hb.2.2 hu hq]
      simp [signals, St.emit, List.filter_append, List.filter_cons, Event.is_signal]
  · intro hsp
    have hpass : fault_pass env pass error_code address flags major st =
        (if env.expand_stack pass vma address ≠ 0 then
          .done (bad_area env error_code address
            ((st.emit (.find_vma address)).emit (.expand_stack vma address)))
        else good_area env pass error_code address flags major vma
          ((st.emit (.find_vma address)).emit (.expand_stack vma address))) := by
      unfold fault_pass
      simp only [hv]
      rw [if_neg (by omega), if_neg hg, if_neg (by
        intro h
        have := h.2
        simp only [St.emit] at this
        omega)]
    refine ⟨hpass, ?_⟩
    rw [hpass]
    have hp := region_op_of_report Event.is_expand_stack expand_stack_filter_region_op
    split
    · simp [Pass.st, bad_area, __bad_area_filter Event.is_expand_stack hp rfl, St.emit,
        List.filter_append, List.filter_cons, Event.is_expand_stack]
    · obtain ⟨l2, hl2, ht, _⟩ := good_area_region_ops Event.is_expand_stack
        expand_stack_filter_region_op env pass error_code address flags major vma
        ((st.emit (.find_vma address)).emit (.expand_stack vma address))
      rw [ht]
      rcases hl2 with rfl | rfl <;>
        simp [St.emit, List.filter_append, List.filter_cons, Event.is_expand_stack]
  · intro ha ht
    apply Nat.mod_eq_of_lt
    omega

/-- Witness for C11: a user-mode write 65536 + 256 bytes below the stack pointer, which is
the lowest address the guard lets through (the sum equals `sp`), with `vma_stack` as the
region found; one byte lower the guard rejects and the handler ends in `SEGV_MAPERR`. -/
theorem stack_guard_witness :
    ((PF_USER ||| PF_WRITE) &&& PF_USER ≠ 0 ∧ env_stack.find_vma 0 0x7ffffffee000 = some vma_stack ∧
      0x7ffffffee000 < vma_stack.vm_start ∧ vma_stack.vm_flags &&& VM_GROWSDOWN ≠ 0 ∧
      (0x7ffffffee000 + 65536 + 32 * sizeof_long) % 2 ^ 64 = user_regs.sp) ∧
    (__do_page_fault env_stack 2 (PF_USER ||| PF_WRITE) 0x7ffffffedfff
        (St.init mem1 user_regs)).map (fun s => s.trace.filter Event.is_mm_op ++ signals s.trace) =
      some [.down_read_trylock true, .find_vma 0x7ffffffedfff, .up_read,
        .force_sig_info SIGSEGV 0 SEGV_MAPERR 0x7ffffffedfff 0 none] ∧
    (((0x7ffffffee000 + 65536 + 32 * sizeof_long) % 2 ^ 64 < (St.init mem1 user_regs).regs.sp →
      ∃ st', fault_pass env_stack 0 (PF_USER ||| PF_WRITE) 0x7ffffffee000 0x55 0
          (St.init mem1 user_regs) = .done st' ∧
        st' = bad_area env_stack (PF_USER ||| PF_WRITE) 0x7ffffffee000
          ((St.init mem1 user_regs).emit (.find_vma 0x7ffffffee000)) ∧
        st'.trace.filter Event.is_region_op =
          (St.init mem1 user_regs).trace.filter Event.is_region_op ++
            [.find_vma 0x7ffffffee000] ∧
        st'.mmap_sem = (St.init mem1 user_regs).mmap_sem - 1 ∧
        (¬ quirk_absorbs env_stack (St.init mem1 user_regs).regs (PF_USER ||| PF_WRITE)
            0x7ffffffee000 →
          signals st'.trace = signals (St.init mem1 user_regs).trace ++
            [.force_sig_info SIGSEGV 0 SEGV_MAPERR 0x7ffffffee000 0 none])) ∧
    ((St.init mem1 user_regs).regs.sp ≤ (0x7ffffffee000 + 65536 + 32 * sizeof_long) % 2 ^ 64 →
      fault_pass env_stack 0 (PF_USER ||| PF_WRITE) 0x7ffffffee000 0x55 0
          (St.init mem1 user_regs) =
        (if env_stack.expand_stack 0 vma_stack 0x7ffffffee000 ≠ 0 then
          .done (bad_area env_stack (PF_USER ||| PF_WRITE) 0x7ffffffee000
            (((St.init mem1 user_regs).emit (.find_vma 0x7ffffffee000)).emit
              (.expand_stack vma_stack 0x7ffffffee000)))
        else good_area env_stack 0 (PF_USER ||| PF_WRITE) 0x7ffffffee000 0x55 0 vma_stack
          (((St.init mem1 user_regs).emit (.find_vma 0x7ffffffee000)).emit
            (.expand_stack vma_stack 0x7ffffffee000))) ∧
      (fault_pass env_stack 0 (PF_USER ||| PF_WRITE) 0x7ffffffee000 0x55 0
          (St.init mem1 user_regs)).st.trace.filter Event.is_expand_stack =
        (St.init mem1 user_regs).trace.filter Event.is_expand_stack ++
          [.expand_stack vma_stack 0x7ffffffee000]) ∧
    (0x7ffffffee000 < env_stack.TASK_SIZE_MAX →
      env_stack.TASK_SIZE_MAX + 65536 + 32 * sizeof_long ≤ 2 ^ 64 →
      (0x7ffffffee000 + 65536 + 32 * sizeof_long) % 2 ^ 64 =
        0x7ffffffee000 + 65536 + 32 * sizeof_long)) :=
  ⟨⟨by decide, by decide, by decide, by decide, by decide⟩, by decide,
    stack_guard env_stack 0 (PF_USER ||| PF_WRITE) 0x7ffffffee000 0x55 0 vma_stack
      (St.init mem1 user_regs) (by decide) (by decide) (by decide) (by decide)⟩

/-- The handler from the state in which its entry part arrives at the lookup: what is left
is the retry loop. -/
theorem handler_of_lookup (env : Env) (fuel error_code0 address : Nat) (st0 : St)
    (error_code flags : Nat) (st : St) (hk : kmmio_fault env = 0)
    (ha : address < env.TASK_SIZE_MAX)
    (he : user_fault_entry env error_code0 address
      (if env.kmemcheck_active then st0.emit .kmemcheck_hide else st0) =
        .lookup error_code flags st) :
    __do_page_fault env fuel error_code0 address st0 =
      retry_loop env error_code address fuel 0 flags 0 st := by
  have hs : fault_in_kernel_space env address = 0 := by
    unfold fault_in_kernel_space
    rw [if_neg (by omega)]
  unfold __do_page_fault
  simp only [hk, hs, ne_eq, not_true_eq_false, if_false, he]

/-- A populator answer without `VM_FAULT_RETRY` and without an error bit: `good_area`
releases the lock, counts the fault and is done; no signal, no entry into the failure
reporter. -/
theorem good_area_success (env : Env) (pass error_code address flags major : Nat) (vma : Vma)
    (st : St) (ha : access_error env error_code vma = 0)
    (hr : env.handle_mm_fault pass vma address flags &&& VM_FAULT_RETRY = 0)
    (he : env.handle_mm_fault pass vma address flags &&& VM_FAULT_ERROR = 0) :
    ∃ st', good_area env pass error_code address flags major vma st = .done st' ∧
      signals st'.trace = signals st.trace ∧ st'.mmap_sem = st.mmap_sem - 1 ∧
      st'.halted = st.halted ∧ st'.entries = st.entries ∧
      st'.trace.filter Event.is_region_op = st.trace.filter Event.is_region_op ++
        [.handle_mm_fault vma address flags (env.handle_mm_fault pass vma address flags)] := by
  unfold good_area
  simp only [ha, hr, he, ne_eq, not_true_eq_false, if_false]
  split
  all_goals
    refine ⟨_, rfl, ?_⟩
    simp [signals, St.up_read, St.emit, List.filter_append, List.filter_cons, Event.is_signal,
      Event.is_region_op]

/-- C12: for a fault that has arrived at the region lookup, when `find_vma` returns a region
with `VM_GROWSDOWN` that starts above the address, the stack guard does not reject and
`expand_stack` answers 0: the pass continues at `good_area` with that region, so
`access_error` is evaluated on it; if it denies, the pass ends in `bad_area_access_error`;
if it permits, the populator is invoked once on that region at the fault address with the
pass's flags, and when its answer has neither `VM_FAULT_RETRY` nor an error bit the pass is
done with the lock released, no signal delivered and no entry into the failure reporter.
When the pass is the first one of a user-half fault, `__do_page_fault` returns that state and
has delivered no signal at all. -/
theorem stack_growth_populates (env : Env) (pass error_code address flags major : Nat)
    (vma : Vma) (st : St) (hv : env.find_vma pass address = some vma)
    (hlt : address < vma.vm_start) (hg : vma.vm_flags &&& VM_GROWSDOWN ≠ 0)
    (hguard : ¬ (error_code &&& PF_USER ≠ 0 ∧
      (address + 65536 + 32 * sizeof_long) % 2 ^ 64 < st.regs.sp))
    (hexp : env.expand_stack pass vma address = 0) :
    fault_pass env pass error_code address flags major st =
      good_area env pass error_code address flags major vma
        ((st.emit (.find_vma address)).emit (.expand_stack vma address)) ∧
    (access_error env error_code vma ≠ 0 →
      fault_pass env pass error_code address flags major st =
        .done (bad_area_access_error env error_code address vma
          ((st.emit (.find_vma address)).emit (.expand_stack vma address)))) ∧
    (access_error env error_code vma = 0 →
      (fault_pass env pass error_code address flags major st).st.trace.filter
          Event.is_region_op =
        st.trace.filter Event.is_region_op ++ [.find_vma address, .expand_stack vma address,
          .handle_mm_fault vma address flags (env.handle_mm_fault pass vma address flags)] ∧
      (env.handle_mm_fault pass vma address flags &&& VM_FAULT_RETRY = 0 →
        env.handle_mm_fault pass vma address flags &&& VM_FAULT_ERROR = 0 →
        ∃ st', fault_pass env pass error_code address flags major st = .done st' ∧
          signals st'.trace = signals st.trace ∧ st'.mmap_sem = st.mmap_sem - 1 ∧
          st'.halted = st.halted ∧ st'.entries = st.entries ∧
          (∀ fuel error_code0 st0, pass = 0 → major = 0 → kmmio_fault env = 0 →
            address < env.TASK_SIZE_MAX →
            user_fault_entry env error_code0 address
              (if env.kmemcheck_active then st0.emit .kmemcheck_hide else st0) =
                .lookup error_code flags st →
            __do_page_fault env (fuel + 1) error_code0 address st0 = some st' ∧
            signals st'.trace = signals st0.trace ∧ st'.mmap_sem = st0.mmap_sem))) := by
  have hpass : fault_pass env pass error_code address flags major st =
      good_area env pass error_code address flags major vma
        ((st.emit (.find_vma address)).emit (.expand_stack vma address)) := by
    unfold fault_pass
    simp only [hv]
    rw [if_neg (by omega), if_neg hg, if_neg (by simpa [St.emit] using hguard),
      if_neg (by simp [hexp])]
  refine ⟨hpass, ?_, ?_⟩
  · intro ha
    rw [hpass]
    unfold good_area
    rw [if_pos ha]
  · intro ha
    refine ⟨?_, ?_⟩
    · rw [hpass]
      obtain ⟨l2, hl2, ht, _⟩ := good_area_region_ops Event.is_region_op region_op_filter_self
        env pass error_code address flags major vma
        ((st.emit (.find_vma address)).emit (.expand_stack vma address))
      have hl : l2 = [.handle_mm_fault vma address flags
          (env.handle_mm_fault pass vma address flags)] := by
        rcases hl2 with rfl | rfl
        · exfalso
          revert ht
          unfold good_area
          simp only [ha, ne_eq, not_true_eq_false, if_false]
          have hp := region_op_of_report Event.is_region_op region_op_filter_self
          repeat' split
          all_goals simp [Pass.st, retry_exit_filter Event.is_region_op hp,
            mm_fault_error_filter Event.is_region_op hp, St.up_read, St.emit,
            List.filter_append, List.filter_cons, Event.is_region_op]
        · rfl
      rw [ht, hl]
      simp [St.emit, List.filter_append, List.filter_cons, Event.is_region_op]
    · intro hr he
      obtain ⟨st', h1, h2, h3, h4, h5, _⟩ := good_area_success env pass error_code address flags
        major vma ((st.emit (.find_vma address)).emit (.expand_stack vma address)) ha hr he
      have h2' : signals st'.trace = signals st.trace := by
        rw [h2]
        simp [signals, St.emit, List.filter_append, List.filter_cons, Event.is_signal]
      refine ⟨st', by rw [hpass, h1], h2', by rw [h3]; rfl, by rw [h4]; rfl, by rw [h5]; rfl,
        ?_⟩
      intro fuel error_code0 st0 hp0 hm0 hk hta hentry
      subst hp0 hm0
      have hsig0 : signals (if env.kmemcheck_active = true then st0.emit .kmemcheck_hide
          else st0).trace = signals st0.trace ∧
          (if env.kmemcheck_active = true then st0.emit .kmemcheck_hide else st0).mmap_sem =
            st0.mmap_sem := by
        split <;> simp [signals, St.emit, List.filter_append, List.filter_cons, Event.is_signal]
      refine ⟨?_, ?_, ?_⟩
      · rw [handler_of_lookup env (fuel + 1) error_code0 address st0 error_code flags st hk hta
          hentry]
        unfold retry_loop
        rw [hpass, h1]
      · rw [h2', user_fault_entry_lookup_signals env error_code0 address _ _ _ _ hentry,
          hsig0.1]
      · have h6 := user_fault_entry_lookup_sem env error_code0 address _ _ _ _ hentry
        rw [hsig0.2] at h6
        have h7 : ((st.emit (.find_vma address)).emit (.expand_stack vma address)).mmap_sem =
            st.mmap_sem := rfl
        rw [h3, h7, h6]
        omega

/-- Witness for C12: scenario 4, a user-mode write 65536 + 256 bytes below the stack pointer
with `vma_stack` as the region found: `expand_stack` succeeds, the populator is called and
the handler returns without a signal. -/
theorem stack_growth_populates_witness :
    (env_stack.find_vma 0 0x7ffffffee000 = some vma_stack ∧
      0x7ffffffee000 < vma_stack.vm_start ∧ vma_stack.vm_flags &&& VM_GROWSDOWN ≠ 0 ∧
      ¬ ((PF_USER ||| PF_WRITE) &&& PF_USER ≠ 0 ∧
        (0x7ffffffee000 + 65536 + 32 * sizeof_long) % 2 ^ 64 < st_stack.regs.sp) ∧
      env_stack.expand_stack 0 vma_stack 0x7ffffffee000 = 0) ∧
    (__do_page_fault env_stack 1 (PF_USER ||| PF_WRITE) 0x7ffffffee000
        (St.init mem1 user_regs)).map (fun s => (s.trace, s.mmap_sem, s.min_flt)) =
      some ([.local_irq_enable, .perf_sw_event .PAGE_FAULTS, .down_read_trylock true,
        .might_sleep, .find_vma 0x7ffffffee000, .expand_stack vma_stack 0x7ffffffee000,
        .handle_mm_fault vma_stack 0x7ffffffee000 0x55 0, .up_read,
        .perf_sw_event .PAGE_FAULTS_MIN], 0, 1) ∧
    (fault_pass env_stack 0 (PF_USER ||| PF_WRITE) 0x7ffffffee000 0x55 0 st_stack =
      good_area env_stack 0 (PF_USER ||| PF_WRITE) 0x7ffffffee000 0x55 0 vma_stack
        ((st_stack.emit (.find_vma 0x7ffffffee000)).emit
          (.expand_stack vma_stack 0x7ffffffee000)) ∧
    (access_error env_stack (PF_USER ||| PF_WRITE) vma_stack ≠ 0 →
      fault_pass env_stack 0 (PF_USER ||| PF_WRITE) 0x7ffffffee000 0x55 0 st_stack =
        .done (bad_area_access_error env_stack (PF_USER ||| PF_WRITE) 0x7ffffffee000 vma_stack
          ((st_stack.emit (.find_vma 0x7ffffffee000)).emit
            (.expand_stack vma_stack 0x7ffffffee000)))) ∧
    (access_error env_stack (PF_USER ||| PF_WRITE) vma_stack = 0 →
      (fault_pass env_stack 0 (PF_USER ||| PF_WRITE) 0x7ffffffee000 0x55 0
          st_stack).st.trace.filter Event.is_region_op =
        st_stack.trace.filter Event.is_region_op ++ [.find_vma 0x7ffffffee000,
          .expand_stack vma_stack 0x7ffffffee000,
          .handle_mm_fault vma_stack 0x7ffffffee000 0x55
            (env_stack.handle_mm_fault 0 vma_stack 0x7ffffffee000 0x55)] ∧
      (env_stack.handle_mm_fault 0 vma_stack 0x7ffffffee000 0x55 &&& VM_FAULT_RETRY = 0 →
        env_stack.handle_mm_fault 0 vma_stack 0x7ffffffee000 0x55 &&& VM_FAULT_ERROR = 0 →
        ∃ st', fault_pass env_stack 0 (PF_USER ||| PF_WRITE) 0x7ffffffee000 0x55 0 st_stack =
            .done st' ∧
          signals st'.trace = signals st_stack.trace ∧ st'.mmap_sem = st_stack.mmap_sem - 1 ∧
          st'.halted = st_stack.halted ∧ st'.entries = st_stack.entries ∧
          (∀ fuel error_code0 st0, 0 = 0 → 0 = 0 → kmmio_fault env_stack = 0 →
            0x7ffffffee000 < env_stack.TASK_SIZE_MAX →
            user_fault_entry env_stack error_code0 0x7ffffffee000
              (if env_stack.kmemcheck_active then st0.emit .kmemcheck_hide else st0) =
                .lookup (PF_USER ||| PF_WRITE) 0x55 st_stack →
            __do_page_fault env_stack (fuel + 1) error_code0 0x7ffffffee000 st0 = some st' ∧
            signals st'.trace = signals st0.trace ∧ st'.mmap_sem = st0.mmap_sem)))) :=
  ⟨⟨by decide, by decide, by decide, by decide, by decide⟩, by decide,
    stack_growth_populates env_stack 0 (PF_USER ||| PF_WRITE) 0x7ffffffee000 0x55 0 vma_stack
      st_stack (by decide) (by decide) (by decide) (by decide) (by decide)⟩

/-! ### The populator flags -/

theorem or_user_and_write (error_code : Nat) :
    (error_code ||| PF_USER) &&& PF_WRITE = error_code &&& PF_WRITE := by
  rw [Nat.and_comm, Nat.and_or_distrib_left, show PF_WRITE &&& PF_USER = 0 by decide,
    Nat.or_zero, Nat.and_comm]

theorem or_user_and_instr (error_code : Nat) :
    (error_code ||| PF_USER) &&& PF_INSTR = error_code &&& PF_INSTR := by
  rw [Nat.and_comm, Nat.and_or_distrib_left, show PF_INSTR &&& PF_USER = 0 by decide,
    Nat.or_zero, Nat.and_comm]

theorem dump_pagetable_regs (env : Env) (address : Nat) (st : St) :
    (dump_pagetable env address st).regs = st.regs := by
  unfold dump_pagetable
  simp only [apply_ite St.regs, St.emit, ite_self]

theorem oops_end_regs (sig : Nat) (st : St) : (oops_end sig st).regs = st.regs := by
  unfold oops_end
  simp only []
  split <;> rfl

theorem pgtable_bad_regs (env : Env) (error_code address : Nat) (st : St) :
    (pgtable_bad env error_code address st).regs = st.regs := by
  unfold pgtable_bad
  simp [oops_end_regs, dump_pagetable_regs, St.emit, St.set_thread]

/-- The cause and the flags with which the entry part arrives at the lookup. -/
theorem user_fault_entry_lookup_flags (env : Env) (error_code0 address : Nat) (st0 : St)
    (error_code flags : Nat) (st : St)
    (h : user_fault_entry env error_code0 address st0 = .lookup error_code flags st) :
    error_code = (if env.user_mode st0.regs then error_code0 ||| PF_USER else error_code0) ∧
    flags = first_pass_flags env st0.regs error_code0 ∧ st.regs = st0.regs := by
  have hr : (if error_code0 &&& PF_RSVD ≠ 0 then pgtable_bad env error_code0 address st0
      else st0).regs = st0.regs := by
    split
    · exact pgtable_bad_regs env _ _ _
    · rfl
  unfold user_fault_entry at h
  simp only [] at h
  generalize (if error_code0 &&& PF_RSVD ≠ 0 then pgtable_bad env error_code0 address st0
      else st0) = st1 at h hr
  repeat' split at h
  all_goals first
    | simp at h
    | (obtain ⟨h1, h2, _, h4, _⟩ := lock_mm_lookup env _ address _ _ _ _ _ h
       rw [h1, h2, h4]
       unfold mode_adjust access_flags first_pass_flags
       simp only [St.emit, hr]
       repeat' split
       all_goals simp_all [or_user_and_write, or_user_and_instr])

/-- The first populator call of the retry loop, if there is one, is made with the flags the
loop was entered with. -/
theorem retry_loop_first_call (env : Env) (error_code address k pass flags major : Nat)
    (st : St) :
    ∃ st', retry_loop env error_code address (k + 2) pass flags major st = some st' ∧
      ∃ calls : List Event,
        populator_calls st'.trace = populator_calls st.trace ++ calls ∧
        ∀ e rest, calls = e :: rest → ∃ vma, e = .handle_mm_fault vma address flags
          (env.handle_mm_fault pass vma address flags) := by
  obtain ⟨vma, l1, l2, hl1, hl2, ht, _⟩ := fault_pass_region_ops Event.is_populator
    populator_filter_region_op env pass error_code address flags major st
  have ht1 : populator_calls (fault_pass env pass error_code address flags major st).st.trace =
      populator_calls st.trace ++ l2 := by
    unfold populator_calls
    rw [ht]
    rcases hl1 with rfl | rfl <;> rcases hl2 with rfl | rfl <;>
      simp [List.filter_cons, Event.is_populator]
  have hfirst : ∀ (c2 : List Event) e rest, l2 ++ c2 = e :: rest → l2 ≠ [] →
      ∃ vma, e = .handle_mm_fault vma address flags
        (env.handle_mm_fault pass vma address flags) := by
    intro c2 e rest h hne
    rcases hl2 with rfl | rfl
    · exact absurd rfl hne
    · simp only [List.singleton_append, List.cons.injEq] at h
      exact ⟨vma, h.1.symm⟩
  obtain ⟨st', hst', _⟩ := retry_loop_populator env error_code address k pass flags major st
  refine ⟨st', hst', ?_⟩
  unfold retry_loop at hst'
  cases h1 : fault_pass env pass error_code address flags major st with
  | done st1 =>
    rw [h1] at hst' ht1
    simp only [Option.some.injEq] at hst'
    subst hst'
    refine ⟨l2, ht1, ?_⟩
    intro e rest h
    exact hfirst [] e rest (by simpa using h) (by rw [h]; simp)
  | again flags1 major1 st1 =>
    rw [h1] at hst' ht1
    simp only [] at hst'
    obtain ⟨c2, ht2, _⟩ := fault_pass_populator env (pass + 1) error_code address flags1 major1
      st1.down_read
    have hdr : populator_calls st1.down_read.trace = populator_calls st1.trace := by
      simp [populator_calls, St.down_read, St.emit, List.filter_append, Event.is_populator]
    have hl2ne : l2 ≠ [] := by
      obtain ⟨c1, hc1, _, hag⟩ := fault_pass_populator env pass error_code address flags major st
      obtain ⟨⟨v, hv, _⟩, _⟩ := hag flags1 major1 st1 h1
      rw [h1] at hc1
      simp only [Pass.st] at hc1 ht1
      rw [ht1] at hc1
      have := List.append_cancel_left hc1
      rw [this, hv]
      simp
    unfold retry_loop at hst'
    cases h2 : fault_pass env (pass + 1) error_code address flags1 major1 st1.down_read with
    | done st2 =>
      rw [h2] at hst' ht2
      simp only [Option.some.injEq] at hst'
      subst hst'
      refine ⟨l2 ++ c2, ?_, ?_⟩
      · simp only [Pass.st] at ht1 ht2
        rw [ht2, hdr, ht1, List.append_assoc]
      · intro e rest h
        exact hfirst c2 e rest h hl2ne
    | again flags2 major2 st2 =>
      rw [h2] at hst'
      obtain ⟨_, _, _, hag2⟩ := fault_pass_populator env (pass + 1) error_code address flags1
        major1 st1.down_read
      obtain ⟨_, _, _, hag1⟩ := fault_pass_populator env pass error_code address flags major st
      exact absurd (hag1 flags1 major1 st1 h1).2.2.2 (hag2 flags2 major2 st2 h2).2.1

/-- C20 as stated fails: a user-mode trap frame with a cause that lacks `PF_USER` (a
supervisor access made on behalf of user mode), a read inside `vma_code` on a CPU without
SMAP.  `PF_USER` is not in the hardware cause, yet the populator is called with
`FAULT_FLAG_USER` set (flags 0x54). -/
theorem user_flag_from_trap_frame :
    (0 : Nat) &&& PF_USER = 0 ∧
    (__do_page_fault env_nosmap 2 0 0x400800 (St.init mem1 user_regs)).map
        (fun s => populator_calls s.trace) =
      some [.handle_mm_fault vma_code 0x400800 0x54 0] ∧
    0x54 &&& FAULT_FLAG_USER ≠ 0 := by
  decide

/-- C20, amended: on every execution of `__do_page_fault` (two passes of the retry loop are
enough for it to return), the first populator call, if there is one, is made at the fault
address with flags that are exactly `FAULT_FLAG_ALLOW_RETRY` and `FAULT_FLAG_KILLABLE`, plus
`FAULT_FLAG_USER` if and only if the trap frame is in user mode (`user_mode(regs)`),
`FAULT_FLAG_WRITE` if and only if `PF_WRITE` is in the cause, and `FAULT_FLAG_INSTRUCTION` if
and only if `PF_INSTR` is in the cause. -/
theorem first_populator_flags (env : Env) (k error_code address : Nat) (st : St) :
    ∃ st', __do_page_fault env (k + 2) error_code address st = some st' ∧
      ∃ calls : List Event,
        populator_calls st'.trace = populator_calls st.trace ++ calls ∧
        ∀ e rest, calls = e :: rest → ∃ vma ret, e = .handle_mm_fault vma address
          (FAULT_FLAG_ALLOW_RETRY ||| FAULT_FLAG_KILLABLE |||
            (if env.user_mode st.regs then FAULT_FLAG_USER else 0) |||
            (if error_code &&& PF_WRITE ≠ 0 then FAULT_FLAG_WRITE else 0) |||
            (if error_code &&& PF_INSTR ≠ 0 then FAULT_FLAG_INSTRUCTION else 0)) ret := by
  unfold __do_page_fault
  simp only []
  have h0 : populator_calls (if env.kmemcheck_active = true then st.emit .kmemcheck_hide
      else st).trace = populator_calls st.trace ∧
      (if env.kmemcheck_active = true then st.emit .kmemcheck_hide else st).regs = st.regs := by
    split <;> simp [populator_calls, St.emit, List.filter_append, Event.is_populator]
  generalize (if env.kmemcheck_active = true then st.emit .kmemcheck_hide else st) = st0
    at h0 ⊢
  rw [← h0.1, ← h0.2]
  by_cases hk : kmmio_fault env ≠ 0
  · rw [if_pos hk]
    exact ⟨st0, rfl, [], by simp, by simp⟩
  · rw [if_neg hk]
    by_cases hs : fault_in_kernel_space env address ≠ 0
    · rw [if_pos hs]
      refine ⟨_, rfl, [], ?_, by simp⟩
      simp [populator_calls, kernel_fault_filter Event.is_populator populator_filter_region_op]
    · rw [if_neg hs]
      have he := user_fault_entry_filter Event.is_populator populator_filter_region_op env
        error_code address st0
      cases hu : user_fault_entry env error_code address st0 with
      | finished st1 =>
        rw [hu] at he
        exact ⟨st1, rfl, [], by simpa [populator_calls, Entry.st] using he, by simp⟩
      | lookup error_code1 flags st1 =>
        rw [hu] at he
        simp only []
        obtain ⟨st', h1, calls, h2, h3⟩ := retry_loop_first_call env error_code1 address k 0
          flags 0 st1
        refine ⟨st', h1, calls, ?_, ?_⟩
        · rw [h2]
          simp only [populator_calls, Entry.st] at he ⊢
          rw [he]
        · intro e rest hc
          obtain ⟨vma, hv⟩ := h3 e rest hc
          have hf := (user_fault_entry_lookup_flags env error_code address st0 _ _ _ hu).2.1
          unfold first_pass_flags at hf
          rw [hf] at hv
          exact ⟨vma, _, hv⟩

/-! ### A fatal signal during a retry -/

/-- C16 as stated fails: a kernel-mode read of 0x400800 (inside `vma_code`) from a
user-access section, by a task with `sig_on_uaccess_err` set, while the populator answers
`VM_FAULT_RETRY`, a fatal signal is pending and the instruction has an exception fixup.  The
populator is called once, and `no_context` is entered with SIGBUS and `BUS_ADRERR`, not with
signal 0: the task is sent a SIGBUS. -/
theorem fatal_retry_passes_sigbus :
    env_fatal.user_mode uaccess_regs = false ∧ env_fatal.fatal_signal_pending 0 = true ∧
    (__do_page_fault env_fatal 2 0 0x400800 (St.init_uaccess mem1 uaccess_regs)).map
        (fun s => (populator_calls s.trace, s.entries, signals s.trace)) =
      some ([.handle_mm_fault vma_code 0x400800 0x14 VM_FAULT_RETRY],
        [(.no_context SIGBUS BUS_ADRERR, 0), (.force_sig_info_fault SIGBUS BUS_ADRERR, 0)],
        [.force_sig_info SIGBUS 0 BUS_ADRERR 0x400800 0 none]) := by
  decide

/-- C16, amended: when a populator invocation (the first one in particular) answers
`VM_FAULT_RETRY` while a fatal signal is pending, the pass is done and the populator is not
invoked again, whatever fuel the retry loop has left; the populator has dropped the lock;
for a fault from user mode (`FAULT_FLAG_USER` in the flags, which the entry part sets exactly
for a user-mode trap frame) nothing further is done, and for a fault from kernel mode the
handler ends in `no_context` called with SIGBUS and `BUS_ADRERR`. -/
theorem fatal_signal_cancels_retry (env : Env) (pass error_code address flags major : Nat)
    (vma : Vma) (st : St) (ha : access_error env error_code vma = 0)
    (hr : env.handle_mm_fault pass vma address flags &&& VM_FAULT_RETRY ≠ 0)
    (hf : env.fatal_signal_pending pass = true) :
    ∃ st', good_area env pass error_code address flags major vma st = .done st' ∧
      populator_calls st'.trace = populator_calls st.trace ++
        [.handle_mm_fault vma address flags (env.handle_mm_fault pass vma address flags)] ∧
      st'.mmap_sem = st.mmap_sem - 1 ∧
      (flags &&& FAULT_FLAG_USER ≠ 0 →
        st' = { st.emit (.handle_mm_fault vma address flags
          (env.handle_mm_fault pass vma address flags)) with mmap_sem := st.mmap_sem - 1 }) ∧
      (flags &&& FAULT_FLAG_USER = 0 →
        st' = no_context env error_code address SIGBUS BUS_ADRERR
          { st.emit (.handle_mm_fault vma address flags
            (env.handle_mm_fault pass vma address flags)) with mmap_sem := st.mmap_sem - 1 }) ∧
      (∀ fuel st1, fault_pass env pass error_code address flags major st1 =
          good_area env pass error_code address flags major vma st →
        retry_loop env error_code address (fuel + 1) pass flags major st1 = some st') ∧
      (∀ error_code0 st0 st1,
        user_fault_entry env error_code0 address st0 = .lookup error_code flags st1 →
        (flags &&& FAULT_FLAG_USER ≠ 0 ↔ env.user_mode st0.regs = true)) := by
  have hu1 : ∀ f : Nat, ((f &&& not32 FAULT_FLAG_ALLOW_RETRY) ||| FAULT_FLAG_TRIED) &&&
      FAULT_FLAG_USER = f &&& FAULT_FLAG_USER := by
    intro f
    apply Nat.eq_of_testBit_eq
    intro i
    simp only [Nat.testBit_land, Nat.testBit_lor]
    by_cases hi : i = 6
    · subst hi
      have h1 : (not32 FAULT_FLAG_ALLOW_RETRY).testBit 6 = true := by decide
      have h2 : FAULT_FLAG_TRIED.testBit 6 = false := by decide
      simp [h1, h2]
    · have h3 : FAULT_FLAG_USER.testBit i = false := by
        have : FAULT_FLAG_USER = 2 ^ 6 := by decide
        rw [this, Nat.testBit_two_pow]
        simp
        omega
      simp [h3]
  have hg : good_area env pass error_code address flags major vma st =
      .done (retry_exit env error_code address
        (if flags &&& FAULT_FLAG_ALLOW_RETRY ≠ 0 then
          (flags &&& not32 FAULT_FLAG_ALLOW_RETRY) ||| FAULT_FLAG_TRIED else flags)
        { st.emit (.handle_mm_fault vma address flags
          (env.handle_mm_fault pass vma address flags)) with mmap_sem := st.mmap_sem - 1 }) := by
    unfold good_area
    simp only [ha, hr, hf, ne_eq, not_true_eq_false, not_false_eq_true, if_true, if_false,
      Bool.not_true, Bool.false_eq_true, St.emit]
    split <;> rfl
  have hfl : (if flags &&& FAULT_FLAG_ALLOW_RETRY ≠ 0 then
      (flags &&& not32 FAULT_FLAG_ALLOW_RETRY) ||| FAULT_FLAG_TRIED else flags) &&&
        FAULT_FLAG_USER = flags &&& FAULT_FLAG_USER := by
    split
    · exact hu1 flags
    · rfl
  have hp := region_op_of_report Event.is_populator populator_filter_region_op
  refine ⟨_, hg, ?_, ?_, ?_, ?_, ?_, ?_⟩
  · unfold populator_calls
    rw [retry_exit_filter Event.is_populator hp]
    simp [St.emit, List.filter_append, List.filter_cons, Event.is_populator]
  · rw [(retry_exit_frame env _ _ _ _).1]
  · intro hu
    unfold retry_exit
    rw [if_pos (by rw [hfl]; exact hu)]
  · intro hu
    unfold retry_exit
    rw [if_neg (by rw [hfl]; simpa using hu)]
  · intro fuel st1 h1
    unfold retry_loop
    rw [h1, hg]
  · intro error_code0 st0 st1 he
    rw [(user_fault_entry_lookup_flags env error_code0 address st0 _ _ _ he).2.1]
    unfold first_pass_flags
    have e1 : ∀ x : Nat, (FAULT_FLAG_ALLOW_RETRY ||| FAULT_FLAG_KILLABLE ||| x |||
        (if error_code0 &&& PF_WRITE ≠ 0 then FAULT_FLAG_WRITE else 0) |||
        (if error_code0 &&& PF_INSTR ≠ 0 then FAULT_FLAG_INSTRUCTION else 0)) &&&
          FAULT_FLAG_USER = x &&& FAULT_FLAG_USER := by
      intro x
      have h6 : FAULT_FLAG_USER = 2 ^ 6 := by decide
      rw [h6, Nat.and_two_pow, Nat.and_two_pow]
      congr 2
      have a1 : FAULT_FLAG_ALLOW_RETRY.testBit 6 = false := by decide
      have a2 : FAULT_FLAG_KILLABLE.testBit 6 = false := by decide
      have a3 : (if error_code0 &&& PF_WRITE ≠ 0 then FAULT_FLAG_WRITE else 0).testBit 6 =
          false := by split <;> decide
      have a4 : (if error_code0 &&& PF_INSTR ≠ 0 then FAULT_FLAG_INSTRUCTION else 0).testBit 6 =
          false := by split <;> decide
      rw [Nat.testBit_lor, Nat.testBit_lor, Nat.testBit_lor, Nat.testBit_lor, a1, a2, a3, a4]
      simp
    rw [e1]
    split
    · simp_all
      decide
    · simp_all

/-- Witness for C16: the kernel-mode read of `fatal_retry_passes_sigbus`, at `good_area` of
the first pass. -/
theorem fatal_signal_cancels_retry_witness :
    (access_error env_fatal 0 vma_code = 0 ∧
      env_fatal.handle_mm_fault 0 vma_code 0x400800 0x14 &&& VM_FAULT_RETRY ≠ 0 ∧
      env_fatal.fatal_signal_pending 0 = true) ∧
    ∃ st', good_area env_fatal 0 0 0x400800 0x14 0 vma_code
        (St.init_uaccess mem1 uaccess_regs) = .done st' ∧
      populator_calls st'.trace = populator_calls (St.init_uaccess mem1 uaccess_regs).trace ++
        [.handle_mm_fault vma_code 0x400800 0x14
          (env_fatal.handle_mm_fault 0 vma_code 0x400800 0x14)] ∧
      st'.mmap_sem = (St.init_uaccess mem1 uaccess_regs).mmap_sem - 1 ∧
      (0x14 &&& FAULT_FLAG_USER ≠ 0 →
        st' = { (St.init_uaccess mem1 uaccess_regs).emit (.handle_mm_fault vma_code 0x400800 0x14
          (env_fatal.handle_mm_fault 0 vma_code 0x400800 0x14)) with
            mmap_sem := (St.init_uaccess mem1 uaccess_regs).mmap_sem - 1 }) ∧
      (0x14 &&& FAULT_FLAG_USER = 0 →
        st' = no_context env_fatal 0 0x400800 SIGBUS BUS_ADRERR
          { (St.init_uaccess mem1 uaccess_regs).emit (.handle_mm_fault vma_code 0x400800 0x14
            (env_fatal.handle_mm_fault 0 vma_code 0x400800 0x14)) with
              mmap_sem := (St.init_uaccess mem1 uaccess_regs).mmap_sem - 1 }) ∧
      (∀ fuel st1, fault_pass env_fatal 0 0 0x400800 0x14 0 st1 =
          good_area env_fatal 0 0 0x400800 0x14 0 vma_code (St.init_uaccess mem1 uaccess_regs) →
        retry_loop env_fatal 0 0x400800 (fuel + 1) 0 0x14 0 st1 = some st') ∧
      (∀ error_code0 st0 st1,
        user_fault_entry env_fatal error_code0 0x400800 st0 = .lookup 0 0x14 st1 →
        (0x14 &&& FAULT_FLAG_USER ≠ 0 ↔ env_fatal.user_mode st0.regs = true)) :=
  ⟨⟨by decide, by decide, by decide⟩,
    fatal_signal_cancels_retry env_fatal 0 0 0x400800 0x14 0 vma_code
      (St.init_uaccess mem1 uaccess_regs) (by decide) (by decide) (by decide)⟩

/-! ### Reserved-bit faults -/

theorem rsvd_not_lazy (error_code : Nat) (hr : error_code &&& PF_RSVD ≠ 0) :
    error_code &&& (PF_RSVD ||| PF_USER ||| PF_PROT) ≠ 0 := by
  intro h
  apply hr
  apply Nat.eq_of_testBit_eq
  intro i
  have h1 := congrArg (fun x => x.testBit i) h
  simp only [Nat.testBit_land, Nat.testBit_lor, Nat.zero_testBit] at h1 ⊢
  cases h2 : error_code.testBit i <;> cases h3 : PF_RSVD.testBit i <;> simp_all

theorem rsvd_not_spurious (env : Env) (error_code address : Nat) (st : St)
    (hr : error_code &&& PF_RSVD ≠ 0) :
    spurious_fault env error_code address st = (0, st) := by
  unfold spurious_fault
  rw [if_pos]
  constructor
  · intro h
    rw [h] at hr
    exact hr (by decide)
  · intro h
    rw [h] at hr
    exact hr (by decide)

/-- A kernel-half fault with `PF_RSVD` in the cause that kprobes does not claim goes to
`bad_area_nosemaphore` at once. -/
theorem kernel_fault_rsvd (env : Env) (error_code address : Nat) (st : St)
    (hr : error_code &&& PF_RSVD ≠ 0) (hkp : kprobes_fault env st.regs = 0) :
    kernel_fault env error_code address st =
      bad_area_nosemaphore env error_code address none st := by
  unfold kernel_fault
  rw [if_neg (rsvd_not_lazy error_code hr)]
  unfold kernel_fault_tail
  simp only [rsvd_not_spurious env error_code address st hr, hkp, ne_eq, not_true_eq_false,
    if_false]

theorem dump_pagetable_printk_filter (p : Event → Bool) (hp : ∀ m, p (.printk m) = false)
    (env : Env) (address : Nat) (st : St) :
    (dump_pagetable env address st).trace.filter p = st.trace.filter p := by
  have he : ∀ (s : St) (m : Msg), (s.emit (.printk m)).trace.filter p = s.trace.filter p := by
    intro s m
    simp [St.emit, List.filter_append, hp]
  unfold dump_pagetable
  simp only [apply_ite St.trace, apply_ite (List.filter p), he, ite_self]

theorem dump_pagetable_halted (env : Env) (address : Nat) (st : St) :
    (dump_pagetable env address st).halted = st.halted := by
  unfold dump_pagetable
  simp only [apply_ite St.halted, St.emit, ite_self]

/-- The oops of `pgtable_bad` when `__die` does not report it handled: the task is ended with
SIGKILL. -/
theorem pgtable_bad_kills (env : Env) (error_code address : Nat) (st : St)
    (hd : env.__die = false) :
    (pgtable_bad env error_code address st).halted = true ∧
    (pgtable_bad env error_code address st).trace.filter Event.is_oops =
      st.trace.filter Event.is_oops ++ [.oops_begin, .die true, .oops_end SIGKILL] ∧
    (pgtable_bad env error_code address st).trace.filter Event.is_fixup =
      st.trace.filter Event.is_fixup ∧
    (pgtable_bad env error_code address st).trace.filter Event.is_mm_op =
      st.trace.filter Event.is_mm_op := by
  have h1 := dump_pagetable_printk_filter Event.is_oops (fun _ => rfl) env address
  have h2 := dump_pagetable_printk_filter Event.is_fixup (fun _ => rfl) env address
  have h3 := dump_pagetable_printk_filter Event.is_mm_op (fun _ => rfl) env address
  unfold pgtable_bad oops_end
  simp [hd, h1, h2, h3, SIGKILL, St.emit, St.set_thread, List.filter_append, List.filter_cons,
    Event.is_oops, Event.is_fixup, Event.is_mm_op]

/-- C18 as stated fails: a user-mode read of 0x400800 (inside `vma_code`) with cause
{USER, RESERVED} that no probe claims, on a machine whose die notifier reports the oops as
handled (`__die` returns nonzero, so `oops_end` is called with signal 0 and returns).  After
`pgtable_bad` the handler goes on: it takes `mmap_sem`, looks up the region and calls the
populator. -/
theorem reserved_bit_fault_goes_on :
    (PF_USER ||| PF_RSVD) &&& PF_RSVD ≠ 0 ∧ 0x400800 < env_die.TASK_SIZE_MAX ∧
    kmmio_fault env_die = 0 ∧ kprobes_fault env_die user_regs = 0 ∧
    (__do_page_fault env_die 2 (PF_USER ||| PF_RSVD) 0x400800 (St.init mem1 user_regs)).map
        (fun s => (s.trace.filter (fun e => e.is_oops || e.is_mm_op), s.halted)) =
      some ([.oops_begin, .die true, .oops_end 0, .down_read_trylock true, .find_vma 0x400800,
        .handle_mm_fault vma_code 0x400800 0x54 0, .up_read], false) := by
  decide

/-- C18, amended: for every user-half fault with `PF_RSVD` in the cause that neither
mmiotrace nor kprobes claims, when `__die` does not report the oops as handled: the
dispatcher invokes `pgtable_bad` and nothing further; the handler's result is the state
`pgtable_bad` leaves, in which the task has been ended by the oops; no acquisition or release
of `mmap_sem`, no `find_vma`, no `expand_stack` and no populator call is made. -/
theorem reserved_bit_pgtable_bad (env : Env) (fuel error_code address : Nat) (st : St)
    (hr : error_code &&& PF_RSVD ≠ 0) (ha : address < env.TASK_SIZE_MAX)
    (hkm : kmmio_fault env = 0) (hkp : kprobes_fault env st.regs = 0)
    (hd : env.__die = false) :
    __do_page_fault env fuel error_code address st =
      some (pgtable_bad env error_code address
        (if env.kmemcheck_active then st.emit .kmemcheck_hide else st)) ∧
    ∃ st', __do_page_fault env fuel error_code address st = some st' ∧
      st'.halted = true ∧
      st'.trace.filter Event.is_mm_op = st.trace.filter Event.is_mm_op ∧
      st'.mmap_sem = st.mmap_sem := by
  have hs : fault_in_kernel_space env address = 0 := by
    unfold fault_in_kernel_space
    rw [if_neg (by omega)]
  have h0 : (if env.kmemcheck_active = true then st.emit .kmemcheck_hide else st).regs =
      st.regs ∧
      (if env.kmemcheck_active = true then st.emit .kmemcheck_hide else st).mmap_sem =
        st.mmap_sem ∧
      (if env.kmemcheck_active = true then st.emit .kmemcheck_hide else st).trace.filter
        Event.is_mm_op = st.trace.filter Event.is_mm_op := by
    split <;> simp [St.emit, List.filter_append, Event.is_mm_op]
  have hh : __do_page_fault env fuel error_code address st =
      some (pgtable_bad env error_code address
        (if env.kmemcheck_active then st.emit .kmemcheck_hide else st)) := by
    unfold __do_page_fault
    simp only [hkm, hs, ne_eq, not_true_eq_false, if_false]
    generalize (if env.kmemcheck_active = true then st.emit .kmemcheck_hide else st) = st0
      at h0 ⊢
    unfold user_fault_entry
    simp only [h0.1, hkp, hr, ne_eq, not_true_eq_false, not_false_eq_true, if_true, if_false,
      (pgtable_bad_kills env error_code address st0 hd).1]
  refine ⟨hh, _, hh, (pgtable_bad_kills env error_code address _ hd).1, ?_, ?_⟩
  · rw [(pgtable_bad_kills env error_code address _ hd).2.2.2, h0.2.2]
  · rw [(pgtable_bad_frame env _ _ _).1, h0.2.1]

/-- Witness for C18: scenario 6 on the user half, a user-mode read of 0x400800 with cause
{USER, RESERVED}. -/
theorem reserved_bit_pgtable_bad_witness :
    ((PF_USER ||| PF_RSVD) &&& PF_RSVD ≠ 0 ∧ 0x400800 < env_code.TASK_SIZE_MAX ∧
      kmmio_fault env_code = 0 ∧ kprobes_fault env_code (St.init mem1 user_regs).regs = 0 ∧
      env_code.__die = false) ∧
    (__do_page_fault env_code 0 (PF_USER ||| PF_RSVD) 0x400800 (St.init mem1 user_regs) =
      some (pgtable_bad env_code (PF_USER ||| PF_RSVD) 0x400800
        (if env_code.kmemcheck_active then (St.init mem1 user_regs).emit .kmemcheck_hide
          else St.init mem1 user_regs)) ∧
    ∃ st', __do_page_fault env_code 0 (PF_USER ||| PF_RSVD) 0x400800
        (St.init mem1 user_regs) = some st' ∧
      st'.halted = true ∧
      st'.trace.filter Event.is_mm_op = (St.init mem1 user_regs).trace.filter Event.is_mm_op ∧
      st'.mmap_sem = (St.init mem1 user_regs).mmap_sem) :=
  ⟨⟨by decide, by decide, by decide, by decide, by decide⟩,
    reserved_bit_pgtable_bad env_code 0 (PF_USER ||| PF_RSVD) 0x400800 (St.init mem1 user_regs)
      (by decide) (by decide) (by decide) (by decide) (by decide)⟩

/-- C17 as stated fails: a kernel-mode access to `vaddr1` (kernel half) with cause
{PRESENT, RESERVED} at an instruction that has an exception fixup.  The handler uses the
fixup and returns: no signal, no oops, the task is not ended. -/
theorem reserved_bit_kernel_fixup :
    (PF_PROT ||| PF_RSVD) &&& PF_RSVD ≠ 0 ∧
    (__do_page_fault env_fixup 2 (PF_PROT ||| PF_RSVD) vaddr1 (St.init mem1 kernel_regs)).map
        (fun s => (s.trace, s.halted)) = some ([.fixup_exception], false) := by
  decide

/-! ### The split of the address space -/

/-- C30 amended: `fault_in_kernel_space(addr)` is nonzero exactly when
`addr >= TASK_SIZE_MAX`; a
fault at `TASK_SIZE_MAX` that mmiotrace does not claim is handled by the kernel-half branch,
and a fault at `TASK_SIZE_MAX - 1` by the user-half branch (the entry part, then the retry
loop from the lookup). -/
theorem fault_in_kernel_space_iff (env : Env) (fuel error_code address : Nat) (st : St) :
    (fault_in_kernel_space env address ≠ 0 ↔ address ≥ env.TASK_SIZE_MAX) ∧
    (kmmio_fault env = 0 →
      __do_page_fault env fuel error_code env.TASK_SIZE_MAX st =
        some (kernel_fault env error_code env.TASK_SIZE_MAX
          (if env.kmemcheck_active then st.emit .kmemcheck_hide else st))) ∧
    (kmmio_fault env = 0 → 0 < env.TASK_SIZE_MAX →
      (∀ st1, user_fault_entry env error_code (env.TASK_SIZE_MAX - 1)
          (if env.kmemcheck_active then st.emit .kmemcheck_hide else st) = .finished st1 →
        __do_page_fault env fuel error_code (env.TASK_SIZE_MAX - 1) st = some st1) ∧
      (∀ error_code1 flags st1, user_fault_entry env error_code (env.TASK_SIZE_MAX - 1)
          (if env.kmemcheck_active then st.emit .kmemcheck_hide else st) =
            .lookup error_code1 flags st1 →
        __do_page_fault env fuel error_code (env.TASK_SIZE_MAX - 1) st =
          retry_loop env error_code1 (env.TASK_SIZE_MAX - 1) fuel 0 flags 0 st1)) := by
  refine ⟨?_, ?_, ?_⟩
  · unfold fault_in_kernel_space
    split <;> simp_all
  · intro hk
    have hs : fault_in_kernel_space env env.TASK_SIZE_MAX ≠ 0 := by
      unfold fault_in_kernel_space
      rw [if_pos (Nat.le_refl _)]
      decide
    unfold __do_page_fault
    simp only [hk, hs, ne_eq, not_true_eq_false, not_false_eq_true, if_true, if_false]
  · intro hk hpos
    have hs : fault_in_kernel_space env (env.TASK_SIZE_MAX - 1) = 0 := by
      unfold fault_in_kernel_space
      rw [if_neg (by omega)]
    unfold __do_page_fault
    simp only [hk, hs, ne_eq, not_true_eq_false, if_false]
    constructor
    · intro st1 h
      rw [h]
    · intro error_code1 flags st1 h
      rw [h]

/-- Witness for C30 amended: the concrete machine, whose `TASK_SIZE_MAX` is
0x7ffffffff000. -/
theorem fault_in_kernel_space_iff_witness :
    (kmmio_fault env0 = 0 ∧ 0 < env0.TASK_SIZE_MAX) ∧
    (fault_in_kernel_space env0 0x7ffffffff000 = 1 ∧
      fault_in_kernel_space env0 0x7fffffffefff = 0) ∧
    ((fault_in_kernel_space env0 0x7ffffffff000 ≠ 0 ↔ 0x7ffffffff000 ≥ env0.TASK_SIZE_MAX) ∧
    (kmmio_fault env0 = 0 →
      __do_page_fault env0 2 PF_USER env0.TASK_SIZE_MAX (St.init mem1 user_regs) =
        some (kernel_fault env0 PF_USER env0.TASK_SIZE_MAX
          (if env0.kmemcheck_active then (St.init mem1 user_regs).emit .kmemcheck_hide
            else St.init mem1 user_regs))) ∧
    (kmmio_fault env0 = 0 → 0 < env0.TASK_SIZE_MAX →
      (∀ st1, user_fault_entry env0 PF_USER (env0.TASK_SIZE_MAX - 1)
          (if env0.kmemcheck_active then (St.init mem1 user_regs).emit .kmemcheck_hide
            else St.init mem1 user_regs) = .finished st1 →
        __do_page_fault env0 2 PF_USER (env0.TASK_SIZE_MAX - 1) (St.init mem1 user_regs) =
          some st1) ∧
      (∀ error_code1 flags st1, user_fault_entry env0 PF_USER (env0.TASK_SIZE_MAX - 1)
          (if env0.kmemcheck_active then (St.init mem1 user_regs).emit .kmemcheck_hide
            else St.init mem1 user_regs) = .lookup error_code1 flags st1 →
        __do_page_fault env0 2 PF_USER (env0.TASK_SIZE_MAX - 1) (St.init mem1 user_regs) =
          retry_loop env0 error_code1 (env0.TASK_SIZE_MAX - 1) 2 0 flags 0 st1))) :=
  ⟨⟨by decide, by decide⟩, ⟨by decide, by decide⟩,
    fault_in_kernel_space_iff env0 2 PF_USER 0x7ffffffff000 (St.init mem1 user_regs)⟩

/-! ### K8 erratum #93 -/

theorem or_high_ones (a : Nat) (h : a < 2 ^ 32) :
    a ||| (0xffffffff <<< 32) = a + 0xffffffff00000000 := by
  have h1 := Nat.mul_add_lt_is_or h 0xffffffff
  rw [Nat.or_comm, show (0xffffffff : Nat) <<< 32 = 2 ^ 32 * 0xffffffff by decide, ← h1]
  omega

/-- For an address below 2^32 and kernel text and modules in the top 2 GiB: the address with
the upper 32 bits set is in text or modules only if bit 31 is set, and it is then the sign
extension. -/
theorem sign_extend32_in_range (env : Env) (a : Nat) (h : a < 2 ^ 32)
    (hl : 0xffffffff80000000 ≤ env._stext ∧ 0xffffffff80000000 ≤ env.MODULES_VADDR) :
    (in_kernel_text_or_modules env (a + 0xffffffff00000000) ↔
      in_kernel_text_or_modules env (sign_extend32 a)) ∧
    (in_kernel_text_or_modules env (a + 0xffffffff00000000) →
      sign_extend32 a = a + 0xffffffff00000000) := by
  have hm : a % 2 ^ 32 = a := Nat.mod_eq_of_lt h
  unfold sign_extend32 in_kernel_text_or_modules
  rw [hm]
  by_cases hb : a.testBit 31 = true
  · simp [hb]
  · have hlt : a < 2 ^ 31 := by
      by_contra hge
      apply hb
      rw [Nat.testBit_to_div_mod]
      have : a / 2 ^ 31 % 2 = 1 := by omega
      exact decide_eq_true this
    simp only [hb, Bool.false_eq_true, if_false]
    constructor
    · constructor <;> intro h1 <;> omega
    · intro h1; omega

/-- C28: with `CONFIG_CPU_SUP_AMD` built in (and kernel text and modules in the top 2 GiB of
the address space), `is_errata93` returns 1 if and only if the CPU is an AMD of family 0xF,
the fault address equals `regs->ip`, its upper 32 bits are zero, and the sign-extended
address lies in `[_stext, _etext]` or `[MODULES_VADDR, MODULES_END]`; its result is 0 or 1;
when it returns 1 it has set `regs->ip` to the sign extension of the 32-bit address and
changed nothing else of the trap frame; when it returns 0 the state is unchanged. -/
theorem is_errata93_iff (env : Env) (address : Nat) (st : St)
    (hc : env.CONFIG_CPU_SUP_AMD = true)
    (hl : 0xffffffff80000000 ≤ env._stext ∧ 0xffffffff80000000 ≤ env.MODULES_VADDR) :
    ((is_errata93 env address st).1 ≠ 0 ↔
      (env.x86_vendor_is_AMD = true ∧ env.x86_family = 0xf) ∧ address = st.regs.ip ∧
        address >>> 32 = 0 ∧ in_kernel_text_or_modules env (sign_extend32 address)) ∧
    ((is_errata93 env address st).1 = 0 ∨ (is_errata93 env address st).1 = 1) ∧
    ((is_errata93 env address st).1 ≠ 0 →
      (is_errata93 env address st).2.regs = { st.regs with ip := sign_extend32 address }) ∧
    ((is_errata93 env address st).1 = 0 → (is_errata93 env address st).2 = st) := by
  have key : address >>> 32 = 0 → address < 2 ^ 32 := by
    intro h
    rw [Nat.shiftRight_eq_div_pow] at h
    exact (Nat.div_eq_zero_iff (by decide)).mp h
  unfold is_errata93
  rw [if_neg (by simp [hc])]
  by_cases h1 : env.x86_vendor_is_AMD = true ∧ env.x86_family = 0xf
  · rw [if_neg (by simp [h1.1, h1.2])]
    by_cases h2 : address = st.regs.ip
    · rw [if_neg (by simpa using h2)]
      by_cases h3 : address >>> 32 = 0
      · rw [if_neg (by simpa using h3)]
        have hlt := key h3
        obtain ⟨e1, e2⟩ := sign_extend32_in_range env address hlt hl
        simp only [or_high_ones address hlt]
        unfold in_kernel_text_or_modules at e1 e2
        by_cases h4 : (address + 0xffffffff00000000 ≥ env._stext ∧
            address + 0xffffffff00000000 ≤ env._etext) ∨
            (address + 0xffffffff00000000 ≥ env.MODULES_VADDR ∧
              address + 0xffffffff00000000 ≤ env.MODULES_END)
        · rw [if_pos h4]
          refine ⟨?_, Or.inr rfl, ?_, ?_⟩
          · simp only [ne_eq, one_ne_zero, not_false_eq_true, true_iff]
            exact ⟨h1, h2, h3, by unfold in_kernel_text_or_modules; exact e1.mp h4⟩
          · intro _
            simp only [St.emit]
            rw [e2 h4]
          · intro h; simp at h
        · rw [if_neg h4]
          refine ⟨?_, Or.inl rfl, ?_, ?_⟩
          · simp only [ne_eq, not_true_eq_false, false_iff, not_and]
            intro _ _ _ h5
            unfold in_kernel_text_or_modules at h5
            exact h4 (e1.mpr h5)
          · intro h; simp at h
          · intro _; rfl
      · rw [if_pos (by simpa using h3)]
        refine ⟨?_, Or.inl rfl, ?_, ?_⟩
        · simp only [ne_eq, not_true_eq_false, false_iff, not_and]
          intro _ _ h; exact absurd h h3
        · intro h; simp at h
        · intro _; rfl
    · rw [if_pos (by simpa using h2)]
      refine ⟨?_, Or.inl rfl, ?_, ?_⟩
      · simp only [ne_eq, not_true_eq_false, false_iff, not_and]
        intro _ h; exact absurd h h2
      · intro h; simp at h
      · intro _; rfl
  · rw [if_pos (by
      by_contra hcon
      apply h1
      simp only [not_or, ne_eq, not_not, Bool.not_eq_true, Bool.not_eq_false'] at hcon
      simpa using hcon)]
    refine ⟨?_, Or.inl rfl, ?_, ?_⟩
    · simp only [ne_eq, not_true_eq_false, false_iff, not_and]
      intro h; exact absurd h h1
    · intro h; simp at h
    · intro _; rfl

/-- Witness for C28: an AMD K8 whose trap frame has `ip` 0x81000100, with the fault at that
address: the instruction pointer is rewritten to 0xffffffff81000100, inside kernel text. -/
theorem is_errata93_iff_witness :
    (env_k8.CONFIG_CPU_SUP_AMD = true ∧
      0xffffffff80000000 ≤ env_k8._stext ∧ 0xffffffff80000000 ≤ env_k8.MODULES_VADDR) ∧
    ((is_errata93 env_k8 0x81000100 (St.init mem1 k8_regs)).1 = 1 ∧
      (is_errata93 env_k8 0x81000100 (St.init mem1 k8_regs)).2.regs.ip =
        0xffffffff81000100) ∧
    (((is_errata93 env_k8 0x81000100 (St.init mem1 k8_regs)).1 ≠ 0 ↔
      (env_k8.x86_vendor_is_AMD = true ∧ env_k8.x86_family = 0xf) ∧
        0x81000100 = (St.init mem1 k8_regs).regs.ip ∧
        0x81000100 >>> 32 = 0 ∧ in_kernel_text_or_modules env_k8 (sign_extend32 0x81000100)) ∧
    ((is_errata93 env_k8 0x81000100 (St.init mem1 k8_regs)).1 = 0 ∨
      (is_errata93 env_k8 0x81000100 (St.init mem1 k8_regs)).1 = 1) ∧
    ((is_errata93 env_k8 0x81000100 (St.init mem1 k8_regs)).1 ≠ 0 →
      (is_errata93 env_k8 0x81000100 (St.init mem1 k8_regs)).2.regs =
        { (St.init mem1 k8_regs).regs with ip := sign_extend32 0x81000100 }) ∧
    ((is_errata93 env_k8 0x81000100 (St.init mem1 k8_regs)).1 = 0 →
      (is_errata93 env_k8 0x81000100 (St.init mem1 k8_regs)).2 = St.init mem1 k8_regs)) :=
  ⟨⟨by decide, by decide, by decide⟩, ⟨by decide, by decide⟩,
    is_errata93_iff env_k8 0x81000100 (St.init mem1 k8_regs) (by decide)
      ⟨by decide, by decide⟩⟩

/-! ### The failure reporter: task fault-state and signals -/

theorem force_sig_info_fault_thread (env : Env) (si_signo si_code address : Nat)
    (vma : Option Vma) (fault : Nat) (st : St) :
    (force_sig_info_fault env si_signo si_code address vma fault st).thread = st.thread ∧
    (force_sig_info_fault env si_signo si_code address vma fault st).halted = st.halted ∧
    (force_sig_info_fault env si_signo si_code address vma fault st).regs = st.regs ∧
    (force_sig_info_fault env si_signo si_code address vma fault st).entries =
      st.entries ++ [(.force_sig_info_fault si_signo si_code, st.mmap_sem)] ∧
    (force_sig_info_fault env si_signo si_code address vma fault st).trace.filter
      Event.is_oops = st.trace.filter Event.is_oops := by
  unfold force_sig_info_fault fill_sig_info_pkey St.emit_once
  cases vma <;> simp only [] <;> repeat' split
  all_goals simp [St.emit, St.enter, List.filter_append, List.filter_cons, Event.is_oops]

/-- C24: in `no_context`, when `fixup_exception` finds a fixup for the trapping instruction:
no step of an oops is taken and the task is not ended.  If the fault is not in interrupt
context, `sig_on_uaccess_err` is set and the requested signal is nonzero, the task
fault-state records the fault address, the page-fault trap number and the cause with
`PF_USER` added, and exactly one signal is delivered, with the requested number and code
and `si_addr` the fault address; otherwise the task fault-state is unchanged and no signal
is delivered. -/
theorem no_context_fixup (env : Env) (error_code address signal si_code : Nat) (st : St)
    (hfix : env.fixup_exception = true) :
    (no_context env error_code address signal si_code st).trace.filter Event.is_oops =
      st.trace.filter Event.is_oops ∧
    (no_context env error_code address signal si_code st).halted = st.halted ∧
    ((env.in_interrupt = false ∧ st.thread.sig_on_uaccess_err = true ∧ signal ≠ 0) →
      (no_context env error_code address signal si_code st).thread =
        { st.thread with cr2 := address, trap_nr := X86_TRAP_PF,
                         error_code := error_code ||| PF_USER } ∧
      signals (no_context env error_code address signal si_code st).trace =
        signals st.trace ++ [.force_sig_info signal 0 si_code address 0
          (fill_sig_info_pkey env si_code none st).1]) ∧
    (¬ (env.in_interrupt = false ∧ st.thread.sig_on_uaccess_err = true ∧ signal ≠ 0) →
      (no_context env error_code address signal si_code st).thread = st.thread ∧
      signals (no_context env error_code address signal si_code st).trace =
        signals st.trace) := by
  unfold no_context
  simp only [hfix, if_true]
  refine ⟨?_, ?_, ?_, ?_⟩
  · repeat' split
    all_goals simp [(force_sig_info_fault_thread env _ _ _ _ _ _).2.2.2.2, St.emit, St.enter,
      St.set_thread, List.filter_append, List.filter_cons, Event.is_oops]
  · repeat' split
    all_goals simp [(force_sig_info_fault_thread env _ _ _ _ _ _).2.1, St.emit, St.enter,
      St.set_thread]
  · rintro ⟨h1, h2, h3⟩
    rw [if_neg (by simp [h1]), if_pos (by simpa [St.emit, St.enter] using ⟨h2, h3⟩)]
    refine ⟨?_, ?_⟩
    · rw [(force_sig_info_fault_thread env _ _ _ _ _ _).1]
      rfl
    · rw [force_sig_info_fault_signals, fill_sig_info_pkey_fst env si_code none _ st]
      simp [signals, St.emit, St.enter, St.set_thread, List.filter_append, List.filter_cons,
        Event.is_signal]
  · intro h
    by_cases h1 : env.in_interrupt = true
    · rw [if_pos h1]
      simp [signals, St.emit, St.enter, List.filter_append, List.filter_cons, Event.is_signal]
    · rw [if_neg h1, if_neg (by
        intro hc
        apply h
        simp only [St.emit, St.enter] at hc
        exact ⟨by simpa using h1, hc.1, hc.2⟩)]
      simp [signals, St.emit, St.enter, List.filter_append, List.filter_cons, Event.is_signal]

/-- Witness for C24: the kernel-mode read of a user address by a task with
`sig_on_uaccess_err` set, for which SIGBUS with `BUS_ADRERR` is requested. -/
theorem no_context_fixup_witness :
    env_fatal.fixup_exception = true ∧
    ((no_context env_fatal 0 0x400800 SIGBUS BUS_ADRERR
        (St.init_uaccess mem1 uaccess_regs)).trace.filter Event.is_oops =
      (St.init_uaccess mem1 uaccess_regs).trace.filter Event.is_oops ∧
    (no_context env_fatal 0 0x400800 SIGBUS BUS_ADRERR
        (St.init_uaccess mem1 uaccess_regs)).halted =
      (St.init_uaccess mem1 uaccess_regs).halted ∧
    ((env_fatal.in_interrupt = false ∧
        (St.init_uaccess mem1 uaccess_regs).thread.sig_on_uaccess_err = true ∧ SIGBUS ≠ 0) →
      (no_context env_fatal 0 0x400800 SIGBUS BUS_ADRERR
          (St.init_uaccess mem1 uaccess_regs)).thread =
        { (St.init_uaccess mem1 uaccess_regs).thread with
            cr2 := 0x400800, trap_nr := X86_TRAP_PF, error_code := 0 ||| PF_USER } ∧
      signals (no_context env_fatal 0 0x400800 SIGBUS BUS_ADRERR
          (St.init_uaccess mem1 uaccess_regs)).trace =
        signals (St.init_uaccess mem1 uaccess_regs).trace ++
          [.force_sig_info SIGBUS 0 BUS_ADRERR 0x400800 0
            (fill_sig_info_pkey env_fatal BUS_ADRERR none
              (St.init_uaccess mem1 uaccess_regs)).1]) ∧
    (¬ (env_fatal.in_interrupt = false ∧
        (St.init_uaccess mem1 uaccess_regs).thread.sig_on_uaccess_err = true ∧ SIGBUS ≠ 0) →
      (no_context env_fatal 0 0x400800 SIGBUS BUS_ADRERR
          (St.init_uaccess mem1 uaccess_regs)).thread =
        (St.init_uaccess mem1 uaccess_regs).thread ∧
      signals (no_context env_fatal 0 0x400800 SIGBUS BUS_ADRERR
          (St.init_uaccess mem1 uaccess_regs)).trace =
        signals (St.init_uaccess mem1 uaccess_regs).trace)) :=
  ⟨by decide, no_context_fixup env_fatal 0 0x400800 SIGBUS BUS_ADRERR
    (St.init_uaccess mem1 uaccess_regs) (by decide)⟩

theorem show_signal_msg_thread (env : Env) (error_code address : Nat) (st : St) :
    (show_signal_msg env error_code address st).thread = st.thread ∧
    (show_signal_msg env error_code address st).entries = st.entries ∧
    (show_signal_msg env error_code address st).mmap_sem = st.mmap_sem := by
  unfold show_signal_msg
  simp only []
  repeat' split
  all_goals simp [St.emit]

/-- C23: for a fault with `PF_USER` in the cause that enters `__bad_area_nosemaphore` and
that no quirk filter absorbs (prefetch, erratum #100, vsyscall emulation): the task
fault-state is set to `cr2` = fault address, `trap_nr` = `X86_TRAP_PF` and `error_code` = the
cause, with `PF_PROT` added when the address is at least `TASK_SIZE_MAX`; exactly one signal
is delivered, SIGSEGV with the code passed in and `si_addr` the fault address; and the only
entries into the failure reporter are `__bad_area_nosemaphore` itself and
`force_sig_info_fault`: `no_context` is not called. -/
theorem bad_area_nosemaphore_user_fault (env : Env) (error_code address : Nat)
    (vma : Option Vma) (si_code : Nat) (st : St) (hu : error_code &&& PF_USER ≠ 0)
    (hq : ¬ quirk_absorbs env st.regs error_code address) :
    (__bad_area_nosemaphore env error_code address vma si_code st).thread =
      { st.thread with cr2 := address, trap_nr := X86_TRAP_PF,
                       error_code := if address ≥ env.TASK_SIZE_MAX then error_code ||| PF_PROT
                         else error_code } ∧
    signals (__bad_area_nosemaphore env error_code address vma si_code st).trace =
      signals st.trace ++ [.force_sig_info SIGSEGV 0 si_code address 0
        (fill_sig_info_pkey env si_code vma st).1] ∧
    (__bad_area_nosemaphore env error_code address vma si_code st).entries =
      st.entries ++ [(.__bad_area_nosemaphore si_code, st.mmap_sem),
        (.force_sig_info_fault SIGSEGV si_code, st.mmap_sem)] := by
  refine ⟨?_, __bad_area_nosemaphore_user env error_code address vma si_code st hu hq, ?_⟩
  all_goals
    unfold quirk_absorbs at hq
    simp only [not_or] at hq
    obtain ⟨h1, h2, h3⟩ := hq
    unfold __bad_area_nosemaphore
    rw [if_pos hu]
    simp only []
    rw [if_neg (by simpa [St.emit, St.enter] using h1),
      if_neg (by simpa [St.emit, St.enter] using h2), if_neg h3]
  · rw [(force_sig_info_fault_thread env _ _ _ _ _ _).1]
    repeat' split
    all_goals simp [(show_signal_msg_thread env _ _ _).1, St.set_thread, St.emit, St.enter]
  · rw [(force_sig_info_fault_thread env _ _ _ _ _ _).2.2.2.1]
    repeat' split
    all_goals simp [(show_signal_msg_thread env _ _ _).2.1, (show_signal_msg_thread env _ _ _).2.2,
      St.set_thread, St.emit, St.enter]

/-- Witness for C23: a user-mode read of the kernel address `vaddr1`; the recorded cause has
`PF_PROT` added. -/
theorem bad_area_nosemaphore_user_fault_witness :
    (PF_USER &&& PF_USER ≠ 0 ∧ ¬ quirk_absorbs env0 (St.init mem1 user_regs).regs PF_USER vaddr1) ∧
    (__bad_area_nosemaphore env0 PF_USER vaddr1 none SEGV_MAPERR
        (St.init mem1 user_regs)).thread =
      { cr2 := vaddr1, error_code := PF_USER ||| PF_PROT, trap_nr := X86_TRAP_PF,
        sig_on_uaccess_err := false } ∧
    ((__bad_area_nosemaphore env0 PF_USER vaddr1 none SEGV_MAPERR
        (St.init mem1 user_regs)).thread =
      { (St.init mem1 user_regs).thread with
          cr2 := vaddr1, trap_nr := X86_TRAP_PF,
          error_code := if vaddr1 ≥ env0.TASK_SIZE_MAX then PF_USER ||| PF_PROT
            else PF_USER } ∧
    signals (__bad_area_nosemaphore env0 PF_USER vaddr1 none SEGV_MAPERR
        (St.init mem1 user_regs)).trace =
      signals (St.init mem1 user_regs).trace ++ [.force_sig_info SIGSEGV 0 SEGV_MAPERR vaddr1 0
        (fill_sig_info_pkey env0 SEGV_MAPERR none (St.init mem1 user_regs)).1] ∧
    (__bad_area_nosemaphore env0 PF_USER vaddr1 none SEGV_MAPERR
        (St.init mem1 user_regs)).entries =
      (St.init mem1 user_regs).entries ++
        [(.__bad_area_nosemaphore SEGV_MAPERR, (St.init mem1 user_regs).mmap_sem),
          (.force_sig_info_fault SIGSEGV SEGV_MAPERR, (St.init mem1 user_regs).mmap_sem)]) :=
  ⟨⟨by decide, by decide⟩, by decide,
    bad_area_nosemaphore_user_fault env0 PF_USER vaddr1 none SEGV_MAPERR
      (St.init mem1 user_regs) (by decide) (by decide)⟩

/-! ### Populator errors -/

theorem force_sig_info_fault_signals_lsb (env : Env) (si_signo si_code address : Nat)
    (vma : Option Vma) (fault : Nat) (st : St) :
    signals (force_sig_info_fault env si_signo si_code address vma fault st).trace =
      signals st.trace ++ [.force_sig_info si_signo 0 si_code address (addr_lsb env fault)
        (fill_sig_info_pkey env si_code vma st).1] := by
  unfold force_sig_info_fault addr_lsb
  simp only []
  unfold fill_sig_info_pkey signals St.emit_once
  cases vma <;> simp only [] <;> repeat' split
  all_goals simp_all [St.emit, St.enter, List.filter_append, List.filter_cons, Event.is_signal]

/-- What `do_sigbus` does for a user-mode fault that the prefetch check does not absorb. -/
theorem do_sigbus_user_signal (env : Env) (error_code address : Nat) (vma : Option Vma)
    (fault : Nat) (st : St) (hu : error_code &&& PF_USER ≠ 0)
    (hp : is_prefetch env st.regs error_code address = 0) :
    signals (do_sigbus env error_code address vma fault st).trace =
      signals st.trace ++ [.force_sig_info SIGBUS 0
        (if env.CONFIG_MEMORY_FAILURE = true ∧
            fault &&& (VM_FAULT_HWPOISON ||| VM_FAULT_HWPOISON_LARGE) ≠ 0
          then BUS_MCEERR_AR else BUS_ADRERR)
        address (addr_lsb env fault)
        (fill_sig_info_pkey env
          (if env.CONFIG_MEMORY_FAILURE = true ∧
              fault &&& (VM_FAULT_HWPOISON ||| VM_FAULT_HWPOISON_LARGE) ≠ 0
            then BUS_MCEERR_AR else BUS_ADRERR) vma st).1] ∧
    (do_sigbus env error_code address vma fault st).thread =
      { st.thread with cr2 := address, trap_nr := X86_TRAP_PF, error_code := error_code } := by
  unfold do_sigbus
  rw [if_neg hu, if_neg (by simpa using hp)]
  simp only []
  split
  · rw [force_sig_info_fault_signals_lsb, (force_sig_info_fault_thread env _ _ _ _ _ _).1,
      fill_sig_info_pkey_fst env BUS_MCEERR_AR vma _ st]
    simp [signals, St.emit, St.set_thread, List.filter_append, List.filter_cons, Event.is_signal]
  · rw [force_sig_info_fault_signals_lsb, (force_sig_info_fault_thread env _ _ _ _ _ _).1,
      fill_sig_info_pkey_fst env BUS_ADRERR vma _ st]
    simp [signals, St.set_thread]

/-- C22 as stated fails: a user-mode fault for which the populator answers
`VM_FAULT_HWPOISON`, on a kernel built without `CONFIG_MEMORY_FAILURE`.  `do_sigbus` delivers
SIGBUS with code `BUS_ADRERR`, not `BUS_MCEERR_AR` (and `si_addr_lsb` = `PAGE_SHIFT`). -/
theorem hwpoison_without_memory_failure :
    PF_USER &&& PF_USER ≠ 0 ∧ VM_FAULT_HWPOISON &&& VM_FAULT_HWPOISON ≠ 0 ∧
    signals (do_sigbus env_nomf PF_USER 0x400800 (some vma_code) VM_FAULT_HWPOISON
        (St.init mem1 user_regs)).trace =
      [.force_sig_info SIGBUS 0 BUS_ADRERR 0x400800 12 none] := by
  decide

/-- C22, amended: for a user-mode fault that enters `do_sigbus` and that the prefetch check
does not absorb, exactly one signal is delivered: SIGBUS with `si_errno` 0, `si_addr` the
fault address, code `BUS_MCEERR_AR` if the kernel is built with `CONFIG_MEMORY_FAILURE` and
the populator result has `VM_FAULT_HWPOISON` or `VM_FAULT_HWPOISON_LARGE`, and `BUS_ADRERR`
otherwise; `si_addr_lsb` is `PAGE_SHIFT` when `VM_FAULT_HWPOISON` is set, else the huge-page
shift of the index encoded in the result when `VM_FAULT_HWPOISON_LARGE` is set, else 0. -/
theorem do_sigbus_siginfo (env : Env) (error_code address : Nat) (vma : Option Vma)
    (fault : Nat) (st : St) (hu : error_code &&& PF_USER ≠ 0)
    (hp : is_prefetch env st.regs error_code address = 0) :
    ∃ si_code si_addr_lsb si_pkey,
      signals (do_sigbus env error_code address vma fault st).trace =
        signals st.trace ++ [.force_sig_info SIGBUS 0 si_code address si_addr_lsb si_pkey] ∧
      (si_code = if env.CONFIG_MEMORY_FAILURE = true ∧
          (fault &&& VM_FAULT_HWPOISON ≠ 0 ∨ fault &&& VM_FAULT_HWPOISON_LARGE ≠ 0)
        then BUS_MCEERR_AR else BUS_ADRERR) ∧
      (si_addr_lsb = if fault &&& VM_FAULT_HWPOISON ≠ 0 then env.PAGE_SHIFT
        else if fault &&& VM_FAULT_HWPOISON_LARGE ≠ 0 then
          env.hstate_index_to_shift ((fault >>> 12) &&& 0xf)
        else 0) := by
  have hor : fault &&& (VM_FAULT_HWPOISON ||| VM_FAULT_HWPOISON_LARGE) ≠ 0 ↔
      (fault &&& VM_FAULT_HWPOISON ≠ 0 ∨ fault &&& VM_FAULT_HWPOISON_LARGE ≠ 0) := by
    rw [Nat.and_or_distrib_left]
    constructor
    · intro h
      by_contra hc
      simp only [not_or, ne_eq, not_not] at hc
      rw [hc.1, hc.2] at h
      exact h rfl
    · intro h hc
      have h1 : fault &&& VM_FAULT_HWPOISON = 0 := by
        apply Nat.eq_of_testBit_eq
        intro i
        have := congrArg (fun x => x.testBit i) hc
        simp only [Nat.testBit_lor, Nat.zero_testBit, Bool.or_eq_false_iff] at this ⊢
        exact this.1
      have h2 : fault &&& VM_FAULT_HWPOISON_LARGE = 0 := by
        apply Nat.eq_of_testBit_eq
        intro i
        have := congrArg (fun x => x.testBit i) hc
        simp only [Nat.testBit_lor, Nat.zero_testBit, Bool.or_eq_false_iff] at this ⊢
        exact this.2
      rcases h with h | h
      · exact h h1
      · exact h h2
  refine ⟨_, _, _, (do_sigbus_user_signal env error_code address vma fault st hu hp).1, ?_, ?_⟩
  · simp only [hor]
  · unfold addr_lsb VM_FAULT_GET_HINDEX
    rfl

/-- Witness for C22: a user-mode fault with populator result `VM_FAULT_HWPOISON_LARGE` and
huge-page index 1 on the concrete machine. -/
theorem do_sigbus_siginfo_witness :
    (PF_USER &&& PF_USER ≠ 0 ∧
      is_prefetch env0 (St.init mem1 user_regs).regs PF_USER 0x400800 = 0) ∧
    signals (do_sigbus env0 PF_USER 0x400800 (some vma_code)
        (VM_FAULT_HWPOISON_LARGE ||| (1 <<< 12)) (St.init mem1 user_regs)).trace =
      [.force_sig_info SIGBUS 0 BUS_MCEERR_AR 0x400800 21 (some 0)] ∧
    ∃ si_code si_addr_lsb si_pkey,
      signals (do_sigbus env0 PF_USER 0x400800 (some vma_code)
          (VM_FAULT_HWPOISON_LARGE ||| (1 <<< 12)) (St.init mem1 user_regs)).trace =
        signals (St.init mem1 user_regs).trace ++
          [.force_sig_info SIGBUS 0 si_code 0x400800 si_addr_lsb si_pkey] ∧
      (si_code = if env0.CONFIG_MEMORY_FAILURE = true ∧
          ((VM_FAULT_HWPOISON_LARGE ||| (1 <<< 12)) &&& VM_FAULT_HWPOISON ≠ 0 ∨
            (VM_FAULT_HWPOISON_LARGE ||| (1 <<< 12)) &&& VM_FAULT_HWPOISON_LARGE ≠ 0)
        then BUS_MCEERR_AR else BUS_ADRERR) ∧
      (si_addr_lsb = if (VM_FAULT_HWPOISON_LARGE ||| (1 <<< 12)) &&& VM_FAULT_HWPOISON ≠ 0
          then env0.PAGE_SHIFT
        else if (VM_FAULT_HWPOISON_LARGE ||| (1 <<< 12)) &&& VM_FAULT_HWPOISON_LARGE ≠ 0 then
          env0.hstate_index_to_shift
            (((VM_FAULT_HWPOISON_LARGE ||| (1 <<< 12)) >>> 12) &&& 0xf)
        else 0) :=
  ⟨⟨by decide, by decide⟩, by decide,
    do_sigbus_siginfo env0 PF_USER 0x400800 (some vma_code)
      (VM_FAULT_HWPOISON_LARGE ||| (1 <<< 12)) (St.init mem1 user_regs) (by decide)
      (by decide)⟩

theorem fill_sig_info_pkey_maperr (env : Env) (vma : Option Vma) (st : St) :
    (fill_sig_info_pkey env SEGV_MAPERR vma st).1 = none := by
  unfold fill_sig_info_pkey
  split
  · rfl
  · rw [if_pos (by decide)]

/-- C21 as stated fails: a kernel-mode fault (from a user-access section, with an exception
fixup) for which the populator answers `VM_FAULT_OOM` while a fatal signal is pending, on a
task with `sig_on_uaccess_err` set.  `mm_fault_error` calls `no_context` with signal 0, not
with SIGSEGV, and no signal is delivered; without the pending fatal signal the same fault
enters `no_context` with SIGSEGV and the task is sent SIGSEGV. -/
theorem oom_kernel_fault_fatal_pending :
    (0 : Nat) &&& PF_USER = 0 ∧ VM_FAULT_OOM &&& VM_FAULT_OOM ≠ 0 ∧
    env_fatal.fatal_signal_pending 0 = true ∧
    (fun s : St => (s.entries, signals s.trace))
        (mm_fault_error env_fatal 0 0 0x400800 (some vma_code) VM_FAULT_OOM
          (St.init_uaccess mem1 uaccess_regs)) =
      ([(.mm_fault_error VM_FAULT_OOM, 0), (.no_context 0 0, 0)], []) ∧
    (fun s : St => (s.entries, signals s.trace))
        (mm_fault_error env_fixup 0 0 0x400800 (some vma_code) VM_FAULT_OOM
          (St.init_uaccess mem1 uaccess_regs)) =
      ([(.mm_fault_error VM_FAULT_OOM, 0), (.no_context SIGSEGV SEGV_MAPERR, 0),
          (.force_sig_info_fault SIGSEGV SEGV_MAPERR, 0)],
        [.force_sig_info SIGSEGV 0 SEGV_MAPERR 0x400800 0 none]) := by
  decide

/-- C21, amended: `mm_fault_error` first sends a kernel-mode fault with a fatal signal pending
to `no_context` with signal 0, whatever the populator result.  Otherwise: if the result has
`VM_FAULT_OOM`, whatever its other bits, a user-mode fault calls the OOM killer and delivers
no signal, and a kernel-mode fault goes to `no_context` with SIGSEGV and `SEGV_MAPERR`; else
if the result has `VM_FAULT_SIGBUS`, `VM_FAULT_HWPOISON` or `VM_FAULT_HWPOISON_LARGE` the
fault goes to `do_sigbus`, which delivers exactly one SIGBUS for a user-mode fault that the
prefetch check does not absorb and sends a kernel-mode fault to `no_context` with SIGBUS;
else if the result has `VM_FAULT_SIGSEGV` the fault goes to `bad_area_nosemaphore`, which
for a user-mode fault that no quirk filter absorbs delivers exactly one SIGSEGV with
`SEGV_MAPERR`. -/
theorem mm_fault_error_map (env : Env) (pass error_code address : Nat) (vma : Option Vma)
    (fault : Nat) (st : St) :
    (env.fatal_signal_pending pass = true ∧ error_code &&& PF_USER = 0 →
      mm_fault_error env pass error_code address vma fault st =
        no_context env error_code address 0 0 (st.enter (.mm_fault_error fault))) ∧
    (¬ (env.fatal_signal_pending pass = true ∧ error_code &&& PF_USER = 0) →
      (fault &&& VM_FAULT_OOM ≠ 0 →
        (error_code &&& PF_USER ≠ 0 →
          mm_fault_error env pass error_code address vma fault st =
            (st.enter (.mm_fault_error fault)).emit .pagefault_out_of_memory ∧
          signals (mm_fault_error env pass error_code address vma fault st).trace =
            signals st.trace) ∧
        (error_code &&& PF_USER = 0 →
          mm_fault_error env pass error_code address vma fault st =
            no_context env error_code address SIGSEGV SEGV_MAPERR
              (st.enter (.mm_fault_error fault)))) ∧
      (fault &&& VM_FAULT_OOM = 0 →
        fault &&& (VM_FAULT_SIGBUS ||| VM_FAULT_HWPOISON ||| VM_FAULT_HWPOISON_LARGE) ≠ 0 →
        mm_fault_error env pass error_code address vma fault st =
          do_sigbus env error_code address vma fault (st.enter (.mm_fault_error fault)) ∧
        (error_code &&& PF_USER ≠ 0 → is_prefetch env st.regs error_code address = 0 →
          ∃ si_code si_addr_lsb si_pkey,
            signals (mm_fault_error env pass error_code address vma fault st).trace =
              signals st.trace ++
                [.force_sig_info SIGBUS 0 si_code address si_addr_lsb si_pkey]) ∧
        (error_code &&& PF_USER = 0 →
          mm_fault_error env pass error_code address vma fault st =
            no_context env error_code address SIGBUS BUS_ADRERR
              (st.enter (.mm_fault_error fault)))) ∧
      (fault &&& VM_FAULT_OOM = 0 →
        fault &&& (VM_FAULT_SIGBUS ||| VM_FAULT_HWPOISON ||| VM_FAULT_HWPOISON_LARGE) = 0 →
        fault &&& VM_FAULT_SIGSEGV ≠ 0 →
        mm_fault_error env pass error_code address vma fault st =
          bad_area_nosemaphore env error_code address vma
            (st.enter (.mm_fault_error fault)) ∧
        (error_code &&& PF_USER ≠ 0 → ¬ quirk_absorbs env st.regs error_code address →
          signals (mm_fault_error env pass error_code address vma fault st).trace =
            signals st.trace ++
              [.force_sig_info SIGSEGV 0 SEGV_MAPERR address 0 none]))) := by
  refine ⟨?_, ?_⟩
  · intro hg
    unfold mm_fault_error
    simp only []
    rw [if_pos hg]
  · intro hg
    have hm : ∀ s, mm_fault_error env pass error_code address vma fault st = s ↔
        (if fault &&& VM_FAULT_OOM ≠ 0 then
          if error_code &&& PF_USER = 0 then
            no_context env error_code address SIGSEGV SEGV_MAPERR
              (st.enter (.mm_fault_error fault))
          else (st.enter (.mm_fault_error fault)).emit .pagefault_out_of_memory
        else if fault &&& (VM_FAULT_SIGBUS ||| VM_FAULT_HWPOISON |||
            VM_FAULT_HWPOISON_LARGE) ≠ 0 then
          do_sigbus env error_code address vma fault (st.enter (.mm_fault_error fault))
        else if fault &&& VM_FAULT_SIGSEGV ≠ 0 then
          bad_area_nosemaphore env error_code address vma (st.enter (.mm_fault_error fault))
        else (st.enter (.mm_fault_error fault)).bug) = s := by
      intro s
      unfold mm_fault_error
      simp only []
      rw [if_neg hg]
    refine ⟨?_, ?_, ?_⟩
    · intro ho
      refine ⟨?_, ?_⟩
      · intro hu
        have h1 : mm_fault_error env pass error_code address vma fault st =
            (st.enter (.mm_fault_error fault)).emit .pagefault_out_of_memory := by
          rw [hm, if_pos ho, if_neg hu]
        refine ⟨h1, ?_⟩
        rw [h1]
        simp [signals, St.emit, St.enter, List.filter_append, List.filter_cons, Event.is_signal]
      · intro hu
        rw [hm, if_pos ho, if_pos hu]
    · intro ho hb
      have h1 : mm_fault_error env pass error_code address vma fault st =
          do_sigbus env error_code address vma fault (st.enter (.mm_fault_error fault)) := by
        rw [hm, if_neg (by simpa using ho), if_pos hb]
      refine ⟨h1, ?_, ?_⟩
      · intro hu hp
        rw [h1]
        exact ⟨_, _, _, (do_sigbus_user_signal env error_code address vma fault
          (st.enter (.mm_fault_error fault)) hu hp).1⟩
      · intro hu
        rw [h1]
        unfold do_sigbus
        rw [if_pos hu]
    · intro ho hb hs
      have h1 : mm_fault_error env pass error_code address vma fault st =
          bad_area_nosemaphore env error_code address vma
            (st.enter (.mm_fault_error fault)) := by
        rw [hm, if_neg (by simpa using ho), if_neg (by simpa using hb), if_pos hs]
      refine ⟨h1, ?_⟩
      intro hu hq
      rw [h1]
      unfold bad_area_nosemaphore
      rw [__bad_area_nosemaphore_user env error_code address vma SEGV_MAPERR
        (st.enter (.mm_fault_error fault)) hu hq, fill_sig_info_pkey_maperr]
      rfl

/-- Witness for C21: a user-mode fault for which the populator answers `VM_FAULT_OOM`
together with `VM_FAULT_SIGBUS`, no fatal signal pending: the OOM killer is called and no
signal is delivered. -/
theorem mm_fault_error_map_witness :
    (¬ (env0.fatal_signal_pending 0 = true ∧ PF_USER &&& PF_USER = 0) ∧
      (VM_FAULT_OOM ||| VM_FAULT_SIGBUS) &&& VM_FAULT_OOM ≠ 0 ∧ PF_USER &&& PF_USER ≠ 0) ∧
    (mm_fault_error env0 0 PF_USER 0x400800 (some vma_code) (VM_FAULT_OOM ||| VM_FAULT_SIGBUS)
        (St.init mem1 user_regs)).trace = [.pagefault_out_of_memory] ∧
    (mm_fault_error env0 0 PF_USER 0x400800 (some vma_code) (VM_FAULT_OOM ||| VM_FAULT_SIGBUS)
        (St.init mem1 user_regs) =
      ((St.init mem1 user_regs).enter
        (.mm_fault_error (VM_FAULT_OOM ||| VM_FAULT_SIGBUS))).emit .pagefault_out_of_memory ∧
    signals (mm_fault_error env0 0 PF_USER 0x400800 (some vma_code)
        (VM_FAULT_OOM ||| VM_FAULT_SIGBUS) (St.init mem1 user_regs)).trace =
      signals (St.init mem1 user_regs).trace) :=
  ⟨⟨by decide, by decide, by decide⟩, by decide,
    ((((mm_fault_error_map env0 0 PF_USER 0x400800 (some vma_code)
      (VM_FAULT_OOM ||| VM_FAULT_SIGBUS) (St.init mem1 user_regs)).2 (by decide)).1
        (by decide)).1 (by decide))⟩

/-! ### The prefetch check -/

theorem byte_lt (v : Nat) : v % 256 < 256 := Nat.mod_lt _ (by decide)

set_option maxRecDepth 100000 in
theorem nibble_facts : ∀ b, b < 256 →
    (((b &&& 0xf0 = 0x20 ∨ b &&& 0xf0 = 0x30) ∧ (b &&& 0x0f) &&& 7 = 0x6) ↔
      (b = 0x26 ∨ b = 0x2E ∨ b = 0x36 ∨ b = 0x3E)) ∧
    (b &&& 0xf0 = 0x40 ↔ (0x40 ≤ b ∧ b ≤ 0x4F)) ∧
    ((b &&& 0xf0 = 0x60 ∧ (b &&& 0x0f) &&& 0xC = 0x4) ↔ (0x64 ≤ b ∧ b ≤ 0x67)) ∧
    ((b &&& 0xf0 = 0xF0 ∧ (b &&& 0x0f = 0 ∨ (b &&& 0x0f) >>> 1 = 1)) ↔
      (b = 0xF0 ∨ b = 0xF2 ∨ b = 0xF3)) ∧
    ((b &&& 0xf0 = 0x00 ∧ b &&& 0x0f = 0xF) ↔ b = 0x0F) := by
  decide

/-- What `check_prefetch_opcode` returns for a byte: nonzero exactly for a legal prefix,
leaving `*prefetch` alone; for any other byte 0, with `*prefetch` set when the byte is 0x0F
and the next byte reads as 0x0D or 0x18. -/
theorem check_prefetch_opcode_spec (env : Env) (regs : PtRegs) (instr b prefetch : Nat)
    (hb : b < 256) :
    ((check_prefetch_opcode env regs instr b prefetch).1 ≠ 0 ↔ legal_prefix_byte env regs b) ∧
    ((check_prefetch_opcode env regs instr b prefetch).1 ≠ 0 →
      (check_prefetch_opcode env regs instr b prefetch).2 = prefetch) ∧
    ((check_prefetch_opcode env regs instr b 0).2 ≠ 0 ↔
      (b = 0x0F ∧ (byte_at env instr = some 0x0D ∨ byte_at env instr = some 0x18))) := by
  obtain ⟨f1, f2, f3, f4, f5⟩ := nibble_facts b hb
  unfold legal_prefix_byte
  rw [← f1, ← f2, ← f3, ← f4, ← f5]
  unfold check_prefetch_opcode byte_at
  simp only []
  generalize b &&& 0xf0 = hi
  generalize b &&& 0x0f = lo
  have hc : hi = 0x20 ∨ hi = 0x30 ∨ hi = 0x40 ∨ hi = 0x60 ∨ hi = 0xF0 ∨ hi = 0 ∨
      (hi ≠ 0x20 ∧ hi ≠ 0x30 ∧ hi ≠ 0x40 ∧ hi ≠ 0x60 ∧ hi ≠ 0xF0 ∧ hi ≠ 0) := by omega
  rcases hc with rfl | rfl | rfl | rfl | rfl | rfl | ⟨h1, h2, h3, h4, h5, h6⟩
  all_goals
    refine ⟨?_, ?_, ?_⟩
    all_goals
      simp only [*, Nat.reduceEqDiff, OfNat.ofNat_ne_zero, false_or, or_false, or_self,
        if_true, if_false, true_and, false_and, true_or, or_true]
      repeat' split
      all_goals simp_all

theorem not_legal_prefix_byte_0f (env : Env) (regs : PtRegs) : ¬ legal_prefix_byte env regs 0x0F := by
  unfold legal_prefix_byte
  omega

theorem prefetch_at_zero (env : Env) (regs : PtRegs) (a : Nat) :
    prefetch_at env regs a 0 ↔ byte_at env a = some 0x0F ∧
      (byte_at env (a + 1) = some 0x0D ∨ byte_at env (a + 1) = some 0x18) := by
  unfold prefetch_at
  simp

theorem prefetch_at_succ (env : Env) (regs : PtRegs) (a k : Nat) :
    prefetch_at env regs a (k + 1) ↔ prefix_at env regs a ∧ prefetch_at env regs (a + 1) k := by
  unfold prefetch_at
  have e1 : a + (k + 1) = a + 1 + k := by omega
  rw [e1]
  constructor
  · rintro ⟨h1, h2, h3⟩
    refine ⟨by simpa using h1 0 (by omega), ?_, h2, h3⟩
    intro i hi
    have := h1 (i + 1) (by omega)
    rwa [show a + (i + 1) = a + 1 + i by omega] at this
  · rintro ⟨h0, h1, h2, h3⟩
    refine ⟨?_, h2, h3⟩
    intro i hi
    cases i with
    | zero => simpa using h0
    | succ j =>
      have := h1 j (by omega)
      rwa [show a + 1 + j = a + (j + 1) by omega] at this

/-- The scan loop started with `*prefetch` = 0 ends nonzero exactly when, within the fuel
and before `max_instr`, a run of legal prefixes is followed by 0x0F and then 0x0D or 0x18. -/
theorem is_prefetch_loop_ne_zero_iff (env : Env) (regs : PtRegs) (max_instr : Nat) :
    ∀ n instr, is_prefetch_loop env regs max_instr n instr 0 ≠ 0 ↔
      ∃ k, k < n ∧ instr + k < max_instr ∧ prefetch_at env regs instr k := by
  intro n
  induction n with
  | zero =>
    intro instr
    simp [is_prefetch_loop]
  | succ n ih =>
    intro instr
    unfold is_prefetch_loop
    by_cases hlt : instr < max_instr
    · rw [if_pos hlt]
      cases hp : env.probe_kernel_address instr with
      | none =>
        have hb : byte_at env instr = none := by simp [byte_at, hp]
        simp only [ne_eq, not_true_eq_false, false_iff, not_exists, not_and]
        intro k _ _ hk
        cases k with
        | zero => rw [prefetch_at_zero, hb] at hk; simp at hk
        | succ j =>
          rw [prefetch_at_succ] at hk
          unfold prefix_at at hk
          rw [hb] at hk
          exact hk.1
      | some opcode =>
        have hb : byte_at env instr = some (opcode % 256) := by simp [byte_at, hp]
        obtain ⟨s1, s2, s3⟩ := check_prefetch_opcode_spec env regs (instr + 1) (opcode % 256) 0
          (byte_lt opcode)
        simp only []
        by_cases hr : (check_prefetch_opcode env regs (instr + 1) (opcode % 256) 0).1 = 0
        · rw [if_pos hr, s3]
          have hnl : ¬ legal_prefix_byte env regs (opcode % 256) := by
            rw [← s1]; simpa using hr
          constructor
          · rintro ⟨h1, h2⟩
            refine ⟨0, by omega, by omega, ?_⟩
            rw [prefetch_at_zero, hb, h1]
            exact ⟨rfl, h2⟩
          · rintro ⟨k, _, _, hk⟩
            cases k with
            | zero =>
              rw [prefetch_at_zero, hb] at hk
              exact ⟨by simpa using hk.1, hk.2⟩
            | succ j =>
              rw [prefetch_at_succ] at hk
              unfold prefix_at at hk
              rw [hb] at hk
              exact absurd hk.1 hnl
        · rw [if_neg hr, s2 hr, ih]
          have hl : legal_prefix_byte env regs (opcode % 256) := s1.mp hr
          constructor
          · rintro ⟨k, h1, h2, h3⟩
            refine ⟨k + 1, by omega, by omega, ?_⟩
            rw [prefetch_at_succ]
            refine ⟨?_, h3⟩
            unfold prefix_at
            rw [hb]
            exact hl
          · rintro ⟨k, h1, h2, hk⟩
            cases k with
            | zero =>
              rw [prefetch_at_zero, hb] at hk
              have : opcode % 256 = 0x0F := by simpa using hk.1
              rw [this] at hl
              exact absurd hl (not_legal_prefix_byte_0f env regs)
            | succ j =>
              rw [prefetch_at_succ] at hk
              exact ⟨j, by omega, by omega, hk.2⟩
    · rw [if_neg hlt]
      simp only [ne_eq, not_true_eq_false, false_iff, not_exists, not_and]
      intro k _ h
      omega

/-- The result of the scan loop is 0 or 1 when it is started with 0. -/
theorem is_prefetch_loop_le_one (env : Env) (regs : PtRegs) (max_instr : Nat) :
    ∀ n instr prefetch, prefetch ≤ 1 →
      is_prefetch_loop env regs max_instr n instr prefetch ≤ 1 := by
  intro n
  induction n with
  | zero => intro instr p hp; simpa [is_prefetch_loop] using hp
  | succ n ih =>
    intro instr p hp
    unfold is_prefetch_loop
    have hc : ∀ i b, (check_prefetch_opcode env regs i b p).2 ≤ 1 := by
      intro i b
      unfold check_prefetch_opcode
      simp only []
      repeat' split
      all_goals simp_all
    simp only []
    repeat' split
    all_goals first | exact hp | exact hc _ _ | exact ih _ _ (hc _ _)

/-- The fuel `max_instr - instr` is enough for the scan loop: more fuel gives the same
result, so the loop makes at most `max_instr - instr` iterations. -/
theorem is_prefetch_loop_fuel (env : Env) (regs : PtRegs) (max_instr : Nat) :
    ∀ n instr prefetch, max_instr - instr ≤ n →
      is_prefetch_loop env regs max_instr n instr prefetch =
        is_prefetch_loop env regs max_instr (max_instr - instr) instr prefetch := by
  intro n
  induction n with
  | zero =>
    intro instr p h
    have : max_instr - instr = 0 := by omega
    rw [this]
  | succ n ih =>
    intro instr p h
    by_cases hlt : instr < max_instr
    · obtain ⟨m, hm⟩ : ∃ m, max_instr - instr = m + 1 := ⟨max_instr - instr - 1, by omega⟩
      rw [hm]
      unfold is_prefetch_loop
      rw [if_pos hlt, if_pos hlt]
      cases hp : env.probe_kernel_address instr with
      | none => rfl
      | some opcode =>
        simp only []
        split
        · rfl
        · rw [ih (instr + 1) _ (by omega)]
          have : max_instr - (instr + 1) = m := by omega
          rw [this]
    · have : max_instr - instr = 0 := by omega
      rw [this]
      unfold is_prefetch_loop
      rw [if_neg hlt]

/-- The full characterisation of `is_prefetch` for an instruction pointer at least 15 bytes
below the top of the address space. -/
theorem is_prefetch_ne_zero_iff (env : Env) (regs : PtRegs) (error_code addr : Nat)
    (hw : env.convert_ip_to_linear regs % 2 ^ 64 + 15 < 2 ^ 64) :
    is_prefetch env regs error_code addr ≠ 0 ↔
      error_code &&& PF_INSTR = 0 ∧
      ¬ (env.user_mode regs = true ∧
        env.convert_ip_to_linear regs % 2 ^ 64 ≥ env.TASK_SIZE_MAX) ∧
      ∃ k, k < 15 ∧ prefetch_at env regs (env.convert_ip_to_linear regs % 2 ^ 64) k := by
  unfold is_prefetch
  simp only []
  rw [Nat.mod_eq_of_lt hw]
  by_cases hi : error_code &&& PF_INSTR = 0
  · rw [if_neg (by simpa using hi)]
    by_cases hu : env.user_mode regs = true ∧
        env.convert_ip_to_linear regs % 2 ^ 64 ≥ env.TASK_SIZE_MAX
    · rw [if_pos hu]
      simp only [ne_eq, not_true_eq_false, false_iff, not_and]
      intro _ h
      exact absurd hu.2 (h hu.1)
    · rw [if_neg hu, is_prefetch_loop_ne_zero_iff]
      have e : env.convert_ip_to_linear regs % 2 ^ 64 + 15 -
          env.convert_ip_to_linear regs % 2 ^ 64 = 15 := by omega
      rw [e]
      constructor
      · rintro ⟨k, h1, _, h3⟩
        exact ⟨hi, hu, k, h1, h3⟩
      · rintro ⟨_, _, k, h1, h3⟩
        exact ⟨k, h1, by omega, h3⟩
  · rw [if_pos hi]
    simp [hi]

theorem is_prefetch_le_one (env : Env) (regs : PtRegs) (error_code addr : Nat) :
    is_prefetch env regs error_code addr = 0 ∨ is_prefetch env regs error_code addr = 1 := by
  have h : is_prefetch env regs error_code addr ≤ 1 := by
    unfold is_prefetch
    simp only []
    repeat' split
    all_goals first | exact Nat.zero_le _ | exact is_prefetch_loop_le_one env regs _ _ _ 0 (by omega)
  omega

/-- C27 as stated fails: a kernel-mode trap frame whose instruction bytes are fifteen 0x66
prefixes followed by 0x0F 0x0D, with a cause without `PF_INSTR`.  The bytes are a run of
legal prefixes followed by a prefetch opcode, yet `is_prefetch` returns 0: the scan stops
after 15 bytes. -/
theorem fifteen_prefixes_not_prefetch :
    (0 : Nat) &&& PF_INSTR = 0 ∧
    (env_insn (List.replicate 15 0x66 ++ [0x0F, 0x0D])).user_mode kernel_regs = false ∧
    prefetch_at (env_insn (List.replicate 15 0x66 ++ [0x0F, 0x0D])) kernel_regs
      kernel_regs.ip 15 ∧
    is_prefetch (env_insn (List.replicate 15 0x66 ++ [0x0F, 0x0D])) kernel_regs 0 0 = 0 := by
  decide

/-- C27, amended: for an instruction pointer at least 15 bytes below the top of the address
space.  `is_prefetch` returns 0 or 1; it returns 0 whenever `PF_INSTR` is in the cause, and
whenever the first 15 bytes are all legal prefixes; and when the first 14 bytes are not all
legal prefixes, it returns nonzero if and only if `PF_INSTR` is not in the cause, the fault
is not a user-mode fault with the linearized instruction pointer at or above
`TASK_SIZE_MAX`, and the readable bytes at the instruction pointer are a run of at most 13
legal prefixes followed by 0x0F and then 0x0D or 0x18. -/
theorem is_prefetch_iff (env : Env) (regs : PtRegs) (error_code addr : Nat)
    (hw : env.convert_ip_to_linear regs % 2 ^ 64 + 15 < 2 ^ 64) :
    (is_prefetch env regs error_code addr = 0 ∨ is_prefetch env regs error_code addr = 1) ∧
    (error_code &&& PF_INSTR ≠ 0 → is_prefetch env regs error_code addr = 0) ∧
    ((∀ i, i < 15 → prefix_at env regs (env.convert_ip_to_linear regs % 2 ^ 64 + i)) →
      is_prefetch env regs error_code addr = 0) ∧
    (¬ (∀ i, i < 14 → prefix_at env regs (env.convert_ip_to_linear regs % 2 ^ 64 + i)) →
      (is_prefetch env regs error_code addr ≠ 0 ↔
        error_code &&& PF_INSTR = 0 ∧
        ¬ (env.user_mode regs = true ∧
          env.convert_ip_to_linear regs % 2 ^ 64 ≥ env.TASK_SIZE_MAX) ∧
        ∃ k, k ≤ 13 ∧ prefetch_at env regs (env.convert_ip_to_linear regs % 2 ^ 64) k)) := by
  have key := is_prefetch_ne_zero_iff env regs error_code addr hw
  refine ⟨is_prefetch_le_one env regs error_code addr, ?_, ?_, ?_⟩
  · intro hi
    by_contra hne
    exact hi (key.mp hne).1
  · intro hall
    by_contra hne
    obtain ⟨_, _, k, hk, hp⟩ := key.mp hne
    have h1 := hall k hk
    unfold prefix_at at h1
    rw [hp.2.1] at h1
    exact not_legal_prefix_byte_0f env regs h1
  · intro hnot
    rw [key]
    constructor
    · rintro ⟨h1, h2, k, hk, hp⟩
      refine ⟨h1, h2, k, ?_, hp⟩
      by_contra hgt
      have hk14 : k = 14 := by omega
      subst hk14
      exact hnot hp.1
    · rintro ⟨h1, h2, k, hk, hp⟩
      exact ⟨h1, h2, k, by omega, hp⟩

/-- Witness for C27: a kernel-mode trap frame whose instruction bytes are 0x66 0x0F 0x18 (a
prefetch with an operand-size prefix): `is_prefetch` returns 1. -/
theorem is_prefetch_iff_witness :
    (env_insn [0x66, 0x0F, 0x18]).convert_ip_to_linear kernel_regs % 2 ^ 64 + 15 < 2 ^ 64 ∧
    is_prefetch (env_insn [0x66, 0x0F, 0x18]) kernel_regs 0 0 = 1 ∧
    ((is_prefetch (env_insn [0x66, 0x0F, 0x18]) kernel_regs 0 0 = 0 ∨
      is_prefetch (env_insn [0x66, 0x0F, 0x18]) kernel_regs 0 0 = 1) ∧
    ((0 : Nat) &&& PF_INSTR ≠ 0 → is_prefetch (env_insn [0x66, 0x0F, 0x18]) kernel_regs 0 0 = 0) ∧
    ((∀ i, i < 15 → prefix_at (env_insn [0x66, 0x0F, 0x18]) kernel_regs
        ((env_insn [0x66, 0x0F, 0x18]).convert_ip_to_linear kernel_regs % 2 ^ 64 + i)) →
      is_prefetch (env_insn [0x66, 0x0F, 0x18]) kernel_regs 0 0 = 0) ∧
    (¬ (∀ i, i < 14 → prefix_at (env_insn [0x66, 0x0F, 0x18]) kernel_regs
        ((env_insn [0x66, 0x0F, 0x18]).convert_ip_to_linear kernel_regs % 2 ^ 64 + i)) →
      (is_prefetch (env_insn [0x66, 0x0F, 0x18]) kernel_regs 0 0 ≠ 0 ↔
        (0 : Nat) &&& PF_INSTR = 0 ∧
        ¬ ((env_insn [0x66, 0x0F, 0x18]).user_mode kernel_regs = true ∧
          (env_insn [0x66, 0x0F, 0x18]).convert_ip_to_linear kernel_regs % 2 ^ 64 ≥
            (env_insn [0x66, 0x0F, 0x18]).TASK_SIZE_MAX) ∧
        ∃ k, k ≤ 13 ∧ prefetch_at (env_insn [0x66, 0x0F, 0x18]) kernel_regs
          ((env_insn [0x66, 0x0F, 0x18]).convert_ip_to_linear kernel_regs % 2 ^ 64) k))) :=
  ⟨by decide, by decide,
    is_prefetch_iff (env_insn [0x66, 0x0F, 0x18]) kernel_regs 0 0 (by decide)⟩

/-- C26, the code at the failing input: two memories that hold fourteen 0x66 prefixes and
0x0F at offsets 0 to 14 of the instruction pointer and differ only in the byte at offset 15
(0x0D in one, 0x90 in the other).  `is_prefetch` returns 1 on the first and 0 on the second:
it has read the byte at offset 15. -/
theorem is_prefetch_reads_offset_15 :
    (∀ i, i < 15 →
      byte_at (env_insn (List.replicate 14 0x66 ++ [0x0F, 0x0D])) (kernel_regs.ip + i) =
        byte_at (env_insn (List.replicate 14 0x66 ++ [0x0F, 0x90])) (kernel_regs.ip + i)) ∧
    is_prefetch (env_insn (List.replicate 14 0x66 ++ [0x0F, 0x0D])) kernel_regs 0 0 = 1 ∧
    is_prefetch (env_insn (List.replicate 14 0x66 ++ [0x0F, 0x90])) kernel_regs 0 0 = 0 := by
  decide

theorem check_prefetch_opcode_congr (env env2 : Env) (regs : PtRegs) (instr b prefetch : Nat)
    (hm : env2.user_mode regs = env.user_mode regs)
    (h64 : env2.user_64bit_mode regs = env.user_64bit_mode regs)
    (hb : env2.probe_kernel_address instr = env.probe_kernel_address instr) :
    check_prefetch_opcode env2 regs instr b prefetch =
      check_prefetch_opcode env regs instr b prefetch := by
  unfold check_prefetch_opcode
  rw [hm, h64, hb]

/-- The scan loop reads memory only from `instr` up to `max_instr` inclusive. -/
theorem is_prefetch_loop_congr (env env2 : Env) (regs : PtRegs) (max_instr : Nat)
    (hm : env2.user_mode regs = env.user_mode regs)
    (h64 : env2.user_64bit_mode regs = env.user_64bit_mode regs) :
    ∀ n instr prefetch,
      (∀ a, instr ≤ a → a ≤ max_instr →
        env2.probe_kernel_address a = env.probe_kernel_address a) →
      is_prefetch_loop env2 regs max_instr n instr prefetch =
        is_prefetch_loop env regs max_instr n instr prefetch := by
  intro n
  induction n with
  | zero => intro instr p _; rfl
  | succ n ih =>
    intro instr p hb
    unfold is_prefetch_loop
    by_cases hlt : instr < max_instr
    · rw [if_pos hlt, if_pos hlt, hb instr (Nat.le_refl _) (by omega)]
      cases env.probe_kernel_address instr with
      | none => rfl
      | some opcode =>
        simp only []
        rw [check_prefetch_opcode_congr env env2 regs (instr + 1) (opcode % 256) p hm h64
          (hb (instr + 1) (by omega) (by omega)),
          ih (instr + 1) _ (fun a h1 h2 => hb a (by omega) h2)]
    · rw [if_neg hlt, if_neg hlt]

/-- C25: the result of `is_prefetch` is a function of the trap frame (its mode and its
linearized instruction pointer), the cause and the instruction bytes at the instruction
pointer only: two machines that agree on these give the same result, whatever the fault
address and whatever else differs.  `is_prefetch` returns a value and changes nothing; where
`do_sigbus` acknowledges a fault on its answer the state is returned as it was, so invoking
`is_prefetch` again on the trap frame gives the same result. -/
theorem is_prefetch_idempotent (env env2 : Env) (regs : PtRegs) (error_code addr addr2 : Nat)
    (hm : env2.user_mode regs = env.user_mode regs)
    (h64 : env2.user_64bit_mode regs = env.user_64bit_mode regs)
    (hip : env2.convert_ip_to_linear regs = env.convert_ip_to_linear regs)
    (ht : env2.TASK_SIZE_MAX = env.TASK_SIZE_MAX)
    (hb : ∀ a, env.convert_ip_to_linear regs % 2 ^ 64 ≤ a →
      a ≤ env.convert_ip_to_linear regs % 2 ^ 64 + 15 →
      env2.probe_kernel_address a = env.probe_kernel_address a) :
    is_prefetch env2 regs error_code addr2 = is_prefetch env regs error_code addr ∧
    (∀ vma fault st, st.regs = regs → error_code &&& PF_USER ≠ 0 →
      is_prefetch env regs error_code addr ≠ 0 →
      do_sigbus env error_code addr vma fault st = st ∧
      is_prefetch env (do_sigbus env error_code addr vma fault st).regs error_code addr =
        is_prefetch env regs error_code addr) := by
  refine ⟨?_, ?_⟩
  · unfold is_prefetch
    simp only []
    rw [hm, hip, ht, is_prefetch_loop_congr env env2 regs _ hm h64 _ _ _
      (fun a h1 h2 => hb a h1 (Nat.le_trans h2 (Nat.mod_le _ _)))]
  · intro vma fault st hst hu hp
    have h1 : do_sigbus env error_code addr vma fault st = st := by
      unfold do_sigbus
      rw [if_neg hu, hst, if_pos hp]
    rw [h1, hst]
    exact ⟨rfl, rfl⟩

/-- Witness for C25: a trap frame on a prefetch instruction (0x0F 0x0D), seen on two
machines that differ in the exception-fixup answer only. -/
theorem is_prefetch_idempotent_witness :
    ((env_insn_fixup [0x0F, 0x0D]).user_mode kernel_regs =
        (env_insn [0x0F, 0x0D]).user_mode kernel_regs ∧
      (env_insn_fixup [0x0F, 0x0D]).user_64bit_mode kernel_regs =
        (env_insn [0x0F, 0x0D]).user_64bit_mode kernel_regs ∧
      (env_insn_fixup [0x0F, 0x0D]).convert_ip_to_linear
        kernel_regs = (env_insn [0x0F, 0x0D]).convert_ip_to_linear kernel_regs ∧
      (env_insn_fixup [0x0F, 0x0D]).TASK_SIZE_MAX =
        (env_insn [0x0F, 0x0D]).TASK_SIZE_MAX) ∧
    is_prefetch (env_insn [0x0F, 0x0D]) kernel_regs PF_USER 0x400800 = 1 ∧
    (is_prefetch (env_insn_fixup [0x0F, 0x0D]) kernel_regs PF_USER 0 =
      is_prefetch (env_insn [0x0F, 0x0D]) kernel_regs PF_USER 0x400800 ∧
    (∀ vma fault st, st.regs = kernel_regs → PF_USER &&& PF_USER ≠ 0 →
      is_prefetch (env_insn [0x0F, 0x0D]) kernel_regs PF_USER 0x400800 ≠ 0 →
      do_sigbus (env_insn [0x0F, 0x0D]) PF_USER 0x400800 vma fault st = st ∧
      is_prefetch (env_insn [0x0F, 0x0D])
          (do_sigbus (env_insn [0x0F, 0x0D]) PF_USER 0x400800 vma fault st).regs PF_USER
          0x400800 =
        is_prefetch (env_insn [0x0F, 0x0D]) kernel_regs PF_USER 0x400800)) :=
  ⟨⟨rfl, rfl, rfl, rfl⟩, by decide,
    is_prefetch_idempotent (env_insn [0x0F, 0x0D]) (env_insn_fixup [0x0F, 0x0D]) kernel_regs PF_USER 0x400800 0
      rfl rfl rfl rfl (fun _ _ _ => rfl)⟩

/-! ### A retried fault -/

theorem nat_or_ne_zero (a b : Nat) : a ||| b ≠ 0 ↔ a ≠ 0 ∨ b ≠ 0 := by
  constructor
  · intro h
    by_contra hc
    simp only [not_or, ne_eq, not_not] at hc
    rw [hc.1, hc.2] at h
    exact h rfl
  · intro h hc
    have h1 : a = 0 := by
      apply Nat.eq_of_testBit_eq
      intro i
      have := congrArg (fun x => x.testBit i) hc
      simp only [Nat.testBit_lor, Nat.zero_testBit, Bool.or_eq_false_iff] at this ⊢
      exact this.1
    have h2 : b = 0 := by
      apply Nat.eq_of_testBit_eq
      intro i
      have := congrArg (fun x => x.testBit i) hc
      simp only [Nat.testBit_lor, Nat.zero_testBit, Bool.or_eq_false_iff] at this ⊢
      exact this.2
    rcases h with h | h
    · exact h h1
    · exact h h2

theorem first_pass_flags_allow_retry (env : Env) (regs : PtRegs) (error_code : Nat) :
    first_pass_flags env regs error_code &&& FAULT_FLAG_ALLOW_RETRY ≠ 0 := by
  have key : ∀ x : Nat, x.testBit 2 = true → x &&& FAULT_FLAG_ALLOW_RETRY ≠ 0 := by
    intro x hx
    rw [show FAULT_FLAG_ALLOW_RETRY = 2 ^ 2 by decide, Nat.and_two_pow, hx]
    decide
  apply key
  unfold first_pass_flags
  rw [Nat.testBit_lor, Nat.testBit_lor, Nat.testBit_lor, Nat.testBit_lor,
    show FAULT_FLAG_ALLOW_RETRY.testBit 2 = true by decide]
  rfl

/-- A pass that arrives at `good_area`: nothing but the lookup and the stack expansion has
happened. -/
theorem fault_pass_of_reaches (env : Env) (pass error_code address flags major : Nat)
    (vma : Vma) (st : St) (h : reaches_good_area env pass error_code address st.regs.sp vma) :
    ∃ st1, fault_pass env pass error_code address flags major st =
        good_area env pass error_code address flags major vma st1 ∧
      st1.mmap_sem = st.mmap_sem ∧ signals st1.trace = signals st.trace ∧
      populator_calls st1.trace = populator_calls st.trace ∧
      st1.maj_flt = st.maj_flt ∧ st1.min_flt = st.min_flt ∧ st1.regs = st.regs := by
  obtain ⟨hv, hc⟩ := h
  unfold fault_pass
  simp only [hv]
  by_cases h1 : vma.vm_start ≤ address
  · rw [if_pos h1]
    exact ⟨_, rfl, by
      simp [signals, populator_calls, St.emit, List.filter_append, List.filter_cons,
        Event.is_signal, Event.is_populator]⟩
  · rcases hc with hc | ⟨h2, h3, h4⟩
    · exact absurd hc h1
    · rw [if_neg h1, if_neg h2, if_neg (by simpa [St.emit] using h3), if_neg (by simp [h4])]
      exact ⟨_, rfl, by
        simp [signals, populator_calls, St.emit, List.filter_append, List.filter_cons,
          Event.is_signal, Event.is_populator]⟩

/-- A populator answer with `VM_FAULT_RETRY` while retry is allowed and no fatal signal is
pending: the pass jumps back with `ALLOW_RETRY` cleared, `TRIED` set and `major`
accumulated; the populator has dropped the lock. -/
theorem good_area_retry (env : Env) (pass error_code address flags major : Nat) (vma : Vma)
    (st : St) (ha : access_error env error_code vma = 0)
    (hr : env.handle_mm_fault pass vma address flags &&& VM_FAULT_RETRY ≠ 0)
    (hal : flags &&& FAULT_FLAG_ALLOW_RETRY ≠ 0)
    (hf : env.fatal_signal_pending pass = false) :
    good_area env pass error_code address flags major vma st =
      .again ((flags &&& not32 FAULT_FLAG_ALLOW_RETRY) ||| FAULT_FLAG_TRIED)
        (major ||| (env.handle_mm_fault pass vma address flags &&& VM_FAULT_MAJOR))
        { st.emit (.handle_mm_fault vma address flags
            (env.handle_mm_fault pass vma address flags)) with mmap_sem := st.mmap_sem - 1 } := by
  unfold good_area
  simp only [ha, hr, hal, hf, ne_eq, not_true_eq_false, not_false_eq_true, if_true, if_false,
    Bool.not_false, St.emit]

/-- A populator answer without `VM_FAULT_RETRY` and without an error bit: the pass is done,
and exactly one fault counter of the task has gone up by one, the major one when `major`
has accumulated `VM_FAULT_MAJOR`. -/
theorem good_area_counts (env : Env) (pass error_code address flags major : Nat) (vma : Vma)
    (st : St) (ha : access_error env error_code vma = 0)
    (hr : env.handle_mm_fault pass vma address flags &&& VM_FAULT_RETRY = 0)
    (he : env.handle_mm_fault pass vma address flags &&& VM_FAULT_ERROR = 0) :
    ∃ st', good_area env pass error_code address flags major vma st = .done st' ∧
      signals st'.trace = signals st.trace ∧ st'.mmap_sem = st.mmap_sem - 1 ∧
      populator_calls st'.trace = populator_calls st.trace ++
        [.handle_mm_fault vma address flags (env.handle_mm_fault pass vma address flags)] ∧
      (major ||| (env.handle_mm_fault pass vma address flags &&& VM_FAULT_MAJOR) ≠ 0 →
        st'.maj_flt = (st.maj_flt + 1) % 2 ^ 64 ∧ st'.min_flt = st.min_flt) ∧
      (major ||| (env.handle_mm_fault pass vma address flags &&& VM_FAULT_MAJOR) = 0 →
        st'.min_flt = (st.min_flt + 1) % 2 ^ 64 ∧ st'.maj_flt = st.maj_flt) := by
  unfold good_area
  simp only [ha, hr, he, ne_eq, not_true_eq_false, if_false]
  split
  all_goals
    refine ⟨_, rfl, ?_⟩
    simp_all [signals, populator_calls, St.up_read, St.emit, List.filter_append,
      List.filter_cons, Event.is_signal, Event.is_populator]

theorem lock_mm_lookup_counters (env : Env) (error_code address flags : Nat) (st : St)
    (error_code1 flags1 : Nat) (st1 : St)
    (h : lock_mm env error_code address flags st = .lookup error_code1 flags1 st1) :
    st1.maj_flt = st.maj_flt ∧ st1.min_flt = st.min_flt := by
  unfold lock_mm at h
  simp only [] at h
  repeat' split at h
  all_goals simp at h
  all_goals
    obtain ⟨rfl, rfl, rfl⟩ := h
    simp [St.down_read, St.emit]

theorem dump_pagetable_counters (env : Env) (address : Nat) (st : St) :
    (dump_pagetable env address st).maj_flt = st.maj_flt ∧
    (dump_pagetable env address st).min_flt = st.min_flt := by
  unfold dump_pagetable
  simp only [apply_ite St.maj_flt, apply_ite St.min_flt, St.emit, ite_self, and_self]

theorem oops_end_counters (sig : Nat) (st : St) :
    (oops_end sig st).maj_flt = st.maj_flt ∧ (oops_end sig st).min_flt = st.min_flt := by
  unfold oops_end
  simp only []
  split <;> exact ⟨rfl, rfl⟩

theorem pgtable_bad_counters (env : Env) (error_code address : Nat) (st : St) :
    (pgtable_bad env error_code address st).maj_flt = st.maj_flt ∧
    (pgtable_bad env error_code address st).min_flt = st.min_flt := by
  unfold pgtable_bad
  simp [oops_end_counters, dump_pagetable_counters, St.emit, St.set_thread]

theorem mode_adjust_counters (env : Env) (error_code flags : Nat) (st : St) :
    (mode_adjust env error_code flags st).1.maj_flt = st.maj_flt ∧
    (mode_adjust env error_code flags st).1.min_flt = st.min_flt := by
  unfold mode_adjust
  repeat' split
  all_goals simp [St.emit]

/-- When the entry part arrives at the lookup, the fault counters are untouched. -/
theorem user_fault_entry_lookup_counters (env : Env) (error_code address : Nat) (st : St)
    (error_code1 flags : Nat) (st1 : St)
    (h : user_fault_entry env error_code address st = .lookup error_code1 flags st1) :
    st1.maj_flt = st.maj_flt ∧ st1.min_flt = st.min_flt := by
  unfold user_fault_entry at h
  simp only [] at h
  repeat' split at h
  all_goals first
    | (have h1 := lock_mm_lookup_counters env _ address _ _ _ _ _ h
       simp [St.emit, mode_adjust_counters, pgtable_bad_counters] at h1
       exact h1)
    | simp at h

/-- C29: for a user-half fault that mmiotrace does not claim and whose entry part arrives at
the lookup: when the first pass arrives at the populator and the populator answers
`VM_FAULT_RETRY` with no fatal signal pending, and the second pass arrives at the populator
and it answers without `VM_FAULT_RETRY` and without an error bit, then `__do_page_fault`
returns (two passes are enough), the populator has been invoked exactly twice (the second
time with `ALLOW_RETRY` cleared and `TRIED` set), no signal has been delivered, the lock
count is what it was at entry, and exactly one fault counter of the task has gone up by one
(in 64-bit arithmetic): `maj_flt` if either answer had `VM_FAULT_MAJOR`, else `min_flt`. -/
theorem retry_then_success (env : Env) (fuel error_code0 address : Nat) (st0 : St)
    (error_code flags : Nat) (st : St) (vma0 vma1 : Vma)
    (hk : kmmio_fault env = 0) (ha : address < env.TASK_SIZE_MAX)
    (hentry : user_fault_entry env error_code0 address
      (if env.kmemcheck_active then st0.emit .kmemcheck_hide else st0) =
        .lookup error_code flags st)
    (h0 : reaches_good_area env 0 error_code address st.regs.sp vma0)
    (ha0 : access_error env error_code vma0 = 0)
    (hr0 : env.handle_mm_fault 0 vma0 address flags &&& VM_FAULT_RETRY ≠ 0)
    (hf : env.fatal_signal_pending 0 = false)
    (h1 : reaches_good_area env 1 error_code address st.regs.sp vma1)
    (ha1 : access_error env error_code vma1 = 0)
    (hr1 : env.handle_mm_fault 1 vma1 address
      ((flags &&& not32 FAULT_FLAG_ALLOW_RETRY) ||| FAULT_FLAG_TRIED) &&& VM_FAULT_RETRY = 0)
    (he1 : env.handle_mm_fault 1 vma1 address
      ((flags &&& not32 FAULT_FLAG_ALLOW_RETRY) ||| FAULT_FLAG_TRIED) &&& VM_FAULT_ERROR = 0) :
    ∃ st', __do_page_fault env (fuel + 2) error_code0 address st0 = some st' ∧
      populator_calls st'.trace = populator_calls st0.trace ++
        [.handle_mm_fault vma0 address flags (env.handle_mm_fault 0 vma0 address flags),
          .handle_mm_fault vma1 address
            ((flags &&& not32 FAULT_FLAG_ALLOW_RETRY) ||| FAULT_FLAG_TRIED)
            (env.handle_mm_fault 1 vma1 address
              ((flags &&& not32 FAULT_FLAG_ALLOW_RETRY) ||| FAULT_FLAG_TRIED))] ∧
      signals st'.trace = signals st0.trace ∧
      st'.mmap_sem = st0.mmap_sem ∧
      ((env.handle_mm_fault 0 vma0 address flags &&& VM_FAULT_MAJOR ≠ 0 ∨
          env.handle_mm_fault 1 vma1 address
            ((flags &&& not32 FAULT_FLAG_ALLOW_RETRY) ||| FAULT_FLAG_TRIED) &&&
              VM_FAULT_MAJOR ≠ 0) →
        st'.maj_flt = (st0.maj_flt + 1) % 2 ^ 64 ∧ st'.min_flt = st0.min_flt) ∧
      (¬ (env.handle_mm_fault 0 vma0 address flags &&& VM_FAULT_MAJOR ≠ 0 ∨
          env.handle_mm_fault 1 vma1 address
            ((flags &&& not32 FAULT_FLAG_ALLOW_RETRY) ||| FAULT_FLAG_TRIED) &&&
              VM_FAULT_MAJOR ≠ 0) →
        st'.min_flt = (st0.min_flt + 1) % 2 ^ 64 ∧ st'.maj_flt = st0.maj_flt) := by
  have h00 : populator_calls (if env.kmemcheck_active = true then st0.emit .kmemcheck_hide
      else st0).trace = populator_calls st0.trace ∧
      signals (if env.kmemcheck_active = true then st0.emit .kmemcheck_hide
        else st0).trace = signals st0.trace ∧
      (if env.kmemcheck_active = true then st0.emit .kmemcheck_hide else st0).mmap_sem =
        st0.mmap_sem ∧
      (if env.kmemcheck_active = true then st0.emit .kmemcheck_hide else st0).maj_flt =
        st0.maj_flt ∧
      (if env.kmemcheck_active = true then st0.emit .kmemcheck_hide else st0).min_flt =
        st0.min_flt := by
    split <;> simp [populator_calls, signals, St.emit, List.filter_append, List.filter_cons,
      Event.is_populator, Event.is_signal]
  have hh := handler_of_lookup env (fuel + 2) error_code0 address st0 error_code flags st hk ha
    hentry
  generalize (if env.kmemcheck_active = true then st0.emit .kmemcheck_hide else st0) = st00
    at h00 hentry
  have hal : flags &&& FAULT_FLAG_ALLOW_RETRY ≠ 0 := by
    rw [(user_fault_entry_lookup_flags env error_code0 address st00 _ _ _ hentry).2.1]
    exact first_pass_flags_allow_retry env _ _
  have hcalls0 : populator_calls st.trace = populator_calls st00.trace := by
    have := user_fault_entry_filter Event.is_populator populator_filter_region_op env
      error_code0 address st00
    rw [hentry] at this
    exact this
  have hsig0 := user_fault_entry_lookup_signals env error_code0 address st00 _ _ _ hentry
  have hsem0 := user_fault_entry_lookup_sem env error_code0 address st00 _ _ _ hentry
  have hcnt0 := user_fault_entry_lookup_counters env error_code0 address st00 _ _ _ hentry
  -- the first pass
  obtain ⟨sa, hpa, sa1, sa2, sa3, sa4, sa5, sa6⟩ := fault_pass_of_reaches env 0 error_code
    address flags 0 vma0 st h0
  have hga := good_area_retry env 0 error_code address flags 0 vma0 sa ha0 hr0 hal hf
  -- the second pass
  obtain ⟨sb, hpb, sb1, sb2, sb3, sb4, sb5, _⟩ := fault_pass_of_reaches env 1 error_code address
    ((flags &&& not32 FAULT_FLAG_ALLOW_RETRY) ||| FAULT_FLAG_TRIED)
    (0 ||| (env.handle_mm_fault 0 vma0 address flags &&& VM_FAULT_MAJOR)) vma1
    (St.down_read { sa.emit (.handle_mm_fault vma0 address flags
      (env.handle_mm_fault 0 vma0 address flags)) with mmap_sem := sa.mmap_sem - 1 })
    (by
      have : (St.down_read { sa.emit (.handle_mm_fault vma0 address flags
          (env.handle_mm_fault 0 vma0 address flags)) with
            mmap_sem := sa.mmap_sem - 1 }).regs = st.regs := by
        rw [← sa6]; rfl
      rw [this]
      exact h1)
  obtain ⟨st', hgb, g1, g2, g3, g4, g5⟩ := good_area_counts env 1 error_code address
    ((flags &&& not32 FAULT_FLAG_ALLOW_RETRY) ||| FAULT_FLAG_TRIED)
    (0 ||| (env.handle_mm_fault 0 vma0 address flags &&& VM_FAULT_MAJOR)) vma1 sb ha1 hr1 he1
  have hmaj : (0 ||| (env.handle_mm_fault 0 vma0 address flags &&& VM_FAULT_MAJOR)) |||
      (env.handle_mm_fault 1 vma1 address
        ((flags &&& not32 FAULT_FLAG_ALLOW_RETRY) ||| FAULT_FLAG_TRIED) &&& VM_FAULT_MAJOR)
        ≠ 0 ↔
      (env.handle_mm_fault 0 vma0 address flags &&& VM_FAULT_MAJOR ≠ 0 ∨
        env.handle_mm_fault 1 vma1 address
          ((flags &&& not32 FAULT_FLAG_ALLOW_RETRY) ||| FAULT_FLAG_TRIED) &&&
            VM_FAULT_MAJOR ≠ 0) := by
    rw [Nat.zero_or, nat_or_ne_zero]
  refine ⟨st', ?_, ?_, ?_, ?_, ?_, ?_⟩
  · rw [hh]
    unfold retry_loop
    rw [hpa, hga]
    simp only []
    unfold retry_loop
    rw [hpb, hgb]
  · rw [g3, sb3]
    simp only [populator_calls, St.down_read, St.emit, List.filter_append, List.filter_cons,
      Event.is_populator, List.filter_nil, if_true, if_false, List.append_nil,
      List.append_assoc, List.singleton_append, Bool.false_eq_true]
    simp only [populator_calls] at sa3 hcalls0 h00
    rw [sa3, hcalls0, h00.1]
  · rw [g1, sb2]
    simp only [signals, St.down_read, St.emit, List.filter_append, List.filter_cons,
      Event.is_signal, List.filter_nil, if_false, List.append_nil, Bool.false_eq_true]
    simp only [signals] at sa2 hsig0 h00
    rw [sa2, hsig0, h00.2.1]
  · rw [g2, sb1]
    simp only [St.down_read, St.emit]
    rw [sa1, hsem0, h00.2.2.1]
    omega
  · intro hm
    obtain ⟨e1, e2⟩ := g4 (hmaj.mpr hm)
    rw [e1, e2, sb4, sb5]
    simp only [St.down_read, St.emit]
    rw [sa4, sa5, hcnt0.1, hcnt0.2, h00.2.2.2.1, h00.2.2.2.2]
    exact ⟨rfl, rfl⟩
  · intro hm
    obtain ⟨e1, e2⟩ := g5 (by
      by_contra hc
      exact hm (hmaj.mp hc))
    rw [e1, e2, sb4, sb5]
    simp only [St.down_read, St.emit]
    rw [sa4, sa5, hcnt0.1, hcnt0.2, h00.2.2.2.1, h00.2.2.2.2]
    exact ⟨rfl, rfl⟩

/-- Witness for C29: end-to-end scenario 5, a user-mode read inside `vma_code` for which the
populator first answers `VM_FAULT_RETRY` and then 0: two populator calls, `min_flt` goes from
0 to 1, no signal. -/
theorem retry_then_success_witness :
    (kmmio_fault env_retry_once = 0 ∧ 0x400800 < env_retry_once.TASK_SIZE_MAX ∧
      reaches_good_area env_retry_once 0 PF_USER 0x400800 st_retry.regs.sp vma_code ∧
      access_error env_retry_once PF_USER vma_code = 0 ∧
      env_retry_once.handle_mm_fault 0 vma_code 0x400800 0x54 &&& VM_FAULT_RETRY ≠ 0 ∧
      env_retry_once.fatal_signal_pending 0 = false ∧
      reaches_good_area env_retry_once 1 PF_USER 0x400800 st_retry.regs.sp vma_code ∧
      env_retry_once.handle_mm_fault 1 vma_code 0x400800
        ((0x54 &&& not32 FAULT_FLAG_ALLOW_RETRY) ||| FAULT_FLAG_TRIED) &&& VM_FAULT_RETRY = 0 ∧
      env_retry_once.handle_mm_fault 1 vma_code 0x400800
        ((0x54 &&& not32 FAULT_FLAG_ALLOW_RETRY) ||| FAULT_FLAG_TRIED) &&& VM_FAULT_ERROR = 0) ∧
    (__do_page_fault env_retry_once 2 PF_USER 0x400800 (St.init mem1 user_regs)).map
        (fun s => (populator_calls s.trace, signals s.trace, s.maj_flt, s.min_flt, s.mmap_sem)) =
      some ([.handle_mm_fault vma_code 0x400800 0x54 VM_FAULT_RETRY,
        .handle_mm_fault vma_code 0x400800 0x70 0], [], 0, 1, 0) ∧
    ∃ st', __do_page_fault env_retry_once (0 + 2) PF_USER 0x400800 (St.init mem1 user_regs) =
        some st' ∧
      populator_calls st'.trace = populator_calls (St.init mem1 user_regs).trace ++
        [.handle_mm_fault vma_code 0x400800 0x54
            (env_retry_once.handle_mm_fault 0 vma_code 0x400800 0x54),
          .handle_mm_fault vma_code 0x400800
            ((0x54 &&& not32 FAULT_FLAG_ALLOW_RETRY) ||| FAULT_FLAG_TRIED)
            (env_retry_once.handle_mm_fault 1 vma_code 0x400800
              ((0x54 &&& not32 FAULT_FLAG_ALLOW_RETRY) ||| FAULT_FLAG_TRIED))] ∧
      signals st'.trace = signals (St.init mem1 user_regs).trace ∧
      st'.mmap_sem = (St.init mem1 user_regs).mmap_sem ∧
      ((env_retry_once.handle_mm_fault 0 vma_code 0x400800 0x54 &&& VM_FAULT_MAJOR ≠ 0 ∨
          env_retry_once.handle_mm_fault 1 vma_code 0x400800
            ((0x54 &&& not32 FAULT_FLAG_ALLOW_RETRY) ||| FAULT_FLAG_TRIED) &&&
              VM_FAULT_MAJOR ≠ 0) →
        st'.maj_flt = ((St.init mem1 user_regs).maj_flt + 1) % 2 ^ 64 ∧
          st'.min_flt = (St.init mem1 user_regs).min_flt) ∧
      (¬ (env_retry_once.handle_mm_fault 0 vma_code 0x400800 0x54 &&& VM_FAULT_MAJOR ≠ 0 ∨
          env_retry_once.handle_mm_fault 1 vma_code 0x400800
            ((0x54 &&& not32 FAULT_FLAG_ALLOW_RETRY) ||| FAULT_FLAG_TRIED) &&&
              VM_FAULT_MAJOR ≠ 0) →
        st'.min_flt = ((St.init mem1 user_regs).min_flt + 1) % 2 ^ 64 ∧
          st'.maj_flt = (St.init mem1 user_regs).maj_flt) :=
  ⟨⟨by decide, by decide, by decide, by decide, by decide, by decide, by decide, by decide,
      by decide⟩, by decide,
    retry_then_success env_retry_once 0 PF_USER 0x400800 (St.init mem1 user_regs) PF_USER 0x54
      st_retry vma_code vma_code (by decide) (by decide) rfl (by decide) (by decide)
      (by decide) (by decide) (by decide) (by decide) (by decide) (by decide)⟩

/-- C31: for every address outside the half-open range [VMALLOC_START, VMALLOC_END), the end
address VMALLOC_END included, `vmalloc_fault` returns -1 and leaves the state as it found it
whatever the page tables hold: no entry is read or written and no flush is requested.  The
address VMALLOC_START passes the range test (for a non-empty range): when the master maps it
and the task's top-level slot is empty, the walk copies the master's entry and returns 0. -/
theorem vmalloc_fault_out_of_range (env : Env) (st : St) :
    (∀ address, ¬(env.VMALLOC_START ≤ address ∧ address < env.VMALLOC_END) →
      vmalloc_fault env address st = (some (-1), st)) ∧
    vmalloc_fault env env.VMALLOC_END st = (some (-1), st) ∧
    (env.VMALLOC_START < env.VMALLOC_END →
      (env.VMALLOC_START ≤ env.VMALLOC_START ∧ env.VMALLOC_START < env.VMALLOC_END) ∧
      (master_maps env st.mem env.VMALLOC_START →
        env.pgd_none (st.mem (task_pgd env env.VMALLOC_START)) = true →
        task_pgd env env.VMALLOC_START ≠ master_pud env st.mem env.VMALLOC_START ∧
          task_pgd env env.VMALLOC_START ≠ master_pmd env st.mem env.VMALLOC_START ∧
          task_pgd env env.VMALLOC_START ≠ master_pte env st.mem env.VMALLOC_START →
        (vmalloc_fault env env.VMALLOC_START st).1 = some 0 ∧
        (vmalloc_fault env env.VMALLOC_START st).2.mem (task_pgd env env.VMALLOC_START) =
          st.mem (pgd_offset_k env env.VMALLOC_START))) := by
  have h1 : ∀ address, ¬(env.VMALLOC_START ≤ address ∧ address < env.VMALLOC_END) →
      vmalloc_fault env address st = (some (-1), st) := by
    intro address h
    unfold vmalloc_fault
    rw [if_pos h]
  refine ⟨h1, h1 _ (by omega), ?_⟩
  intro hlt
  refine ⟨⟨le_refl _, hlt⟩, ?_⟩
  intro hm he hd
  rw [vmalloc_fault_copy env env.VMALLOC_START st ⟨le_refl _, hlt⟩ hm he hd]
  simp

/-- Witness for C31: on the concrete machine, a fault at VMALLOC_END and one at
VMALLOC_START with the master mapping it. -/
theorem vmalloc_fault_out_of_range_witness :
    ¬(env0.VMALLOC_START ≤ env0.VMALLOC_END ∧ env0.VMALLOC_END < env0.VMALLOC_END) ∧
    vmalloc_fault env0 env0.VMALLOC_END (St.init mem_vstart kernel_regs) =
      (some (-1), St.init mem_vstart kernel_regs) ∧
    env0.VMALLOC_START < env0.VMALLOC_END ∧
    master_maps env0 (St.init mem_vstart kernel_regs).mem env0.VMALLOC_START ∧
    env0.pgd_none ((St.init mem_vstart kernel_regs).mem (task_pgd env0 env0.VMALLOC_START)) =
      true ∧
    (vmalloc_fault env0 env0.VMALLOC_START (St.init mem_vstart kernel_regs)).1 = some 0 ∧
    (vmalloc_fault env0 env0.VMALLOC_START (St.init mem_vstart kernel_regs)).2.mem
        (task_pgd env0 env0.VMALLOC_START) =
      (St.init mem_vstart kernel_regs).mem (pgd_offset_k env0 env0.VMALLOC_START) :=
  ⟨by decide,
    (vmalloc_fault_out_of_range env0 (St.init mem_vstart kernel_regs)).1 env0.VMALLOC_END
      (by decide),
    by decide, by decide, by decide,
    ((vmalloc_fault_out_of_range env0 (St.init mem_vstart kernel_regs)).2.2 (by decide)).2
      (by decide) (by decide) (by decide)⟩

/-- The branch of `spurious_fault_check` for PKEY taken by itself: it returns 1 like the
fall-through, so with PKEY in the cause the helper answers by the write and execute tests
alone.  `spurious_fault` never passes it such a cause. -/
theorem spurious_fault_check_pkey :
    (∀ (env : Env) (pte : Nat), spurious_fault_check env (PF_PROT ||| PF_PK) pte = 1) ∧
    (PF_PROT ||| PF_PK) &&& PF_PK ≠ 0 ∧
    spurious_fault_check env0 (PF_WRITE ||| PF_PROT ||| PF_PK) 0x63 = 1 ∧
    spurious_fault_check env0 (PF_WRITE ||| PF_PROT ||| PF_PK) 0x61 = 0 := by
  refine ⟨?_, by decide, by decide, by decide⟩
  intro env pte
  unfold spurious_fault_check
  have h1 : (PF_PROT ||| PF_PK) &&& PF_WRITE = 0 := by decide
  have h2 : (PF_PROT ||| PF_PK) &&& PF_INSTR = 0 := by decide
  simp [h1, h2]

theorem spurious_fault_check_le_one (env : Env) (error_code pte : Nat) :
    spurious_fault_check env error_code pte = 0 ∨ spurious_fault_check env error_code pte = 1 := by
  unfold spurious_fault_check
  repeat' split
  all_goals simp

/-- C37: for an opcode byte `b`, `check_prefetch_opcode` returns 1 exactly for the bytes
0x26, 0x2E, 0x36, 0x3E, 0x64 to 0x67, 0xF0, 0xF2, 0xF3 and, when the fault is from kernel
mode or 64-bit user mode, 0x40 to 0x4F; for every other byte it returns 0.  It sets the
prefetch flag to 1 for the byte 0x0F followed by a readable 0x0D or 0x18, and for no other
byte does the flag become non-zero unless it already was. -/
theorem check_prefetch_opcode_bytes (env : Env) (regs : PtRegs) (instr b prefetch : Nat)
    (hb : b < 256) :
    ((check_prefetch_opcode env regs instr b prefetch).1 ≠ 0 ↔
      (b = 0x26 ∨ b = 0x2E ∨ b = 0x36 ∨ b = 0x3E ∨ (0x64 ≤ b ∧ b ≤ 0x67) ∨
        b = 0xF0 ∨ b = 0xF2 ∨ b = 0xF3 ∨
        ((0x40 ≤ b ∧ b ≤ 0x4F) ∧
          (env.user_mode regs = false ∨ env.user_64bit_mode regs = true)))) ∧
    ((check_prefetch_opcode env regs instr b prefetch).1 = 0 ∨
      (check_prefetch_opcode env regs instr b prefetch).1 = 1) ∧
    (b = 0x0F ∧ (byte_at env instr = some 0x0D ∨ byte_at env instr = some 0x18) →
      (check_prefetch_opcode env regs instr b prefetch).2 = 1) ∧
    ((check_prefetch_opcode env regs instr b prefetch).2 ≠ 0 →
      (check_prefetch_opcode env regs instr b prefetch).2 = prefetch ∨
      (b = 0x0F ∧ (byte_at env instr = some 0x0D ∨ byte_at env instr = some 0x18))) := by
  obtain ⟨s1, -, -⟩ := check_prefetch_opcode_spec env regs instr b prefetch hb
  refine ⟨?_, ?_, ?_, ?_⟩
  · rw [s1]
    unfold legal_prefix_byte
    tauto
  · unfold check_prefetch_opcode
    simp only []
    repeat' split
    all_goals simp
  · rintro ⟨rfl, h⟩
    unfold check_prefetch_opcode
    unfold byte_at at h
    have e1 : (0x0F : Nat) &&& 0xf0 = 0 := by decide
    have e2 : (0x0F : Nat) &&& 0x0f = 0xF := by decide
    simp only [e1, e2]
    cases hp : env.probe_kernel_address instr with
    | none => rw [hp] at h; simp at h
    | some v =>
      rw [hp] at h
      simp only [Option.map_some', Option.some.injEq] at h
      simp [h]
  · intro h
    obtain ⟨-, -, -, -, f5⟩ := nibble_facts b hb
    have key : (check_prefetch_opcode env regs instr b prefetch).2 = prefetch ∨
        (b &&& 0xf0 = 0 ∧ ∃ v, env.probe_kernel_address instr = some v ∧
          (check_prefetch_opcode env regs instr b prefetch).2 =
            if b &&& 0x0f = 0xF ∧ (v % 256 = 0x0D ∨ v % 256 = 0x18) then 1 else 0) := by
      unfold check_prefetch_opcode
      simp only []
      generalize b &&& 0xf0 = hi
      generalize b &&& 0x0f = lo
      by_cases h0 : hi = 0
      · subst h0
        rw [if_neg (by decide), if_neg (by decide), if_neg (by decide), if_neg (by decide),
          if_pos rfl]
        cases hp : env.probe_kernel_address instr with
        | none => exact Or.inl rfl
        | some v => exact Or.inr ⟨rfl, v, rfl, rfl⟩
      · left
        rw [if_neg h0]
        repeat' split
        all_goals rfl
    rcases key with key | ⟨hhi, v, hv, key⟩
    · exact Or.inl key
    · right
      rw [key] at h
      by_cases hc : b &&& 0x0f = 0xF ∧ (v % 256 = 0x0D ∨ v % 256 = 0x18)
      · refine ⟨f5.mp ⟨hhi, hc.1⟩, ?_⟩
        unfold byte_at
        rw [hv]
        simpa using hc.2
      · rw [if_neg hc] at h
        exact absurd rfl h

/-- Witness for C37: the byte 0x0F read in a kernel-mode frame, before a 0x0D. -/
theorem check_prefetch_opcode_bytes_witness :
    (0x0F : Nat) < 256 ∧
    check_prefetch_opcode (env_insn [0x0F, 0x0D]) kernel_regs (kernel_regs.ip + 1) 0x0F 0 =
      (0, 1) ∧
    check_prefetch_opcode (env_insn [0x0F, 0x0D]) kernel_regs (kernel_regs.ip + 1) 0x66 0 =
      (1, 0) ∧
    ((check_prefetch_opcode (env_insn [0x0F, 0x0D]) kernel_regs (kernel_regs.ip + 1) 0x0F
        0).1 ≠ 0 ↔
      ((0x0F : Nat) = 0x26 ∨ (0x0F : Nat) = 0x2E ∨ (0x0F : Nat) = 0x36 ∨ (0x0F : Nat) = 0x3E ∨
        (0x64 ≤ (0x0F : Nat) ∧ (0x0F : Nat) ≤ 0x67) ∨
        (0x0F : Nat) = 0xF0 ∨ (0x0F : Nat) = 0xF2 ∨ (0x0F : Nat) = 0xF3 ∨
        ((0x40 ≤ (0x0F : Nat) ∧ (0x0F : Nat) ≤ 0x4F) ∧
          ((env_insn [0x0F, 0x0D]).user_mode kernel_regs = false ∨
            (env_insn [0x0F, 0x0D]).user_64bit_mode kernel_regs = true)))) :=
  ⟨by decide, by decide, by decide,
    (check_prefetch_opcode_bytes (env_insn [0x0F, 0x0D]) kernel_regs (kernel_regs.ip + 1)
      0x0F 0 (by decide)).1⟩

/-- The permits check of the code answers 1 exactly when the entry permits the access in the
sense of the specification, and 0 otherwise. -/
theorem spurious_fault_check_eq_permits (env : Env) (error_code pte : Nat) :
    spurious_fault_check env error_code pte = if permits env error_code pte then 1 else 0 := by
  rcases spurious_fault_check_le_one env error_code pte with h | h
  · have hn : ¬ permits env error_code pte := fun hp =>
      (spurious_fault_check_ne_zero_iff env error_code pte).mpr hp h
    rw [h, if_neg hn]
  · have hp : permits env error_code pte :=
      (spurious_fault_check_ne_zero_iff env error_code pte).mp (by rw [h]; decide)
    rw [h, if_pos hp]

theorem spurious_walk_aux (b1 b2 l2 b3 l3 b4 : Bool) (cu cm cl : Nat) (Pu Pm Pl : Prop)
    [Decidable Pu] [Decidable Pm] [Decidable Pl] (st stw : St)
    (hu : cu = if Pu then 1 else 0) (hm : cm = if Pm then 1 else 0)
    (hl : cl = if Pl then 1 else 0) :
    (if (!b1) = true then (0, st)
      else if (!b2) = true then (0, st)
      else if l2 = true then (cu, st)
      else if (!b3) = true then (0, st)
      else if l3 = true then (cm, st)
      else if (!b4) = true then (0, st)
      else if cl = 0 then (0, st)
      else (cm, if cm = 0 then stw else st)).1 =
    (if b1 = false then 0
      else if b2 = false then 0
      else if l2 = true then (if Pu then 1 else 0)
      else if b3 = false then 0
      else if l3 = true then (if Pm then 1 else 0)
      else if b4 = false then 0
      else if Pl ∧ Pm then 1
      else 0) := by
  subst hu hm hl
  by_cases pu : Pu <;> by_cases pm : Pm <;> by_cases pl : Pl <;>
  cases b1 <;> cases b2 <;> cases l2 <;> cases b3 <;> cases l3 <;> cases b4 <;>
  simp [pu, pm, pl]

theorem spurious_fault_eq_result (env : Env) (error_code address : Nat) (st : St)
    (hc : error_code = (PF_WRITE ||| PF_PROT) ∨ error_code = (PF_INSTR ||| PF_PROT)) :
    (spurious_fault env error_code address st).1 =
      spurious_result env error_code st.mem address := by
  have hne : ¬(error_code ≠ (PF_WRITE ||| PF_PROT) ∧ error_code ≠ (PF_INSTR ||| PF_PROT)) := by
    rcases hc with hc | hc <;> simp [hc]
  unfold spurious_fault spurious_result
  rw [if_neg hne]
  simp only [master_pud, master_pmd, master_pte, pgd_offset_k]
  exact spurious_walk_aux _ _ _ _ _ _ _ _ _ _ _ _ _ _
    (spurious_fault_check_eq_permits env error_code _)
    (spurious_fault_check_eq_permits env error_code _)
    (spurious_fault_check_eq_permits env error_code _)

theorem spurious_fault_state (env : Env) (error_code address : Nat) (st : St) :
    (spurious_fault env error_code address st).2 = st ∨
    (spurious_fault env error_code address st).2 =
      st.emit (.WARN .pmd_has_incorrect_permission_bits) := by
  unfold spurious_fault St.emit_once
  simp only []
  repeat' split
  all_goals simp

theorem spurious_result_congr (env : Env) (error_code address : Nat) (mem mem2 : Nat → Nat)
    (h1 : mem2 (pgd_offset_k env address) = mem (pgd_offset_k env address))
    (h2 : mem2 (master_pud env mem address) = mem (master_pud env mem address))
    (h3 : mem2 (master_pmd env mem address) = mem (master_pmd env mem address))
    (h4 : mem2 (master_pte env mem address) = mem (master_pte env mem address)) :
    spurious_result env error_code mem2 address = spurious_result env error_code mem address := by
  have e2 : master_pud env mem2 address = master_pud env mem address := by
    unfold master_pud pud_offset; rw [h1]
  have e3 : master_pmd env mem2 address = master_pmd env mem address := by
    unfold master_pmd pmd_offset; rw [e2, h2]
  have e4 : master_pte env mem2 address = master_pte env mem address := by
    unfold master_pte pte_offset_kernel; rw [e3, h3]
  unfold spurious_result
  simp only [e2, e3, e4, h1, h2, h3, h4]

/-- C38: for a cause that is exactly {WRITE, PRESENT} or {INSTR, PRESENT}, `spurious_fault`
returns 0 if the top, upper, middle or leaf entry of the master path that it reaches is not
present; 1 or 0 as the upper-level entry alone permits the access or not (writable for WRITE,
executable for INSTR) if that is a large page; likewise for the middle-level entry alone if
that is a large page; and otherwise 1 exactly when the leaf and the middle-level entry both
permit the access (`spurious_result`).  It writes no table
(page-table memory is unchanged; the state changes by at most one warning in the trace), and
its result depends on nothing but the four master entries of the address: any memory that
agrees on them gives the same result. -/
theorem spurious_fault_result (env : Env) (error_code address : Nat) (st : St)
    (hc : error_code = (PF_WRITE ||| PF_PROT) ∨ error_code = (PF_INSTR ||| PF_PROT)) :
    (spurious_fault env error_code address st).1 =
      spurious_result env error_code st.mem address ∧
    (spurious_fault env error_code address st).2.mem = st.mem ∧
    ((spurious_fault env error_code address st).2 = st ∨
      (spurious_fault env error_code address st).2 =
        st.emit (.WARN .pmd_has_incorrect_permission_bits)) ∧
    (∀ st2 : St,
      st2.mem (pgd_offset_k env address) = st.mem (pgd_offset_k env address) →
      st2.mem (master_pud env st.mem address) = st.mem (master_pud env st.mem address) →
      st2.mem (master_pmd env st.mem address) = st.mem (master_pmd env st.mem address) →
      st2.mem (master_pte env st.mem address) = st.mem (master_pte env st.mem address) →
      (spurious_fault env error_code address st2).1 =
        (spurious_fault env error_code address st).1) := by
  refine ⟨spurious_fault_eq_result env error_code address st hc, ?_,
    spurious_fault_state env error_code address st, ?_⟩
  · rcases spurious_fault_state env error_code address st with h | h <;> rw [h]
    rfl
  · intro st2 h1 h2 h3 h4
    rw [spurious_fault_eq_result env error_code address st hc,
      spurious_fault_eq_result env error_code address st2 hc]
    exact spurious_result_congr env error_code address st.mem st2.mem h1 h2 h3 h4

/-- Witness for C38: a write to `vaddr2`.  With the top-level entry read-only and the lower
levels writable (`mem2`) the result is 1; with a read-only leaf (`mem_leaf_readonly`) it
is 0. -/
theorem spurious_fault_result_witness :
    ((PF_WRITE ||| PF_PROT) = (PF_WRITE ||| PF_PROT) ∨
      (PF_WRITE ||| PF_PROT) = (PF_INSTR ||| PF_PROT)) ∧
    spurious_result env0 (PF_WRITE ||| PF_PROT) (St.init mem2 kernel_regs).mem vaddr2 = 1 ∧
    (spurious_fault env0 (PF_WRITE ||| PF_PROT) vaddr2 (St.init mem2 kernel_regs)).1 = 1 ∧
    spurious_result env0 (PF_WRITE ||| PF_PROT) (St.init mem_leaf_readonly kernel_regs).mem
      vaddr2 = 0 ∧
    (spurious_fault env0 (PF_WRITE ||| PF_PROT) vaddr2
      (St.init mem_leaf_readonly kernel_regs)).1 = 0 ∧
    (spurious_fault env0 (PF_WRITE ||| PF_PROT) vaddr2 (St.init mem2 kernel_regs)).1 =
      spurious_result env0 (PF_WRITE ||| PF_PROT) (St.init mem2 kernel_regs).mem vaddr2 ∧
    (spurious_fault env0 (PF_WRITE ||| PF_PROT) vaddr2
        (St.init mem_leaf_readonly kernel_regs)).1 =
      spurious_result env0 (PF_WRITE ||| PF_PROT) (St.init mem_leaf_readonly kernel_regs).mem
        vaddr2 :=
  ⟨by decide, by decide, by decide, by decide, by decide,
    (spurious_fault_result env0 (PF_WRITE ||| PF_PROT) vaddr2 (St.init mem2 kernel_regs)
      (by decide)).1,
    (spurious_fault_result env0 (PF_WRITE ||| PF_PROT) vaddr2
      (St.init mem_leaf_readonly kernel_regs) (by decide)).1⟩

/-- What `vmalloc_fault` does to page-table memory: nothing, or, for an address in range
whose task slot is empty and whose master slot is not, the store of the master's top-level
entry into the task's slot. -/
theorem vmalloc_fault_mem (env : Env) (address : Nat) (st : St) :
    (vmalloc_fault env address st).2.mem = st.mem ∨
    ((env.VMALLOC_START ≤ address ∧ address < env.VMALLOC_END) ∧
      env.pgd_none (st.mem (pgd_offset_k env address)) = false ∧
      env.pgd_none (st.mem (task_pgd env address)) = true ∧
      (vmalloc_fault env address st).2.mem =
        fun a => if a = task_pgd env address then st.mem (pgd_offset_k env address)
          else st.mem a) := by
  unfold vmalloc_fault
  simp only []
  by_cases hr : address ≥ env.VMALLOC_START ∧ address < env.VMALLOC_END
  · rw [if_neg (not_not.mpr hr)]
    have hm0 : (if env.in_nmi = true then st.emit_once (.WARN .in_nmi) else st).mem =
        st.mem := by
      split
      · exact (St.emit_once_frame _ _).1
      · rfl
    generalize (if env.in_nmi = true then st.emit_once (.WARN .in_nmi) else st) = st0 at hm0 ⊢
    by_cases h1 : env.pgd_none (st0.mem (pgd_offset_k env address)) = true
    · rw [if_pos h1]; exact Or.inl hm0
    · rw [if_neg h1]
      by_cases h2 : env.pgd_none (st0.mem (task_pgd env address)) = true
      · rw [if_pos h2, vmalloc_fault_lower_mem]
        right
        rw [hm0] at h1 h2
        refine ⟨hr, by simpa using h1, h2, ?_⟩
        simp [St.emit, St.enter, St.store, hm0]
      · rw [if_neg h2]
        left
        split
        · simp [St.bug, St.emit, St.enter, hm0]
        · rw [vmalloc_fault_lower_mem, hm0]
  · rw [if_pos hr]
    exact Or.inl rfl

/-- C39: `vmalloc_fault` leaves every slot other than the task's top-level slot of the
address as it was, the master's top-level slot included; the task's slot changes only for an
address in range when it was empty and the master's slot is not, and then it holds the
master's entry.  A failure result is not atomic: for an address in range whose master
top-level entry is there, whose master upper-level entry is absent and whose task slot is
empty, `vmalloc_fault` returns -1 after it has copied the master's top-level entry into the
task's slot and requested a flush. -/
theorem vmalloc_fault_writes (env : Env) (address : Nat) (st : St) :
    (∀ a, a ≠ task_pgd env address → (vmalloc_fault env address st).2.mem a = st.mem a) ∧
    (vmalloc_fault env address st).2.mem (pgd_offset_k env address) =
      st.mem (pgd_offset_k env address) ∧
    ((vmalloc_fault env address st).2.mem (task_pgd env address) ≠
        st.mem (task_pgd env address) →
      (env.VMALLOC_START ≤ address ∧ address < env.VMALLOC_END) ∧
      env.pgd_none (st.mem (task_pgd env address)) = true ∧
      env.pgd_none (st.mem (pgd_offset_k env address)) = false ∧
      (vmalloc_fault env address st).2.mem (task_pgd env address) =
        st.mem (pgd_offset_k env address)) ∧
    ((env.VMALLOC_START ≤ address ∧ address < env.VMALLOC_END) →
      env.pgd_none (st.mem (pgd_offset_k env address)) = false →
      env.pud_none (st.mem (master_pud env st.mem address)) = true →
      env.pgd_none (st.mem (task_pgd env address)) = true →
      task_pgd env address ≠ master_pud env st.mem address →
      (vmalloc_fault env address st).1 = some (-1) ∧
      (vmalloc_fault env address st).2.mem (task_pgd env address) =
        st.mem (pgd_offset_k env address) ∧
      (vmalloc_fault env address st).2.trace =
        st.trace ++
          (if env.in_nmi = true ∧ Event.WARN .in_nmi ∉ st.trace then [.WARN .in_nmi]
            else []) ++
          [.set_pgd (task_pgd env address) (st.mem (pgd_offset_k env address)),
            .arch_flush_lazy_mmu_mode]) := by
  refine ⟨?_, ?_, ?_, ?_⟩
  · intro a ha
    rcases vmalloc_fault_mem env address st with h | ⟨-, -, -, h⟩ <;> rw [h]
    simp [ha]
  · rcases vmalloc_fault_mem env address st with h | ⟨-, h1, h2, h⟩ <;> rw [h]
    have hne : pgd_offset_k env address ≠ task_pgd env address := by
      intro e; rw [e] at h1; rw [h1] at h2; exact absurd h2 (by simp)
    simp [hne]
  · intro hch
    rcases vmalloc_fault_mem env address st with h | ⟨hr, h1, h2, h⟩
    · rw [h] at hch; exact absurd rfl hch
    · refine ⟨hr, h2, h1, ?_⟩
      rw [h]; simp
  · intro hr h1 hu h2 hd
    have hne : pgd_offset_k env address ≠ task_pgd env address := by
      intro e; rw [e] at h1; rw [h1] at h2; exact absurd h2 (by simp)
    unfold vmalloc_fault
    simp only []
    rw [if_neg (not_not.mpr hr)]
    have key : ∀ st0 : St, st0.mem = st.mem →
        vmalloc_fault_lower env address (task_pgd env address) (pgd_offset_k env address)
          (((st0.store (task_pgd env address) (st0.mem (pgd_offset_k env address))).emit
            (.set_pgd (task_pgd env address) (st0.mem (pgd_offset_k env address)))).emit
            .arch_flush_lazy_mmu_mode) =
        (some (-1), ((st0.store (task_pgd env address) (st0.mem (pgd_offset_k env address))).emit
            (.set_pgd (task_pgd env address) (st0.mem (pgd_offset_k env address)))).emit
            .arch_flush_lazy_mmu_mode) := by
      intro st0 hm0
      generalize hst' : ((st0.store (task_pgd env address)
            (st0.mem (pgd_offset_k env address))).emit
          (.set_pgd (task_pgd env address) (st0.mem (pgd_offset_k env address)))).emit
            .arch_flush_lazy_mmu_mode = st'
      have hmem : st'.mem = fun a => if a = task_pgd env address then
          st.mem (pgd_offset_k env address) else st.mem a := by
        rw [← hst']; simp [St.emit, St.enter, St.store, hm0]
      have r1 : st'.mem (pgd_offset_k env address) = st.mem (pgd_offset_k env address) := by
        rw [hmem]; simp [hne]
      have p1 : pud_offset env st'.mem (pgd_offset_k env address) address =
          master_pud env st.mem address := by
        unfold master_pud pud_offset; rw [r1]
      have r2 : st'.mem (master_pud env st.mem address) =
          st.mem (master_pud env st.mem address) := by
        rw [hmem]; simp [Ne.symm hd]
      unfold vmalloc_fault_lower
      simp only []
      rw [p1, r2, if_pos hu]
    by_cases hn : env.in_nmi = true
    · simp only [hn, if_true, true_and]
      by_cases hw : Event.WARN .in_nmi ∈ st.trace
      · rw [St.emit_once_of_mem st _ hw, if_neg (by simpa using h1), if_pos h2, key st rfl]
        simp [St.emit, St.enter, St.store, hw]
      · have e1 : st.emit_once (.WARN .in_nmi) = st.emit (.WARN .in_nmi) := by
          unfold St.emit_once
          rw [if_neg hw]
        rw [e1, if_neg (by simpa [St.emit, St.enter] using h1),
          if_pos (by simpa [St.emit, St.enter] using h2),
          key (st.emit (.WARN .in_nmi)) rfl]
        simp [St.emit, St.enter, St.store, hw]
    · simp only [hn, if_false, Bool.false_eq_true, false_and]
      rw [if_neg (by simpa using h1), if_pos h2, key st rfl]
      simp [St.emit, St.enter, St.store]

/-- Witness for C39: the master has a top-level entry for `vaddr1` and no upper-level entry
below it; the task's slot is empty.  `vmalloc_fault` returns -1 with the entry copied and the
flush requested. -/
theorem vmalloc_fault_writes_witness :
    (env0.VMALLOC_START ≤ vaddr1 ∧ vaddr1 < env0.VMALLOC_END) ∧
    env0.pgd_none ((St.init mem_top_only kernel_regs).mem (pgd_offset_k env0 vaddr1)) = false ∧
    env0.pud_none ((St.init mem_top_only kernel_regs).mem
      (master_pud env0 (St.init mem_top_only kernel_regs).mem vaddr1)) = true ∧
    env0.pgd_none ((St.init mem_top_only kernel_regs).mem (task_pgd env0 vaddr1)) = true ∧
    task_pgd env0 vaddr1 ≠ master_pud env0 (St.init mem_top_only kernel_regs).mem vaddr1 ∧
    (St.init mem_top_only kernel_regs).mem (pgd_offset_k env0 vaddr1) = 0x3067 ∧
    (vmalloc_fault env0 vaddr1 (St.init mem_top_only kernel_regs)).1 = some (-1) ∧
    (vmalloc_fault env0 vaddr1 (St.init mem_top_only kernel_regs)).2.mem (task_pgd env0 vaddr1) =
      (St.init mem_top_only kernel_regs).mem (pgd_offset_k env0 vaddr1) ∧
    (vmalloc_fault env0 vaddr1 (St.init mem_top_only kernel_regs)).2.trace =
      (St.init mem_top_only kernel_regs).trace ++
        (if env0.in_nmi = true ∧ Event.WARN .in_nmi ∉ (St.init mem_top_only kernel_regs).trace
          then [.WARN .in_nmi] else []) ++
        [.set_pgd (task_pgd env0 vaddr1)
            ((St.init mem_top_only kernel_regs).mem (pgd_offset_k env0 vaddr1)),
          .arch_flush_lazy_mmu_mode] :=
  ⟨by decide, by decide, by decide, by decide, by decide, by decide,
    (vmalloc_fault_writes env0 vaddr1 (St.init mem_top_only kernel_regs)).2.2.2
      (by decide) (by decide) (by decide) (by decide) (by decide)⟩

/-- C36: at the lock acquisition, with mode-adjusted cause `error_code`: if the non-blocking
attempt fails, USER is not in the cause and the trapping instruction has no entry in the
exception tables, the handler goes to `bad_area_nosemaphore`; of the calls on the address
space and its lock only the failed attempt is added to the trace (no blocking `down_read`,
no lookup, no populator call) and the lock count is unchanged.  In every other case the
handler proceeds to the region lookup holding one more read hold, taken by the attempt or,
after a failed attempt, by the blocking `down_read`.  For a user-half fault whose entry part
reaches the lock acquisition, this is what the whole handler does. -/
theorem lock_mm_outcome (env : Env) (error_code address flags : Nat) (st : St) :
    ((env.down_read_trylock = false ∧ error_code &&& PF_USER = 0 ∧
        env.search_exception_tables st.regs.ip = false) →
      lock_mm env error_code address flags st =
        .finished (bad_area_nosemaphore env error_code address none
          (st.emit (.down_read_trylock false))) ∧
      (bad_area_nosemaphore env error_code address none
          (st.emit (.down_read_trylock false))).trace.filter Event.is_mm_op =
        st.trace.filter Event.is_mm_op ++ [.down_read_trylock false] ∧
      (bad_area_nosemaphore env error_code address none
          (st.emit (.down_read_trylock false))).mmap_sem = st.mmap_sem ∧
      ∀ fuel error_code0 st0, kmmio_fault env = 0 → address < env.TASK_SIZE_MAX →
        user_fault_entry env error_code0 address
            (if env.kmemcheck_active then st0.emit .kmemcheck_hide else st0) =
          lock_mm env error_code address flags st →
        __do_page_fault env fuel error_code0 address st0 =
          some (bad_area_nosemaphore env error_code address none
            (st.emit (.down_read_trylock false)))) ∧
    (¬(env.down_read_trylock = false ∧ error_code &&& PF_USER = 0 ∧
        env.search_exception_tables st.regs.ip = false) →
      ∃ st1, lock_mm env error_code address flags st = .lookup error_code flags st1 ∧
        st1.mmap_sem = st.mmap_sem + 1 ∧
        st1.trace.filter Event.is_mm_op = st.trace.filter Event.is_mm_op ++
          (if env.down_read_trylock then [.down_read_trylock true]
            else [.down_read_trylock false, .down_read]) ∧
        ∀ fuel error_code0 st0, kmmio_fault env = 0 → address < env.TASK_SIZE_MAX →
          user_fault_entry env error_code0 address
              (if env.kmemcheck_active then st0.emit .kmemcheck_hide else st0) =
            lock_mm env error_code address flags st →
          __do_page_fault env fuel error_code0 address st0 =
            retry_loop env error_code address fuel 0 flags 0 st1) := by
  have hp := mm_op_of_report Event.is_mm_op mm_op_filter_self
  constructor
  · rintro ⟨h1, h2, h3⟩
    have hl : lock_mm env error_code address flags st =
        .finished (bad_area_nosemaphore env error_code address none
          (st.emit (.down_read_trylock false))) := by
      unfold lock_mm
      simp [h1, h2, h3, St.emit]
    refine ⟨hl, ?_, ?_, ?_⟩
    · unfold bad_area_nosemaphore
      rw [__bad_area_nosemaphore_filter Event.is_mm_op hp]
      simp [St.emit, List.filter_append, Event.is_mm_op]
    · unfold bad_area_nosemaphore
      rw [(__bad_area_nosemaphore_frame env _ _ _ _ _).1]
      rfl
    · intro fuel error_code0 st0 hk ha he
      have hs : fault_in_kernel_space env address = 0 := by
        unfold fault_in_kernel_space
        rw [if_neg (by omega)]
      unfold __do_page_fault
      simp only [hk, hs, ne_eq, not_true_eq_false, if_false, he, hl]
  · intro hn
    have hl : ∃ st1, lock_mm env error_code address flags st = .lookup error_code flags st1 ∧
        st1.mmap_sem = st.mmap_sem + 1 ∧
        st1.trace.filter Event.is_mm_op = st.trace.filter Event.is_mm_op ++
          (if env.down_read_trylock then [.down_read_trylock true]
            else [.down_read_trylock false, .down_read]) := by
      unfold lock_mm
      by_cases h1 : env.down_read_trylock = true
      · simp [h1, St.emit, List.filter_append, Event.is_mm_op]
      · have h1' : env.down_read_trylock = false := by simpa using h1
        have h2 : ¬(error_code &&& PF_USER = 0 ∧
            (!env.search_exception_tables st.regs.ip) = true) := by
          intro ⟨a, b⟩
          exact hn ⟨h1', a, by simpa using b⟩
        simp only [h1', Bool.not_false, if_true, St.emit, if_neg h2, Bool.false_eq_true,
          if_false]
        refine ⟨_, rfl, ?_⟩
        simp [St.down_read, St.emit, List.filter_append, Event.is_mm_op]
    obtain ⟨st1, hl, hs1, ht1⟩ := hl
    refine ⟨st1, hl, hs1, ht1, ?_⟩
    intro fuel error_code0 st0 hk ha he
    rw [hl] at he
    exact handler_of_lookup env fuel error_code0 address st0 error_code flags st1 hk ha he

/-- Witness for C36: a kernel-mode read in the user half from inside a user-access section,
while the non-blocking attempt fails and the instruction has no exception-table entry; the
whole handler ends in `bad_area_nosemaphore` without a blocking acquisition. -/
theorem lock_mm_outcome_witness :
    (env_trylock_fails.down_read_trylock = false ∧ 0 &&& PF_USER = 0 ∧
      env_trylock_fails.search_exception_tables st_trylock.regs.ip = false) ∧
    ((__do_page_fault env_trylock_fails 2 0 0x601000 (St.init mem1 uaccess_regs)).map
        (fun s => (s.trace.filter Event.is_mm_op, s.mmap_sem))) =
      some ([.down_read_trylock false], 0) ∧
    (bad_area_nosemaphore env_trylock_fails 0 0x601000 none
        (st_trylock.emit (.down_read_trylock false))).trace.filter Event.is_mm_op =
      st_trylock.trace.filter Event.is_mm_op ++ [.down_read_trylock false] ∧
    __do_page_fault env_trylock_fails 2 0 0x601000 (St.init mem1 uaccess_regs) =
      some (bad_area_nosemaphore env_trylock_fails 0 0x601000 none
        (st_trylock.emit (.down_read_trylock false))) :=
  ⟨by decide, by decide,
    ((lock_mm_outcome env_trylock_fails 0 0x601000 0x14 st_trylock).1 (by decide)).2.1,
    ((lock_mm_outcome env_trylock_fails 0 0x601000 0x14 st_trylock).1 (by decide)).2.2.2
      2 0 (St.init mem1 uaccess_regs) (by decide) (by decide) rfl⟩

theorem pgd_sync_of_report (p : Event → Bool) (hs : ∀ e, e.is_pgd_sync = false → p e = false) :
    ∀ e, e.is_report = true → p e = false := by
  intro e he
  apply hs
  cases e <;> first | rfl | simp [Event.is_report] at he

theorem pgd_sync_filter_self : ∀ e : Event, e.is_pgd_sync = false →
    Event.is_pgd_sync e = false := fun _ h => h

theorem spurious_fault_sync_filter (p : Event → Bool)
    (hs : ∀ e, e.is_pgd_sync = false → p e = false) (env : Env) (error_code address : Nat)
    (st : St) :
    (spurious_fault env error_code address st).2.trace.filter p = st.trace.filter p := by
  rcases spurious_fault_state env error_code address st with h | h <;> rw [h]
  simp [St.emit, List.filter_append, hs (.WARN .pmd_has_incorrect_permission_bits) rfl]

theorem kernel_fault_tail_tables (p : Event → Bool)
    (hs : ∀ e, e.is_pgd_sync = false → p e = false) (env : Env) (error_code address : Nat)
    (st : St) :
    (kernel_fault_tail env error_code address st).trace.filter p = st.trace.filter p ∧
    (kernel_fault_tail env error_code address st).mem = st.mem := by
  have hp := pgd_sync_of_report p hs
  have hm : (spurious_fault env error_code address st).2.mem = st.mem := by
    rcases spurious_fault_state env error_code address st with h | h <;> rw [h]
    rfl
  unfold kernel_fault_tail bad_area_nosemaphore
  simp only []
  repeat' split
  all_goals simp [spurious_fault_sync_filter p hs, __bad_area_nosemaphore_filter p hp,
    (__bad_area_nosemaphore_frame env _ _ _ _ _).2, hm]

theorem lock_mm_tables (p : Event → Bool)
    (hs : ∀ e, e.is_pgd_sync = false → p e = false) (env : Env)
    (error_code address flags : Nat) (st : St) :
    (lock_mm env error_code address flags st).st.trace.filter p = st.trace.filter p ∧
    (lock_mm env error_code address flags st).st.mem = st.mem := by
  have hp := pgd_sync_of_report p hs
  have h3 : ∀ b, p (.down_read_trylock b) = false := fun b => hs _ rfl
  have h4 : p .down_read = false := hs _ rfl
  have h5 : p .might_sleep = false := hs _ rfl
  unfold lock_mm bad_area_nosemaphore
  simp only []
  repeat' split
  all_goals simp [Entry.st, __bad_area_nosemaphore_filter p hp,
    (__bad_area_nosemaphore_frame env _ _ _ _ _).2, St.emit, St.enter, St.down_read,
    List.filter_append, h3, h4, h5]

theorem mode_adjust_sync_filter (p : Event → Bool)
    (hs : ∀ e, e.is_pgd_sync = false → p e = false) (env : Env) (error_code flags : Nat)
    (st : St) :
    (mode_adjust env error_code flags st).1.trace.filter p = st.trace.filter p := by
  have h1 : p .local_irq_enable = false := hs _ rfl
  unfold mode_adjust
  repeat' split
  all_goals simp [St.emit, St.enter, List.filter_append, h1]

theorem user_fault_entry_tables (p : Event → Bool)
    (hs : ∀ e, e.is_pgd_sync = false → p e = false) (env : Env) (error_code address : Nat)
    (st : St) :
    (user_fault_entry env error_code address st).st.trace.filter p = st.trace.filter p ∧
    (user_fault_entry env error_code address st).st.mem = st.mem := by
  have hp := pgd_sync_of_report p hs
  have h2 : ∀ e, p (.perf_sw_event e) = false := fun e => hs _ rfl
  unfold user_fault_entry bad_area_nosemaphore
  simp only []
  repeat' split
  all_goals first
    | (rw [(lock_mm_tables p hs _ _ _ _ _).1, (lock_mm_tables p hs _ _ _ _ _).2]
       simp [mode_adjust_sync_filter p hs, (mode_adjust_frame env _ _ _).2.2,
         pgtable_bad_filter p hp, (pgtable_bad_frame env _ _ _).2, St.emit, St.enter,
         List.filter_append, h2])
    | simp [Entry.st, pgtable_bad_filter p hp, (pgtable_bad_frame env _ _ _).2,
        __bad_area_nosemaphore_filter p hp, (__bad_area_nosemaphore_frame env _ _ _ _ _).2]

theorem good_area_tables (p : Event → Bool)
    (hs : ∀ e, e.is_pgd_sync = false → p e = false) (env : Env)
    (pass error_code address flags major : Nat) (vma : Vma) (st : St) :
    (good_area env pass error_code address flags major vma st).st.trace.filter p =
      st.trace.filter p ∧
    (good_area env pass error_code address flags major vma st).st.mem = st.mem := by
  have hp := pgd_sync_of_report p hs
  have hup : p .up_read = false := hs _ rfl
  have hperf : ∀ e, p (.perf_sw_event e) = false := fun e => hs _ rfl
  have hmf : ∀ v a f r, p (.handle_mm_fault v a f r) = false := fun v a f r => hs _ rfl
  unfold good_area
  simp only []
  repeat' split
  all_goals simp [Pass.st, bad_area_access_error_filter p hp hup,
    (bad_area_access_error_frame env _ _ _ _).2, retry_exit_filter p hp,
    (retry_exit_frame env _ _ _ _).2, mm_fault_error_filter p hp,
    (mm_fault_error_frame env _ _ _ _ _ _).2, St.up_read, St.emit, List.filter_append,
    hup, hperf, hmf]

theorem fault_pass_tables (p : Event → Bool)
    (hs : ∀ e, e.is_pgd_sync = false → p e = false) (env : Env)
    (pass error_code address flags major : Nat) (st : St) :
    (fault_pass env pass error_code address flags major st).st.trace.filter p =
      st.trace.filter p ∧
    (fault_pass env pass error_code address flags major st).st.mem = st.mem := by
  have hp := pgd_sync_of_report p hs
  have hup : p .up_read = false := hs _ rfl
  have hf : ∀ a, p (.find_vma a) = false := fun a => hs _ rfl
  have hx : ∀ v a, p (.expand_stack v a) = false := fun v a => hs _ rfl
  unfold fault_pass bad_area
  simp only []
  repeat' split
  all_goals first
    | (rw [(good_area_tables p hs _ _ _ _ _ _ _ _).1, (good_area_tables p hs _ _ _ _ _ _ _ _).2]
       simp [St.emit, List.filter_append, hf, hx])
    | simp [Pass.st, __bad_area_filter p hp hup, (__bad_area_frame env _ _ _ _ _).2, St.emit,
        List.filter_append, hf, hx]

theorem retry_loop_tables (p : Event → Bool)
    (hs : ∀ e, e.is_pgd_sync = false → p e = false) (env : Env) (error_code address : Nat) :
    ∀ (fuel pass flags major : Nat) (st st' : St),
      retry_loop env error_code address fuel pass flags major st = some st' →
      st'.trace.filter p = st.trace.filter p ∧ st'.mem = st.mem := by
  intro fuel
  induction fuel with
  | zero => intro pass flags major st st' h; simp [retry_loop] at h
  | succ n ih =>
    intro pass flags major st st' h
    have hb := fault_pass_tables p hs env pass error_code address flags major st
    unfold retry_loop at h
    cases hp : fault_pass env pass error_code address flags major st with
    | done s =>
      rw [hp] at h hb
      simp only [Option.some.injEq] at h
      subst h
      exact hb
    | again flags1 major1 s =>
      rw [hp] at h hb
      simp only [] at h
      obtain ⟨i1, i2⟩ := ih _ _ _ _ _ h
      rw [i1, i2, ← hb.1, ← hb.2]
      simp [Pass.st, St.down_read, St.emit, List.filter_append, hs .down_read rfl]

theorem vmalloc_fault_lower_values (env : Env) (address pgd pgd_ref : Nat) (st : St) :
    (vmalloc_fault_lower env address pgd pgd_ref st).1 = none ∨
      (vmalloc_fault_lower env address pgd pgd_ref st).1 = some 0 ∨
      (vmalloc_fault_lower env address pgd pgd_ref st).1 = some (-1) := by
  unfold vmalloc_fault_lower
  simp only [apply_ite Prod.fst]
  split_ifs <;> simp

theorem vmalloc_fault_values (env : Env) (address : Nat) (st : St) :
    (vmalloc_fault env address st).1 = none ∨ (vmalloc_fault env address st).1 = some 0 ∨
      (vmalloc_fault env address st).1 = some (-1) := by
  unfold vmalloc_fault
  simp only [apply_ite Prod.fst]
  split_ifs
  all_goals first
    | exact vmalloc_fault_lower_values env _ _ _ _
    | simp

theorem lazy_cause_iff (error_code : Nat) :
    error_code &&& (PF_RSVD ||| PF_USER ||| PF_PROT) = 0 ↔
      error_code &&& PF_USER = 0 ∧ error_code &&& PF_PROT = 0 ∧ error_code &&& PF_RSVD = 0 := by
  rw [Nat.and_or_distrib_left, Nat.and_or_distrib_left]
  have h1 := nat_or_ne_zero (error_code &&& PF_RSVD ||| error_code &&& PF_USER)
    (error_code &&& PF_PROT)
  have h2 := nat_or_ne_zero (error_code &&& PF_RSVD) (error_code &&& PF_USER)
  constructor
  · intro h
    by_contra hc
    apply (h1.mpr ?_) h
    by_cases a : error_code &&& PF_PROT = 0
    · left
      apply h2.mpr
      by_cases b : error_code &&& PF_RSVD = 0
      · right; intro c; exact hc ⟨c, a, b⟩
      · left; exact b
    · right; exact a
  · rintro ⟨a, b, c⟩
    rw [a, b, c]; rfl

/-- C34: in `__do_page_fault`, `vmalloc_fault` is run exactly when mmiotrace does not claim
the fault, the address is in the kernel half and the cause has none of USER, PRESENT and
RESERVED: then the handler returns the state `vmalloc_fault` leaves unless it answers -1,
and continues from that state when it answers -1.  When mmiotrace claims the fault the
handler returns at once; for a kernel-half fault with one of the three bits in the cause it
is the kernel-half tail run on the state before; for a user-half address it returns with
page-table memory unchanged and without any `set_pgd` or flush request in its trace. -/
theorem vmalloc_fault_invoked_iff (env : Env) (k error_code address : Nat) (st : St) :
    (error_code &&& (PF_RSVD ||| PF_USER ||| PF_PROT) = 0 ↔
      error_code &&& PF_USER = 0 ∧ error_code &&& PF_PROT = 0 ∧ error_code &&& PF_RSVD = 0) ∧
    (kmmio_fault env = 0 → env.TASK_SIZE_MAX ≤ address →
      (error_code &&& PF_USER = 0 ∧ error_code &&& PF_PROT = 0 ∧ error_code &&& PF_RSVD = 0) →
      ((vmalloc_fault env address
          (if env.kmemcheck_active then st.emit .kmemcheck_hide else st)).1 ≠ some (-1) →
        __do_page_fault env (k + 2) error_code address st =
          some (vmalloc_fault env address
            (if env.kmemcheck_active then st.emit .kmemcheck_hide else st)).2) ∧
      ((vmalloc_fault env address
          (if env.kmemcheck_active then st.emit .kmemcheck_hide else st)).1 = some (-1) →
        __do_page_fault env (k + 2) error_code address st =
          some (if env.kmemcheck_fault then
              (vmalloc_fault env address
                (if env.kmemcheck_active then st.emit .kmemcheck_hide else st)).2
            else kernel_fault_tail env error_code address
              (vmalloc_fault env address
                (if env.kmemcheck_active then st.emit .kmemcheck_hide else st)).2))) ∧
    (kmmio_fault env ≠ 0 →
      __do_page_fault env (k + 2) error_code address st =
        some (if env.kmemcheck_active then st.emit .kmemcheck_hide else st)) ∧
    (kmmio_fault env = 0 → env.TASK_SIZE_MAX ≤ address →
      ¬(error_code &&& PF_USER = 0 ∧ error_code &&& PF_PROT = 0 ∧
        error_code &&& PF_RSVD = 0) →
      __do_page_fault env (k + 2) error_code address st =
        some (kernel_fault_tail env error_code address
          (if env.kmemcheck_active then st.emit .kmemcheck_hide else st)) ∧
      (kernel_fault_tail env error_code address
          (if env.kmemcheck_active then st.emit .kmemcheck_hide else st)).mem = st.mem ∧
      (kernel_fault_tail env error_code address
          (if env.kmemcheck_active then st.emit .kmemcheck_hide else st)).trace.filter
          Event.is_pgd_sync = st.trace.filter Event.is_pgd_sync) ∧
    (address < env.TASK_SIZE_MAX →
      ∃ st', __do_page_fault env (k + 2) error_code address st = some st' ∧
        st'.mem = st.mem ∧
        st'.trace.filter Event.is_pgd_sync = st.trace.filter Event.is_pgd_sync) := by
  have h0 : (if env.kmemcheck_active = true then st.emit .kmemcheck_hide else st).trace.filter
      Event.is_pgd_sync = st.trace.filter Event.is_pgd_sync ∧
      (if env.kmemcheck_active = true then st.emit .kmemcheck_hide else st).mem = st.mem := by
    split <;> simp [St.emit, List.filter_append, Event.is_pgd_sync]
  have hu : __do_page_fault env (k + 2) error_code address st =
      (if kmmio_fault env ≠ 0 then
          some (if env.kmemcheck_active = true then st.emit .kmemcheck_hide else st)
        else if fault_in_kernel_space env address ≠ 0 then
          some (kernel_fault env error_code address
            (if env.kmemcheck_active = true then st.emit .kmemcheck_hide else st))
        else
          match user_fault_entry env error_code address
            (if env.kmemcheck_active = true then st.emit .kmemcheck_hide else st) with
          | .finished s => some s
          | .lookup ec flags s => retry_loop env ec address (k + 2) 0 flags 0 s) := by
    unfold __do_page_fault
    rfl
  rw [hu]
  clear hu
  generalize (if env.kmemcheck_active = true then st.emit .kmemcheck_hide else st) = st0 at h0 ⊢
  obtain ⟨ht0, hm0⟩ := h0
  have hks : env.TASK_SIZE_MAX ≤ address → fault_in_kernel_space env address ≠ 0 := by
    intro hk
    unfold fault_in_kernel_space
    rw [if_pos hk]
    decide
  refine ⟨lazy_cause_iff error_code, ?_, ?_, ?_, ?_⟩
  · intro hk ha hc
    rw [if_neg (not_not.mpr hk), if_pos (hks ha)]
    unfold kernel_fault
    rw [if_pos ((lazy_cause_iff error_code).mpr hc)]
    simp only []
    constructor
    · intro hne
      rcases vmalloc_fault_values env address st0 with h | h | h
      · simp only [h]
      · simp only [h]
        rw [if_pos (by decide)]
      · exact absurd h hne
    · intro h
      simp only [h]
      rw [if_neg (by decide)]
  · intro hk
    rw [if_pos hk]
  · intro hk ha hc
    rw [if_neg (not_not.mpr hk), if_pos (hks ha)]
    unfold kernel_fault
    rw [if_neg (fun h => hc ((lazy_cause_iff error_code).mp h))]
    obtain ⟨t1, t2⟩ := kernel_fault_tail_tables Event.is_pgd_sync pgd_sync_filter_self env
      error_code address st0
    exact ⟨rfl, by rw [t2, hm0], by rw [t1, ht0]⟩
  · intro ha
    have hs : fault_in_kernel_space env address = 0 := by
      unfold fault_in_kernel_space
      rw [if_neg (by omega)]
    obtain ⟨e1, e2⟩ := user_fault_entry_tables Event.is_pgd_sync pgd_sync_filter_self env
      error_code address st0
    by_cases hk : kmmio_fault env ≠ 0
    · rw [if_pos hk]
      exact ⟨st0, rfl, hm0, ht0⟩
    · rw [if_neg hk, if_neg (not_not.mpr hs)]
      cases he : user_fault_entry env error_code address st0 with
      | finished s =>
        rw [he] at e1 e2
        exact ⟨s, rfl, by rw [← hm0]; exact e2, by rw [← ht0]; exact e1⟩
      | lookup ec flags s =>
        rw [he] at e1 e2
        simp only []
        obtain ⟨s', hs', -⟩ := retry_loop_populator env ec address k 0 flags 0 s
        obtain ⟨r1, r2⟩ := retry_loop_tables Event.is_pgd_sync pgd_sync_filter_self env ec
          address _ _ _ _ _ _ hs'
        refine ⟨s', hs', ?_, ?_⟩
        · rw [r2, ← hm0]; exact e2
        · rw [r1, ← ht0]; exact e1

/-- Witness for C34: scenario 1, a kernel-mode read of `vaddr1` with cause 0, which
`vmalloc_fault` handles. -/
theorem vmalloc_fault_invoked_iff_witness :
    kmmio_fault env0 = 0 ∧ env0.TASK_SIZE_MAX ≤ vaddr1 ∧
    (0 &&& PF_USER = 0 ∧ 0 &&& PF_PROT = 0 ∧ 0 &&& PF_RSVD = 0) ∧
    (vmalloc_fault env0 vaddr1
      (if env0.kmemcheck_active then (St.init mem1 kernel_regs).emit .kmemcheck_hide
        else St.init mem1 kernel_regs)).1 = some 0 ∧
    __do_page_fault env0 (0 + 2) 0 vaddr1 (St.init mem1 kernel_regs) =
      some (vmalloc_fault env0 vaddr1
        (if env0.kmemcheck_active then (St.init mem1 kernel_regs).emit .kmemcheck_hide
          else St.init mem1 kernel_regs)).2 :=
  ⟨by decide, by decide, by decide, by decide,
    ((vmalloc_fault_invoked_iff env0 0 0 vaddr1 (St.init mem1 kernel_regs)).2.1 (by decide)
      (by decide) (by decide)).1 (by decide)⟩

/-- C32 as stated fails: scenario 3, a user-mode read of address 0 (below one page) with the
nearest region starting at 0x400000, for a task that does not handle SIGSEGV.  The handler
delivers SIGSEGV with `SEGV_MAPERR` at address 0, and what it prints is the line
"segfault at" of `show_signal_msg` with the region of the instruction pointer: no message
has the text "NULL pointer dereference", which only the kernel oops of `show_fault_oops`
prints.  When the task handles the signal nothing is printed at all. -/
theorem user_null_read_prints_segfault :
    (0 : Nat) < env_msg.PAGE_SIZE ∧
    (__do_page_fault env_msg 2 PF_USER 0 (St.init mem1 user_regs)).map
        (fun s => (signals s.trace, printed s.trace)) =
      some ([.force_sig_info SIGSEGV 0 SEGV_MAPERR 0 0 none],
        [.segfault_at 0 user_regs.ip user_regs.sp PF_USER, .vma_addr user_regs.ip, .newline]) ∧
    (∀ m ∈ [Msg.segfault_at 0 user_regs.ip user_regs.sp PF_USER, .vma_addr user_regs.ip,
        .newline], m.text ≠ "NULL pointer dereference") ∧
    (__do_page_fault env_code 2 PF_USER 0 (St.init mem1 user_regs)).map
        (fun s => (signals s.trace, printed s.trace)) =
      some ([.force_sig_info SIGSEGV 0 SEGV_MAPERR 0 0 none], []) := by
  decide

theorem printed_emit (st : St) (e : Event) :
    printed (st.emit e).trace = printed st.trace ++ (e.msg).toList := by
  unfold printed
  cases h : e.msg <;> simp [St.emit, List.filterMap_append, h]

theorem show_signal_msg_printed (env : Env) (error_code address : Nat) (st : St) :
    printed (show_signal_msg env error_code address st).trace =
      printed st.trace ++
        (if env.unhandled_signal = true ∧ env.printk_ratelimit = true then
          [.segfault_at address st.regs.ip st.regs.sp error_code, .vma_addr st.regs.ip, .newline]
        else []) := by
  unfold show_signal_msg
  simp only []
  cases env.unhandled_signal <;> cases env.printk_ratelimit <;>
    simp [printed, List.filterMap_append, Event.msg, St.emit]

theorem force_sig_info_fault_printed (env : Env) (si_signo si_code address : Nat)
    (vma : Option Vma) (fault : Nat) (st : St) :
    printed (force_sig_info_fault env si_signo si_code address vma fault st).trace =
      printed st.trace := by
  unfold force_sig_info_fault fill_sig_info_pkey St.emit_once
  cases vma <;> simp only [] <;> split_ifs <;>
    simp [printed, St.emit, St.enter, List.filterMap_append, Event.msg]

/-- What a user-mode fault that no quirk filter absorbs prints in `__bad_area_nosemaphore`:
the line of `show_signal_msg`, when unhandled signals are shown, the task does not handle
SIGSEGV and the rate limit allows, and nothing otherwise. -/
theorem __bad_area_nosemaphore_printed (env : Env) (error_code address : Nat)
    (vma : Option Vma) (si_code : Nat) (st : St) (hu : error_code &&& PF_USER ≠ 0)
    (hq : ¬ quirk_absorbs env st.regs error_code address) :
    printed (__bad_area_nosemaphore env error_code address vma si_code st).trace =
      printed st.trace ++
        (if env.show_unhandled_signals = true ∧ env.unhandled_signal = true ∧
            env.printk_ratelimit = true then
          [.segfault_at address st.regs.ip st.regs.sp
              (if address ≥ env.TASK_SIZE_MAX then error_code ||| PF_PROT else error_code),
            .vma_addr st.regs.ip, .newline]
        else []) := by
  unfold quirk_absorbs at hq
  simp only [not_or] at hq
  obtain ⟨h1, h2, h3⟩ := hq
  unfold __bad_area_nosemaphore
  rw [if_pos hu]
  simp only []
  rw [if_neg (by simpa [St.emit, St.enter] using h1),
    if_neg (by simpa [St.emit, St.enter] using h2), if_neg h3, force_sig_info_fault_printed]
  have e1 : ∀ s : St, ∀ a c, printed (s.set_thread a c).trace = printed s.trace := by
    intro s a c; rfl
  rw [e1]
  have e2 : ∀ s : St, printed (if (error_code &&& PF_INSTR ≠ 0 ∧
      address &&& 0xfffffffffffff000 = env.VSYSCALL_ADDR) then
        ((s.enter (.__bad_area_nosemaphore si_code)).emit .local_irq_enable).emit
          .emulate_vsyscall
      else (s.enter (.__bad_area_nosemaphore si_code)).emit .local_irq_enable).trace =
      printed s.trace := by
    intro s
    split <;> simp [printed, St.emit, St.enter, List.filterMap_append, Event.msg]
  have e3 : ∀ s : St, (if (error_code &&& PF_INSTR ≠ 0 ∧
      address &&& 0xfffffffffffff000 = env.VSYSCALL_ADDR) then
        ((s.enter (.__bad_area_nosemaphore si_code)).emit .local_irq_enable).emit
          .emulate_vsyscall
      else (s.enter (.__bad_area_nosemaphore si_code)).emit .local_irq_enable).regs =
      s.regs := by
    intro s
    split <;> rfl
  by_cases hs : env.show_unhandled_signals = true
  · simp only [hs, if_true, true_and]
    rw [show_signal_msg_printed, e2, e3]
  · simp only [hs, if_false, false_and, Bool.false_eq_true]
    rw [e2]
    simp

/-- When the entry part arrives at the lookup for a cause without RESERVED, it has printed
nothing. -/
theorem user_fault_entry_lookup_printed (env : Env) (error_code address : Nat) (st : St)
    (error_code1 flags : Nat) (st1 : St) (hr : error_code &&& PF_RSVD = 0)
    (h : user_fault_entry env error_code address st = .lookup error_code1 flags st1) :
    printed st1.trace = printed st.trace := by
  have hm : ∀ ec fl (s : St), printed (mode_adjust env ec fl s).1.trace = printed s.trace := by
    intro ec fl s
    unfold mode_adjust
    repeat' split
    all_goals simp [printed, St.emit, List.filterMap_append, Event.msg]
  have hl : ∀ ec fl (s : St) ec1 fl1 s1, lock_mm env ec address fl s = .lookup ec1 fl1 s1 →
      printed s1.trace = printed s.trace := by
    intro ec fl s ec1 fl1 s1 h
    unfold lock_mm at h
    simp only [] at h
    repeat' split at h
    all_goals simp at h
    all_goals
      obtain ⟨-, -, rfl⟩ := h
      simp [printed, St.down_read, St.emit, List.filterMap_append, Event.msg]
  unfold user_fault_entry at h
  simp only [hr, ne_eq, not_true_eq_false, if_false] at h
  repeat' split at h
  all_goals first
    | simp at h
    | (rw [hl _ _ _ _ _ _ h, printed_emit, hm]
       simp [Event.msg])

/-- C32 amended: for a user-mode fault (USER in the mode-adjusted cause) that has arrived at
the region lookup, finds no region there (none, or one that starts above the address and
does not grow down) and is absorbed by no quirk filter, at any address, below one page or
not: the pass ends with one SIGSEGV of code `SEGV_MAPERR` at the fault address, and its
diagnostic output is the line "segfault at address ip sp error" of `show_signal_msg`
followed by the region of the instruction pointer and a newline, when unhandled signals are
shown, the task does not handle SIGSEGV and the rate limit allows, and nothing otherwise.
No message of it has the text "NULL pointer dereference".  When the entry part arrived at
the lookup with a cause without RESERVED, it has printed nothing before. -/
theorem user_segfault_message (env : Env) (pass error_code address flags major : Nat)
    (st : St)
    (hv : env.find_vma pass address = none ∨
      ∃ vma, env.find_vma pass address = some vma ∧ address < vma.vm_start ∧
        vma.vm_flags &&& VM_GROWSDOWN = 0)
    (hu : error_code &&& PF_USER ≠ 0)
    (hq : ¬ quirk_absorbs env st.regs error_code address) :
    ∃ st' new, fault_pass env pass error_code address flags major st = .done st' ∧
      signals st'.trace =
        signals st.trace ++ [.force_sig_info SIGSEGV 0 SEGV_MAPERR address 0 none] ∧
      printed st'.trace = printed st.trace ++ new ∧
      new = (if env.show_unhandled_signals = true ∧ env.unhandled_signal = true ∧
            env.printk_ratelimit = true then
          [.segfault_at address st.regs.ip st.regs.sp
              (if address ≥ env.TASK_SIZE_MAX then error_code ||| PF_PROT else error_code),
            .vma_addr st.regs.ip, .newline]
        else []) ∧
      (∀ m ∈ new, m.text ≠ "NULL pointer dereference") ∧
      (∀ error_code0 st0, error_code0 &&& PF_RSVD = 0 →
        user_fault_entry env error_code0 address st0 = .lookup error_code flags st →
        printed st'.trace = printed st0.trace ++ new) := by
  have hpass : fault_pass env pass error_code address flags major st =
      .done (bad_area env error_code address (st.emit (.find_vma address))) := by
    unfold fault_pass
    rcases hv with hv | ⟨vma, hv, h1, h2⟩
    · simp only [hv]
    · simp only [hv]
      rw [if_neg (by omega), if_pos h2]
  have hpr : printed (bad_area env error_code address (st.emit (.find_vma address))).trace =
      printed st.trace ++
        (if env.show_unhandled_signals = true ∧ env.unhandled_signal = true ∧
            env.printk_ratelimit = true then
          [.segfault_at address st.regs.ip st.regs.sp
              (if address ≥ env.TASK_SIZE_MAX then error_code ||| PF_PROT else error_code),
            .vma_addr st.regs.ip, .newline]
        else []) := by
    unfold bad_area __bad_area
    rw [__bad_area_nosemaphore_printed env error_code address none SEGV_MAPERR _ hu
      (by simpa [St.up_read, St.emit] using hq)]
    simp [printed, St.up_read, St.emit, List.filterMap_append, Event.msg]
  refine ⟨_, _, hpass, ?_, hpr, rfl, ?_, ?_⟩
  · have h := (bad_area_map_err env error_code address (st.emit (.find_vma address))).2.2 hu
      (by simpa [St.emit] using hq)
    rw [h]
    simp [signals, St.emit, List.filter_append, Event.is_signal]
  · intro m hm
    split at hm
    · simp only [List.mem_cons, List.mem_singleton, List.not_mem_nil, or_false] at hm
      rcases hm with rfl | rfl | rfl <;> (simp only [Msg.text]; decide)
    · simp at hm
  · intro error_code0 st0 hr he
    rw [hpr, user_fault_entry_lookup_printed env error_code0 address st0 _ _ _ hr he]

/-- Witness for C32 amended: scenario 3 on a task that does not handle SIGSEGV. -/
theorem user_segfault_message_witness :
    (env_msg.find_vma 0 0 = none ∨
      ∃ vma, env_msg.find_vma 0 0 = some vma ∧ 0 < vma.vm_start ∧
        vma.vm_flags &&& VM_GROWSDOWN = 0) ∧
    PF_USER &&& PF_USER ≠ 0 ∧
    ¬ quirk_absorbs env_msg (St.init mem1 user_regs).regs PF_USER 0 ∧
    ∃ st' new, fault_pass env_msg 0 PF_USER 0 0x54 0 (St.init mem1 user_regs) = .done st' ∧
      signals st'.trace = signals (St.init mem1 user_regs).trace ++
        [.force_sig_info SIGSEGV 0 SEGV_MAPERR 0 0 none] ∧
      printed st'.trace = printed (St.init mem1 user_regs).trace ++ new ∧
      new = (if env_msg.show_unhandled_signals = true ∧ env_msg.unhandled_signal = true ∧
            env_msg.printk_ratelimit = true then
          [.segfault_at 0 (St.init mem1 user_regs).regs.ip (St.init mem1 user_regs).regs.sp
              (if 0 ≥ env_msg.TASK_SIZE_MAX then PF_USER ||| PF_PROT else PF_USER),
            .vma_addr (St.init mem1 user_regs).regs.ip, .newline]
        else []) ∧
      (∀ m ∈ new, m.text ≠ "NULL pointer dereference") ∧
      (∀ error_code0 st0, error_code0 &&& PF_RSVD = 0 →
        user_fault_entry env_msg error_code0 0 st0 =
          .lookup PF_USER 0x54 (St.init mem1 user_regs) →
        printed st'.trace = printed st0.trace ++ new) :=
  ⟨Or.inr ⟨vma_code, by decide, by decide, by decide⟩, by decide, by decide,
    user_segfault_message env_msg 0 PF_USER 0 0x54 0 (St.init mem1 user_regs)
      (Or.inr ⟨vma_code, by decide, by decide, by decide⟩) (by decide) (by decide)⟩

theorem populator_calls_of_mm_ops (tr : List Event) :
    populator_calls tr = (tr.filter Event.is_mm_op).filter Event.is_populator := by
  unfold populator_calls
  rw [List.filter_filter]
  congr 1
  funext e
  cases e <;> rfl

/-- What `good_area` adds to the calls on the address space and its lock: the release alone
when the access check denies; else the populator call, followed by the release unless the
populator answered `VM_FAULT_RETRY` (it has then dropped the lock itself).  A jump back
carries the flags with `ALLOW_RETRY` cleared and `TRIED` set. -/
theorem good_area_mm_ops (env : Env) (pass error_code address flags major : Nat) (vma : Vma)
    (st : St) :
    (access_error env error_code vma ≠ 0 →
      ∃ st', good_area env pass error_code address flags major vma st = .done st' ∧
        st'.trace.filter Event.is_mm_op = st.trace.filter Event.is_mm_op ++ [.up_read]) ∧
    (access_error env error_code vma = 0 →
      ∃ post, (post = [] ∨ post = [Event.up_read]) ∧
        (good_area env pass error_code address flags major vma st).st.trace.filter
            Event.is_mm_op =
          st.trace.filter Event.is_mm_op ++
            [.handle_mm_fault vma address flags (env.handle_mm_fault pass vma address flags)] ++
            post ∧
        ∀ flags1 major1 st1, good_area env pass error_code address flags major vma st =
            .again flags1 major1 st1 →
          post = [] ∧ flags1 = (flags &&& not32 FAULT_FLAG_ALLOW_RETRY) ||| FAULT_FLAG_TRIED ∧
          st1.regs = st.regs) := by
  have hp := mm_op_of_report Event.is_mm_op mm_op_filter_self
  constructor
  · intro ha
    unfold good_area
    rw [if_pos ha]
    refine ⟨_, rfl, ?_⟩
    unfold bad_area_access_error __bad_area
    split <;>
      simp [__bad_area_nosemaphore_filter Event.is_mm_op hp, St.up_read, St.emit,
        List.filter_append, Event.is_mm_op]
  · intro ha
    unfold good_area
    rw [if_neg (not_not.mpr ha)]
    simp only []
    by_cases hr : env.handle_mm_fault pass vma address flags &&& VM_FAULT_RETRY ≠ 0
    · refine ⟨[], Or.inl rfl, ?_, ?_⟩
      · simp only [hr, ne_eq, not_false_eq_true, if_true]
        repeat' split
        all_goals simp [Pass.st, retry_exit_filter Event.is_mm_op hp, St.emit,
          List.filter_append, Event.is_mm_op]
      · intro flags1 major1 st1 h
        simp only [hr, ne_eq, not_false_eq_true, if_true] at h
        repeat' split at h
        all_goals simp at h
        obtain ⟨h1, -, h3⟩ := h
        refine ⟨rfl, h1.symm, ?_⟩
        rw [← h3]
        rfl
    · have hr0 : env.handle_mm_fault pass vma address flags &&& VM_FAULT_RETRY = 0 :=
        not_not.mp hr
      refine ⟨[.up_read], Or.inr rfl, ?_, ?_⟩
      · simp only [hr0, ne_eq, not_true_eq_false, if_false]
        repeat' split
        all_goals simp [Pass.st, mm_fault_error_filter Event.is_mm_op hp, St.up_read, St.emit,
          List.filter_append, Event.is_mm_op]
      · intro flags1 major1 st1 h
        simp only [hr0, ne_eq, not_true_eq_false, if_false] at h
        repeat' split at h
        all_goals simp at h

/-- One pass from the lookup on, seen through the calls on the address space and its lock.
Either the pass ends without a populator call: lookup, perhaps one `expand_stack`, release.
Or it arrives at `good_area` with a region that passes the access check and calls the
populator on it. -/
theorem fault_pass_cases (env : Env) (pass error_code address flags major : Nat) (st : St) :
    (∃ st' l1, fault_pass env pass error_code address flags major st = .done st' ∧
      st'.trace.filter Event.is_mm_op =
        st.trace.filter Event.is_mm_op ++ [.find_vma address] ++ l1 ++ [.up_read] ∧
      l1.filter Event.is_populator = []) ∨
    (∃ vma l1 post, reaches_good_area env pass error_code address st.regs.sp vma ∧
      access_error env error_code vma = 0 ∧
      (l1 = [] ∨ l1 = [Event.expand_stack vma address]) ∧
      (post = [] ∨ post = [Event.up_read]) ∧
      (fault_pass env pass error_code address flags major st).st.trace.filter Event.is_mm_op =
        st.trace.filter Event.is_mm_op ++ [.find_vma address] ++ l1 ++
          [.handle_mm_fault vma address flags (env.handle_mm_fault pass vma address flags)] ++
          post ∧
      ∀ flags1 major1 st1, fault_pass env pass error_code address flags major st =
          .again flags1 major1 st1 →
        post = [] ∧ flags1 = (flags &&& not32 FAULT_FLAG_ALLOW_RETRY) ||| FAULT_FLAG_TRIED ∧
        st1.regs = st.regs) := by
  have hp := mm_op_of_report Event.is_mm_op mm_op_filter_self
  have hbad : ∀ s : St, (bad_area env error_code address s).trace.filter Event.is_mm_op =
      s.trace.filter Event.is_mm_op ++ [.up_read] := by
    intro s
    unfold bad_area __bad_area
    simp [__bad_area_nosemaphore_filter Event.is_mm_op hp, St.up_read, St.emit,
      List.filter_append, Event.is_mm_op]
  -- the two ways of arriving at `good_area`
  have hgood : ∀ (vma : Vma) (l1 : List Event) (s : St),
      reaches_good_area env pass error_code address st.regs.sp vma →
      (l1 = [] ∨ l1 = [Event.expand_stack vma address]) →
      s.trace.filter Event.is_mm_op =
        st.trace.filter Event.is_mm_op ++ [.find_vma address] ++ l1 →
      s.regs = st.regs →
      fault_pass env pass error_code address flags major st =
        good_area env pass error_code address flags major vma s →
      ((∃ st' l1, fault_pass env pass error_code address flags major st = .done st' ∧
        st'.trace.filter Event.is_mm_op =
          st.trace.filter Event.is_mm_op ++ [.find_vma address] ++ l1 ++ [.up_read] ∧
        l1.filter Event.is_populator = []) ∨
      (∃ vma l1 post, reaches_good_area env pass error_code address st.regs.sp vma ∧
        access_error env error_code vma = 0 ∧
        (l1 = [] ∨ l1 = [Event.expand_stack vma address]) ∧
        (post = [] ∨ post = [Event.up_read]) ∧
        (fault_pass env pass error_code address flags major st).st.trace.filter
            Event.is_mm_op =
          st.trace.filter Event.is_mm_op ++ [.find_vma address] ++ l1 ++
            [.handle_mm_fault vma address flags (env.handle_mm_fault pass vma address flags)] ++
            post ∧
        ∀ flags1 major1 st1, fault_pass env pass error_code address flags major st =
            .again flags1 major1 st1 →
          post = [] ∧ flags1 = (flags &&& not32 FAULT_FLAG_ALLOW_RETRY) ||| FAULT_FLAG_TRIED ∧
          st1.regs = st.regs)) := by
    intro vma l1 s hreach hl1 hs hregs hfp
    obtain ⟨g1, g2⟩ := good_area_mm_ops env pass error_code address flags major vma s
    by_cases ha : access_error env error_code vma = 0
    · right
      obtain ⟨post, hpost, ht, hag⟩ := g2 ha
      refine ⟨vma, l1, post, hreach, ha, hl1, hpost, ?_, ?_⟩
      · rw [hfp, ht, hs]
      · intro flags1 major1 st1 h
        rw [hfp] at h
        obtain ⟨a, b, c⟩ := hag flags1 major1 st1 h
        exact ⟨a, b, by rw [c, hregs]⟩
    · left
      obtain ⟨st', h1, h2⟩ := g1 ha
      refine ⟨st', l1, by rw [hfp, h1], by rw [h2, hs], ?_⟩
      rcases hl1 with rfl | rfl <;> simp [Event.is_populator]
  cases hv : env.find_vma pass address with
  | none =>
    left
    refine ⟨bad_area env error_code address (st.emit (.find_vma address)), [], ?_, ?_, rfl⟩
    · unfold fault_pass
      simp only [hv]
    · rw [hbad]
      simp [St.emit, List.filter_append, Event.is_mm_op]
  | some vma =>
    by_cases h1 : vma.vm_start ≤ address
    · apply hgood vma [] (st.emit (.find_vma address)) ⟨hv, Or.inl h1⟩ (Or.inl rfl)
      · simp [St.emit, List.filter_append, Event.is_mm_op]
      · rfl
      · unfold fault_pass
        simp only [hv]
        rw [if_pos h1]
    · by_cases h2 : vma.vm_flags &&& VM_GROWSDOWN = 0
      · left
        refine ⟨bad_area env error_code address (st.emit (.find_vma address)), [], ?_, ?_, rfl⟩
        · unfold fault_pass
          simp only [hv]
          rw [if_neg h1, if_pos h2]
        · rw [hbad]
          simp [St.emit, List.filter_append, Event.is_mm_op]
      · by_cases h3 : error_code &&& PF_USER ≠ 0 ∧
            (address + 65536 + 32 * sizeof_long) % 2 ^ 64 < st.regs.sp
        · left
          refine ⟨bad_area env error_code address (st.emit (.find_vma address)), [], ?_, ?_,
            rfl⟩
          · unfold fault_pass
            simp only [hv]
            rw [if_neg h1, if_neg h2, if_pos (by simpa [St.emit] using h3)]
          · rw [hbad]
            simp [St.emit, List.filter_append, Event.is_mm_op]
        · by_cases h4 : env.expand_stack pass vma address ≠ 0
          · left
            refine ⟨bad_area env error_code address
              ((st.emit (.find_vma address)).emit (.expand_stack vma address)),
              [.expand_stack vma address], ?_, ?_, rfl⟩
            · unfold fault_pass
              simp only [hv]
              rw [if_neg h1, if_neg h2, if_neg (by simpa [St.emit] using h3), if_pos h4]
            · rw [hbad]
              simp [St.emit, List.filter_append, Event.is_mm_op]
          · apply hgood vma [.expand_stack vma address]
              ((st.emit (.find_vma address)).emit (.expand_stack vma address))
              ⟨hv, Or.inr ⟨h2, h3, not_not.mp h4⟩⟩ (Or.inr rfl)
            · simp [St.emit, List.filter_append, Event.is_mm_op]
            · rfl
            · unfold fault_pass
              simp only [hv]
              rw [if_neg h1, if_neg h2, if_neg (by simpa [St.emit] using h3), if_neg h4]

theorem retry_flags_bits (flags i : Nat) (hi : i < 32) :
    ((flags &&& not32 FAULT_FLAG_ALLOW_RETRY) ||| FAULT_FLAG_TRIED).testBit i =
      if i = 2 then false else if i = 5 then true else flags.testBit i := by
  have h1 : (not32 FAULT_FLAG_ALLOW_RETRY).testBit i = decide (i ≠ 2) := by
    interval_cases i <;> decide
  have h2 : FAULT_FLAG_TRIED.testBit i = decide (i = 5) := by
    interval_cases i <;> decide
  rw [Nat.testBit_lor, Nat.testBit_land, h1, h2]
  by_cases a : i = 2
  · simp [a]
  · by_cases b : i = 5
    · simp [b]
    · simp [a, b]

/-- The second populator call of the retry loop, when there is one: it is made by the pass
after the first, on the region that this pass has looked up afresh, after `down_read` and
the lookup, with the first call's flags changed in `ALLOW_RETRY` and `TRIED` only. -/
theorem retry_loop_second_call (env : Env) (error_code address k pass flags major : Nat)
    (st : St) :
    ∃ st', retry_loop env error_code address (k + 2) pass flags major st = some st' ∧
      ∀ e1 e2, populator_calls st'.trace = populator_calls st.trace ++ [e1, e2] →
        ∃ vma0 vma1 pre l1 post,
          e1 = .handle_mm_fault vma0 address flags
            (env.handle_mm_fault pass vma0 address flags) ∧
          e2 = .handle_mm_fault vma1 address
            ((flags &&& not32 FAULT_FLAG_ALLOW_RETRY) ||| FAULT_FLAG_TRIED)
            (env.handle_mm_fault (pass + 1) vma1 address
              ((flags &&& not32 FAULT_FLAG_ALLOW_RETRY) ||| FAULT_FLAG_TRIED)) ∧
          reaches_good_area env (pass + 1) error_code address st.regs.sp vma1 ∧
          access_error env error_code vma1 = 0 ∧
          (l1 = [] ∨ l1 = [Event.expand_stack vma1 address]) ∧
          pre.filter Event.is_populator = [] ∧ post.filter Event.is_populator = [] ∧
          st'.trace.filter Event.is_mm_op =
            st.trace.filter Event.is_mm_op ++ pre ++ [e1, .down_read, .find_vma address] ++
              l1 ++ [e2] ++ post := by
  obtain ⟨st', hst', -⟩ := retry_loop_populator env error_code address k pass flags major st
  refine ⟨st', hst', ?_⟩
  intro e1 e2 hcalls
  have hlen : ∀ (a b : List Event) (x : Event), a ++ b = a ++ [e1, e2] → b ≠ [x] ∧ b ≠ [] := by
    intro a b x h
    have := List.append_cancel_left h
    rw [this]
    simp
  unfold retry_loop at hst'
  rcases fault_pass_cases env pass error_code address flags major st with
    ⟨s1, l0, hd, ht, hl0⟩ | ⟨vma0, l0, post0, -, -, hl0, hpost0, ht0, hag0⟩
  · -- the first pass ends without a call
    exfalso
    rw [hd] at hst'
    simp only [Option.some.injEq] at hst'
    subst hst'
    rw [populator_calls_of_mm_ops, populator_calls_of_mm_ops st.trace, ht] at hcalls
    have hx : (st.trace.filter Event.is_mm_op).filter Event.is_populator ++ [] =
        (st.trace.filter Event.is_mm_op).filter Event.is_populator ++ [e1, e2] := by
      rw [← hcalls]
      simp [List.filter_append, Event.is_populator, hl0]
    exact (hlen _ _ e1 hx).2 rfl
  · cases h1 : fault_pass env pass error_code address flags major st with
    | done s1 =>
      -- the first pass calls once and is done
      exfalso
      rw [h1] at hst' ht0
      simp only [Option.some.injEq] at hst'
      subst hst'
      simp only [Pass.st] at ht0
      rw [populator_calls_of_mm_ops, populator_calls_of_mm_ops st.trace, ht0] at hcalls
      have hx : (st.trace.filter Event.is_mm_op).filter Event.is_populator ++
          [Event.handle_mm_fault vma0 address flags
            (env.handle_mm_fault pass vma0 address flags)] =
          (st.trace.filter Event.is_mm_op).filter Event.is_populator ++ [e1, e2] := by
        rw [← hcalls]
        rcases hl0 with rfl | rfl <;> rcases hpost0 with rfl | rfl <;>
          simp [List.filter_append, Event.is_populator]
      exact (hlen _ _ _ hx).1 rfl
    | again flags1 major1 s1 =>
      obtain ⟨rfl, hf1, hregs1⟩ := hag0 flags1 major1 s1 h1
      rw [h1] at hst' ht0
      simp only [Pass.st] at ht0
      simp only [] at hst'
      have hdr : s1.down_read.trace.filter Event.is_mm_op =
          s1.trace.filter Event.is_mm_op ++ [.down_read] := by
        simp [St.down_read, St.emit, List.filter_append, Event.is_mm_op]
      have hdregs : s1.down_read.regs = st.regs := by rw [← hregs1]; rfl
      unfold retry_loop at hst'
      rcases fault_pass_cases env (pass + 1) error_code address flags1 major1 s1.down_read with
        ⟨s2, l1, hd2, ht2, hl1⟩ | ⟨vma1, l1, post1, hreach, hacc, hl1, hpost1, ht1, hag1⟩
      · -- the second pass ends without a call
        exfalso
        rw [hd2] at hst'
        simp only [Option.some.injEq] at hst'
        subst hst'
        rw [populator_calls_of_mm_ops, populator_calls_of_mm_ops st.trace, ht2, hdr, ht0]
          at hcalls
        have hx : (st.trace.filter Event.is_mm_op).filter Event.is_populator ++
            [Event.handle_mm_fault vma0 address flags
              (env.handle_mm_fault pass vma0 address flags)] =
            (st.trace.filter Event.is_mm_op).filter Event.is_populator ++ [e1, e2] := by
          rw [← hcalls]
          rcases hl0 with rfl | rfl <;>
            simp [List.filter_append, Event.is_populator, hl1]
        exact (hlen _ _ _ hx).1 rfl
      · cases h2 : fault_pass env (pass + 1) error_code address flags1 major1 s1.down_read with
        | again flags2 major2 s2 =>
          exfalso
          obtain ⟨_, -, -, hag⟩ := fault_pass_populator env (pass + 1) error_code address flags1
            major1 s1.down_read
          obtain ⟨-, hal, -⟩ := hag flags2 major2 s2 h2
          rw [hf1] at hal
          exact hal (retry_flags_clear flags)
        | done s2 =>
          rw [h2] at hst' ht1
          simp only [Option.some.injEq] at hst'
          subst hst'
          simp only [Pass.st] at ht1
          rw [hdr, ht0] at ht1
          rw [populator_calls_of_mm_ops, populator_calls_of_mm_ops st.trace, ht1] at hcalls
          have hx : (st.trace.filter Event.is_mm_op).filter Event.is_populator ++
              [Event.handle_mm_fault vma0 address flags
                (env.handle_mm_fault pass vma0 address flags),
               Event.handle_mm_fault vma1 address flags1
                (env.handle_mm_fault (pass + 1) vma1 address flags1)] =
              (st.trace.filter Event.is_mm_op).filter Event.is_populator ++ [e1, e2] := by
            rw [← hcalls]
            rcases hl0 with rfl | rfl <;> rcases hl1 with rfl | rfl <;>
              rcases hpost1 with rfl | rfl <;>
              simp [List.filter_append, Event.is_populator]
          have hy := List.append_cancel_left hx
          simp only [List.cons.injEq, and_true] at hy
          obtain ⟨he1, he2⟩ := hy
          rw [hdregs] at hreach
          refine ⟨vma0, vma1, [.find_vma address] ++ l0, l1, post1, he1.symm, ?_, hreach, hacc,
            hl1, ?_, ?_, ?_⟩
          · rw [← he2, hf1]
          · rcases hl0 with rfl | rfl <;> simp [Event.is_populator]
          · rcases hpost1 with rfl | rfl <;> simp [Event.is_populator]
          · rw [ht1, ← he1, ← he2]
            simp [List.append_assoc]

/-- C35: for a fault that has arrived at the region lookup with populator flags `flags`, the
retry loop returns, and it is what the whole handler returns when the entry part arrived
there.  Whenever its trace holds a second populator call, the calls on the address space and
its lock show, after the first populator call, the blocking `down_read`, then a fresh
`find_vma`, then `expand_stack` if the stack had to grow, and then the second call: it is
made on the region `vma1` that the second lookup found, which has passed the stack-growth
check and the access check again, with flags equal to the first call's except that
`ALLOW_RETRY` (bit 2) is clear and `TRIED` (bit 5) is set. -/
theorem second_populator_invocation (env : Env) (error_code address k flags : Nat) (st : St) :
    ∃ st', retry_loop env error_code address (k + 2) 0 flags 0 st = some st' ∧
      (∀ error_code0 st0, kmmio_fault env = 0 → address < env.TASK_SIZE_MAX →
        user_fault_entry env error_code0 address
            (if env.kmemcheck_active then st0.emit .kmemcheck_hide else st0) =
          .lookup error_code flags st →
        __do_page_fault env (k + 2) error_code0 address st0 = some st') ∧
      ∀ e1 e2, populator_calls st'.trace = populator_calls st.trace ++ [e1, e2] →
        ∃ vma0 vma1 pre l1 post,
          e1 = .handle_mm_fault vma0 address flags
            (env.handle_mm_fault 0 vma0 address flags) ∧
          e2 = .handle_mm_fault vma1 address
            ((flags &&& not32 FAULT_FLAG_ALLOW_RETRY) ||| FAULT_FLAG_TRIED)
            (env.handle_mm_fault 1 vma1 address
              ((flags &&& not32 FAULT_FLAG_ALLOW_RETRY) ||| FAULT_FLAG_TRIED)) ∧
          (∀ i, i < 32 →
            ((flags &&& not32 FAULT_FLAG_ALLOW_RETRY) ||| FAULT_FLAG_TRIED).testBit i =
              if i = 2 then false else if i = 5 then true else flags.testBit i) ∧
          reaches_good_area env 1 error_code address st.regs.sp vma1 ∧
          access_error env error_code vma1 = 0 ∧
          (l1 = [] ∨ l1 = [Event.expand_stack vma1 address]) ∧
          pre.filter Event.is_populator = [] ∧ post.filter Event.is_populator = [] ∧
          st'.trace.filter Event.is_mm_op =
            st.trace.filter Event.is_mm_op ++ pre ++ [e1, .down_read, .find_vma address] ++
              l1 ++ [e2] ++ post := by
  obtain ⟨st', hst', h⟩ := retry_loop_second_call env error_code address k 0 flags 0 st
  refine ⟨st', hst', ?_, ?_⟩
  · intro error_code0 st0 hk ha he
    rw [handler_of_lookup env (k + 2) error_code0 address st0 error_code flags st hk ha he]
    exact hst'
  · intro e1 e2 hc
    obtain ⟨vma0, vma1, pre, l1, post, h1, h2, h3, h4, h5, h6, h7, h8⟩ := h e1 e2 hc
    exact ⟨vma0, vma1, pre, l1, post, h1, h2, fun i hi => retry_flags_bits flags i hi, h3, h4,
      h5, h6, h7, h8⟩

/-- Witness for C35: end-to-end scenario 5, a user-mode read inside `vma_code` for which the
populator first answers `VM_FAULT_RETRY` and then 0; the run makes two populator calls. -/
theorem second_populator_invocation_witness :
    (retry_loop env_retry_once PF_USER 0x400800 (0 + 2) 0 0x54 0 st_retry).map
        (fun s => s.trace.filter Event.is_mm_op) =
      some ([.down_read_trylock true, .find_vma 0x400800,
        .handle_mm_fault vma_code 0x400800 0x54 VM_FAULT_RETRY, .down_read, .find_vma 0x400800,
        .handle_mm_fault vma_code 0x400800 0x70 0, .up_read]) ∧
    ∃ st', retry_loop env_retry_once PF_USER 0x400800 (0 + 2) 0 0x54 0 st_retry = some st' ∧
      populator_calls st'.trace = populator_calls st_retry.trace ++
        [.handle_mm_fault vma_code 0x400800 0x54 VM_FAULT_RETRY,
          .handle_mm_fault vma_code 0x400800 0x70 0] ∧
      ∃ vma0 vma1 pre l1 post,
        Event.handle_mm_fault vma_code 0x400800 0x54 VM_FAULT_RETRY =
          .handle_mm_fault vma0 0x400800 0x54
            (env_retry_once.handle_mm_fault 0 vma0 0x400800 0x54) ∧
        Event.handle_mm_fault vma_code 0x400800 0x70 0 =
          .handle_mm_fault vma1 0x400800
            ((0x54 &&& not32 FAULT_FLAG_ALLOW_RETRY) ||| FAULT_FLAG_TRIED)
            (env_retry_once.handle_mm_fault 1 vma1 0x400800
              ((0x54 &&& not32 FAULT_FLAG_ALLOW_RETRY) ||| FAULT_FLAG_TRIED)) ∧
        (∀ i, i < 32 →
          ((0x54 &&& not32 FAULT_FLAG_ALLOW_RETRY) ||| FAULT_FLAG_TRIED).testBit i =
            if i = 2 then false else if i = 5 then true else (0x54 : Nat).testBit i) ∧
        reaches_good_area env_retry_once 1 PF_USER 0x400800 st_retry.regs.sp vma1 ∧
        access_error env_retry_once PF_USER vma1 = 0 ∧
        (l1 = [] ∨ l1 = [Event.expand_stack vma1 0x400800]) ∧
        pre.filter Event.is_populator = [] ∧ post.filter Event.is_populator = [] ∧
        st'.trace.filter Event.is_mm_op =
          st_retry.trace.filter Event.is_mm_op ++ pre ++
            [.handle_mm_fault vma_code 0x400800 0x54 VM_FAULT_RETRY, .down_read,
              .find_vma 0x400800] ++ l1 ++
            [.handle_mm_fault vma_code 0x400800 0x70 0] ++ post := by
  refine ⟨by decide, ?_⟩
  obtain ⟨st', h1, -, h3⟩ :=
    second_populator_invocation env_retry_once PF_USER 0x400800 0 0x54 st_retry
  have hrun : (retry_loop env_retry_once PF_USER 0x400800 (0 + 2) 0 0x54 0 st_retry).map
      (fun s => populator_calls s.trace) =
      some (populator_calls st_retry.trace ++
        [.handle_mm_fault vma_code 0x400800 0x54 VM_FAULT_RETRY,
          .handle_mm_fault vma_code 0x400800 0x70 0]) := by
    decide
  rw [h1] at hrun
  simp only [Option.map_some', Option.some.injEq] at hrun
  exact ⟨st', h1, hrun, h3 _ _ hrun⟩

/-! ### Reserved-bit faults, the outcome -/

/-- A kernel-mode fault with RESERVED in the cause at a kernel-half address, at an
instruction with an exception fixup, outside interrupt context, on a task that asked for a
signal on failed user accesses: the fixup is used and SIGSEGV with `SEGV_MAPERR` is sent. -/
theorem kernel_rsvd_fixup_signal (env : Env) (fuel error_code address : Nat) (st : St)
    (hr : error_code &&& PF_RSVD ≠ 0) (hkm : kmmio_fault env = 0)
    (hkp : kprobes_fault env st.regs = 0) (ha : address ≥ env.TASK_SIZE_MAX)
    (hu : error_code &&& PF_USER = 0)
    (hf : (is_f00f_bug env address
      (if env.kmemcheck_active then st.emit .kmemcheck_hide else st)).1 = 0)
    (hfix : env.fixup_exception = true) (hi : env.in_interrupt = false)
    (hs : st.thread.sig_on_uaccess_err = true) :
    ∃ st', __do_page_fault env fuel error_code address st = some st' ∧
      st'.trace = (if env.kmemcheck_active then st.emit .kmemcheck_hide else st).trace ++
        [.fixup_exception, .force_sig_info SIGSEGV 0 SEGV_MAPERR address 0 none] ∧
      st'.halted = st.halted := by
  have h0 : (if env.kmemcheck_active = true then st.emit .kmemcheck_hide else st).regs =
      st.regs ∧
      (if env.kmemcheck_active = true then st.emit .kmemcheck_hide else st).halted =
        st.halted ∧
      (if env.kmemcheck_active = true then st.emit .kmemcheck_hide else st).thread =
        st.thread := by
    split <;> simp [St.emit]
  have hs0 : fault_in_kernel_space env address ≠ 0 := by
    unfold fault_in_kernel_space
    rw [if_pos ha]
    decide
  have hh : __do_page_fault env fuel error_code address st =
      some (bad_area_nosemaphore env error_code address none
        (if env.kmemcheck_active then st.emit .kmemcheck_hide else st)) := by
    unfold __do_page_fault
    simp only [hkm, hs0, ne_eq, not_true_eq_false, not_false_eq_true, if_true, if_false]
    rw [kernel_fault_rsvd env error_code address _ hr (by rw [h0.1]; exact hkp)]
  generalize (if env.kmemcheck_active = true then st.emit .kmemcheck_hide else st) = st0
    at h0 hh hf ⊢
  have hf2 : (is_f00f_bug env address (st0.enter (.__bad_area_nosemaphore SEGV_MAPERR))).1
      = 0 := by
    unfold is_f00f_bug at hf ⊢
    split at hf
    · simp at hf
    · rw [if_neg (by assumption)]
  have hf3 : (is_f00f_bug env address (st0.enter (.__bad_area_nosemaphore SEGV_MAPERR))).2
      = st0.enter (.__bad_area_nosemaphore SEGV_MAPERR) := by
    unfold is_f00f_bug at hf2 ⊢
    split at hf2
    · simp at hf2
    · rw [if_neg (by assumption)]
  have hsig : st0.thread.sig_on_uaccess_err = true := by rw [h0.2.2]; exact hs
  have hne : SIGSEGV ≠ 0 := by decide
  have hcode : SEGV_MAPERR ≠ SEGV_PKUERR := by decide
  refine ⟨_, hh, ?_, ?_⟩
  all_goals
    unfold bad_area_nosemaphore __bad_area_nosemaphore
    simp only [hu, hf2, hf3, ne_eq, not_true_eq_false, if_false]
    unfold no_context
    simp only [hfix, if_true, St.emit, St.enter, hi, Bool.false_eq_true, if_false]
    unfold force_sig_info_fault fill_sig_info_pkey
    simp [hsig, hne, hcode, h0.2.1, St.emit, St.enter, St.set_thread]

/-- C17, amended: for every fault with `PF_RSVD` in the cause that neither mmiotrace nor
kprobes claims.  At a user-half address, when `__die` does not report the oops as handled,
the handler ends in the oops of `pgtable_bad`: `oops_begin`, `__die`, `oops_end` with
SIGKILL, the task is ended and no exception fixup is used.  At a kernel-half address the
fault is not tried as a lazy kernel mapping or a spurious fault and goes to
`bad_area_nosemaphore`: with `PF_USER` in the cause, unless a quirk filter absorbs the fault,
exactly one signal is delivered, SIGSEGV with `SEGV_MAPERR`; without `PF_USER`, when the F00F
quirk does not apply and the instruction has an exception fixup, the fixup is used and the
handler returns without oops, and without signal too unless the task asked for a signal on
failed user accesses (`sig_on_uaccess_err`) and the fault is not in interrupt context: then
SIGSEGV with `SEGV_MAPERR` is delivered after the fixup. -/
theorem reserved_bit_outcome (env : Env) (fuel error_code address : Nat) (st : St)
    (hr : error_code &&& PF_RSVD ≠ 0) (hkm : kmmio_fault env = 0)
    (hkp : kprobes_fault env st.regs = 0) :
    (address < env.TASK_SIZE_MAX → env.__die = false →
      ∃ st', __do_page_fault env fuel error_code address st = some st' ∧
        st'.halted = true ∧
        st'.trace.filter Event.is_oops =
          st.trace.filter Event.is_oops ++ [.oops_begin, .die true, .oops_end SIGKILL] ∧
        st'.trace.filter Event.is_fixup = st.trace.filter Event.is_fixup) ∧
    (address ≥ env.TASK_SIZE_MAX →
      __do_page_fault env fuel error_code address st =
        some (bad_area_nosemaphore env error_code address none
          (if env.kmemcheck_active then st.emit .kmemcheck_hide else st)) ∧
      (error_code &&& PF_USER ≠ 0 → ¬ quirk_absorbs env st.regs error_code address →
        ∃ st', __do_page_fault env fuel error_code address st = some st' ∧
          signals st'.trace =
            signals st.trace ++ [.force_sig_info SIGSEGV 0 SEGV_MAPERR address 0 none]) ∧
      (error_code &&& PF_USER = 0 →
        (is_f00f_bug env address
          (if env.kmemcheck_active then st.emit .kmemcheck_hide else st)).1 = 0 →
        env.fixup_exception = true →
        env.in_interrupt = true ∨ st.thread.sig_on_uaccess_err = false →
        ∃ st', __do_page_fault env fuel error_code address st = some st' ∧
          st'.trace = (if env.kmemcheck_active then st.emit .kmemcheck_hide else st).trace ++
            [.fixup_exception] ∧
          st'.halted = st.halted) ∧
      (error_code &&& PF_USER = 0 →
        (is_f00f_bug env address
          (if env.kmemcheck_active then st.emit .kmemcheck_hide else st)).1 = 0 →
        env.fixup_exception = true →
        env.in_interrupt = false → st.thread.sig_on_uaccess_err = true →
        ∃ st', __do_page_fault env fuel error_code address st = some st' ∧
          st'.trace = (if env.kmemcheck_active then st.emit .kmemcheck_hide else st).trace ++
            [.fixup_exception, .force_sig_info SIGSEGV 0 SEGV_MAPERR address 0 none] ∧
          st'.halted = st.halted)) := by
  have h0 : (if env.kmemcheck_active = true then st.emit .kmemcheck_hide else st).regs =
      st.regs ∧
      (if env.kmemcheck_active = true then st.emit .kmemcheck_hide else st).halted =
        st.halted ∧
      (if env.kmemcheck_active = true then st.emit .kmemcheck_hide else st).thread =
        st.thread ∧
      signals (if env.kmemcheck_active = true then st.emit .kmemcheck_hide else st).trace =
        signals st.trace ∧
      (if env.kmemcheck_active = true then st.emit .kmemcheck_hide else st).trace.filter
        Event.is_oops = st.trace.filter Event.is_oops ∧
      (if env.kmemcheck_active = true then st.emit .kmemcheck_hide else st).trace.filter
        Event.is_fixup = st.trace.filter Event.is_fixup := by
    split <;> simp [signals, St.emit, List.filter_append, Event.is_oops, Event.is_fixup,
      Event.is_signal]
  refine ⟨?_, ?_⟩
  · intro ha hd
    have hs : fault_in_kernel_space env address = 0 := by
      unfold fault_in_kernel_space
      rw [if_neg (by omega)]
    have hh : __do_page_fault env fuel error_code address st =
        some (pgtable_bad env error_code address
          (if env.kmemcheck_active then st.emit .kmemcheck_hide else st)) := by
      unfold __do_page_fault
      simp only [hkm, hs, ne_eq, not_true_eq_false, if_false]
      generalize (if env.kmemcheck_active = true then st.emit .kmemcheck_hide else st) = st0
        at h0 ⊢
      unfold user_fault_entry
      simp only [h0.1, hkp, hr, ne_eq, not_true_eq_false, not_false_eq_true, if_true, if_false,
        (pgtable_bad_kills env error_code address st0 hd).1]
    obtain ⟨k1, k2, k3, _⟩ := pgtable_bad_kills env error_code address
      (if env.kmemcheck_active then st.emit .kmemcheck_hide else st) hd
    exact ⟨_, hh, k1, by rw [k2, h0.2.2.2.2.1], by rw [k3, h0.2.2.2.2.2]⟩
  · intro ha
    have hs : fault_in_kernel_space env address ≠ 0 := by
      unfold fault_in_kernel_space
      rw [if_pos ha]
      decide
    have hh : __do_page_fault env fuel error_code address st =
        some (bad_area_nosemaphore env error_code address none
          (if env.kmemcheck_active then st.emit .kmemcheck_hide else st)) := by
      unfold __do_page_fault
      simp only [hkm, hs, ne_eq, not_true_eq_false, not_false_eq_true, if_true, if_false]
      rw [kernel_fault_rsvd env error_code address _ hr (by rw [h0.1]; exact hkp)]
    have hD := kernel_rsvd_fixup_signal env fuel error_code address st hr hkm hkp ha
    generalize (if env.kmemcheck_active = true then st.emit .kmemcheck_hide else st) = st0
      at h0 hh hD ⊢
    refine ⟨hh, ?_, ?_, hD⟩
    · intro hu hq
      refine ⟨_, hh, ?_⟩
      unfold bad_area_nosemaphore
      rw [__bad_area_nosemaphore_user env error_code address none SEGV_MAPERR _ hu
        (by rw [h0.1]; exact hq), h0.2.2.2.1]
      have hk : (fill_sig_info_pkey env SEGV_MAPERR none st0).1 = none := by
        unfold fill_sig_info_pkey
        split
        · rfl
        · rw [if_pos (by decide)]
      rw [hk]
    · intro hu hf hfix hsig
      refine ⟨_, hh, ?_, ?_⟩
      all_goals
        have hf2 : (is_f00f_bug env address (st0.enter (.__bad_area_nosemaphore SEGV_MAPERR))).1
            = 0 := by
          unfold is_f00f_bug at hf ⊢
          split at hf
          · simp at hf
          · rw [if_neg (by assumption)]
        have hf3 : (is_f00f_bug env address (st0.enter (.__bad_area_nosemaphore SEGV_MAPERR))).2
            = st0.enter (.__bad_area_nosemaphore SEGV_MAPERR) := by
          unfold is_f00f_bug at hf2 ⊢
          split at hf2
          · simp at hf2
          · rw [if_neg (by assumption)]
        unfold bad_area_nosemaphore __bad_area_nosemaphore
        simp only [hu, hf2, hf3, ne_eq, not_true_eq_false, if_false]
        unfold no_context
        simp only [hfix, if_true, St.emit, St.enter]
        rcases hsig with hi | hs2
        · simp [hi, h0.2.1]
        · have : st0.thread.sig_on_uaccess_err = false := by rw [h0.2.2.1]; exact hs2
          simp [this, h0.2.1]

/-- Witness for C17 amended: scenario 6 on the kernel half, a kernel-mode access to `vaddr1`
with cause {PRESENT, RESERVED} on the machine with an exception fixup: the handler returns
after the fixup, without signal for a plain task and with SIGSEGV for a task that asked for
a signal on failed user accesses. -/
theorem reserved_bit_outcome_witness :
    ((PF_PROT ||| PF_RSVD) &&& PF_RSVD ≠ 0 ∧ kmmio_fault env_fixup = 0 ∧
      kprobes_fault env_fixup (St.init mem1 kernel_regs).regs = 0 ∧
      vaddr1 ≥ env_fixup.TASK_SIZE_MAX ∧ (PF_PROT ||| PF_RSVD) &&& PF_USER = 0 ∧
      env_fixup.fixup_exception = true ∧ env_fixup.in_interrupt = false ∧
      (St.init mem1 kernel_regs).thread.sig_on_uaccess_err = false ∧
      (St.init_uaccess mem1 kernel_regs).thread.sig_on_uaccess_err = true) ∧
    (∃ st', __do_page_fault env_fixup 0 (PF_PROT ||| PF_RSVD) vaddr1
        (St.init mem1 kernel_regs) = some st' ∧
      st'.trace = (if env_fixup.kmemcheck_active then
          (St.init mem1 kernel_regs).emit .kmemcheck_hide
        else St.init mem1 kernel_regs).trace ++ [.fixup_exception] ∧
      st'.halted = (St.init mem1 kernel_regs).halted) ∧
    (∃ st', __do_page_fault env_fixup 0 (PF_PROT ||| PF_RSVD) vaddr1
        (St.init_uaccess mem1 kernel_regs) = some st' ∧
      st'.trace = (if env_fixup.kmemcheck_active then
          (St.init_uaccess mem1 kernel_regs).emit .kmemcheck_hide
        else St.init_uaccess mem1 kernel_regs).trace ++
          [.fixup_exception, .force_sig_info SIGSEGV 0 SEGV_MAPERR vaddr1 0 none] ∧
      st'.halted = (St.init_uaccess mem1 kernel_regs).halted) :=
  ⟨⟨by decide, by decide, by decide, by decide, by decide, by decide, by decide, by decide,
      by decide⟩,
    ((reserved_bit_outcome env_fixup 0 (PF_PROT ||| PF_RSVD) vaddr1 (St.init mem1 kernel_regs)
      (by decide) (by decide) (by decide)).2 (by decide)).2.2.1 (by decide) (by decide)
      (by decide) (Or.inr (by decide)),
    ((reserved_bit_outcome env_fixup 0 (PF_PROT ||| PF_RSVD) vaddr1
      (St.init_uaccess mem1 kernel_regs) (by decide) (by decide) (by decide)).2
      (by decide)).2.2.2 (by decide) (by decide) (by decide) (by decide) (by decide)⟩

/-! ### Entries that are not present, the boundary under mmiotrace, protection keys -/

/-- C2 as stated fails: scenario 1 with a master top-level entry for `vaddr1` that is not
empty but has its present bit clear.  `vmalloc_fault` tests the top, upper and middle levels
with `pgd_none`, `pud_none` and `pmd_none`, so it copies the entry and returns 0 (Handled):
the task's top-level entry is then not present, although at every level it is not empty and
names the same table or frame as the master's. -/
theorem vmalloc_fault_handled_not_present :
    (env0.VMALLOC_START ≤ vaddr1 ∧ vaddr1 < env0.VMALLOC_END) ∧
    (vmalloc_fault env0 vaddr1 (St.init mem_top_not_present kernel_regs)).1 = some 0 ∧
    (vmalloc_fault env0 vaddr1 (St.init mem_top_not_present kernel_regs)).2.mem
      (task_pgd env0 vaddr1) = 0x3066 ∧
    env0.pgd_present ((vmalloc_fault env0 vaddr1
      (St.init mem_top_not_present kernel_regs)).2.mem (task_pgd env0 vaddr1)) = false ∧
    ¬ path_present_synced env0
      (vmalloc_fault env0 vaddr1 (St.init mem_top_not_present kernel_regs)).2.mem vaddr1 ∧
    path_synced env0
      (vmalloc_fault env0 vaddr1 (St.init mem_top_not_present kernel_regs)).2.mem vaddr1 := by
  decide

/-- C30 as stated fails: with mmiotrace claiming the fault, a fault at `TASK_SIZE_MAX` is not
dispatched on the kernel-half path and a fault at `TASK_SIZE_MAX - 1` is not dispatched on
the user-half path.  The handler returns at once with an empty trace, where the kernel-half
branch delivers SIGSEGV to this user-mode access and, without mmiotrace, the user-half path
looks the address up. -/
theorem boundary_fault_claimed_by_mmiotrace :
    kmmio_fault env_kmmio ≠ 0 ∧
    fault_in_kernel_space env_kmmio env_kmmio.TASK_SIZE_MAX = 1 ∧
    fault_in_kernel_space env_kmmio (env_kmmio.TASK_SIZE_MAX - 1) = 0 ∧
    (__do_page_fault env_kmmio 2 PF_USER env_kmmio.TASK_SIZE_MAX
      (St.init mem1 user_regs)).map (fun s => s.trace) = some [] ∧
    (kernel_fault env_kmmio PF_USER env_kmmio.TASK_SIZE_MAX (St.init mem1 user_regs)).trace =
      [.local_irq_enable,
        .force_sig_info SIGSEGV 0 SEGV_MAPERR env_kmmio.TASK_SIZE_MAX 0 none] ∧
    (__do_page_fault env_kmmio 2 PF_USER (env_kmmio.TASK_SIZE_MAX - 1)
      (St.init mem1 user_regs)).map (fun s => s.trace) = some [] ∧
    (__do_page_fault env0 2 PF_USER (env0.TASK_SIZE_MAX - 1)
      (St.init mem1 user_regs)).map (fun s => s.trace.filter Event.is_region_op) =
      some [.find_vma (env0.TASK_SIZE_MAX - 1)] := by
  decide

/-- C8: for every fault whose cause contains PKEY, on a CPU with protection keys enabled
(`X86_FEATURE_OSPKE`, without which the hardware never reports PKEY in the cause): the
access check denies the access whatever the region allows; `bad_area_access_error` selects
`SEGV_PKUERR`, never `SEGV_ACCERR`; a pass whose lookup finds a region containing the
address ends in `bad_area_access_error` on that region without calling the populator; and
for a user-mode fault that no quirk filter absorbs the one signal delivered is SIGSEGV with
code `SEGV_PKUERR` at the fault address, with the region's key in `si_pkey`. -/
theorem pkey_fault_selects_pkuerr (env : Env) (pass error_code address flags major : Nat)
    (vma : Vma) (st : St) (hpk : error_code &&& PF_PK ≠ 0)
    (hos : env.cpu_has_OSPKE = true) :
    access_error env error_code vma = 1 ∧
    bad_area_access_from_pkeys env error_code vma = true ∧
    bad_area_access_error env error_code address vma st =
      __bad_area env error_code address (some vma) SEGV_PKUERR st ∧
    SEGV_PKUERR ≠ SEGV_ACCERR ∧
    (env.find_vma pass address = some vma → vma.vm_start ≤ address →
      fault_pass env pass error_code address flags major st =
        .done (bad_area_access_error env error_code address vma
          (st.emit (.find_vma address)))) ∧
    (error_code &&& PF_USER ≠ 0 → ¬ quirk_absorbs env st.regs error_code address →
      signals (bad_area_access_error env error_code address vma st).trace =
        signals st.trace ++
          [.force_sig_info SIGSEGV 0 SEGV_PKUERR address 0 (some (env.vma_pkey vma))]) := by
  have ha : access_error env error_code vma = 1 := by
    unfold access_error
    rw [if_pos hpk]
  have hb : bad_area_access_from_pkeys env error_code vma = true := by
    unfold bad_area_access_from_pkeys
    simp [hos, hpk]
  have hc : bad_area_access_error env error_code address vma st =
      __bad_area env error_code address (some vma) SEGV_PKUERR st := by
    unfold bad_area_access_error
    rw [if_pos hb]
  refine ⟨ha, hb, hc, by decide, ?_, ?_⟩
  · intro hv hin
    unfold fault_pass
    simp only [hv]
    rw [if_pos hin]
    unfold good_area
    rw [if_pos (by rw [ha]; decide)]
  · intro hu hq
    rw [hc]
    unfold __bad_area
    rw [__bad_area_nosemaphore_user env error_code address (some vma) SEGV_PKUERR _ hu
      (by simpa [St.up_read, St.emit] using hq)]
    have hk : (fill_sig_info_pkey env SEGV_PKUERR (some vma) st.up_read).1 =
        some (env.vma_pkey vma) := by
      unfold fill_sig_info_pkey
      simp [hos]
    rw [hk]
    simp [signals, St.up_read, St.emit, List.filter_append, Event.is_signal]

/-- Witness for C8: a user-mode read of 0x601000, inside `vma_text`, blocked by a protection
key on a CPU with OSPKE. -/
theorem pkey_fault_selects_pkuerr_witness :
    ((PF_USER ||| PF_PROT ||| PF_PK) &&& PF_PK ≠ 0 ∧ env_text.cpu_has_OSPKE = true) ∧
    (__do_page_fault env_text 2 (PF_USER ||| PF_PROT ||| PF_PK) 0x601000
        (St.init mem1 user_regs)).map (fun s => (signals s.trace, populator_calls s.trace)) =
      some ([.force_sig_info SIGSEGV 0 SEGV_PKUERR 0x601000 0 (some 0)], []) ∧
    access_error env_text (PF_USER ||| PF_PROT ||| PF_PK) vma_text = 1 ∧
    bad_area_access_error env_text (PF_USER ||| PF_PROT ||| PF_PK) 0x601000 vma_text
        (St.init mem1 user_regs) =
      __bad_area env_text (PF_USER ||| PF_PROT ||| PF_PK) 0x601000 (some vma_text) SEGV_PKUERR
        (St.init mem1 user_regs) ∧
    signals (bad_area_access_error env_text (PF_USER ||| PF_PROT ||| PF_PK) 0x601000 vma_text
        (St.init mem1 user_regs)).trace =
      signals (St.init mem1 user_regs).trace ++
        [.force_sig_info SIGSEGV 0 SEGV_PKUERR 0x601000 0 (some (env_text.vma_pkey vma_text))] :=
  ⟨⟨by decide, by decide⟩, by decide,
    (pkey_fault_selects_pkuerr env_text 0 (PF_USER ||| PF_PROT ||| PF_PK) 0x601000 0 0 vma_text
      (St.init mem1 user_regs) (by decide) (by decide)).1,
    (pkey_fault_selects_pkuerr env_text 0 (PF_USER ||| PF_PROT ||| PF_PK) 0x601000 0 0 vma_text
      (St.init mem1 user_regs) (by decide) (by decide)).2.2.1,
    (pkey_fault_selects_pkuerr env_text 0 (PF_USER ||| PF_PROT ||| PF_PK) 0x601000 0 0 vma_text
      (St.init mem1 user_regs) (by decide) (by decide)).2.2.2.2.2 (by decide) (by decide)⟩

end Fault
